import Mathlib

/-!
# The New Pong: ball physics, paddles, AI controller and power-ups

A shallow embedding of the simulation core of the game (`ball_base.cpp`,
`paddle.cpp`, `ai.cpp`, `user.cpp`, `power.cpp`, `inverse_power.cpp`,
`invisible_power.cpp`) together with the properties proved about it.

Modelling conventions.

* A C++ `float` is an exact rational number (`ℚ`): rounding, overflow, NaN and
  infinities are not modelled.  The literals `-1.1f`, `0.6f`, `1.4f`, `3.14159f`
  stand for the decimal numbers they are written as.
* A C++ `int` is an unbounded integer (`ℤ`); `static_cast<int>` of a float is
  truncation toward zero (`toInt`), integer `/` is `Int.tdiv`.
* Objects reached through pointers are passed in and returned explicitly.
* `rand()` is a parameter `rand : ℕ → ℕ`: `rand i` is the value of the `i`-th call
  made during the operation.  `std::cos` and `std::sin` are parameters as well.
* Sound playback (`Mix_PlayChannel`) is recorded as a list of `Sound` events;
  rendering calls have no effect on the simulation state and are dropped.
* Members the constructors leave uninitialised are constructor parameters.
-/

namespace NewPong

/-! ## Library types and functions -/

/-- Conversion `static_cast<int>(float)`: truncation toward zero. -/
def toInt (q : ℚ) : ℤ := if 0 ≤ q then ⌊q⌋ else ⌈q⌉

/-- SDL rectangle: top-left corner, width and height. -/
structure SDL_Rect where
  x : ℤ
  y : ℤ
  w : ℤ
  h : ℤ
deriving DecidableEq

/-- SDL colour (four `Uint8` channels). -/
structure SDL_Color where
  r : ℕ
  g : ℕ
  b : ℕ
  a : ℕ
deriving DecidableEq

/-- Colour constant `white` of `macros.hpp`. -/
def white : SDL_Color := ⟨255, 255, 255, 255⟩

/-- Colour constant `black` of `macros.hpp`. -/
def black : SDL_Color := ⟨0, 0, 0, 255⟩

/-- Constant `WINDOW_WIDTH` of `macros.hpp`. -/
def WINDOW_WIDTH : ℤ := 800

/-- Constant `WINDOW_HEIGHT` of `macros.hpp`. -/
def WINDOW_HEIGHT : ℤ := 600

/-- SDL2 library function `SDL_RectEmpty`: a rectangle without area. -/
def SDL_RectEmpty (r : SDL_Rect) : Bool := decide (r.w ≤ 0) || decide (r.h ≤ 0)

/-- SDL2 library function `SDL_HasIntersection` (external to the repository,
transcribed from the SDL2 implementation): empty rectangles never intersect;
otherwise the horizontal and then the vertical extents must overlap in a range
of positive length. -/
def SDL_HasIntersection (A B : SDL_Rect) : Bool :=
  if SDL_RectEmpty A || SDL_RectEmpty B then false
  else
    -- horizontal intersection
    let Amin := A.x
    let Amax := Amin + A.w
    let Bmin := B.x
    let Bmax := Bmin + B.w
    let Amin := if Bmin > Amin then Bmin else Amin
    let Amax := if Bmax < Amax then Bmax else Amax
    if Amax ≤ Amin then false
    else
      -- vertical intersection
      let Amin := A.y
      let Amax := Amin + A.h
      let Bmin := B.y
      let Bmax := Bmin + B.h
      let Amin := if Bmin > Amin then Bmin else Amin
      let Amax := if Bmax < Amax then Bmax else Amax
      if Amax ≤ Amin then false else true

/-- The C library functions the simulation calls: the successive results of
`rand()` within one operation, and `std::cos` / `std::sin` on floats. -/
structure Libc where
  rand : ℕ → ℕ
  cos : ℚ → ℚ
  sin : ℚ → ℚ

/-- The sound chunks played by the physics step (`Game::mWallHitSound`,
`Game::mScoreSound`, `Game::racket_hit_sound`). -/
inductive Sound where
  | wall_hit
  | score
  | racket_hit
deriving DecidableEq

/-! ## `user.cpp` -/

/-- Class `User`: name, score and round count. -/
structure User where
  name : String
  score : ℤ
  round : ℤ
deriving DecidableEq

/-- Constructor `User::User(name)`: score and round start at 0. -/
def User.new (name : String) : User := ⟨name, 0, 0⟩

/-- Method `User::increment_score`: `score++`. -/
def User.increment_score (u : User) : User := { u with score := u.score + 1 }

/-- Method `User::reset_score`: `score = 0`. -/
def User.reset_score (u : User) : User := { u with score := 0 }

/-! ## `paddle.cpp` -/

/-- Class `Paddle`. -/
structure Paddle where
  pos_y : ℚ
  pos_x : ℚ
  racket_height : ℚ
  racket_width : ℚ
  racket_speed : ℚ
  is_left : Bool
  inverse_power_active : Bool
  multiplier : ℚ

/-- Constructor `Paddle::Paddle(x, on_the_left_side)`.  The members
`inverse_power_active` and `multiplier` are not initialised by the source; their
initial contents are the parameters `inv0` and `mult0`. -/
def Paddle.new (x : ℤ) (on_the_left_side : Bool) (inv0 : Bool) (mult0 : ℚ) : Paddle :=
  { pos_y := ((Int.tdiv WINDOW_HEIGHT 2 : ℤ) : ℚ)
    pos_x := (x : ℚ)
    racket_height := 100
    racket_width := 15
    racket_speed := 300
    is_left := on_the_left_side
    inverse_power_active := inv0
    multiplier := mult0 }

/-- The keyboard state read by `Paddle::update` (`SDL_GetKeyboardState`). -/
structure Keys where
  w : Bool
  s : Bool
  up : Bool
  down : Bool

/-- Lambda `move_paddle` of `Paddle::update`. -/
def Paddle.move_paddle (p : Paddle) (delta time : ℚ) : Paddle :=
  { p with pos_y := p.pos_y + delta * p.racket_speed * time }

/-- Lambda `adjust_boundaries` of `Paddle::update`. -/
def Paddle.adjust_boundaries (p : Paddle) : Paddle :=
  if p.pos_y < p.racket_height / 2 then
    { p with pos_y := p.racket_height / 2 }
  else if p.pos_y > 600 - p.racket_height / 2 then
    { p with pos_y := 600 - p.racket_height / 2 }
  else p

/-- Method `Paddle::update(travel_time)` under keyboard state `state`. -/
def Paddle.update (state : Keys) (travel_time : ℚ) (p : Paddle) : Paddle :=
  let p := if p.inverse_power_active then { p with multiplier := -1 }
           else { p with multiplier := 1 }
  let p :=
    if p.is_left then
      let p := if state.w then p.move_paddle (-1 * p.multiplier) travel_time else p
      let p := if state.s then p.move_paddle (1 * p.multiplier) travel_time else p
      p
    else
      let p := if state.up then p.move_paddle (-1 * p.multiplier) travel_time else p
      let p := if state.down then p.move_paddle (1 * p.multiplier) travel_time else p
      p
  p.adjust_boundaries

/-- Method `Paddle::rectangle`. -/
def Paddle.rectangle (p : Paddle) : SDL_Rect :=
  { x := toInt (p.pos_x - p.racket_width / 2)
    y := toInt (p.pos_y - p.racket_height / 2)
    w := toInt p.racket_width
    h := toInt p.racket_height }

/-! ## `ball_base.cpp` -/

/-- Class `BallBase`. -/
structure BallBase where
  pos_x : ℚ
  pos_y : ℚ
  vel_x : ℚ
  vel_y : ℚ
  ball_size : ℚ
  color : SDL_Color
  game_mode : ℤ

/-- Method `BallBase::random_direction_angle`. -/
def BallBase.random_direction_angle (env : Libc) (b : BallBase) : BallBase :=
  let angle : ℚ := (((env.rand 0 % 90 : ℕ) : ℚ) - 45) * (314159 / 100000) / 180
  let speed : ℚ := 300
  let direction_angle : ℚ := if env.rand 1 % 2 ≠ 0 then 0 else 314159 / 100000
  let angle := angle + direction_angle
  { b with vel_x := speed * env.cos angle, vel_y := speed * env.sin angle }

/-- Method `BallBase::reset`. -/
def BallBase.reset (env : Libc) (b : BallBase) : BallBase :=
  BallBase.random_direction_angle env { b with pos_x := 400, pos_y := 300 }

/-- Constructor `BallBase::BallBase(size)`; `color0` is the uninitialised
colour member. -/
def BallBase.new (env : Libc) (size : ℚ) (color0 : SDL_Color) : BallBase :=
  BallBase.random_direction_angle env
    { pos_x := 400, pos_y := 300, vel_x := 0, vel_y := 0, ball_size := size,
      color := color0, game_mode := -1 }

/-- Method `BallBase::boundaries`; `BallBase::update` builds its `ballRect`
with the same four expressions. -/
def BallBase.boundaries (b : BallBase) : SDL_Rect :=
  { x := toInt (b.pos_x - b.ball_size / 2)
    y := toInt (b.pos_y - b.ball_size / 2)
    w := toInt b.ball_size
    h := toInt b.ball_size }

/-- What `BallBase::update` reads and writes besides the two paddles: the ball,
the two players and the sounds played so far. -/
structure BallWorld where
  ball : BallBase
  player1 : User
  player2 : User
  sounds : List Sound

/-- Part of `BallBase::update`, lines 65-66: advance the position by velocity times
elapsed time. -/
def BallBase.update_move (travel_time : ℚ) (w : BallWorld) : BallWorld :=
  let b := w.ball
  let b := { b with pos_x := b.pos_x + b.vel_x * travel_time }
  let b := { b with pos_y := b.pos_y + b.vel_y * travel_time }
  { w with ball := b }

/-- Part of `BallBase::update`, lines 69-84: wall sound, clamp to the top or bottom
wall and reverse the vertical velocity. -/
def BallBase.update_wall (w : BallWorld) : BallWorld :=
  let b := w.ball
  let sounds := if b.pos_y ≤ 0 ∨ b.pos_y ≥ 600 then w.sounds ++ [Sound.wall_hit] else w.sounds
  let b :=
    if b.pos_y ≤ 0 then { b with pos_y := 0, vel_y := b.vel_y * (-1) }
    else if b.pos_y ≥ 600 then { b with pos_y := 600, vel_y := b.vel_y * (-1) }
    else b
  { w with ball := b, sounds := sounds }

/-- Part of `BallBase::update`, lines 86-101: leaving through the left or right edge
scores for the opposite player and resets the ball. -/
def BallBase.update_score (env : Libc) (w : BallWorld) : BallWorld :=
  if w.ball.pos_x ≤ 0 ∨ w.ball.pos_x ≥ 800 then
    let w := { w with sounds := w.sounds ++ [Sound.score] }
    if w.ball.pos_x ≤ 0 then
      { w with player2 := w.player2.increment_score, ball := w.ball.reset env }
    else if w.ball.pos_x ≥ 800 then
      { w with player1 := w.player1.increment_score, ball := w.ball.reset env }
    else w
  else w

/-- Part of `BallBase::update`, lines 103-123: bounding-box test against the first and
then the second paddle; on overlap the ball is put against the paddle and the
horizontal velocity is multiplied by `-1.1f`. -/
def BallBase.update_paddles (paddle1 paddle2 : Paddle) (w : BallWorld) : BallWorld :=
  let b := w.ball
  let ballRect := b.boundaries
  let paddle1Rect := paddle1.rectangle
  let paddle2Rect := paddle2.rectangle
  if SDL_HasIntersection ballRect paddle1Rect then
    { w with
      sounds := w.sounds ++ [Sound.racket_hit]
      ball := { b with pos_x := (paddle1Rect.x : ℚ) + (paddle1Rect.w : ℚ) + b.ball_size / 2,
                       vel_x := b.vel_x * (-11 / 10) } }
  else if SDL_HasIntersection ballRect paddle2Rect then
    { w with
      sounds := w.sounds ++ [Sound.racket_hit]
      ball := { b with pos_x := (paddle2Rect.x : ℚ) - b.ball_size / 2,
                       vel_x := b.vel_x * (-11 / 10) } }
  else w

/-- The state `BallBase::update` has reached when it builds `ballRect`: after
the move, the wall handling and the scoring check, before the paddle test. -/
def BallBase.update_before_paddles (env : Libc) (travel_time : ℚ)
    (player1 player2 : User) (b : BallBase) : BallWorld :=
  BallBase.update_score env
    (BallBase.update_wall (BallBase.update_move travel_time ⟨b, player1, player2, []⟩))

/-- Method `BallBase::update(travel_time, paddle1, paddle2, player1, player2)`. -/
def BallBase.update (env : Libc) (travel_time : ℚ) (paddle1 paddle2 : Paddle)
    (player1 player2 : User) (b : BallBase) : BallWorld :=
  BallBase.update_paddles paddle1 paddle2
    (BallBase.update_before_paddles env travel_time player1 player2 b)

/-- Sample C library: `rand()` always returns 0, `cos` is constantly 1 and `sin`
constantly 0 (used only to evaluate the model on concrete inputs). -/
def sampleLibc : Libc := ⟨fun _ => 0, fun _ => 1, fun _ => 0⟩

/-- The left paddle as `Game` creates it: `Paddle(30, true)`. -/
def racketLeft : Paddle := Paddle.new 30 true false 1

/-- The right paddle as `Game` creates it: `Paddle(770, false)`. -/
def racketRight : Paddle := Paddle.new 770 false false 1

/-- The left paddle moved to its topmost position (y = 50 for height 100). -/
def racketLeftTop : Paddle := { racketLeft with pos_y := 50 }

/-- The geometry of the two paddles of the game: centres at x = 30 and x = 770,
width 15 (height and y are free). -/
def gamePaddles (paddle1 paddle2 : Paddle) : Prop :=
  paddle1.pos_x = 30 ∧ paddle1.racket_width = 15 ∧
  paddle2.pos_x = 770 ∧ paddle2.racket_width = 15

/-- The ball diameters of the three concrete balls (`ClassicBall` 24,
`SquareBall` and `TriangleBall` 20). -/
def gameBallSize (b : BallBase) : Prop := b.ball_size = 20 ∨ b.ball_size = 24

/-! ## `ai.cpp` -/

/-- Difficulty constant `AI_MODE_EASY` of `macros.hpp`. -/
def AI_MODE_EASY : ℤ := 0

/-- Difficulty constant `AI_MODE_NORMAL` of `macros.hpp`. -/
def AI_MODE_NORMAL : ℤ := 1

/-- Difficulty constant `AI_MODE_HARD` of `macros.hpp`. -/
def AI_MODE_HARD : ℤ := 2

/-- Class `AI`: the controlled paddle (a pointer, possibly null) and the
difficulty level. -/
structure AI where
  racket : Option Paddle
  ai_difficulty : ℤ

/-- Constructor `AI::AI(controlledPaddle)`: difficulty normal. -/
def AI.new (controlledPaddle : Option Paddle) : AI := ⟨controlledPaddle, 1⟩

/-- Method `AI::set_difficulty`. -/
def AI.set_difficulty (difficulty : ℤ) (ai : AI) : AI := { ai with ai_difficulty := difficulty }

/-- Method `AI::updateAI(ball, dt)`; a null paddle or ball makes it a no-op. -/
def AI.updateAI (ball : Option BallBase) (dt : ℚ) (ai : AI) : AI :=
  match ai.racket, ball with
  | some racket, some ball =>
    let paddleY := racket.pos_y
    let ball_pos_y := ball.pos_y
    let speed := racket.racket_speed
    let offset : ℚ := 10
    let reactionFactor : ℚ :=
      if ai.ai_difficulty = AI_MODE_EASY then 6 / 10
      else if ai.ai_difficulty = AI_MODE_NORMAL then 1
      else if ai.ai_difficulty = AI_MODE_HARD then 14 / 10
      else 1
    let racket :=
      if ball_pos_y < paddleY - offset then
        { racket with pos_y := paddleY - speed * reactionFactor * dt }
      else if ball_pos_y > paddleY + offset then
        { racket with pos_y := paddleY + speed * reactionFactor * dt }
      else racket
    let halfH := racket.racket_height / 2
    let racket :=
      if racket.pos_y < halfH then { racket with pos_y := halfH }
      else if racket.pos_y > 600 - halfH then { racket with pos_y := 600 - halfH }
      else racket
    { ai with racket := some racket }
  | _, _ => ai

/-- No key pressed. -/
def noKeys : Keys := ⟨false, false, false, false⟩

/-! ## `power.cpp`: the size booster -/

/-- Class `Power` (the texture handle, used only for rendering, is left out). -/
structure Power where
  x : ℚ
  y : ℚ
  play : Bool
  width : ℤ
  height : ℤ
  speed : ℚ
  duration_effect : ℚ
  effect_is_active : Bool
  color : SDL_Color
  is_active : Bool

/-- The C library with the first `n` results of `rand()` already consumed. -/
def Libc.skip (env : Libc) (n : ℕ) : Libc := { env with rand := fun i => env.rand (i + n) }

/-- The random colour built by the three `reset` methods. -/
def randomColor (env : Libc) : SDL_Color :=
  ⟨env.rand 1 % 256, env.rand 2 % 256, env.rand 3 % 256, 255⟩

/-- Method `Power::reset(screen_width)`. -/
def Power.reset (env : Libc) (screen_width : ℤ) (p : Power) : Power :=
  let margin : ℤ := toInt ((screen_width : ℚ) * (1 / 10))
  let available_width : ℤ := screen_width - 2 * margin
  { p with
    x := ((margin + Int.tmod (env.rand 0 : ℤ) available_width : ℤ) : ℚ)
    y := 1
    color := randomColor env
    is_active := true }

/-- Constructor `Power::Power(screen_width, screen_height)`; `color0` is the
uninitialised colour member. -/
def Power.new (env : Libc) (screen_width _screen_height : ℤ) (color0 : SDL_Color) : Power :=
  Power.reset (env.skip 2) screen_width
    { x := 0, y := 0, play := true
      width := 30 + ((env.rand 0 % 20 : ℕ) : ℤ)
      height := 30 + ((env.rand 1 % 20 : ℕ) : ℤ)
      speed := 50
      duration_effect := 0
      effect_is_active := false
      color := color0
      is_active := false }

/-- Method `Power::collision(ball)`. -/
def Power.collision (p : Power) (ball_type : BallBase) : Bool :=
  if !p.is_active then false
  else
    let power_object : SDL_Rect := ⟨toInt p.x, toInt p.y, p.width, p.height⟩
    let ball := ball_type.boundaries
    SDL_HasIntersection power_object ball

/-- What `Power::update` reads and writes: the power-up and the two paddles. -/
structure PowerWorld where
  power : Power
  racket1 : Paddle
  racket2 : Paddle

/-- Assignment through the pointer `affected_paddle = first ? racket1 : racket2`. -/
def PowerWorld.onAffected (first : Bool) (f : Paddle → Paddle) (w : PowerWorld) : PowerWorld :=
  if first then { w with racket1 := f w.racket1 } else { w with racket2 := f w.racket2 }

/-- The paddle `first ? racket1 : racket2`. -/
def PowerWorld.affected (first : Bool) (w : PowerWorld) : Paddle :=
  if first then w.racket1 else w.racket2

/-- Part of `Power::update`, body of `if (is_active)`: the power-up moves, is collected
when it overlaps the ball (the affected paddle doubles in height) and bounces at
the top and bottom of the window. -/
def Power.update_active (time : ℚ) (ball : BallBase) (w : PowerWorld) : PowerWorld :=
  let w := { w with power := { w.power with y := w.power.y + w.power.speed * time } }
  let w :=
    if w.power.collision ball then
      let affects_player_one : Bool :=
        decide (ball.pos_x < w.power.x + ((Int.tdiv w.power.width 2 : ℤ) : ℚ))
      let w := w.onAffected affects_player_one
        (fun q => { q with racket_height := q.racket_height * 2 })
      { w with power := { w.power with
          duration_effect := 0, effect_is_active := true, is_active := false,
          play := affects_player_one } }
    else w
  let p := w.power
  let p :=
    if (p.y + (p.height : ℚ) ≥ (WINDOW_HEIGHT : ℚ)) ∨ p.y ≤ 0 then
      let p := { p with speed := -p.speed }
      let p := if p.y ≤ 0 then { p with y := 5 } else p
      let p := if p.y + (p.height : ℚ) ≥ (WINDOW_HEIGHT : ℚ)
               then { p with y := ((WINDOW_HEIGHT - p.height - 5 : ℤ) : ℚ) } else p
      p
    else p
  { w with power := p }

/-- Part of `Power::update`, body of `else if (effect_is_active)`: the effect timer runs
and at 10 seconds the affected paddle is halved and the power-up respawns. -/
def Power.update_effect (env : Libc) (time : ℚ) (w : PowerWorld) : PowerWorld :=
  let w := { w with power := { w.power with duration_effect := w.power.duration_effect + time } }
  if w.power.duration_effect ≥ 10 then
    let w := w.onAffected w.power.play
      (fun q => { q with racket_height := q.racket_height / 2 })
    let w := { w with power := { w.power with effect_is_active := false, is_active := true } }
    { w with power := Power.reset env WINDOW_HEIGHT w.power }
  else w

/-- Method `Power::update(time, racket1, racket2, renderer, ball)`. -/
def Power.update (env : Libc) (time : ℚ) (ball : BallBase) (w : PowerWorld) : PowerWorld :=
  if w.power.is_active then Power.update_active time ball w
  else if w.power.effect_is_active then Power.update_effect env time w
  else w

/-- One call of a power-up `update`: the C library, the elapsed time and the
ball as it is at that call. -/
structure PowerTick where
  env : Libc
  time : ℚ
  ball : BallBase

/-- Total time elapsed over a list of calls. -/
def elapsed (ticks : List PowerTick) : ℚ := (ticks.map PowerTick.time).sum

/-- Successive calls of `Power::update`. -/
def Power.run (ticks : List PowerTick) (w : PowerWorld) : PowerWorld :=
  ticks.foldl (fun w t => Power.update t.env t.time t.ball w) w

/-! ## `inverse_power.cpp`: the control inverter -/

/-- Class `InversiblePower`, derived from `Power`; the member `repeat` of the
source is named `repeat_timer`. -/
structure InversiblePower extends Power where
  inverse_paddle : Bool
  repeat_timer : ℚ

/-- Method `InversiblePower::reset(screen_width)`. -/
def InversiblePower.reset (env : Libc) (screen_width : ℤ) (p : InversiblePower) :
    InversiblePower :=
  let min_x : ℤ := toInt ((screen_width : ℚ) * (4 / 10))
  let max_x : ℤ := toInt ((screen_width : ℚ) * (9 / 10))
  { p with
    x := ((min_x + Int.tmod (env.rand 0 : ℤ) (max_x - min_x) : ℤ) : ℚ)
    y := 0
    color := randomColor env
    is_active := true }

/-- Constructor `InversiblePower::InversiblePower(screen_width, screen_height)`;
`repeat0` is the uninitialised respawn timer. -/
def InversiblePower.new (env : Libc) (screen_width screen_height : ℤ) (color0 : SDL_Color)
    (repeat0 : ℚ) : InversiblePower :=
  let base := Power.new env screen_width screen_height color0
  InversiblePower.reset (env.skip 6) screen_width
    { toPower := { base with is_active := true, speed := 120 }
      inverse_paddle := false
      repeat_timer := repeat0 }

/-- What `InversiblePower::update` reads and writes. -/
structure InverseWorld where
  power : InversiblePower
  racket1 : Paddle
  racket2 : Paddle

/-- Part of `InversiblePower::update`, body of `if (is_active)`: the power-up moves, is
collected when it overlaps the ball (one paddle gets inverted controls) and
reverses its movement at the window edges. -/
def InversiblePower.update_active (time : ℚ) (ball : BallBase) (w : InverseWorld) :
    InverseWorld :=
  let w := { w with power := { w.power with y := w.power.y + w.power.speed * time } }
  let w :=
    if w.power.collision ball then
      let w := { w with power := { w.power with
        is_active := false, effect_is_active := true, duration_effect := 0, repeat_timer := 0 } }
      if ball.pos_x < w.power.x + ((Int.tdiv w.power.width 2 : ℤ) : ℚ) then
        { w with racket2 := { w.racket2 with inverse_power_active := true } }
      else
        { w with racket1 := { w.racket1 with inverse_power_active := true } }
    else w
  if (w.power.y + (w.power.height : ℚ) ≥ (WINDOW_HEIGHT : ℚ)) ∨ w.power.y ≤ -40 then
    { w with power := { w.power with speed := -w.power.speed } }
  else w

/-- Part of `InversiblePower::update`, body of `else if (effect_is_active)`: both timers
run; from 3 seconds on both paddles get normal controls, at 9 seconds the
power-up respawns. -/
def InversiblePower.update_effect (env : Libc) (time : ℚ) (w : InverseWorld) : InverseWorld :=
  let w := { w with power := { w.power with
    duration_effect := w.power.duration_effect + time
    repeat_timer := w.power.repeat_timer + time } }
  let w :=
    if w.power.duration_effect ≥ 3 then
      { power := { w.power with duration_effect := 95 / 10 }
        racket1 := { w.racket1 with inverse_power_active := false }
        racket2 := { w.racket2 with inverse_power_active := false } }
    else w
  if w.power.repeat_timer ≥ 9 then
    let w := { w with power := { w.power with is_active := true, effect_is_active := false } }
    { w with power := InversiblePower.reset env WINDOW_HEIGHT w.power }
  else w

/-- Method `InversiblePower::update(time, racket1, racket2, renderer, ball)`. -/
def InversiblePower.update (env : Libc) (time : ℚ) (ball : BallBase) (w : InverseWorld) :
    InverseWorld :=
  if w.power.is_active then InversiblePower.update_active time ball w
  else if w.power.effect_is_active then InversiblePower.update_effect env time w
  else w

/-- Successive calls of `InversiblePower::update`. -/
def InversiblePower.run (ticks : List PowerTick) (w : InverseWorld) : InverseWorld :=
  ticks.foldl (fun w t => InversiblePower.update t.env t.time t.ball w) w

/-! ## `invisible_power.cpp`: the visibility toggle -/

/-- Class `InvisiblePower`, derived from `Power`; the member `repeat` of the
source is named `repeat_timer`. -/
structure InvisiblePower extends Power where
  repeat_timer : ℚ
  initialisation : Bool

/-- Method `InvisiblePower::reset(screen_width)`. -/
def InvisiblePower.reset (env : Libc) (screen_width : ℤ) (p : InvisiblePower) :
    InvisiblePower :=
  let min_x : ℤ := toInt ((screen_width : ℚ) * (1 / 10))
  let max_x : ℤ := toInt ((screen_width : ℚ) * (6 / 10))
  { p with
    x := ((min_x + Int.tmod (env.rand 0 : ℤ) (max_x - min_x) : ℤ) : ℚ)
    y := 0
    color := randomColor env
    is_active := true }

/-- Constructor `InvisiblePower::InvisiblePower(screen_width, screen_height)`;
`repeat0` and `init0` are the uninitialised members. -/
def InvisiblePower.new (env : Libc) (screen_width screen_height : ℤ) (color0 : SDL_Color)
    (repeat0 : ℚ) (init0 : Bool) : InvisiblePower :=
  let base := Power.new env screen_width screen_height color0
  InvisiblePower.reset (env.skip 6) WINDOW_HEIGHT
    { toPower := { base with speed := 80, is_active := true }
      repeat_timer := repeat0
      initialisation := init0 }

/-- What `InvisiblePower::update` reads and writes: the power-up and the ball. -/
structure InvisibleWorld where
  power : InvisiblePower
  ball : BallBase

/-- Part of `InvisiblePower::update`, the `if (initialisation)` block: on the first
call the ball is made white. -/
def InvisiblePower.update_init (w : InvisibleWorld) : InvisibleWorld :=
  if w.power.initialisation then
    { power := { w.power with initialisation := false }
      ball := { w.ball with color := white } }
  else w

/-- Part of `InvisiblePower::update`, body of `if (is_active)`: the power-up moves, is
collected when it overlaps the ball (the ball turns black) and reverses its
movement at the window edges. -/
def InvisiblePower.update_active (time : ℚ) (w : InvisibleWorld) : InvisibleWorld :=
  let w := { w with power := { w.power with y := w.power.y + w.power.speed * time } }
  let w :=
    if w.power.collision w.ball then
      { power := { w.power with
          is_active := false, effect_is_active := true, duration_effect := 0,
          repeat_timer := 0 }
        ball := { w.ball with color := black } }
    else w
  if (w.power.y + (w.power.height : ℚ) ≥ (WINDOW_HEIGHT : ℚ)) ∨ w.power.y ≤ -40 then
    { w with power := { w.power with speed := -w.power.speed } }
  else w

/-- Part of `InvisiblePower::update`, body of `else if (effect_is_active)`: both timers
run; from 3 seconds on the ball is white, at 13 seconds the power-up respawns. -/
def InvisiblePower.update_effect (env : Libc) (time : ℚ) (w : InvisibleWorld) :
    InvisibleWorld :=
  let w := { w with power := { w.power with
    duration_effect := w.power.duration_effect + time
    repeat_timer := w.power.repeat_timer + time } }
  let w :=
    if w.power.duration_effect ≥ 3 then
      { power := { w.power with duration_effect := 3 }
        ball := { w.ball with color := white } }
    else w
  if w.power.repeat_timer ≥ 13 then
    let w := { w with power := { w.power with is_active := true, effect_is_active := false } }
    { w with power := InvisiblePower.reset env WINDOW_HEIGHT w.power }
  else w

/-- Method `InvisiblePower::update(time, ball, renderer)`. -/
def InvisiblePower.update (env : Libc) (time : ℚ) (w : InvisibleWorld) : InvisibleWorld :=
  let w := InvisiblePower.update_init w
  if w.power.is_active then InvisiblePower.update_active time w
  else if w.power.effect_is_active then InvisiblePower.update_effect env time w
  else w

/-- Successive calls of `InvisiblePower::update`.  Between two calls the ball
moves: each call sees the ball of its tick, carrying the colour left by the
previous call. -/
def InvisiblePower.run (ticks : List PowerTick) (w : InvisibleWorld) : InvisibleWorld :=
  ticks.foldl
    (fun w t => InvisiblePower.update t.env t.time
      { w with ball := { t.ball with color := w.ball.color } }) w

/-- Exactly one of the two state flags of a power-up is set. -/
def Power.exactlyOne (p : Power) : Prop :=
  ¬ (p.is_active = true ∧ p.effect_is_active = true) ∧
  (p.is_active = true ∨ p.effect_is_active = true)

/-- The size booster is in force: the effect runs with timer value `d`, the
paddle remembered in `play` has height `H` and the other paddle is `other`. -/
def Power.Boosted (first : Bool) (H : ℚ) (other : Paddle) (d : ℚ) (w : PowerWorld) : Prop :=
  w.power.effect_is_active = true ∧ w.power.is_active = false ∧ w.power.play = first ∧
  w.power.duration_effect = d ∧ (w.affected first).racket_height = H ∧
  w.affected (!first) = other

/-- The control inversion is in force: the effect runs, both timers have value
`d` and the paddles are `R1` and `R2`. -/
def InversiblePower.Inverted (R1 R2 : Paddle) (d : ℚ) (w : InverseWorld) : Prop :=
  w.power.effect_is_active = true ∧ w.power.is_active = false ∧
  w.power.duration_effect = d ∧ w.power.repeat_timer = d ∧
  w.racket1 = R1 ∧ w.racket2 = R2

/-- The control inversion has been reverted: the effect state still runs with
respawn timer `r` and both paddles have their inversion flag cleared. -/
def InversiblePower.Reverted (R1 R2 : Paddle) (r : ℚ) (w : InverseWorld) : Prop :=
  w.power.effect_is_active = true ∧ w.power.is_active = false ∧
  w.power.repeat_timer = r ∧
  w.racket1 = { R1 with inverse_power_active := false } ∧
  w.racket2 = { R2 with inverse_power_active := false }

/-- The ball is hidden: the effect runs, both timers have value `d` and the
ball is black. -/
def InvisiblePower.Hidden (d : ℚ) (w : InvisibleWorld) : Prop :=
  w.power.effect_is_active = true ∧ w.power.is_active = false ∧
  w.power.initialisation = false ∧
  w.power.duration_effect = d ∧ w.power.repeat_timer = d ∧ w.ball.color = black

/-- The ball is visible again: the effect state still runs with respawn timer
`r` and the ball is white. -/
def InvisiblePower.Shown (r : ℚ) (w : InvisibleWorld) : Prop :=
  w.power.effect_is_active = true ∧ w.power.is_active = false ∧
  w.power.initialisation = false ∧
  w.power.repeat_timer = r ∧ w.ball.color = white

/-- A sample size booster at (100, 280), 40 by 40 pixels, active. -/
def samplePower : Power :=
  { x := 100, y := 280, play := true, width := 40, height := 40, speed := 50,
    duration_effect := 0, effect_is_active := false, color := white, is_active := true }

/-- A sample ball of size 24 at (110, 300), left of the midpoint of `samplePower`. -/
def sampleBall : BallBase := ⟨110, 300, 250, 0, 24, white, -1⟩

/-- A tick with the sample C library and the sample ball. -/
def sampleTick (time : ℚ) : PowerTick := ⟨sampleLibc, time, sampleBall⟩

/-- The sample size booster with the two paddles of the game. -/
def samplePowerWorld : PowerWorld := ⟨samplePower, racketLeft, racketRight⟩

/-- A sample control inverter (geometry of `samplePower`) with the two paddles. -/
def sampleInverseWorld : InverseWorld :=
  ⟨{ toPower := samplePower, inverse_paddle := false, repeat_timer := 0 },
    racketLeft, racketRight⟩

/-- A sample visibility toggle (geometry of `samplePower`) with the sample ball. -/
def sampleInvisibleWorld : InvisibleWorld :=
  ⟨{ toPower := samplePower, repeat_timer := 0, initialisation := true }, sampleBall⟩


/-! ## Paddle movement before clamping -/

/-- Part of `Paddle::update`, lines 66-96: the choice of the multiplier from the
inversion flag and the key-driven moves, before `adjust_boundaries` is called. -/
def Paddle.update_keys (state : Keys) (travel_time : ℚ) (p : Paddle) : Paddle :=
  let p := if p.inverse_power_active then { p with multiplier := -1 }
           else { p with multiplier := 1 }
  if p.is_left then
    let p := if state.w then p.move_paddle (-1 * p.multiplier) travel_time else p
    let p := if state.s then p.move_paddle (1 * p.multiplier) travel_time else p
    p
  else
    let p := if state.up then p.move_paddle (-1 * p.multiplier) travel_time else p
    let p := if state.down then p.move_paddle (1 * p.multiplier) travel_time else p
    p

/-- The key that moves this paddle up: W for the left paddle, Up for the right. -/
def Paddle.up_key (state : Keys) (p : Paddle) : Bool := if p.is_left then state.w else state.up

/-- The key that moves this paddle down: S for the left paddle, Down for the right. -/
def Paddle.down_key (state : Keys) (p : Paddle) : Bool :=
  if p.is_left then state.s else state.down

/-- The displacement `Paddle::update` applies to y before clamping, for a paddle
whose inversion flag is `inv`. -/
def Paddle.displacement (state : Keys) (travel_time : ℚ) (inv : Bool) (p : Paddle) : ℚ :=
  (Paddle.update_keys state travel_time { p with inverse_power_active := inv }).pos_y - p.pos_y

/-- The right paddle moved to its topmost position (y = 50 for height 100). -/
def racketRightTop : Paddle := { racketRight with pos_y := 50 }

/-- A sample ball near the top wall, at (400, 20). -/
def sampleBallHigh : BallBase := ⟨400, 20, 250, 0, 24, white, -1⟩

/-! ## The random direction of the ball -/

/-- Part of `BallBase::random_direction_angle`, lines 40-45: the angle, in
radians, passed to `std::cos` and `std::sin`. -/
def BallBase.direction_angle (env : Libc) : ℚ :=
  let angle : ℚ := (((env.rand 0 % 90 : ℕ) : ℚ) - 45) * (314159 / 100000) / 180
  let direction_angle : ℚ := if env.rand 1 % 2 ≠ 0 then 0 else 314159 / 100000
  angle + direction_angle

/-! ## `letter.cpp` -/

/-- Class `Letter` (the texture, renderer and font handles are left out; the
font enters as the function giving the size of the rendered glyph).  A
`std::string` is a list of characters.  The two indices are natural numbers: the
constructor is only ever called with index 0, and a negative index would read
`words[index]` out of bounds. -/
structure Letter where
  words : List (List Char)
  lettersAtBottom : List Char
  word : List Char
  current_word_index : ℕ
  current_letter_index : ℕ
  letter : Char
  x : ℚ
  y : ℚ
  speed : ℚ
  width : ℤ
  height : ℤ

/-- The member initialiser of `words` in `letter.hpp`. -/
def Letter.initial_words : List (List Char) :=
  ["Polytech".data, "Sorbonne".data, "2025".data]

/-- Method `Letter::next_letter`.  `font c` is the outcome of
`TTF_RenderText_Solid` for the one-letter string `c`: the width and height of
the surface, or `none` when rendering fails. -/
def Letter.next_letter (font : Char → Option (ℤ × ℤ)) (l : Letter) : Letter :=
  if l.current_letter_index < l.word.length then
    let l := { l with letter := l.word.getD l.current_letter_index default }
    let l := { l with current_letter_index := l.current_letter_index + 1 }
    match font l.letter with
    | some (w, h) => { l with width := w, height := h }
    | none => l
  else l

/-- Method `Letter::next_word`. -/
def Letter.next_word (font : Char → Option (ℤ × ℤ)) (l : Letter) : Letter :=
  let l := { l with current_word_index := (l.current_word_index + 1) % l.words.length }
  let l := { l with word := l.words.getD l.current_word_index [] }
  let l := { l with current_letter_index := 0 }
  l.next_letter font

/-- Constructor `Letter::Letter(index, startX, startY, velocity, renderer, font)`;
`letter0` is the uninitialised member `letter`. -/
def Letter.new (font : Char → Option (ℤ × ℤ)) (index : ℕ) (startX startY velocity : ℚ)
    (letter0 : Char) : Letter :=
  let l : Letter :=
    { words := Letter.initial_words, lettersAtBottom := [], word := [],
      current_word_index := index, current_letter_index := index, letter := letter0,
      x := startX, y := startY, speed := velocity, width := 0, height := 0 }
  let l := { l with word := l.words.getD l.current_word_index [] }
  l.next_letter font

/-- Method `Letter::collision_check(ball_pos_x, ball_pos_y, ball_radius)`. -/
def Letter.collision_check (l : Letter) (ball_pos_x ball_pos_y ball_radius : ℚ) : Bool :=
  let closestX : ℚ :=
    if ball_pos_x < l.x then l.x
    else if ball_pos_x > l.x + ((l.width * 3 : ℤ) : ℚ) then l.x + ((l.width * 3 : ℤ) : ℚ)
    else ball_pos_x
  let closestY : ℚ :=
    if ball_pos_y < l.y then l.y
    else if ball_pos_y > l.y + ((l.height * 3 : ℤ) : ℚ) then l.y + ((l.height * 3 : ℤ) : ℚ)
    else ball_pos_y
  let distanceX := ball_pos_x - closestX
  let distanceY := ball_pos_y - closestY
  decide (distanceX * distanceX + distanceY * distanceY < ball_radius * ball_radius)

/-- What `Letter::update_letter` reads and writes: the letter and the two players. -/
structure LetterWorld where
  letter : Letter
  player1 : User
  player2 : User

/-- Method `Letter::update_letter(time, screen_height, player1, player2, ball_pos_x,
ball_pos_y, ball_radius)`. -/
def Letter.update_letter (font : Char → Option (ℤ × ℤ)) (time : ℚ) (screen_height : ℤ)
    (ball_pos_x ball_pos_y ball_radius : ℚ) (w : LetterWorld) : LetterWorld :=
  let l := w.letter
  let l := { l with y := l.y + l.speed * time }
  let l := if l.y + (l.height : ℚ) ≥ (screen_height : ℚ) ∨ l.y ≤ 0
           then { l with speed := -l.speed } else l
  if l.collision_check ball_pos_x ball_pos_y ball_radius then
    let player1 := if ball_pos_x < l.x + ((Int.tdiv l.width 2 : ℤ) : ℚ)
                   then w.player1.increment_score else w.player1
    let player2 := if ball_pos_x < l.x + ((Int.tdiv l.width 2 : ℤ) : ℚ)
                   then w.player2 else w.player2.increment_score
    let l := { l with lettersAtBottom := l.lettersAtBottom ++ [l.letter] }
    let l :=
      if l.current_letter_index ≥ l.word.length then
        Letter.next_word font { l with lettersAtBottom := [] }
      else l.next_letter font
    let l := { l with y := 0 }
    let l := { l with speed := |l.speed| }
    { letter := l, player1 := player1, player2 := player2 }
  else { w with letter := l }

/-- The squared distance from the point (bx, by) to the closest point of the
rectangle [x, x + 3 * width] x [y, y + 3 * height] of a letter, written as in the
specification: each coordinate of the point is clamped into the rectangle. -/
def Letter.closest_point_sq_dist (l : Letter) (bx bY : ℚ) : ℚ :=
  (bx - max l.x (min bx (l.x + 3 * (l.width : ℚ)))) ^ 2 +
  (bY - max l.y (min bY (l.y + 3 * (l.height : ℚ)))) ^ 2

/-- A letter as in `test_letter_collision`, at (300, 200) with speed 150, with a
glyph of 20 by 40 pixels. -/
def sampleLetter : Letter :=
  Letter.new (fun _ => some (20, 40)) 0 300 200 150 'P'

/-! ## `game_save.cpp` -/

/-- An `unsigned char`. -/
abbrev Byte := Fin 256

/-- Constant `KEY` of `game_save.cpp`. -/
def KEY : Byte := 0x83

/-- Function `codec_byte`: exclusive or with the key, converted back to
`unsigned char`. -/
def codec_byte (byte : Byte) : Byte := ⟨(byte.val ^^^ KEY.val) % 256, Nat.mod_lt _ (by decide)⟩

/-- Function `codec_float`: applies `codec_byte` to the `sizeof(float)` = 4 bytes
of the object. -/
def codec_float (value : Fin 4 → Byte) : Fin 4 → Byte := fun i => codec_byte (value i)

/-- Function `codec_int`: applies `codec_byte` to the `sizeof(int)` = 4 bytes of
the object. -/
def codec_int (value : Fin 4 → Byte) : Fin 4 → Byte := fun i => codec_byte (value i)

/-- Function `codec_string`: applies `codec_byte` to the first `length` bytes of
a 20-byte character array. -/
def codec_string (str : Fin 20 → Byte) (length : ℕ) : Fin 20 → Byte :=
  fun i => if i.val < length then codec_byte (str i) else str i

/-- Struct `SaveState` of `game_save.hpp`.  The codec and the file transfer work
on the bytes of the record and never on the values, so each field is given by
its object representation: 4 bytes for an `int` or a `float`, 20 bytes for a
name. -/
structure SaveState where
  score1 : Fin 4 → Byte
  score2 : Fin 4 → Byte
  paddle1_y : Fin 4 → Byte
  paddle2_y : Fin 4 → Byte
  ball_x : Fin 4 → Byte
  ball_y : Fin 4 → Byte
  ball_vel_x : Fin 4 → Byte
  ball_vel_y : Fin 4 → Byte
  ball_type : Fin 4 → Byte
  player1_name : Fin 20 → Byte
  player2_name : Fin 20 → Byte

/-- The save file: absent (or unreadable), or holding one record. -/
abbrev SaveFile := Option SaveState

/-- Method `Saving::save_game(state)`.  `writable` tells whether the file can be
opened and written; the result is the returned flag and the file afterwards. -/
def Saving.save_game (writable : Bool) (state : SaveState) (file : SaveFile) :
    Bool × SaveFile :=
  if !writable then (false, file)
  else
    let encode_state := state
    let encode_state := { encode_state with score1 := codec_int encode_state.score1 }
    let encode_state := { encode_state with score2 := codec_int encode_state.score2 }
    let encode_state := { encode_state with paddle1_y := codec_float encode_state.paddle1_y }
    let encode_state := { encode_state with paddle2_y := codec_float encode_state.paddle2_y }
    let encode_state := { encode_state with ball_x := codec_float encode_state.ball_x }
    let encode_state := { encode_state with ball_y := codec_float encode_state.ball_y }
    let encode_state := { encode_state with ball_vel_x := codec_float encode_state.ball_vel_x }
    let encode_state := { encode_state with ball_vel_y := codec_float encode_state.ball_vel_y }
    let encode_state := { encode_state with ball_type := codec_int encode_state.ball_type }
    let encode_state :=
      { encode_state with player1_name := codec_string encode_state.player1_name 20 }
    let encode_state :=
      { encode_state with player2_name := codec_string encode_state.player2_name 20 }
    (true, some encode_state)

/-- Method `Saving::load_game(state)`: the returned flag and the contents of
`state` afterwards. -/
def Saving.load_game (file : SaveFile) (state : SaveState) : Bool × SaveState :=
  match file with
  | none => (false, state)
  | some encode_state =>
    let encode_state := { encode_state with score1 := codec_int encode_state.score1 }
    let encode_state := { encode_state with score2 := codec_int encode_state.score2 }
    let encode_state := { encode_state with paddle1_y := codec_float encode_state.paddle1_y }
    let encode_state := { encode_state with paddle2_y := codec_float encode_state.paddle2_y }
    let encode_state := { encode_state with ball_x := codec_float encode_state.ball_x }
    let encode_state := { encode_state with ball_y := codec_float encode_state.ball_y }
    let encode_state := { encode_state with ball_vel_x := codec_float encode_state.ball_vel_x }
    let encode_state := { encode_state with ball_vel_y := codec_float encode_state.ball_vel_y }
    let encode_state := { encode_state with ball_type := codec_int encode_state.ball_type }
    let encode_state :=
      { encode_state with player1_name := codec_string encode_state.player1_name 20 }
    let encode_state :=
      { encode_state with player2_name := codec_string encode_state.player2_name 20 }
    (true, encode_state)

/-- Method `Saving::delete_save`. -/
def Saving.delete_save (_file : SaveFile) : SaveFile := none

/-! ## Strings and objects in memory -/

/-- The byte of a character: a C++ `char` is one byte, and a name is a sequence
of such characters. -/
def charByte (c : Char) : Byte := ⟨c.toNat % 256, Nat.mod_lt _ (by decide)⟩

/-- The character of a byte. -/
def byteChar (b : Byte) : Char := Char.ofNat b.val

/-- The characters `std::string::c_str()` points to (the terminating NUL is not
listed). -/
def c_str (s : String) : List Byte := s.data.map charByte

/-- Library function `strncpy(dest, src, n)` into a 20-byte array: the first `n`
bytes of `dest` receive the characters of `src` up to its first NUL, padded with
NUL bytes. -/
def strncpy (dest : Fin 20 → Byte) (src : List Byte) (n : ℕ) : Fin 20 → Byte :=
  fun i => if i.val < n then (src.takeWhile (fun b => b ≠ 0)).getD i.val 0 else dest i

/-- Assignment `array[19] = 0`. -/
def terminate19 (a : Fin 20 → Byte) : Fin 20 → Byte := fun i => if i.val = 19 then 0 else a i

/-- A `std::string` built from a 20-byte character array: the characters before
the first NUL. -/
def string_of_chars (a : Fin 20 → Byte) : String :=
  String.mk (((List.ofFn a).takeWhile (fun b => b ≠ 0)).map byteChar)

/-- How `int` and `float` objects are stored in memory and read back: the object
representation of a value and the value of an object representation. -/
structure ObjectModel where
  int_bytes : ℤ → Fin 4 → Byte
  bytes_int : (Fin 4 → Byte) → ℤ
  float_bytes : ℚ → Fin 4 → Byte
  bytes_float : (Fin 4 → Byte) → ℚ

/-! ## `game.cpp`: the simulation driver -/

/-- Enumeration `game_state` of `game.hpp`. -/
inductive game_state where
  | Notice_Menu
  | Menu
  | Middle_menu
  | Choose_Mode
  | AI_playing
  | Remote_playing
  | Fun_playing
  | Storytime_playing
  | Playing
  | Paused
  | GameOver
  | Set_up
deriving DecidableEq

/-- Mode constant `AI_MODE` of `macros.hpp`. -/
def AI_MODE : ℤ := 1

/-- Mode constant `TWO_PLAYERS_MODE` of `macros.hpp`. -/
def TWO_PLAYERS_MODE : ℤ := 2

/-- Mode constant `STORYTIME_MODE` of `macros.hpp`. -/
def STORYTIME_MODE : ℤ := 3

/-- Mode constant `FUN_MODE` of `macros.hpp`. -/
def FUN_MODE : ℤ := 4

/-- Mode constant `GAME_SAVED` of `macros.hpp`. -/
def GAME_SAVED : ℤ := 5

/-- Colour constants `red`, `green`, `blue`, `purple` of `macros.hpp`. -/
def red : SDL_Color := ⟨220, 20, 60, 255⟩

/-- Colour constant `green` of `macros.hpp`. -/
def green : SDL_Color := ⟨34, 139, 34, 255⟩

/-- Colour constant `blue` of `macros.hpp`. -/
def blue : SDL_Color := ⟨0, 0, 255, 255⟩

/-- Colour constant `purple` of `macros.hpp`. -/
def purple : SDL_Color := ⟨128, 0, 128, 255⟩

/-- What the driver plays or stops: a sound of the physics step, the new-round
sound, the game-over sound, or the music being halted. -/
inductive GameEvent where
  | chunk (s : Sound)
  | new_round
  | game_over
  | halt_music
deriving DecidableEq

/-- Method `User::set_user_score`. -/
def User.set_user_score (score : ℤ) (u : User) : User := { u with score := score }

/-- Method `User::set_user_name`. -/
def User.set_user_name (newName : String) (u : User) : User := { u with name := newName }

/-- Method `User::set_round`. -/
def User.set_round (round : ℤ) (u : User) : User := { u with round := round }

/-- Class `Game`, restricted to the members the simulation and the save and
continue paths use.  `notice_id` is `mNoticeMenu->get_notice_id()`,
`selected_option` is `mMiddleMenu->get_selected_option()`, `game_over_winner` is
the winner name held by `mGameOver`, `events` lists what has been played and
`save_file` is the save file on disk.  The `racket` pointer of `mAI` designates
`racket2`. -/
structure Game where
  mGameState : game_state
  mIsRunning : Bool
  notice_id : ℤ
  selected_option : ℤ
  racket1 : Paddle
  racket2 : Paddle
  mBall : BallBase
  mAI : Option AI
  player1 : User
  player2 : User
  winner : String
  game_over_winner : String
  last_highscore : ℤ
  last_highscore_name : Fin 20 → Byte
  mletter : Letter
  mpower : Power
  minvisible : InvisiblePower
  minverse : InversiblePower
  background_color_left : SDL_Color
  background_color_right : SDL_Color
  events : List GameEvent
  save_file : SaveFile

/-- Method `Game::update_background_color`. -/
def Game.update_background_color (g : Game) : Game :=
  let g :=
    if g.player1.score ≥ 7 then { g with background_color_left := purple }
    else if g.player1.score ≥ 5 then { g with background_color_left := red }
    else if g.player1.score ≥ 3 then { g with background_color_left := blue }
    else if g.player1.score ≥ 10 then { g with background_color_left := green }
    else { g with background_color_left := black }
  if g.player2.score ≥ 7 then { g with background_color_right := purple }
  else if g.player2.score ≥ 5 then { g with background_color_right := red }
  else if g.player2.score ≥ 3 then { g with background_color_right := blue }
  else if g.player2.score ≥ 10 then { g with background_color_left := green }
  else { g with background_color_right := black }

/-- Method `Game::ball_creation(type)`: a new `ClassicBall` (size 24) or
`SquareBall` / `TriangleBall` (size 20); `color0` is the uninitialised colour of
the new ball.  The shape only matters for rendering. -/
def Game.ball_creation (env : Libc) (color0 : SDL_Color) (type : ℤ) (g : Game) : Game :=
  { g with mBall :=
      if type = 0 then BallBase.new env 24 color0
      else if type = 1 then BallBase.new env 20 color0
      else if type = 2 then BallBase.new env 20 color0
      else BallBase.new env 24 color0 }

/-- The round logic of `Game::game`, written twice in the source: lines 1069-1098
with threshold 8 (Storytime) and lines 1107-1135 with threshold 5 (Fun mode). -/
def Game.round_logic (threshold : ℤ) (g : Game) : Game :=
  if g.player1.score ≥ threshold ∨ g.player2.score ≥ threshold then
    let g :=
      if g.player1.score > g.player2.score then
        { g with player1 := g.player1.set_round (g.player1.round + 1) }
      else
        { g with player2 := g.player2.set_round (g.player2.round + 1) }
    let g := { g with events := g.events ++ [GameEvent.new_round] }
    let g := { g with player1 := g.player1.reset_score }
    { g with player2 := g.player2.reset_score }
  else
    if g.player1.round + g.player2.round = 3 then
      let g := { g with winner :=
        if g.player1.round > g.player2.round then g.player1.name else g.player2.name }
      let g := { g with game_over_winner := g.winner }
      let g := { g with mGameState := game_state.GameOver }
      { g with events := g.events ++ [GameEvent.halt_music, GameEvent.game_over] }
    else g

/-- What one call of `Game::game` reads from outside: the milliseconds elapsed
since the previous call when the busy-wait ends, the keyboard, the C library as
seen by the ball and by each power-up, and the font. -/
structure TickInput where
  ticks_elapsed : ℕ
  state : Keys
  env_ball : Libc
  env_invisible : Libc
  env_power : Libc
  env_inverse : Libc
  font : Char → Option (ℤ × ℤ)

/-- Part of `Game::game`, lines 991-995: the elapsed time in seconds, at most 0.05. -/
def Game.travel_time (inp : TickInput) : ℚ :=
  let travel_time : ℚ := (inp.ticks_elapsed : ℚ) / 1000
  if travel_time > 5 / 100 then 5 / 100 else travel_time

/-- Part of `Game::game`, lines 999-1017: both paddles and the ball are advanced. -/
def Game.update_entities (inp : TickInput) (g : Game) : Game :=
  let travel_time := Game.travel_time inp
  let g := { g with racket1 := g.racket1.update inp.state travel_time }
  let g :=
    if g.mGameState = game_state.AI_playing then
      match g.mAI with
      | some ai =>
        let ai := AI.updateAI (some g.mBall) travel_time { ai with racket := some g.racket2 }
        { g with mAI := some ai, racket2 := ai.racket.getD g.racket2 }
      | none => g
    else { g with racket2 := g.racket2.update inp.state travel_time }
  let w := BallBase.update inp.env_ball travel_time g.racket1 g.racket2 g.player1 g.player2
    g.mBall
  { g with mBall := w.ball, player1 := w.player1, player2 := w.player2,
           events := g.events ++ w.sounds.map GameEvent.chunk }

/-- Part of `Game::game`, lines 1022-1044: the winner so far and the high score
of the two-player mode. -/
def Game.two_players_logic (g : Game) : Game :=
  let g :=
    if g.player1.score ≠ g.player2.score then
      { g with winner :=
          if g.player1.score > g.player2.score then g.player1.name else g.player2.name }
    else { g with winner := "It's a tie!" }
  let g := { g with game_over_winner := g.winner }
  if g.player1.score ≥ g.last_highscore ∨ g.player2.score ≥ g.last_highscore then
    let g := { g with last_highscore :=
      if g.player1.score ≥ g.player2.score then g.player1.score else g.player2.score }
    let name := if g.player1.score ≥ g.player2.score then g.player1.name else g.player2.name
    let g := { g with last_highscore_name := strncpy g.last_highscore_name (c_str name) 19 }
    { g with last_highscore_name := terminate19 g.last_highscore_name }
  else g

/-- Part of `Game::game`, lines 982-986: outside Fun mode the ball is white. -/
def Game.default_ball_color (g : Game) : Game :=
  if g.mGameState = game_state.AI_playing ∨ g.mGameState = game_state.Storytime_playing ∨
      g.mGameState = game_state.Playing then
    { g with mBall := { g.mBall with color := white } }
  else g

/-- Part of `Game::game`, lines 1066-1067: the letter of the Storytime mode is
updated against the ball (radius 15). -/
def Game.storytime_updates (inp : TickInput) (g : Game) : Game :=
  let w := Letter.update_letter inp.font (Game.travel_time inp) WINDOW_HEIGHT g.mBall.pos_x
    g.mBall.pos_y 15 ⟨g.mletter, g.player1, g.player2⟩
  { g with mletter := w.letter, player1 := w.player1, player2 := w.player2 }

/-- Part of `Game::game`, lines 1103-1105: the three power-ups of the Fun mode are
updated, in the order visibility toggle, size booster, control inverter. -/
def Game.fun_updates (inp : TickInput) (g : Game) : Game :=
  let travel_time := Game.travel_time inp
  let v := InvisiblePower.update inp.env_invisible travel_time ⟨g.minvisible, g.mBall⟩
  let g := { g with minvisible := v.power, mBall := v.ball }
  let p := Power.update inp.env_power travel_time g.mBall ⟨g.mpower, g.racket1, g.racket2⟩
  let g := { g with mpower := p.power, racket1 := p.racket1, racket2 := p.racket2 }
  let q := InversiblePower.update inp.env_inverse travel_time g.mBall
    ⟨g.minverse, g.racket1, g.racket2⟩
  { g with minverse := q.power, racket1 := q.racket1, racket2 := q.racket2 }

/-- Part of `Game::game`, lines 1019-1147: the `switch` on the selected mode and
the update of the background colours (skipped in Fun mode and by the early
`return` of the AI mode). -/
def Game.mode_logic (inp : TickInput) (g : Game) : Game :=
  if g.notice_id = TWO_PLAYERS_MODE then
    (Game.two_players_logic g).update_background_color
  else if g.notice_id = AI_MODE then
    if g.player1.score ≥ 10 ∨ g.player2.score ≥ 10 then
      let g := { g with winner :=
        if g.player1.score ≥ 10 then g.player1.name else g.player2.name }
      let g := { g with game_over_winner := g.winner }
      let g := { g with mGameState := game_state.GameOver }
      let g := { g with events := g.events ++ [GameEvent.halt_music, GameEvent.game_over] }
      g.update_background_color
    else g
  else if g.notice_id = STORYTIME_MODE then
    (Game.round_logic 8 (Game.storytime_updates inp g)).update_background_color
  else if g.notice_id = FUN_MODE then
    Game.round_logic 5 (Game.fun_updates inp g)
  else g.update_background_color

/-- Method `Game::game`: one tick of the simulation. -/
def Game.game (inp : TickInput) (g : Game) : Game :=
  if g.mGameState ≠ game_state.Playing ∧ g.mGameState ≠ game_state.AI_playing ∧
      g.mGameState ≠ game_state.Storytime_playing ∧ g.mGameState ≠ game_state.Fun_playing then g
  else
    Game.mode_logic inp (Game.update_entities inp (Game.default_ball_color g))

/-- Successive calls of `Game::game`. -/
def Game.run (inps : List TickInput) (g : Game) : Game :=
  inps.foldl (fun g inp => Game.game inp g) g

/-- Part of `Game::game_logic`, lines 729-743: the `SaveState` filled from the
live game.  `garbage` is the uninitialised local `saveState`. -/
def Game.fill_save_state (om : ObjectModel) (garbage : SaveState) (g : Game) : SaveState :=
  let saveState := garbage
  let saveState := { saveState with score1 := om.int_bytes g.player1.score }
  let saveState := { saveState with score2 := om.int_bytes g.player2.score }
  let saveState := { saveState with paddle1_y := om.float_bytes g.racket1.pos_y }
  let saveState := { saveState with paddle2_y := om.float_bytes g.racket2.pos_y }
  let saveState := { saveState with ball_x := om.float_bytes g.mBall.pos_x }
  let saveState := { saveState with ball_y := om.float_bytes g.mBall.pos_y }
  let saveState := { saveState with ball_vel_x := om.float_bytes g.mBall.vel_x }
  let saveState := { saveState with ball_vel_y := om.float_bytes g.mBall.vel_y }
  let saveState := { saveState with ball_type := om.int_bytes g.selected_option }
  let saveState := { saveState with
    player1_name := strncpy saveState.player1_name (c_str g.player1.name) 19 }
  let saveState := { saveState with player1_name := terminate19 saveState.player1_name }
  let saveState := { saveState with
    player2_name := strncpy saveState.player2_name (c_str g.player2.name) 19 }
  { saveState with player2_name := terminate19 saveState.player2_name }

/-- Part of `Game::game_logic`, lines 727-759: the pause-menu save, offered in
the two-player mode only. -/
def Game.pause_save (om : ObjectModel) (writable : Bool) (garbage : SaveState) (g : Game) :
    Game :=
  if g.notice_id = TWO_PLAYERS_MODE then
    let saveState := Game.fill_save_state om garbage g
    let r := Saving.save_game writable saveState g.save_file
    let g := { g with save_file := r.2 }
    if r.1 then
      { g with notice_id := GAME_SAVED, mGameState := game_state.Notice_Menu }
    else { g with mIsRunning := false }
  else g

/-- Part of `Game::game_logic`, lines 638-659: the loaded `SaveState` is applied
to the game.  `color0` is the uninitialised colour of the ball that is created. -/
def Game.apply_saved_state (om : ObjectModel) (env : Libc) (color0 : SDL_Color)
    (savedState : SaveState) (g : Game) : Game :=
  let g := { g with player1 := g.player1.set_user_score (om.bytes_int savedState.score1) }
  let g := { g with player2 := g.player2.set_user_score (om.bytes_int savedState.score2) }
  let g := { g with player1 :=
    g.player1.set_user_name (string_of_chars savedState.player1_name) }
  let g := { g with player2 :=
    g.player2.set_user_name (string_of_chars savedState.player2_name) }
  let g := { g with racket1 := { g.racket1 with pos_y := om.bytes_float savedState.paddle1_y } }
  let g := { g with racket2 := { g.racket2 with pos_y := om.bytes_float savedState.paddle2_y } }
  let g := Game.ball_creation env color0 (om.bytes_int savedState.ball_type) g
  let g := { g with mBall := { g.mBall with game_mode := g.notice_id } }
  let g := { g with mBall := { g.mBall with
    pos_x := om.bytes_float savedState.ball_x, pos_y := om.bytes_float savedState.ball_y } }
  let g := { g with mBall := { g.mBall with
    vel_x := om.bytes_float savedState.ball_vel_x,
    vel_y := om.bytes_float savedState.ball_vel_y } }
  let g := g.update_background_color
  let g := { g with save_file := Saving.delete_save g.save_file }
  { g with mGameState := game_state.Playing }

/-- Part of `Game::game_logic`, lines 632-661: the continue-game path of the main
menu.  `garbage` is the uninitialised local `savedState`. -/
def Game.continue_game (om : ObjectModel) (env : Libc) (color0 : SDL_Color)
    (garbage : SaveState) (g : Game) : Game :=
  let r := Saving.load_game g.save_file garbage
  if r.1 then Game.apply_saved_state om env color0 r.2 g else g

/-- The object model reads the values saved from the game `g` back from their
own object representation: the two scores, the ball type, the two paddle
positions and the ball position and velocity. -/
def ObjectModel.faithful_on (om : ObjectModel) (g : Game) : Prop :=
  om.bytes_int (om.int_bytes g.player1.score) = g.player1.score ∧
  om.bytes_int (om.int_bytes g.player2.score) = g.player2.score ∧
  om.bytes_int (om.int_bytes g.selected_option) = g.selected_option ∧
  om.bytes_float (om.float_bytes g.racket1.pos_y) = g.racket1.pos_y ∧
  om.bytes_float (om.float_bytes g.racket2.pos_y) = g.racket2.pos_y ∧
  om.bytes_float (om.float_bytes g.mBall.pos_x) = g.mBall.pos_x ∧
  om.bytes_float (om.float_bytes g.mBall.pos_y) = g.mBall.pos_y ∧
  om.bytes_float (om.float_bytes g.mBall.vel_x) = g.mBall.vel_x ∧
  om.bytes_float (om.float_bytes g.mBall.vel_y) = g.mBall.vel_y

/-- A name that fits a 20-byte slot: at most 19 characters, each a non-NUL
single byte. -/
def fits_name_slot (name : String) : Prop :=
  name.data.length ≤ 19 ∧ ∀ c ∈ name.data, c.toNat ≠ 0 ∧ c.toNat < 256

/-- The name a 20-byte slot gives back for `name`: its characters before the
first NUL, at most 19 of them. -/
def truncated_name (name : String) : String :=
  String.mk ((((c_str name).takeWhile (fun b => b ≠ 0)).take 19).map byteChar)

/-- A sample object model for evaluation: an `int` is stored as the four
little-endian bytes of its residue modulo 2^32, and a `float` as the `int` of
its numerator (which reads back whole numbers). -/
def sampleObjectModel : ObjectModel :=
  { int_bytes := fun z i => ⟨((z % 4294967296).toNat / 256 ^ i.val) % 256, Nat.mod_lt _ (by decide)⟩
    bytes_int := fun v =>
      (((v 0).val + 256 * (v 1).val + 65536 * (v 2).val + 16777216 * (v 3).val : ℕ) : ℤ)
    float_bytes := fun q i =>
      ⟨((q.num % 4294967296).toNat / 256 ^ i.val) % 256, Nat.mod_lt _ (by decide)⟩
    bytes_float := fun v =>
      (((v 0).val + 256 * (v 1).val + 65536 * (v 2).val + 16777216 * (v 3).val : ℕ) : ℚ) }

/-- A record with every byte zero. -/
def zeroSaveState : SaveState :=
  ⟨fun _ => 0, fun _ => 0, fun _ => 0, fun _ => 0, fun _ => 0, fun _ => 0, fun _ => 0,
    fun _ => 0, fun _ => 0, fun _ => 0, fun _ => 0⟩

/-- A sample two-player game in play: scores 3 and 2, paddles at y = 300 and
y = 250, ball at (200, 100) with velocity (250, 120), players named as given. -/
def sampleGame (name1 name2 : String) : Game :=
  { mGameState := game_state.Paused, mIsRunning := true, notice_id := TWO_PLAYERS_MODE,
    selected_option := 1,
    racket1 := racketLeft, racket2 := { racketRight with pos_y := 250 },
    mBall := ⟨200, 100, 250, 120, 20, white, 2⟩, mAI := none,
    player1 := ⟨name1, 3, 0⟩, player2 := ⟨name2, 2, 0⟩,
    winner := "", game_over_winner := "", last_highscore := 0,
    last_highscore_name := fun _ => 0,
    mletter := sampleLetter, mpower := samplePower,
    minvisible := sampleInvisibleWorld.power, minverse := sampleInverseWorld.power,
    background_color_left := black, background_color_right := black,
    events := [], save_file := none }

/-- The guard of `Game::game`, line 977, negated: the game is in one of the four
playing states, so that the tick is not skipped. -/
def Game.in_play (g : Game) : Prop :=
  g.mGameState = game_state.Playing ∨ g.mGameState = game_state.AI_playing ∨
  g.mGameState = game_state.Storytime_playing ∨ g.mGameState = game_state.Fun_playing

/-- The score that ends a round: 8 in the Storytime branch of `Game::game`
(line 1069), 5 in the Fun branch (line 1107). -/
def Game.threshold (g : Game) : ℤ :=
  if g.notice_id = STORYTIME_MODE then 8 else 5

/-- The state of a tick of `Game::game` when its round logic starts: lines 982-1017
(ball colour, paddles, ball) followed by the letter update of the Storytime branch
(lines 1066-1067) or by the power-up updates of the Fun branch (lines 1103-1105). -/
def Game.before_round_logic (inp : TickInput) (g : Game) : Game :=
  if g.notice_id = STORYTIME_MODE then
    Game.storytime_updates inp (Game.update_entities inp (Game.default_ball_color g))
  else
    Game.fun_updates inp (Game.update_entities inp (Game.default_ball_color g))

/-- The start of a match in Storytime or Fun mode, as lines 869-899 of
`Game::game_logic` leave it: a playing state, both scores and both round counts
at 0. -/
def Game.match_start (g : Game) : Prop :=
  (g.notice_id = STORYTIME_MODE ∨ g.notice_id = FUN_MODE) ∧ g.in_play ∧
  g.player1.round = 0 ∧ g.player2.round = 0 ∧ g.player1.score = 0 ∧ g.player2.score = 0

/-- The invariant of a match in Storytime or Fun mode: the round counts are
non-negative with sum at most 3, and either the game is in play, with both scores
at 0 when the sum is 3, or it is over, the sum is 3 and the winner is the name of
the player with more rounds. -/
def Game.match_invariant (g : Game) : Prop :=
  (g.notice_id = STORYTIME_MODE ∨ g.notice_id = FUN_MODE) ∧
  0 ≤ g.player1.round ∧ 0 ≤ g.player2.round ∧ g.player1.round + g.player2.round ≤ 3 ∧
  ((g.in_play ∧ (g.player1.round + g.player2.round = 3 →
      g.player1.score = 0 ∧ g.player2.score = 0)) ∨
   (g.mGameState = game_state.GameOver ∧ g.player1.round + g.player2.round = 3 ∧
    g.game_over_winner =
      (if g.player1.round > g.player2.round then g.player1.name else g.player2.name) ∧
    g.winner =
      (if g.player1.round > g.player2.round then g.player1.name else g.player2.name)))

/-- A sample tick: 16 ms elapsed, no key held, the sample C library, and a font
whose glyphs are all 20 by 40 pixels. -/
def sampleTickInput : TickInput :=
  ⟨16, noKeys, sampleLibc, sampleLibc, sampleLibc, sampleLibc, fun _ => some (20, 40)⟩

/-- A sample Storytime game in play with the given scores and round counts: the
ball at (795, 300) flies to the right at 400 pixels per second. -/
def sampleStory (score1 score2 round1 round2 : ℤ) : Game :=
  { sampleGame "Alice" "Bob" with
    mGameState := game_state.Storytime_playing, notice_id := STORYTIME_MODE,
    racket2 := racketRight,
    mBall := ⟨795, 300, 400, 0, 24, white, 3⟩,
    player1 := ⟨"Alice", score1, round1⟩, player2 := ⟨"Bob", score2, round2⟩ }


/-! ## Sequences of letter updates -/

/-- The arguments of one call of `Letter::update_letter` besides the players. -/
structure LetterTick where
  time : ℚ
  screen_height : ℤ
  ball_pos_x : ℚ
  ball_pos_y : ℚ
  ball_radius : ℚ

/-- Part of `Letter::update_letter`, lines 100-106: the letter is moved and its
speed is reversed at the limits. -/
def Letter.update_move (time : ℚ) (screen_height : ℤ) (l : Letter) : Letter :=
  let l := { l with y := l.y + l.speed * time }
  if l.y + (l.height : ℚ) ≥ (screen_height : ℚ) ∨ l.y ≤ 0 then { l with speed := -l.speed }
  else l

/-- Part of `Letter::update_letter`, lines 120-135: the hit letter joins the
collected ones, the next letter (or the first letter of the next word, the
collected letters being dropped) is displayed, and the letter restarts at the top
with a non-negative speed. -/
def Letter.update_collect (font : Char → Option (ℤ × ℤ)) (l : Letter) : Letter :=
  let l := { l with lettersAtBottom := l.lettersAtBottom ++ [l.letter] }
  let l :=
    if l.current_letter_index ≥ l.word.length then
      Letter.next_word font { l with lettersAtBottom := [] }
    else l.next_letter font
  let l := { l with y := 0 }
  { l with speed := |l.speed| }

/-- The test of line 108 of `Letter::update_letter`: the moved letter collides with
the ball. -/
def Letter.hit (t : LetterTick) (l : Letter) : Bool :=
  (l.update_move t.time t.screen_height).collision_check t.ball_pos_x t.ball_pos_y t.ball_radius

/-- Successive calls of `Letter::update_letter`. -/
def Letter.run (font : Char → Option (ℤ × ℤ)) (ticks : List LetterTick) (w : LetterWorld) :
    LetterWorld :=
  ticks.foldl (fun w t => Letter.update_letter font t.time t.screen_height t.ball_pos_x
    t.ball_pos_y t.ball_radius w) w

/-- The number of calls of `Letter::update_letter`, among successive ones, in
which the ball hits the letter. -/
def Letter.hit_count (font : Char → Option (ℤ × ℤ)) : List LetterTick → LetterWorld → ℕ
  | [], _ => 0
  | t :: ticks, w =>
    (if Letter.hit t w.letter then 1 else 0) +
      Letter.hit_count font ticks (Letter.update_letter font t.time t.screen_height
        t.ball_pos_x t.ball_pos_y t.ball_radius w)

/-- The 20 characters of "Polytech", "Sorbonne" and "2025" in a row. -/
def Letter.all_letters : List Char := "PolytechSorbonne2025".data

/-- The position in `Letter.all_letters` at which the word holding position `m`
starts. -/
def Letter.word_start (m : ℕ) : ℕ := if m < 8 then 0 else if m < 16 then 8 else 16

/-- The letters of the current word that have been hit after `k` hits, in order:
those from the start of the word up to the displayed letter. -/
def Letter.trail_after (k : ℕ) : List Char :=
  (Letter.all_letters.drop (Letter.word_start (k % 20))).take
    (k % 20 - Letter.word_start (k % 20))

/-- The members of a letter that tell which letter is displayed and which ones
have been collected. -/
def Letter.progress (l : Letter) : List (List Char) × List Char × List Char × ℕ × ℕ × Char :=
  (l.words, l.lettersAtBottom, l.word, l.current_word_index, l.current_letter_index, l.letter)

/-- The progress of a letter built with index 0 after `m < 20` hits. -/
def Letter.progress_after (m : ℕ) : List (List Char) × List Char × List Char × ℕ × ℕ × Char :=
  (Letter.initial_words, Letter.trail_after m,
    Letter.initial_words.getD (if m < 8 then 0 else if m < 16 then 1 else 2) [],
    (if m < 8 then 0 else if m < 16 then 1 else 2),
    m % 20 - Letter.word_start (m % 20) + 1,
    Letter.all_letters.getD (m % 20) default)

/-- The font of the samples: every glyph is 20 by 40 pixels. -/
def sampleFont : Char → Option (ℤ × ℤ) := fun _ => some (20, 40)

/-- The letter of `test_letter_movement`: 5 pixels above the bottom of the
screen, with speed 150. -/
def sampleLetterLow : Letter := Letter.new sampleFont 0 300 595 150 'P'

/-- The call of `test_letter_movement`: 0.1 s on a screen 600 pixels high, the
ball at (0, 0) with radius 0. -/
def sampleLetterTick : LetterTick := ⟨1 / 10, 600, 0, 0, 0⟩

/-- A letter showing the last letter of "Polytech", the seven letters before it
collected. -/
def sampleLetterLast : Letter :=
  { words := Letter.initial_words, lettersAtBottom := "Polytec".data, word := "Polytech".data,
    current_word_index := 0, current_letter_index := 8, letter := 'h',
    x := 300, y := 200, speed := 150, width := 20, height := 40 }

/-- What a hit does to the progress of a letter (lines 120-131 of
`Letter::update_letter` with `Letter::next_letter` and `Letter::next_word`). -/
def Letter.progress_step (p : List (List Char) × List Char × List Char × ℕ × ℕ × Char) :
    List (List Char) × List Char × List Char × ℕ × ℕ × Char :=
  if p.2.2.2.2.1 ≥ p.2.2.1.length then
    if 0 < (p.1.getD ((p.2.2.2.1 + 1) % p.1.length) []).length then
      (p.1, [], p.1.getD ((p.2.2.2.1 + 1) % p.1.length) [], (p.2.2.2.1 + 1) % p.1.length, 1,
        (p.1.getD ((p.2.2.2.1 + 1) % p.1.length) []).getD 0 default)
    else
      (p.1, [], p.1.getD ((p.2.2.2.1 + 1) % p.1.length) [], (p.2.2.2.1 + 1) % p.1.length, 0,
        p.2.2.2.2.2)
  else
    (p.1, p.2.1 ++ [p.2.2.2.2.2], p.2.2.1, p.2.2.2.1, p.2.2.2.2.1 + 1,
      p.2.2.1.getD p.2.2.2.2.1 default)

/-! ## The reaction factor of the AI controller -/

/-- The `switch (ai_difficulty)` of `AI::updateAI`, lines 63-75: the reaction
factor is 0.6, 1.0 or 1.4, and 1.0 for any other difficulty value. -/
def AI.reactionFactor (difficulty : ℤ) : ℚ :=
  if difficulty = AI_MODE_EASY then 6 / 10
  else if difficulty = AI_MODE_NORMAL then 1
  else if difficulty = AI_MODE_HARD then 14 / 10
  else 1

/-! ## `game.cpp`: the menus around a game -/

/-- Part of `Game::game_logic`, lines 668-690: a click on the pause button during
play (the mode remembered by the pause menu is the one of the playing state). -/
def Game.pause_button (g : Game) : Game :=
  if g.mGameState = game_state.Playing ∨ g.mGameState = game_state.AI_playing ∨
      g.mGameState = game_state.Storytime_playing ∨ g.mGameState = game_state.Fun_playing then
    { g with mGameState := game_state.Paused }
  else g

/-- Part of `Game::game_logic`, lines 760-788: the exit-mode choice of the pause
menu puts the effects of the Fun mode back to default and leaves the game. -/
def Game.exit_mode (g : Game) : Game :=
  if g.mGameState = game_state.Paused then
    let g := { g with racket1 := { g.racket1 with inverse_power_active := false } }
    let g := { g with racket2 := { g.racket2 with inverse_power_active := false } }
    let g := { g with mBall := { g.mBall with color := white } }
    let g := { g with racket1 := { g.racket1 with racket_height := 100 } }
    let g := { g with racket2 := { g.racket2 with racket_height := 100 } }
    if g.notice_id = TWO_PLAYERS_MODE then { g with mGameState := game_state.GameOver }
    else { g with mGameState := game_state.Choose_Mode }
  else g

/-- Part of `Game::game_logic`, lines 557-590: the choice of the mode `mode_id` in
the mode menu. -/
def Game.choose_mode (mode_id : ℤ) (g : Game) : Game :=
  if g.mGameState = game_state.Choose_Mode then
    let g :=
      if mode_id = AI_MODE then { g with notice_id := AI_MODE }
      else if mode_id = TWO_PLAYERS_MODE then { g with notice_id := TWO_PLAYERS_MODE }
      else if mode_id = STORYTIME_MODE then { g with notice_id := STORYTIME_MODE }
      else if mode_id = FUN_MODE then { g with notice_id := FUN_MODE }
      else g
    { g with mGameState := game_state.Notice_Menu }
  else g

/-- Part of `Game::game_logic`, lines 474-545: the notice of the chosen mode is
accepted; `name1` and `name2` are the names `GUI::player_name_input` returns. -/
def Game.notice_next (name1 name2 : String) (g : Game) : Game :=
  if g.mGameState = game_state.Notice_Menu ∧ g.notice_id ≠ -1 then
    let g := { g with player1 := g.player1.reset_score }
    let g := { g with player2 := g.player2.reset_score }
    if g.notice_id = AI_MODE then
      let g := { g with player2 := g.player2.set_user_name "DrixAI" }
      let g := { g with player1 := g.player1.set_user_name name1 }
      { g with mGameState := game_state.Middle_menu }
    else if g.notice_id = TWO_PLAYERS_MODE then
      { g with mGameState := game_state.Menu }
    else if g.notice_id = STORYTIME_MODE then
      let g := { g with player1 := g.player1.set_user_name name1 }
      let g := { g with player2 := g.player2.set_user_name name2 }
      { g with mGameState := game_state.Middle_menu }
    else if g.notice_id = FUN_MODE then
      let g := { g with player1 := g.player1.set_user_name name1 }
      let g := { g with player2 := g.player2.set_user_name name2 }
      let g := { g with mGameState := game_state.Middle_menu }
      { g with minvisible := { g.minvisible with initialisation := true } }
    else if g.notice_id = GAME_SAVED then
      { g with mGameState := game_state.Choose_Mode }
    else g
  else g

/-- Part of `Game::game_logic`, lines 839-925: the ball type is chosen in the
middle menu and the game of the chosen mode starts. -/
def Game.start_game (env : Libc) (color0 : SDL_Color) (g : Game) : Game :=
  if g.mGameState = game_state.Middle_menu then
    if g.notice_id = TWO_PLAYERS_MODE then
      let g := { g with save_file := Saving.delete_save g.save_file }
      let g := Game.ball_creation env color0 g.selected_option g
      let g := { g with mBall := { g.mBall with game_mode := g.notice_id } }
      let g := { g with player1 := g.player1.reset_score }
      let g := { g with player2 := g.player2.reset_score }
      let g := { g with racket1 := { g.racket1 with pos_y := (WINDOW_HEIGHT : ℚ) / 2 } }
      let g := { g with racket2 := { g.racket2 with pos_y := (WINDOW_HEIGHT : ℚ) / 2 } }
      let g := { g with mBall := { g.mBall with
        pos_x := (WINDOW_WIDTH : ℚ) / 2, pos_y := (WINDOW_HEIGHT : ℚ) / 2 } }
      let g := { g with mBall := { g.mBall with vel_x := 200, vel_y := 235 } }
      let g := g.update_background_color
      { g with mGameState := game_state.Playing }
    else if g.notice_id = STORYTIME_MODE ∨ g.notice_id = FUN_MODE then
      let g := Game.ball_creation env color0 g.selected_option g
      let g := { g with mBall := { g.mBall with game_mode := g.notice_id } }
      let g := { g with player1 := g.player1.reset_score }
      let g := { g with player2 := g.player2.reset_score }
      let g := { g with player1 := g.player1.set_round 0 }
      let g := { g with player2 := g.player2.set_round 0 }
      let g := { g with racket1 := { g.racket1 with pos_y := (WINDOW_HEIGHT : ℚ) / 2 } }
      let g := { g with racket2 := { g.racket2 with pos_y := (WINDOW_HEIGHT : ℚ) / 2 } }
      let g := { g with mBall := { g.mBall with
        pos_x := (WINDOW_WIDTH : ℚ) / 2, pos_y := (WINDOW_HEIGHT : ℚ) / 2 } }
      let g := { g with mBall := { g.mBall with vel_x := 200, vel_y := 235 } }
      let g := g.update_background_color
      if g.notice_id = STORYTIME_MODE then { g with mGameState := game_state.Storytime_playing }
      else if g.notice_id = FUN_MODE then { g with mGameState := game_state.Fun_playing }
      else g
    else if g.notice_id = AI_MODE then
      let g := { g with player1 := g.player1.reset_score }
      let g := { g with player2 := g.player2.reset_score }
      let g := { g with racket1 := { g.racket1 with pos_y := (WINDOW_HEIGHT : ℚ) / 2 } }
      let g := { g with racket2 := { g.racket2 with pos_y := (WINDOW_HEIGHT : ℚ) / 2 } }
      let g := Game.ball_creation env color0 g.selected_option g
      let g := { g with mBall := { g.mBall with game_mode := g.notice_id } }
      let g := { g with mBall := { g.mBall with
        pos_x := (WINDOW_WIDTH : ℚ) / 2, pos_y := (WINDOW_HEIGHT : ℚ) / 2 } }
      let g := { g with mBall := { g.mBall with vel_x := 200, vel_y := 235 } }
      let g := g.update_background_color
      { g with mGameState := game_state.AI_playing }
    else g
  else g

/-- Leaving a game through the pause menu and starting a game of the mode
`mode_id` again: pause button, exit mode, mode menu, notice, ball type. -/
def Game.leave_and_restart (env : Libc) (color0 : SDL_Color) (mode_id : ℤ)
    (name1 name2 : String) (g : Game) : Game :=
  Game.start_game env color0
    (Game.notice_next name1 name2 (Game.choose_mode mode_id (Game.exit_mode (Game.pause_button g))))

/-! ## Samples for the scoring, round and paddle claims -/

/-- A sample two-player game in play at 0-0 whose ball, at (795, 100), flies to the
right at 400 pixels per second. -/
def samplePlaying : Game :=
  { sampleGame "Alice" "Bob" with
    mGameState := game_state.Playing, racket2 := racketRight,
    mBall := ⟨795, 100, 400, 0, 24, white, 2⟩,
    player1 := ⟨"Alice", 0, 0⟩, player2 := ⟨"Bob", 0, 0⟩ }

/-- A sample Storytime game at 7-7: the ball, at (5, 100) above the left paddle,
flies to the left at 400 pixels per second, and the letter of the game (x = 400,
speed 30) is at y = 250. -/
def sampleStoryTie : Game :=
  { sampleStory 7 7 0 0 with
    mBall := ⟨5, 100, -400, 0, 24, white, 3⟩,
    mletter := Letter.new sampleFont 0 400 250 30 'P' }

/-- A sample Fun game in which player 1 collected the size booster 9.99 s ago: the
left paddle has height 200 and the booster is in its effect state. -/
def sampleFunBoosted : Game :=
  { sampleGame "Alice" "Bob" with
    mGameState := game_state.Fun_playing, notice_id := FUN_MODE,
    racket1 := { racketLeft with racket_height := 200 }, racket2 := racketRight,
    mBall := ⟨400, 300, 200, 235, 24, white, 4⟩,
    player1 := ⟨"Alice", 0, 0⟩, player2 := ⟨"Bob", 0, 0⟩,
    mpower := { samplePower with is_active := false, effect_is_active := true, play := true,
                                 duration_effect := 999 / 100 } }

/-- The sample size booster with the left paddle at its topmost position y = 50. -/
def samplePowerWorldTop : PowerWorld := ⟨samplePower, racketLeftTop, racketRight⟩

/-- A fast ball of size 24 at (50, 300), right of the left paddle, flying to the
left at 800 pixels per second. -/
def sampleBallFast : BallBase := ⟨50, 300, -800, 0, 24, white, -1⟩

/-- A ball of size 24 at (40, 300) flying to the right at 100 pixels per second:
after 0.05 s it still overlaps the left paddle. -/
def sampleBallInward : BallBase := ⟨40, 300, 100, 0, 24, white, -1⟩

/-- A ball at y = 310.2, just outside the dead zone of an AI paddle at y = 300. -/
def sampleBallNear : BallBase := ⟨400, 1551 / 5, 250, 0, 24, white, -1⟩

/-! ## Samples for the power-up midpoint, the float library and a whole match -/

/-- The sample size booster with the odd width 31 (power-up widths are
`30 + rand() % 20`): its horizontal midpoint is 115.5 and `x + width / 2` is 115
in the integer division of the source. -/
def samplePowerOdd : Power := { samplePower with width := 31 }

/-- A ball of size 24 at (115.2, 300): overlapping `samplePowerOdd`, left of its
midpoint 115.5 and right of 115. -/
def sampleBallMid : BallBase := ⟨576 / 5, 300, 250, 0, 24, white, -1⟩

/-- A ball of size 24 at rest at (430, 60), on the right half of the column of the
letter of the game. -/
def restBall : BallBase := ⟨430, 60, 0, 0, 24, white, 3⟩

/-- A start of a Storytime match, 0-0 in scores and rounds, with the letter of the
game (`Letter(0, 400, 0, 30, ...)`) and the ball at rest on the column of the
letter: every tick the letter, restarted at the top, touches the ball and gives
player 2 a point. -/
def sampleMatch : Game :=
  { sampleStory 0 0 0 0 with
    mBall := restBall,
    mletter := Letter.new sampleFont 0 400 0 30 'P' }

/-- The part of the state of `sampleMatch` that its ticks leave as it is: mode,
paddle geometry, the ball at rest, the letter at the top of its column with the
glyph size of the sample font, and the score and rounds of player 1 at 0. -/
def Game.resting (g : Game) : Prop :=
  g.notice_id = STORYTIME_MODE ∧ gamePaddles g.racket1 g.racket2 ∧ g.mBall = restBall ∧
  g.mletter.x = 400 ∧ g.mletter.y = 0 ∧ g.mletter.speed = 30 ∧
  g.mletter.width = 20 ∧ g.mletter.height = 40 ∧
  g.player1 = ⟨"Alice", 0, 0⟩ ∧ g.player2.name = "Bob"

/-! ## Lemmas on the physics step -/

theorem update_wall_pos_x (w : BallWorld) :
    (BallBase.update_wall w).ball.pos_x = w.ball.pos_x := by
  unfold BallBase.update_wall
  dsimp only
  split_ifs <;> rfl

theorem update_score_of_inside (env : Libc) (w : BallWorld)
    (h0 : 0 < w.ball.pos_x) (h1 : w.ball.pos_x < 800) :
    BallBase.update_score env w = w := by
  unfold BallBase.update_score
  rw [if_neg]
  rintro (h | h) <;> linarith

theorem update_before_paddles_ball_of_inside (env : Libc) (dt : ℚ) (u1 u2 : User) (b : BallBase)
    (hx0 : 0 < b.pos_x + b.vel_x * dt) (hx1 : b.pos_x + b.vel_x * dt < 800) :
    BallBase.update_before_paddles env dt u1 u2 b =
      BallBase.update_wall (BallBase.update_move dt ⟨b, u1, u2, []⟩) := by
  unfold BallBase.update_before_paddles
  apply update_score_of_inside
  · rw [update_wall_pos_x]; exact hx0
  · rw [update_wall_pos_x]; exact hx1

/-- Claim C1: for every ball state and elapsed time (in particular for positions
inside the arena and dt >= 0), if the moved x lies strictly between 0 and 800 and
the bounding box tested by `BallBase::update` (taken at the moved x and the
wall-handled y) overlaps neither paddle, then x advances by vx * dt with vx
unchanged; a moved y strictly between 0 and 600 is kept with vy unchanged; a
moved y at or below 0 (at or above 600) is replaced by exactly 0 (exactly 600)
with vy negated; the squared speed vx^2 + vy^2 is unchanged. -/
theorem C1_free_flight (env : Libc) (dt : ℚ) (paddle1 paddle2 : Paddle) (u1 u2 : User)
    (b : BallBase)
    (hx : 0 < b.pos_x + b.vel_x * dt ∧ b.pos_x + b.vel_x * dt < 800)
    (h1 : SDL_HasIntersection (BallBase.update_before_paddles env dt u1 u2 b).ball.boundaries
            paddle1.rectangle = false)
    (h2 : SDL_HasIntersection (BallBase.update_before_paddles env dt u1 u2 b).ball.boundaries
            paddle2.rectangle = false) :
    (BallBase.update env dt paddle1 paddle2 u1 u2 b).ball.pos_x = b.pos_x + b.vel_x * dt ∧
    (BallBase.update env dt paddle1 paddle2 u1 u2 b).ball.vel_x = b.vel_x ∧
    (0 < b.pos_y + b.vel_y * dt ∧ b.pos_y + b.vel_y * dt < 600 →
      (BallBase.update env dt paddle1 paddle2 u1 u2 b).ball.pos_y = b.pos_y + b.vel_y * dt ∧
      (BallBase.update env dt paddle1 paddle2 u1 u2 b).ball.vel_y = b.vel_y) ∧
    (b.pos_y + b.vel_y * dt ≤ 0 →
      (BallBase.update env dt paddle1 paddle2 u1 u2 b).ball.pos_y = 0 ∧
      (BallBase.update env dt paddle1 paddle2 u1 u2 b).ball.vel_y = -b.vel_y) ∧
    (600 ≤ b.pos_y + b.vel_y * dt →
      (BallBase.update env dt paddle1 paddle2 u1 u2 b).ball.pos_y = 600 ∧
      (BallBase.update env dt paddle1 paddle2 u1 u2 b).ball.vel_y = -b.vel_y) ∧
    (BallBase.update env dt paddle1 paddle2 u1 u2 b).ball.vel_x ^ 2 +
      (BallBase.update env dt paddle1 paddle2 u1 u2 b).ball.vel_y ^ 2 =
      b.vel_x ^ 2 + b.vel_y ^ 2 := by
  have hb : (BallBase.update env dt paddle1 paddle2 u1 u2 b).ball =
      (BallBase.update_wall (BallBase.update_move dt ⟨b, u1, u2, []⟩)).ball := by
    rw [← update_before_paddles_ball_of_inside env dt u1 u2 b hx.1 hx.2]
    unfold BallBase.update BallBase.update_paddles
    simp only [h1, h2]
    simp
  rw [hb]
  unfold BallBase.update_wall BallBase.update_move
  dsimp only
  refine ⟨?_, ?_, ?_, ?_, ?_, ?_⟩
  · split_ifs <;> rfl
  · split_ifs <;> rfl
  · rintro ⟨ha, hb⟩
    rw [if_neg (not_le.mpr ha), if_neg (not_le.mpr hb)]
    exact ⟨rfl, rfl⟩
  · intro ha
    rw [if_pos ha]
    exact ⟨rfl, by simp⟩
  · intro ha
    by_cases h0 : b.pos_y + b.vel_y * dt ≤ 0
    · linarith
    · rw [if_neg h0, if_pos ha]
      exact ⟨rfl, by simp⟩
  · split_ifs <;> simp

/-- Instance of C1 from `test_ball_movement`: position (200, 150), velocity
(250, 300) and dt = 0.1 give position (225, 180). -/
theorem C1_witness :
    (BallBase.update sampleLibc (1 / 10) racketLeft racketRight (User.new "a") (User.new "b")
        ⟨200, 150, 250, 300, 24, white, -1⟩).ball.pos_x = 225 ∧
    (BallBase.update sampleLibc (1 / 10) racketLeft racketRight (User.new "a") (User.new "b")
        ⟨200, 150, 250, 300, 24, white, -1⟩).ball.pos_y = 180 := by
  have h := C1_free_flight sampleLibc (1 / 10) racketLeft racketRight (User.new "a")
    (User.new "b") ⟨200, 150, 250, 300, 24, white, -1⟩ (by norm_num)
    (by norm_num [BallBase.update_before_paddles, BallBase.update_score, BallBase.update_wall, BallBase.update_move, BallBase.boundaries, Paddle.rectangle, racketLeft, Paddle.new, SDL_HasIntersection, SDL_RectEmpty, toInt])
    (by norm_num [BallBase.update_before_paddles, BallBase.update_score, BallBase.update_wall, BallBase.update_move, BallBase.boundaries, Paddle.rectangle, racketRight, Paddle.new, SDL_HasIntersection, SDL_RectEmpty, toInt])
  refine ⟨?_, ?_⟩
  · rw [h.1]; norm_num
  · rw [(h.2.2.1 (by norm_num)).1]; norm_num

theorem SDL_HasIntersection_horizontal (A B : SDL_Rect)
    (h : SDL_HasIntersection A B = true) : A.x < B.x + B.w ∧ B.x < A.x + A.w ∧ 0 < A.w := by
  unfold SDL_HasIntersection SDL_RectEmpty at h
  dsimp only at h
  split_ifs at h with he h1 h2 h3 h4 <;>
    simp only [Bool.or_eq_true, decide_eq_true_eq, not_or, not_le, gt_iff_lt] at * <;>
    omega

theorem SDL_HasIntersection_eq_false (A B : SDL_Rect)
    (h : B.x + B.w ≤ A.x ∨ A.x + A.w ≤ B.x) : SDL_HasIntersection A B = false := by
  by_contra hc
  have ht : SDL_HasIntersection A B = true := by simpa using hc
  have := SDL_HasIntersection_horizontal A B ht
  omega

theorem gamePaddles_rectangle (paddle1 paddle2 : Paddle) (hp : gamePaddles paddle1 paddle2) :
    paddle1.rectangle.x = 22 ∧ paddle1.rectangle.w = 15 ∧
    paddle2.rectangle.x = 762 ∧ paddle2.rectangle.w = 15 := by
  obtain ⟨h1, h2, h3, h4⟩ := hp
  unfold Paddle.rectangle
  simp only [h1, h2, h3, h4]
  norm_num [toInt]

theorem WINDOW_HEIGHT_half : Int.tdiv WINDOW_HEIGHT 2 = 300 := by decide

theorem toInt_intCast (z : ℤ) : toInt (z : ℚ) = z := by
  unfold toInt
  split_ifs <;> simp

theorem gameBallSize_toInt (b : BallBase) (hs : gameBallSize b) :
    toInt b.ball_size = 20 ∨ toInt b.ball_size = 24 := by
  rcases hs with h | h
  · left; rw [h]; norm_num [toInt]
  · right; rw [h]; norm_num [toInt]

theorem centre_boundaries (b : BallBase) (hs : gameBallSize b) (hx : b.pos_x = 400) :
    388 ≤ b.boundaries.x ∧ b.boundaries.x + b.boundaries.w ≤ 412 := by
  unfold BallBase.boundaries
  rcases hs with h | h <;> (rw [hx, h]; norm_num [toInt])

theorem update_wall_move_facts (dt : ℚ) (u1 u2 : User) (b : BallBase) :
    (BallBase.update_wall (BallBase.update_move dt ⟨b, u1, u2, []⟩)).player1 = u1 ∧
    (BallBase.update_wall (BallBase.update_move dt ⟨b, u1, u2, []⟩)).player2 = u2 ∧
    (BallBase.update_wall (BallBase.update_move dt ⟨b, u1, u2, []⟩)).ball.pos_x
      = b.pos_x + b.vel_x * dt ∧
    (BallBase.update_wall (BallBase.update_move dt ⟨b, u1, u2, []⟩)).ball.vel_x = b.vel_x ∧
    (BallBase.update_wall (BallBase.update_move dt ⟨b, u1, u2, []⟩)).ball.ball_size
      = b.ball_size ∧
    0 ≤ (BallBase.update_wall (BallBase.update_move dt ⟨b, u1, u2, []⟩)).ball.pos_y ∧
    (BallBase.update_wall (BallBase.update_move dt ⟨b, u1, u2, []⟩)).ball.pos_y ≤ 600 ∧
    (BallBase.update_wall (BallBase.update_move dt ⟨b, u1, u2, []⟩)).sounds =
      (if b.pos_y + b.vel_y * dt ≤ 0 ∨ 600 ≤ b.pos_y + b.vel_y * dt
        then [Sound.wall_hit] else []) := by
  unfold BallBase.update_wall BallBase.update_move
  dsimp only
  refine ⟨rfl, rfl, ?_, ?_, ?_, ?_, ?_, ?_⟩
  · split_ifs <;> rfl
  · split_ifs <;> rfl
  · split_ifs <;> rfl
  · split_ifs with h1 h2
    · exact le_refl _
    · norm_num
    · exact le_of_lt (not_le.mp h1)
  · split_ifs with h1 h2
    · norm_num
    · exact le_refl _
    · exact le_of_lt (not_le.mp h2)
  · simp only [ge_iff_le, List.nil_append]

theorem reset_facts (env : Libc) (b : BallBase) :
    (b.reset env).pos_x = 400 ∧ (b.reset env).pos_y = 300 ∧
    (b.reset env).ball_size = b.ball_size := by
  unfold BallBase.reset BallBase.random_direction_angle
  exact ⟨rfl, rfl, rfl⟩

theorem update_before_paddles_left (env : Libc) (dt : ℚ) (u1 u2 : User) (b : BallBase)
    (hx : b.pos_x + b.vel_x * dt ≤ 0) :
    BallBase.update_before_paddles env dt u1 u2 b =
      { ball := (BallBase.update_wall (BallBase.update_move dt ⟨b, u1, u2, []⟩)).ball.reset env
        player1 := u1
        player2 := u2.increment_score
        sounds := (BallBase.update_wall (BallBase.update_move dt ⟨b, u1, u2, []⟩)).sounds
                    ++ [Sound.score] } := by
  obtain ⟨h1, h2, h3, -⟩ := update_wall_move_facts dt u1 u2 b
  unfold BallBase.update_before_paddles BallBase.update_score
  dsimp only
  rw [if_pos (Or.inl (by rw [h3]; exact hx)), if_pos (by rw [h3]; exact hx), h1, h2]

theorem update_before_paddles_right (env : Libc) (dt : ℚ) (u1 u2 : User) (b : BallBase)
    (hx : 800 ≤ b.pos_x + b.vel_x * dt) :
    BallBase.update_before_paddles env dt u1 u2 b =
      { ball := (BallBase.update_wall (BallBase.update_move dt ⟨b, u1, u2, []⟩)).ball.reset env
        player1 := u1.increment_score
        player2 := u2
        sounds := (BallBase.update_wall (BallBase.update_move dt ⟨b, u1, u2, []⟩)).sounds
                    ++ [Sound.score] } := by
  obtain ⟨h1, h2, h3, -⟩ := update_wall_move_facts dt u1 u2 b
  unfold BallBase.update_before_paddles BallBase.update_score
  dsimp only
  rw [if_pos (Or.inr (by rw [h3]; exact hx)), if_neg (by rw [h3]; linarith),
    if_pos (by rw [h3]; exact hx), h1, h2]

theorem update_paddles_frame (paddle1 paddle2 : Paddle) (w : BallWorld) :
    (BallBase.update_paddles paddle1 paddle2 w).player1 = w.player1 ∧
    (BallBase.update_paddles paddle1 paddle2 w).player2 = w.player2 ∧
    (BallBase.update_paddles paddle1 paddle2 w).ball.pos_y = w.ball.pos_y ∧
    (BallBase.update_paddles paddle1 paddle2 w).ball.vel_y = w.ball.vel_y ∧
    (BallBase.update_paddles paddle1 paddle2 w).ball.ball_size = w.ball.ball_size := by
  unfold BallBase.update_paddles
  dsimp only
  split_ifs <;> exact ⟨rfl, rfl, rfl, rfl, rfl⟩

theorem update_paddles_of_none (paddle1 paddle2 : Paddle) (w : BallWorld)
    (h1 : SDL_HasIntersection w.ball.boundaries paddle1.rectangle = false)
    (h2 : SDL_HasIntersection w.ball.boundaries paddle2.rectangle = false) :
    BallBase.update_paddles paddle1 paddle2 w = w := by
  unfold BallBase.update_paddles
  simp [h1, h2]

theorem centre_no_paddle (paddle1 paddle2 : Paddle) (b : BallBase)
    (hp : gamePaddles paddle1 paddle2) (hs : gameBallSize b) (hx : b.pos_x = 400) :
    SDL_HasIntersection b.boundaries paddle1.rectangle = false ∧
    SDL_HasIntersection b.boundaries paddle2.rectangle = false := by
  obtain ⟨r1, r2, r3, r4⟩ := gamePaddles_rectangle paddle1 paddle2 hp
  obtain ⟨c1, c2⟩ := centre_boundaries b hs hx
  constructor
  · apply SDL_HasIntersection_eq_false; left; omega
  · apply SDL_HasIntersection_eq_false; right; omega

/-- When the step scores, the paddle test of the same step finds no overlap. -/
theorem update_scored_no_paddle (env : Libc) (dt : ℚ) (paddle1 paddle2 : Paddle) (u1 u2 : User)
    (b : BallBase) (hp : gamePaddles paddle1 paddle2) (hs : gameBallSize b)
    (hx : b.pos_x + b.vel_x * dt ≤ 0 ∨ 800 ≤ b.pos_x + b.vel_x * dt) :
    (BallBase.update_before_paddles env dt u1 u2 b).ball.pos_x = 400 ∧
    (BallBase.update_before_paddles env dt u1 u2 b).ball.pos_y = 300 ∧
    SDL_HasIntersection (BallBase.update_before_paddles env dt u1 u2 b).ball.boundaries
      paddle1.rectangle = false ∧
    SDL_HasIntersection (BallBase.update_before_paddles env dt u1 u2 b).ball.boundaries
      paddle2.rectangle = false := by
  obtain ⟨-, -, -, -, h5, -⟩ := update_wall_move_facts dt u1 u2 b
  have key : (BallBase.update_before_paddles env dt u1 u2 b).ball =
      (BallBase.update_wall (BallBase.update_move dt ⟨b, u1, u2, []⟩)).ball.reset env := by
    rcases hx with h | h
    · rw [update_before_paddles_left env dt u1 u2 b h]
    · rw [update_before_paddles_right env dt u1 u2 b h]
  rw [key]
  obtain ⟨f1, f2, f3⟩ := reset_facts env
    (BallBase.update_wall (BallBase.update_move dt ⟨b, u1, u2, []⟩)).ball
  have hs2 : gameBallSize
      ((BallBase.update_wall (BallBase.update_move dt ⟨b, u1, u2, []⟩)).ball.reset env) := by
    unfold gameBallSize
    rw [f3, h5]
    exact hs
  exact ⟨f1, f2, centre_no_paddle paddle1 paddle2 _ hp hs2 f1⟩

/-- When the paddle test of a step finds an overlap, the step did not score:
the state tested is the moved and wall-handled ball. -/
theorem update_hit_inside (env : Libc) (dt : ℚ) (paddle1 paddle2 : Paddle) (u1 u2 : User)
    (b : BallBase) (hp : gamePaddles paddle1 paddle2) (hs : gameBallSize b)
    (hit : SDL_HasIntersection (BallBase.update_before_paddles env dt u1 u2 b).ball.boundaries
             paddle1.rectangle = true ∨
           SDL_HasIntersection (BallBase.update_before_paddles env dt u1 u2 b).ball.boundaries
             paddle2.rectangle = true) :
    0 < b.pos_x + b.vel_x * dt ∧ b.pos_x + b.vel_x * dt < 800 := by
  by_contra hc
  have hx : b.pos_x + b.vel_x * dt ≤ 0 ∨ 800 ≤ b.pos_x + b.vel_x * dt := by
    by_cases h0 : b.pos_x + b.vel_x * dt ≤ 0
    · exact Or.inl h0
    · right
      by_contra h8
      exact hc ⟨not_le.mp h0, not_le.mp h8⟩
  obtain ⟨-, -, n1, n2⟩ := update_scored_no_paddle env dt paddle1 paddle2 u1 u2 b hp hs hx
  rcases hit with h | h
  · rw [n1] at h; exact Bool.noConfusion h
  · rw [n2] at h; exact Bool.noConfusion h

/-- Claim C2: when the bounding box tested by `BallBase::update` overlaps a paddle
(paddles at x = 30 and x = 770, ball size 20 or 24), the horizontal velocity
becomes -1.1 times the velocity before the update, the vertical velocity and
position are left as the wall handling produced them, the ball is placed flush
against the paddle rectangle, and its new bounding box no longer overlaps that
paddle. -/
theorem C2_paddle_bounce (env : Libc) (dt : ℚ) (paddle1 paddle2 : Paddle) (u1 u2 : User)
    (b : BallBase) (hp : gamePaddles paddle1 paddle2) (hs : gameBallSize b) :
    (SDL_HasIntersection (BallBase.update_before_paddles env dt u1 u2 b).ball.boundaries
        paddle1.rectangle = true →
      (BallBase.update env dt paddle1 paddle2 u1 u2 b).ball.vel_x = b.vel_x * (-11 / 10) ∧
      |(BallBase.update env dt paddle1 paddle2 u1 u2 b).ball.vel_x| = |b.vel_x| * (11 / 10) ∧
      (BallBase.update env dt paddle1 paddle2 u1 u2 b).ball.vel_y =
        (BallBase.update_before_paddles env dt u1 u2 b).ball.vel_y ∧
      (BallBase.update env dt paddle1 paddle2 u1 u2 b).ball.pos_y =
        (BallBase.update_before_paddles env dt u1 u2 b).ball.pos_y ∧
      (BallBase.update env dt paddle1 paddle2 u1 u2 b).ball.pos_x =
        (paddle1.rectangle.x : ℚ) + (paddle1.rectangle.w : ℚ) + b.ball_size / 2 ∧
      SDL_HasIntersection (BallBase.update env dt paddle1 paddle2 u1 u2 b).ball.boundaries
        paddle1.rectangle = false) ∧
    (SDL_HasIntersection (BallBase.update_before_paddles env dt u1 u2 b).ball.boundaries
        paddle2.rectangle = true →
      (BallBase.update env dt paddle1 paddle2 u1 u2 b).ball.vel_x = b.vel_x * (-11 / 10) ∧
      |(BallBase.update env dt paddle1 paddle2 u1 u2 b).ball.vel_x| = |b.vel_x| * (11 / 10) ∧
      (BallBase.update env dt paddle1 paddle2 u1 u2 b).ball.vel_y =
        (BallBase.update_before_paddles env dt u1 u2 b).ball.vel_y ∧
      (BallBase.update env dt paddle1 paddle2 u1 u2 b).ball.pos_y =
        (BallBase.update_before_paddles env dt u1 u2 b).ball.pos_y ∧
      (BallBase.update env dt paddle1 paddle2 u1 u2 b).ball.pos_x =
        (paddle2.rectangle.x : ℚ) - b.ball_size / 2 ∧
      SDL_HasIntersection (BallBase.update env dt paddle1 paddle2 u1 u2 b).ball.boundaries
        paddle2.rectangle = false) := by
  obtain ⟨r1, r2, r3, r4⟩ := gamePaddles_rectangle paddle1 paddle2 hp
  obtain ⟨-, -, -, wv, ws, -⟩ := update_wall_move_facts dt u1 u2 b
  have habs : |b.vel_x * (-11 / 10)| = |b.vel_x| * (11 / 10) := by
    rw [abs_mul]; norm_num [abs_of_pos]
  constructor
  · intro hit
    obtain ⟨i0, i1⟩ := update_hit_inside env dt paddle1 paddle2 u1 u2 b hp hs (Or.inl hit)
    have hpre := update_before_paddles_ball_of_inside env dt u1 u2 b i0 i1
    have hball : (BallBase.update env dt paddle1 paddle2 u1 u2 b).ball =
        { (BallBase.update_before_paddles env dt u1 u2 b).ball with
          pos_x := (paddle1.rectangle.x : ℚ) + (paddle1.rectangle.w : ℚ) +
            (BallBase.update_before_paddles env dt u1 u2 b).ball.ball_size / 2
          vel_x := (BallBase.update_before_paddles env dt u1 u2 b).ball.vel_x * (-11 / 10) } := by
      unfold BallBase.update BallBase.update_paddles
      simp only [hit, if_true]
    rw [hball]
    have hsz : (BallBase.update_before_paddles env dt u1 u2 b).ball.ball_size = b.ball_size := by
      rw [hpre]; exact ws
    have hvx : (BallBase.update_before_paddles env dt u1 u2 b).ball.vel_x = b.vel_x := by
      rw [hpre]; exact wv
    dsimp only
    rw [hsz, hvx]
    refine ⟨rfl, habs, rfl, rfl, rfl, ?_⟩
    apply SDL_HasIntersection_eq_false
    left
    unfold BallBase.boundaries
    dsimp only
    rw [r1, r2]
    have : ((22 : ℤ) : ℚ) + ((15 : ℤ) : ℚ) + b.ball_size / 2 - b.ball_size / 2 = ((37 : ℤ) : ℚ) := by
      push_cast; ring
    rw [this, toInt_intCast]
    norm_num
  · intro hit
    obtain ⟨i0, i1⟩ := update_hit_inside env dt paddle1 paddle2 u1 u2 b hp hs (Or.inr hit)
    have hpre := update_before_paddles_ball_of_inside env dt u1 u2 b i0 i1
    have hsz : (BallBase.update_before_paddles env dt u1 u2 b).ball.ball_size = b.ball_size := by
      rw [hpre]; exact ws
    have hvx : (BallBase.update_before_paddles env dt u1 u2 b).ball.vel_x = b.vel_x := by
      rw [hpre]; exact wv
    have hw : (BallBase.update_before_paddles env dt u1 u2 b).ball.boundaries.w ≤ 24 := by
      unfold BallBase.boundaries
      dsimp only
      rw [hsz]
      rcases gameBallSize_toInt b hs with h | h <;> omega
    have hno1 : SDL_HasIntersection (BallBase.update_before_paddles env dt u1 u2 b).ball.boundaries
        paddle1.rectangle = false := by
      have := SDL_HasIntersection_horizontal _ _ hit
      apply SDL_HasIntersection_eq_false
      left
      omega
    have hball : (BallBase.update env dt paddle1 paddle2 u1 u2 b).ball =
        { (BallBase.update_before_paddles env dt u1 u2 b).ball with
          pos_x := (paddle2.rectangle.x : ℚ) -
            (BallBase.update_before_paddles env dt u1 u2 b).ball.ball_size / 2
          vel_x := (BallBase.update_before_paddles env dt u1 u2 b).ball.vel_x * (-11 / 10) } := by
      unfold BallBase.update BallBase.update_paddles
      simp only [hit, hno1, if_true, Bool.false_eq_true, if_false]
    rw [hball]
    dsimp only
    rw [hsz, hvx]
    refine ⟨rfl, habs, rfl, rfl, rfl, ?_⟩
    apply SDL_HasIntersection_eq_false
    right
    unfold BallBase.boundaries
    dsimp only
    rw [r3]
    rcases hs with h | h
    · rw [h]; norm_num [toInt]
    · rw [h]; norm_num [toInt]

/-- Instance of C2: a ball at (50, 300) moving left at 100 hits the left paddle
and leaves with vx = 110 at x = 49, clear of the paddle rectangle. -/
theorem C2_witness :
    (BallBase.update sampleLibc (1 / 20) racketLeft racketRight (User.new "a") (User.new "b")
        ⟨50, 300, -100, 0, 24, white, -1⟩).ball.vel_x = 110 ∧
    (BallBase.update sampleLibc (1 / 20) racketLeft racketRight (User.new "a") (User.new "b")
        ⟨50, 300, -100, 0, 24, white, -1⟩).ball.pos_x = 49 ∧
    SDL_HasIntersection
      (BallBase.update sampleLibc (1 / 20) racketLeft racketRight (User.new "a") (User.new "b")
        ⟨50, 300, -100, 0, 24, white, -1⟩).ball.boundaries racketLeft.rectangle = false := by
  have hp : gamePaddles racketLeft racketRight := by
    norm_num [gamePaddles, racketLeft, racketRight, Paddle.new]
  have h := (C2_paddle_bounce sampleLibc (1 / 20) racketLeft racketRight (User.new "a")
    (User.new "b") ⟨50, 300, -100, 0, 24, white, -1⟩ hp (Or.inr rfl)).1
    (by norm_num [BallBase.update_before_paddles, BallBase.update_score, BallBase.update_wall,
      BallBase.update_move, BallBase.boundaries, Paddle.rectangle, racketLeft, Paddle.new,
      SDL_HasIntersection, SDL_RectEmpty, toInt, WINDOW_HEIGHT_half])
  refine ⟨?_, ?_, h.2.2.2.2.2⟩
  · rw [h.1]; norm_num
  · rw [h.2.2.2.2.1]; norm_num [Paddle.rectangle, racketLeft, Paddle.new, toInt]

/-- Claim C3: in `BallBase::update`, a moved x at or below 0 gives player 2 exactly
one point, leaves player 1 unchanged and resets the ball (position (400, 300),
which is also the final position for the game paddles and ball sizes); a moved x
at or above 800 does the same for player 1; a moved x strictly inside changes
neither score; the sum of the scores never changes by more than 1. -/
theorem C3_scoring (env : Libc) (dt : ℚ) (paddle1 paddle2 : Paddle) (u1 u2 : User)
    (b : BallBase) :
    (b.pos_x + b.vel_x * dt ≤ 0 →
      (BallBase.update env dt paddle1 paddle2 u1 u2 b).player2.score = u2.score + 1 ∧
      (BallBase.update env dt paddle1 paddle2 u1 u2 b).player1.score = u1.score ∧
      (BallBase.update_before_paddles env dt u1 u2 b).ball =
        (BallBase.update_wall (BallBase.update_move dt ⟨b, u1, u2, []⟩)).ball.reset env ∧
      (gamePaddles paddle1 paddle2 → gameBallSize b →
        (BallBase.update env dt paddle1 paddle2 u1 u2 b).ball.pos_x = 400 ∧
        (BallBase.update env dt paddle1 paddle2 u1 u2 b).ball.pos_y = 300)) ∧
    (800 ≤ b.pos_x + b.vel_x * dt →
      (BallBase.update env dt paddle1 paddle2 u1 u2 b).player1.score = u1.score + 1 ∧
      (BallBase.update env dt paddle1 paddle2 u1 u2 b).player2.score = u2.score ∧
      (BallBase.update_before_paddles env dt u1 u2 b).ball =
        (BallBase.update_wall (BallBase.update_move dt ⟨b, u1, u2, []⟩)).ball.reset env ∧
      (gamePaddles paddle1 paddle2 → gameBallSize b →
        (BallBase.update env dt paddle1 paddle2 u1 u2 b).ball.pos_x = 400 ∧
        (BallBase.update env dt paddle1 paddle2 u1 u2 b).ball.pos_y = 300)) ∧
    (0 < b.pos_x + b.vel_x * dt ∧ b.pos_x + b.vel_x * dt < 800 →
      (BallBase.update env dt paddle1 paddle2 u1 u2 b).player1.score = u1.score ∧
      (BallBase.update env dt paddle1 paddle2 u1 u2 b).player2.score = u2.score) ∧
    |((BallBase.update env dt paddle1 paddle2 u1 u2 b).player1.score +
        (BallBase.update env dt paddle1 paddle2 u1 u2 b).player2.score) -
      (u1.score + u2.score)| ≤ 1 := by
  obtain ⟨f1, f2, -⟩ := update_paddles_frame paddle1 paddle2
    (BallBase.update_before_paddles env dt u1 u2 b)
  have e1 : (BallBase.update env dt paddle1 paddle2 u1 u2 b).player1 =
      (BallBase.update_before_paddles env dt u1 u2 b).player1 := f1
  have e2 : (BallBase.update env dt paddle1 paddle2 u1 u2 b).player2 =
      (BallBase.update_before_paddles env dt u1 u2 b).player2 := f2
  have final : gamePaddles paddle1 paddle2 → gameBallSize b →
      (b.pos_x + b.vel_x * dt ≤ 0 ∨ 800 ≤ b.pos_x + b.vel_x * dt) →
      (BallBase.update env dt paddle1 paddle2 u1 u2 b).ball.pos_x = 400 ∧
      (BallBase.update env dt paddle1 paddle2 u1 u2 b).ball.pos_y = 300 := by
    intro hp hs hx
    obtain ⟨c1, c2, n1, n2⟩ := update_scored_no_paddle env dt paddle1 paddle2 u1 u2 b hp hs hx
    unfold BallBase.update
    rw [update_paddles_of_none _ _ _ n1 n2]
    exact ⟨c1, c2⟩
  have left : b.pos_x + b.vel_x * dt ≤ 0 →
      (BallBase.update env dt paddle1 paddle2 u1 u2 b).player2.score = u2.score + 1 ∧
      (BallBase.update env dt paddle1 paddle2 u1 u2 b).player1.score = u1.score := by
    intro hx
    rw [e1, e2, update_before_paddles_left env dt u1 u2 b hx]
    exact ⟨rfl, rfl⟩
  have right : 800 ≤ b.pos_x + b.vel_x * dt →
      (BallBase.update env dt paddle1 paddle2 u1 u2 b).player1.score = u1.score + 1 ∧
      (BallBase.update env dt paddle1 paddle2 u1 u2 b).player2.score = u2.score := by
    intro hx
    rw [e1, e2, update_before_paddles_right env dt u1 u2 b hx]
    exact ⟨rfl, rfl⟩
  have inside : 0 < b.pos_x + b.vel_x * dt ∧ b.pos_x + b.vel_x * dt < 800 →
      (BallBase.update env dt paddle1 paddle2 u1 u2 b).player1.score = u1.score ∧
      (BallBase.update env dt paddle1 paddle2 u1 u2 b).player2.score = u2.score := by
    rintro ⟨h0, h8⟩
    obtain ⟨w1, w2, -⟩ := update_wall_move_facts dt u1 u2 b
    rw [e1, e2, update_before_paddles_ball_of_inside env dt u1 u2 b h0 h8, w1, w2]
    exact ⟨rfl, rfl⟩
  refine ⟨?_, ?_, inside, ?_⟩
  · intro hx
    refine ⟨(left hx).1, (left hx).2, ?_, fun hp hs => final hp hs (Or.inl hx)⟩
    rw [update_before_paddles_left env dt u1 u2 b hx]
  · intro hx
    refine ⟨(right hx).1, (right hx).2, ?_, fun hp hs => final hp hs (Or.inr hx)⟩
    rw [update_before_paddles_right env dt u1 u2 b hx]
  · by_cases h0 : b.pos_x + b.vel_x * dt ≤ 0
    · rw [(left h0).1, (left h0).2]
      rw [abs_le]; constructor <;> linarith
    · by_cases h8 : 800 ≤ b.pos_x + b.vel_x * dt
      · rw [(right h8).1, (right h8).2]
        rw [abs_le]; constructor <;> linarith
      · obtain ⟨i1, i2⟩ := inside ⟨not_le.mp h0, not_le.mp h8⟩
        rw [i1, i2]
        simp

/-- Instance of C3: a ball at (795, 300) moving right at 300 leaves through the
right edge; player 1 scores and the ball is back at the centre. -/
theorem C3_witness :
    (BallBase.update sampleLibc (1 / 20) racketLeft racketRight (User.new "a") (User.new "b")
        ⟨795, 300, 300, 0, 24, white, -1⟩).player1.score = 1 ∧
    (BallBase.update sampleLibc (1 / 20) racketLeft racketRight (User.new "a") (User.new "b")
        ⟨795, 300, 300, 0, 24, white, -1⟩).player2.score = 0 ∧
    (BallBase.update sampleLibc (1 / 20) racketLeft racketRight (User.new "a") (User.new "b")
        ⟨795, 300, 300, 0, 24, white, -1⟩).ball.pos_x = 400 ∧
    (BallBase.update sampleLibc (1 / 20) racketLeft racketRight (User.new "a") (User.new "b")
        ⟨795, 300, 300, 0, 24, white, -1⟩).ball.pos_y = 300 := by
  have h := (C3_scoring sampleLibc (1 / 20) racketLeft racketRight (User.new "a")
    (User.new "b") ⟨795, 300, 300, 0, 24, white, -1⟩).2.1 (by norm_num)
  have hp : gamePaddles racketLeft racketRight := by
    norm_num [gamePaddles, racketLeft, racketRight, Paddle.new]
  exact ⟨h.1, h.2.1, h.2.2.2 hp (Or.inr rfl)⟩

/-- Claim C4: for the game paddles (x = 30 and x = 770) and ball sizes 20 or 24,
whatever the prior ball state, the elapsed time and the paddle heights and
y-positions, after `BallBase::update` the ball satisfies 0 <= y <= 600 and
0 < x < 800. -/
theorem C4_ball_in_arena (env : Libc) (dt : ℚ) (paddle1 paddle2 : Paddle) (u1 u2 : User)
    (b : BallBase) (hp : gamePaddles paddle1 paddle2) (hs : gameBallSize b) :
    0 ≤ (BallBase.update env dt paddle1 paddle2 u1 u2 b).ball.pos_y ∧
    (BallBase.update env dt paddle1 paddle2 u1 u2 b).ball.pos_y ≤ 600 ∧
    0 < (BallBase.update env dt paddle1 paddle2 u1 u2 b).ball.pos_x ∧
    (BallBase.update env dt paddle1 paddle2 u1 u2 b).ball.pos_x < 800 := by
  obtain ⟨r1, r2, r3, r4⟩ := gamePaddles_rectangle paddle1 paddle2 hp
  obtain ⟨-, -, wx, -, ws, wy0, wy6, -⟩ := update_wall_move_facts dt u1 u2 b
  -- the state before the paddle test is inside the arena
  have pre : 0 ≤ (BallBase.update_before_paddles env dt u1 u2 b).ball.pos_y ∧
      (BallBase.update_before_paddles env dt u1 u2 b).ball.pos_y ≤ 600 ∧
      0 < (BallBase.update_before_paddles env dt u1 u2 b).ball.pos_x ∧
      (BallBase.update_before_paddles env dt u1 u2 b).ball.pos_x < 800 ∧
      (BallBase.update_before_paddles env dt u1 u2 b).ball.ball_size = b.ball_size := by
    by_cases hx : b.pos_x + b.vel_x * dt ≤ 0 ∨ 800 ≤ b.pos_x + b.vel_x * dt
    · obtain ⟨c1, c2, -, -⟩ := update_scored_no_paddle env dt paddle1 paddle2 u1 u2 b hp hs hx
      rw [c1, c2]
      refine ⟨by norm_num, by norm_num, by norm_num, by norm_num, ?_⟩
      rcases hx with h | h
      · rw [update_before_paddles_left env dt u1 u2 b h]
        exact (reset_facts env _).2.2.trans ws
      · rw [update_before_paddles_right env dt u1 u2 b h]
        exact (reset_facts env _).2.2.trans ws
    · rw [not_or, not_le, not_le] at hx
      rw [update_before_paddles_ball_of_inside env dt u1 u2 b hx.1 hx.2, wx]
      exact ⟨wy0, wy6, hx.1, hx.2, ws⟩
  obtain ⟨p0, p6, px0, px8, psz⟩ := pre
  obtain ⟨-, -, fy, -, -⟩ := update_paddles_frame paddle1 paddle2
    (BallBase.update_before_paddles env dt u1 u2 b)
  have ey : (BallBase.update env dt paddle1 paddle2 u1 u2 b).ball.pos_y =
      (BallBase.update_before_paddles env dt u1 u2 b).ball.pos_y := fy
  rw [ey]
  refine ⟨p0, p6, ?_⟩
  unfold BallBase.update BallBase.update_paddles
  dsimp only
  split_ifs
  · dsimp only
    rw [psz, r1, r2]
    rcases hs with h | h <;> rw [h] <;> norm_num
  · dsimp only
    rw [psz, r3]
    rcases hs with h | h <;> rw [h] <;> norm_num
  · exact ⟨px0, px8⟩

/-- Instance of C4 from a prior state outside the arena. -/
theorem C4_witness :
    0 ≤ (BallBase.update sampleLibc (1 / 20) racketLeft racketRight (User.new "a") (User.new "b")
        ⟨-50, 900, -300, 4000, 20, white, -1⟩).ball.pos_y ∧
    (BallBase.update sampleLibc (1 / 20) racketLeft racketRight (User.new "a") (User.new "b")
        ⟨-50, 900, -300, 4000, 20, white, -1⟩).ball.pos_y ≤ 600 ∧
    0 < (BallBase.update sampleLibc (1 / 20) racketLeft racketRight (User.new "a") (User.new "b")
        ⟨-50, 900, -300, 4000, 20, white, -1⟩).ball.pos_x ∧
    (BallBase.update sampleLibc (1 / 20) racketLeft racketRight (User.new "a") (User.new "b")
        ⟨-50, 900, -300, 4000, 20, white, -1⟩).ball.pos_x < 800 :=
  C4_ball_in_arena sampleLibc (1 / 20) racketLeft racketRight (User.new "a") (User.new "b")
    ⟨-50, 900, -300, 4000, 20, white, -1⟩
    (by norm_num [gamePaddles, racketLeft, racketRight, Paddle.new]) (Or.inl rfl)


/-- Claim C5, refuted as stated: one `BallBase::update` applies a wall
reflection together with a paddle bounce (ball at (50, 5) moving up-left against
the left paddle in its top position), and another applies a wall reflection
together with a score (ball at (10, 10) leaving through the top-left corner). -/
theorem C5_counterexample :
    ((BallBase.update sampleLibc (1 / 20) racketLeftTop racketRight (User.new "a")
        (User.new "b") ⟨50, 5, -100, -200, 24, white, -1⟩).sounds
        = [Sound.wall_hit, Sound.racket_hit] ∧
     (BallBase.update sampleLibc (1 / 20) racketLeftTop racketRight (User.new "a")
        (User.new "b") ⟨50, 5, -100, -200, 24, white, -1⟩).ball.pos_y = 0 ∧
     (BallBase.update sampleLibc (1 / 20) racketLeftTop racketRight (User.new "a")
        (User.new "b") ⟨50, 5, -100, -200, 24, white, -1⟩).ball.vel_y = 200 ∧
     (BallBase.update sampleLibc (1 / 20) racketLeftTop racketRight (User.new "a")
        (User.new "b") ⟨50, 5, -100, -200, 24, white, -1⟩).ball.vel_x = 110) ∧
    ((BallBase.update sampleLibc (1 / 20) racketLeft racketRight (User.new "a")
        (User.new "b") ⟨10, 10, -300, -300, 24, white, -1⟩).sounds
        = [Sound.wall_hit, Sound.score] ∧
     (BallBase.update sampleLibc (1 / 20) racketLeft racketRight (User.new "a")
        (User.new "b") ⟨10, 10, -300, -300, 24, white, -1⟩).player2.score = 1 ∧
     (BallBase.update sampleLibc (1 / 20) racketLeft racketRight (User.new "a")
        (User.new "b") ⟨10, 10, -300, -300, 24, white, -1⟩).ball.pos_x = 400) := by
  refine ⟨⟨?_, ?_, ?_, ?_⟩, ⟨?_, ?_, ?_⟩⟩ <;>
    norm_num [BallBase.update, BallBase.update_paddles, BallBase.update_before_paddles,
      BallBase.update_score, BallBase.update_wall, BallBase.update_move, BallBase.boundaries,
      BallBase.reset, BallBase.random_direction_angle, User.increment_score, User.new,
      Paddle.rectangle, racketLeftTop, racketLeft, racketRight, Paddle.new, SDL_HasIntersection,
      SDL_RectEmpty, toInt, WINDOW_HEIGHT_half, sampleLibc, Int.ceil_neg]


theorem update_paddles_sounds (paddle1 paddle2 : Paddle) (w : BallWorld) :
    (BallBase.update_paddles paddle1 paddle2 w).sounds =
      w.sounds ++
        (if SDL_HasIntersection w.ball.boundaries paddle1.rectangle = true ∨
            SDL_HasIntersection w.ball.boundaries paddle2.rectangle = true
          then [Sound.racket_hit] else []) := by
  unfold BallBase.update_paddles
  dsimp only
  by_cases h1 : SDL_HasIntersection w.ball.boundaries paddle1.rectangle = true
  · simp [h1]
  · by_cases h2 : SDL_HasIntersection w.ball.boundaries paddle2.rectangle = true
    · simp [h1, h2]
    · simp [h1, h2]

theorem update_before_paddles_sounds (env : Libc) (dt : ℚ) (u1 u2 : User) (b : BallBase) :
    (BallBase.update_before_paddles env dt u1 u2 b).sounds =
      (if b.pos_y + b.vel_y * dt ≤ 0 ∨ 600 ≤ b.pos_y + b.vel_y * dt
        then [Sound.wall_hit] else []) ++
      (if b.pos_x + b.vel_x * dt ≤ 0 ∨ 800 ≤ b.pos_x + b.vel_x * dt
        then [Sound.score] else []) := by
  obtain ⟨-, -, -, -, -, -, -, wsnd⟩ := update_wall_move_facts dt u1 u2 b
  by_cases h0 : b.pos_x + b.vel_x * dt ≤ 0
  · rw [update_before_paddles_left env dt u1 u2 b h0, if_pos (Or.inl h0), ← wsnd]
  · by_cases h8 : 800 ≤ b.pos_x + b.vel_x * dt
    · rw [update_before_paddles_right env dt u1 u2 b h8, if_pos (Or.inr h8), ← wsnd]
    · rw [update_before_paddles_ball_of_inside env dt u1 u2 b (not_le.mp h0) (not_le.mp h8),
        wsnd, if_neg (not_or.mpr ⟨h0, h8⟩), List.append_nil]

/-- Claim C5 as amended: in one `BallBase::update` (game paddles, ball size 20 or
24) each of the three resolutions is applied at most once and in the order wall
reflection, score, paddle bounce, each exactly when its own test holds; a score
and a paddle bounce never occur in the same update, while a wall reflection is
independent of the other two. -/
theorem C5_resolutions (env : Libc) (dt : ℚ) (paddle1 paddle2 : Paddle) (u1 u2 : User)
    (b : BallBase) (hp : gamePaddles paddle1 paddle2) (hs : gameBallSize b) :
    (BallBase.update env dt paddle1 paddle2 u1 u2 b).sounds =
      (if b.pos_y + b.vel_y * dt ≤ 0 ∨ 600 ≤ b.pos_y + b.vel_y * dt
        then [Sound.wall_hit] else []) ++
      (if b.pos_x + b.vel_x * dt ≤ 0 ∨ 800 ≤ b.pos_x + b.vel_x * dt
        then [Sound.score] else []) ++
      (if SDL_HasIntersection (BallBase.update_before_paddles env dt u1 u2 b).ball.boundaries
              paddle1.rectangle = true ∨
            SDL_HasIntersection (BallBase.update_before_paddles env dt u1 u2 b).ball.boundaries
              paddle2.rectangle = true
        then [Sound.racket_hit] else []) ∧
    ¬ ((b.pos_x + b.vel_x * dt ≤ 0 ∨ 800 ≤ b.pos_x + b.vel_x * dt) ∧
       (SDL_HasIntersection (BallBase.update_before_paddles env dt u1 u2 b).ball.boundaries
              paddle1.rectangle = true ∨
        SDL_HasIntersection (BallBase.update_before_paddles env dt u1 u2 b).ball.boundaries
              paddle2.rectangle = true)) := by
  constructor
  · unfold BallBase.update
    rw [update_paddles_sounds, update_before_paddles_sounds]
  · rintro ⟨hx, hit⟩
    obtain ⟨i0, i1⟩ := update_hit_inside env dt paddle1 paddle2 u1 u2 b hp hs hit
    rcases hx with h | h <;> linarith

/-- Instance of the amended C5: the corner exit of the counterexample plays the
wall and the score sound and no paddle sound. -/
theorem C5_witness :
    (BallBase.update sampleLibc (1 / 20) racketLeft racketRight (User.new "a")
        (User.new "b") ⟨10, 10, -300, -300, 24, white, -1⟩).sounds
      = [Sound.wall_hit, Sound.score] := by
  have hp : gamePaddles racketLeft racketRight := by
    norm_num [gamePaddles, racketLeft, racketRight, Paddle.new]
  have h := C5_resolutions sampleLibc (1 / 20) racketLeft racketRight (User.new "a")
    (User.new "b") ⟨10, 10, -300, -300, 24, white, -1⟩ hp (Or.inr rfl)
  have hno := h.2
  rw [h.1]
  have hx : ((10 : ℚ) + -300 * (1 / 20) ≤ 0 ∨ (800 : ℚ) ≤ 10 + -300 * (1 / 20)) := by
    left; norm_num
  rw [if_neg (fun hit => hno ⟨hx, hit⟩)]
  norm_num

/-! ## Paddle clamping -/

theorem adjust_boundaries_bounds (p : Paddle) (h6 : p.racket_height ≤ 600) :
    p.adjust_boundaries.racket_height = p.racket_height ∧
    p.racket_height / 2 ≤ p.adjust_boundaries.pos_y ∧
    p.adjust_boundaries.pos_y ≤ 600 - p.racket_height / 2 := by
  unfold Paddle.adjust_boundaries
  split_ifs with h1 h2
  · refine ⟨rfl, le_refl _, ?_⟩
    dsimp only
    linarith
  · refine ⟨rfl, ?_, le_refl _⟩
    dsimp only
    linarith
  · exact ⟨rfl, not_lt.mp h1, not_lt.mp h2⟩

theorem update_height (state : Keys) (dt : ℚ) (p : Paddle) :
    ∃ y : ℚ, Paddle.update state dt p =
      Paddle.adjust_boundaries
        { p with pos_y := y, multiplier := if p.inverse_power_active then -1 else 1 } := by
  unfold Paddle.update Paddle.move_paddle
  dsimp only
  by_cases hi : p.inverse_power_active = true <;> by_cases hl : p.is_left = true <;>
    simp only [hi, hl, if_true, if_false, Bool.false_eq_true] <;>
    split_ifs <;> exact ⟨_, rfl⟩

theorem updateAI_racket (difficulty : ℤ) (ball : BallBase) (dt : ℚ) (p : Paddle) :
    ∃ y : ℚ, (AI.updateAI (some ball) dt ⟨some p, difficulty⟩).racket =
      some (Paddle.adjust_boundaries { p with pos_y := y }) := by
  unfold AI.updateAI Paddle.adjust_boundaries
  dsimp only
  generalize (if difficulty = AI_MODE_EASY then (6 / 10 : ℚ)
      else if difficulty = AI_MODE_NORMAL then 1
      else if difficulty = AI_MODE_HARD then 14 / 10 else 1) = reactionFactor
  by_cases h1 : ball.pos_y < p.pos_y - 10
  · exact ⟨p.pos_y - p.racket_speed * reactionFactor * dt, by simp only [h1, if_true]⟩
  · by_cases h2 : ball.pos_y > p.pos_y + 10
    · exact ⟨p.pos_y + p.racket_speed * reactionFactor * dt, by simp only [h1, h2, if_true, if_false]⟩
    · exact ⟨p.pos_y, by simp only [h1, h2, if_false]⟩

/-- Claim C6: for a paddle whose height is at most 600 (in particular between 0
and 600), whatever its prior y, the keys pressed, the inversion flag and the
elapsed time, after `Paddle::update` the height is unchanged and
height/2 <= y <= 600 - height/2; the same holds for the paddle controlled by
`AI::updateAI`, for every ball and every difficulty value. -/
theorem C6_paddle_clamped (p : Paddle) (h6 : p.racket_height ≤ 600) :
    (∀ (state : Keys) (dt : ℚ),
      (Paddle.update state dt p).racket_height = p.racket_height ∧
      p.racket_height / 2 ≤ (Paddle.update state dt p).pos_y ∧
      (Paddle.update state dt p).pos_y ≤ 600 - p.racket_height / 2) ∧
    (∀ (difficulty : ℤ) (ball : BallBase) (dt : ℚ),
      ∃ q : Paddle, (AI.updateAI (some ball) dt ⟨some p, difficulty⟩).racket = some q ∧
        q.racket_height = p.racket_height ∧
        p.racket_height / 2 ≤ q.pos_y ∧ q.pos_y ≤ 600 - p.racket_height / 2) := by
  constructor
  · intro state dt
    obtain ⟨y, hy⟩ := update_height state dt p
    rw [hy]
    exact adjust_boundaries_bounds _ h6
  · intro difficulty ball dt
    obtain ⟨y, hy⟩ := updateAI_racket difficulty ball dt p
    exact ⟨_, hy, adjust_boundaries_bounds _ h6⟩

/-- Instance of C6 from `test_paddle_boundaries` (height 100, no key pressed):
y = 0 becomes 50 and y = 700 becomes 550. -/
theorem C6_witness :
    (Paddle.update noKeys (1 / 10) { racketLeft with pos_y := 0 }).pos_y = 50 ∧
    (Paddle.update noKeys (1 / 10) { racketLeft with pos_y := 700 }).pos_y = 550 ∧
    (100 : ℚ) / 2 ≤ (Paddle.update noKeys (1 / 10) { racketLeft with pos_y := 0 }).pos_y ∧
    (Paddle.update noKeys (1 / 10) { racketLeft with pos_y := 700 }).pos_y ≤ 600 - 100 / 2 := by
  have h1 := ((C6_paddle_clamped { racketLeft with pos_y := 0 }
    (by norm_num [racketLeft, Paddle.new])).1 noKeys (1 / 10)).2.1
  have h2 := ((C6_paddle_clamped { racketLeft with pos_y := 700 }
    (by norm_num [racketLeft, Paddle.new])).1 noKeys (1 / 10)).2.2
  refine ⟨?_, ?_, h1, h2⟩ <;>
    norm_num [Paddle.update, Paddle.adjust_boundaries, Paddle.move_paddle, noKeys, racketLeft,
      Paddle.new]

/-! ## Power-up state flags -/

@[simp] theorem onAffected_power (first : Bool) (f : Paddle → Paddle) (w : PowerWorld) :
    (w.onAffected first f).power = w.power := by
  unfold PowerWorld.onAffected
  split_ifs <;> rfl

theorem power_reset_flags (env : Libc) (sw : ℤ) (p : Power) :
    (Power.reset env sw p).is_active = true ∧
    (Power.reset env sw p).effect_is_active = p.effect_is_active ∧
    (Power.reset env sw p).y = 1 := ⟨rfl, rfl, rfl⟩

theorem inverse_reset_flags (env : Libc) (sw : ℤ) (p : InversiblePower) :
    (InversiblePower.reset env sw p).is_active = true ∧
    (InversiblePower.reset env sw p).effect_is_active = p.effect_is_active ∧
    (InversiblePower.reset env sw p).y = 0 := ⟨rfl, rfl, rfl⟩

theorem invisible_reset_flags (env : Libc) (sw : ℤ) (p : InvisiblePower) :
    (InvisiblePower.reset env sw p).is_active = true ∧
    (InvisiblePower.reset env sw p).effect_is_active = p.effect_is_active ∧
    (InvisiblePower.reset env sw p).y = 0 := ⟨rfl, rfl, rfl⟩

theorem power_update_active_flags (time : ℚ) (ball : BallBase) (w : PowerWorld)
    (he : w.power.effect_is_active = false) (ha : w.power.is_active = true) :
    (Power.update_active time ball w).power.exactlyOne := by
  unfold Power.exactlyOne Power.update_active
  dsimp only
  split_ifs <;> simp [he, ha]

theorem power_update_effect_flags (env : Libc) (time : ℚ) (w : PowerWorld)
    (he : w.power.effect_is_active = true) (ha : w.power.is_active = false) :
    (Power.update_effect env time w).power.exactlyOne := by
  unfold Power.exactlyOne Power.update_effect
  dsimp only
  split_ifs <;> simp [he, ha, Power.reset]

theorem exactlyOne_cases (p : Power) (h : p.exactlyOne) :
    (p.is_active = true ∧ p.effect_is_active = false) ∨
    (p.is_active = false ∧ p.effect_is_active = true) := by
  unfold Power.exactlyOne at h
  cases ha : p.is_active <;> cases he : p.effect_is_active <;> simp_all

theorem power_update_exactlyOne (env : Libc) (time : ℚ) (ball : BallBase) (w : PowerWorld)
    (h : w.power.exactlyOne) : (Power.update env time ball w).power.exactlyOne := by
  unfold Power.update
  rcases exactlyOne_cases _ h with ⟨ha, he⟩ | ⟨ha, he⟩
  · rw [if_pos ha]
    exact power_update_active_flags time ball w he ha
  · rw [if_neg (by simp [ha]), if_pos he]
    exact power_update_effect_flags env time w he ha

theorem inverse_update_active_flags (time : ℚ) (ball : BallBase) (w : InverseWorld)
    (he : w.power.effect_is_active = false) (ha : w.power.is_active = true) :
    (InversiblePower.update_active time ball w).power.exactlyOne := by
  unfold Power.exactlyOne InversiblePower.update_active
  dsimp only
  split_ifs <;> simp [he, ha]

theorem inverse_update_effect_flags (env : Libc) (time : ℚ) (w : InverseWorld)
    (he : w.power.effect_is_active = true) (ha : w.power.is_active = false) :
    (InversiblePower.update_effect env time w).power.exactlyOne := by
  unfold Power.exactlyOne InversiblePower.update_effect
  dsimp only
  split_ifs <;> simp [he, ha, InversiblePower.reset]

theorem inverse_update_exactlyOne (env : Libc) (time : ℚ) (ball : BallBase)
    (w : InverseWorld) (h : w.power.exactlyOne) :
    (InversiblePower.update env time ball w).power.exactlyOne := by
  unfold InversiblePower.update
  rcases exactlyOne_cases _ h with ⟨ha, he⟩ | ⟨ha, he⟩
  · rw [if_pos ha]
    exact inverse_update_active_flags time ball w he ha
  · rw [if_neg (by simp [ha]), if_pos he]
    exact inverse_update_effect_flags env time w he ha

theorem invisible_update_init_flags (w : InvisibleWorld) :
    (InvisiblePower.update_init w).power.is_active = w.power.is_active ∧
    (InvisiblePower.update_init w).power.effect_is_active = w.power.effect_is_active := by
  unfold InvisiblePower.update_init
  split_ifs <;> exact ⟨rfl, rfl⟩

theorem invisible_update_active_flags (time : ℚ) (w : InvisibleWorld)
    (he : w.power.effect_is_active = false) (ha : w.power.is_active = true) :
    (InvisiblePower.update_active time w).power.exactlyOne := by
  unfold Power.exactlyOne InvisiblePower.update_active
  dsimp only
  split_ifs <;> simp [he, ha]

theorem invisible_update_effect_flags (env : Libc) (time : ℚ) (w : InvisibleWorld)
    (he : w.power.effect_is_active = true) (ha : w.power.is_active = false) :
    (InvisiblePower.update_effect env time w).power.exactlyOne := by
  unfold Power.exactlyOne InvisiblePower.update_effect
  dsimp only
  split_ifs <;> simp [he, ha, InvisiblePower.reset]

theorem invisible_update_exactlyOne (env : Libc) (time : ℚ)
    (w : InvisibleWorld) (h : w.power.exactlyOne) :
    (InvisiblePower.update env time w).power.exactlyOne := by
  unfold InvisiblePower.update
  obtain ⟨i1, i2⟩ := invisible_update_init_flags w
  dsimp only
  rcases exactlyOne_cases _ h with ⟨ha, he⟩ | ⟨ha, he⟩
  · rw [if_pos (i1.trans ha)]
    exact invisible_update_active_flags time _ (i2.trans he) (i1.trans ha)
  · rw [if_neg (by rw [i1]; simp [ha]), if_pos (i2.trans he)]
    exact invisible_update_effect_flags env time _ (i2.trans he) (i1.trans ha)

theorem power_run_exactlyOne (ticks : List PowerTick) (w : PowerWorld)
    (h : w.power.exactlyOne) : (Power.run ticks w).power.exactlyOne := by
  induction ticks generalizing w with
  | nil => exact h
  | cons t ts ih => exact ih _ (power_update_exactlyOne t.env t.time t.ball w h)

theorem inverse_run_exactlyOne (ticks : List PowerTick) (w : InverseWorld)
    (h : w.power.exactlyOne) : (InversiblePower.run ticks w).power.exactlyOne := by
  induction ticks generalizing w with
  | nil => exact h
  | cons t ts ih => exact ih _ (inverse_update_exactlyOne t.env t.time t.ball w h)

theorem invisible_run_exactlyOne (ticks : List PowerTick) (w : InvisibleWorld)
    (h : w.power.exactlyOne) : (InvisiblePower.run ticks w).power.exactlyOne := by
  induction ticks generalizing w with
  | nil => exact h
  | cons t ts ih => exact ih _ (invisible_update_exactlyOne t.env t.time _ h)

/-- Claim C7: for the size booster, the control inverter and the visibility
toggle, in every state reached from construction by any sequence of `update`
calls (any elapsed times, balls and paddles), `is_active` and `effect_is_active`
are not both true and one of them is true. -/
theorem C7_exactly_one_flag :
    (∀ (env : Libc) (sw sh : ℤ) (c0 : SDL_Color) (r1 r2 : Paddle) (ticks : List PowerTick),
      ¬ ((Power.run ticks ⟨Power.new env sw sh c0, r1, r2⟩).power.is_active = true ∧
         (Power.run ticks ⟨Power.new env sw sh c0, r1, r2⟩).power.effect_is_active = true) ∧
      ((Power.run ticks ⟨Power.new env sw sh c0, r1, r2⟩).power.is_active = true ∨
       (Power.run ticks ⟨Power.new env sw sh c0, r1, r2⟩).power.effect_is_active = true)) ∧
    (∀ (env : Libc) (sw sh : ℤ) (c0 : SDL_Color) (rep0 : ℚ) (r1 r2 : Paddle)
        (ticks : List PowerTick),
      ¬ ((InversiblePower.run ticks
            ⟨InversiblePower.new env sw sh c0 rep0, r1, r2⟩).power.is_active = true ∧
         (InversiblePower.run ticks
            ⟨InversiblePower.new env sw sh c0 rep0, r1, r2⟩).power.effect_is_active = true) ∧
      ((InversiblePower.run ticks
            ⟨InversiblePower.new env sw sh c0 rep0, r1, r2⟩).power.is_active = true ∨
       (InversiblePower.run ticks
            ⟨InversiblePower.new env sw sh c0 rep0, r1, r2⟩).power.effect_is_active = true)) ∧
    (∀ (env : Libc) (sw sh : ℤ) (c0 : SDL_Color) (rep0 : ℚ) (init0 : Bool) (ball : BallBase)
        (ticks : List PowerTick),
      ¬ ((InvisiblePower.run ticks
            ⟨InvisiblePower.new env sw sh c0 rep0 init0, ball⟩).power.is_active = true ∧
         (InvisiblePower.run ticks
            ⟨InvisiblePower.new env sw sh c0 rep0 init0, ball⟩).power.effect_is_active = true) ∧
      ((InvisiblePower.run ticks
            ⟨InvisiblePower.new env sw sh c0 rep0 init0, ball⟩).power.is_active = true ∨
       (InvisiblePower.run ticks
            ⟨InvisiblePower.new env sw sh c0 rep0 init0, ball⟩).power.effect_is_active = true)) := by
  refine ⟨?_, ?_, ?_⟩
  · intro env sw sh c0 r1 r2 ticks
    exact power_run_exactlyOne ticks _ ⟨by simp [Power.new, Power.reset], Or.inl rfl⟩
  · intro env sw sh c0 rep0 r1 r2 ticks
    exact inverse_run_exactlyOne ticks _
      ⟨by simp [InversiblePower.new, InversiblePower.reset, Power.new, Power.reset], Or.inl rfl⟩
  · intro env sw sh c0 rep0 init0 ball ticks
    exact invisible_run_exactlyOne ticks _
      ⟨by simp [InvisiblePower.new, InvisiblePower.reset, Power.new, Power.reset], Or.inl rfl⟩

/-! ## The size booster -/

theorem affected_onAffected (first : Bool) (f : Paddle → Paddle) (w : PowerWorld) :
    (w.onAffected first f).affected first = f (w.affected first) ∧
    (w.onAffected first f).affected (!first) = w.affected (!first) := by
  unfold PowerWorld.onAffected PowerWorld.affected
  cases first <;> simp

theorem elapsed_nil : elapsed [] = 0 := rfl

theorem elapsed_cons (t : PowerTick) (ts : List PowerTick) :
    elapsed (t :: ts) = t.time + elapsed ts := by
  unfold elapsed
  simp

theorem elapsed_nonneg (ts : List PowerTick) (h : ∀ u ∈ ts, 0 ≤ u.time) : 0 ≤ elapsed ts := by
  induction ts with
  | nil => exact le_refl _
  | cons t ts ih =>
    rw [elapsed_cons]
    have h1 := h t (List.mem_cons_self _ _)
    have h2 := ih (fun u hu => h u (List.mem_cons_of_mem _ hu))
    linarith

theorem power_run_append (ts : List PowerTick) (t : PowerTick) (w : PowerWorld) :
    Power.run (ts ++ [t]) w = Power.update t.env t.time t.ball (Power.run ts w) := by
  unfold Power.run
  rw [List.foldl_append]
  rfl

/-- Collecting the size booster: the paddle chosen by the midpoint test doubles
in height, the other paddle is untouched and the effect starts with timer 0. -/
theorem power_update_collect (env : Libc) (time : ℚ) (ball : BallBase) (w : PowerWorld)
    (ha : w.power.is_active = true)
    (hc : Power.collision { w.power with y := w.power.y + w.power.speed * time } ball = true) :
    Power.Boosted (decide (ball.pos_x < w.power.x + ((Int.tdiv w.power.width 2 : ℤ) : ℚ)))
      ((w.affected
        (decide (ball.pos_x < w.power.x + ((Int.tdiv w.power.width 2 : ℤ) : ℚ)))).racket_height * 2)
      (w.affected (!decide (ball.pos_x < w.power.x + ((Int.tdiv w.power.width 2 : ℤ) : ℚ))))
      0 (Power.update env time ball w) := by
  unfold Power.update
  rw [if_pos ha]
  unfold Power.update_active
  dsimp only
  rw [if_pos hc]
  obtain ⟨a1, a2⟩ := affected_onAffected
    (decide (ball.pos_x < w.power.x + ((Int.tdiv w.power.width 2 : ℤ) : ℚ)))
    (fun q => { q with racket_height := q.racket_height * 2 })
    { w with power := { w.power with y := w.power.y + w.power.speed * time } }
  unfold Power.Boosted
  refine ⟨?_, ?_, ?_, ?_, ?_, ?_⟩
  · split_ifs <;> rfl
  · split_ifs <;> rfl
  · split_ifs <;> rfl
  · split_ifs <;> rfl
  · exact congrArg Paddle.racket_height a1
  · exact a2

theorem power_update_boosted_lt (env : Libc) (time : ℚ) (ball : BallBase) (w : PowerWorld)
    (first : Bool) (H : ℚ) (other : Paddle) (d : ℚ) (h : Power.Boosted first H other d w)
    (hlt : d + time < 10) :
    Power.Boosted first H other (d + time) (Power.update env time ball w) := by
  obtain ⟨he, ha, hp, hd, hH, ho⟩ := h
  unfold Power.update
  rw [if_neg (by simp [ha]), if_pos he]
  unfold Power.update_effect
  dsimp only
  rw [if_neg (by rw [hd]; exact not_le.mpr hlt)]
  exact ⟨he, ha, hp, by rw [← hd], hH, ho⟩

theorem power_update_boosted_ge (env : Libc) (time : ℚ) (ball : BallBase) (w : PowerWorld)
    (first : Bool) (H : ℚ) (other : Paddle) (d : ℚ) (h : Power.Boosted first H other d w)
    (hge : 10 ≤ d + time) :
    ((Power.update env time ball w).affected first).racket_height = H / 2 ∧
    (Power.update env time ball w).affected (!first) = other ∧
    (Power.update env time ball w).power.is_active = true ∧
    (Power.update env time ball w).power.effect_is_active = false ∧
    (Power.update env time ball w).power.y = 1 := by
  obtain ⟨he, ha, hp, hd, hH, ho⟩ := h
  unfold Power.update
  rw [if_neg (by simp [ha]), if_pos he]
  unfold Power.update_effect
  dsimp only
  rw [if_pos (by rw [hd]; exact hge)]
  unfold PowerWorld.affected PowerWorld.onAffected at *
  cases first <;> simp only [hp, if_true, if_false, Bool.false_eq_true, Bool.not_true,
    Bool.not_false] at * <;> exact ⟨by rw [← hH], ho, rfl, rfl, rfl⟩

theorem power_run_boosted (ts : List PowerTick) (w : PowerWorld)
    (first : Bool) (H : ℚ) (other : Paddle) (d : ℚ) (h : Power.Boosted first H other d w)
    (hnn : ∀ u ∈ ts, 0 ≤ u.time) (hlt : d + elapsed ts < 10) :
    Power.Boosted first H other (d + elapsed ts) (Power.run ts w) := by
  induction ts generalizing w d with
  | nil =>
    rw [elapsed_nil, add_zero]
    exact h
  | cons t ts ih =>
    rw [elapsed_cons] at hlt ⊢
    have h1 := hnn t (List.mem_cons_self _ _)
    have h2 : ∀ u ∈ ts, 0 ≤ u.time := fun u hu => hnn u (List.mem_cons_of_mem _ hu)
    have h3 := elapsed_nonneg ts h2
    have step := power_update_boosted_lt t.env t.time t.ball w first H other d h (by linarith)
    have := ih (Power.update t.env t.time t.ball w) (d + t.time) step h2 (by linarith)
    rw [← add_assoc]
    exact this

/-- Claim C8: size-booster round trip.  After the tick in which the active
booster overlaps the ball, and for every later sequence of ticks (non-negative
elapsed times) whose accumulated time stays below 10 s, the paddle selected at
collection has twice its initial height, the other paddle is unchanged and the
effect is active (so no second doubling occurs); at the first tick at which the
accumulated time reaches 10 s that same paddle is back at exactly its initial
height, the other paddle is still unchanged, and the booster is active again
and respawned at the top (y = 1). -/
theorem C8_size_booster_round_trip (w0 : PowerWorld) (t0 : PowerTick) (first : Bool)
    (ts : List PowerTick)
    (hact : w0.power.is_active = true)
    (hcol : Power.collision { w0.power with y := w0.power.y + w0.power.speed * t0.time }
              t0.ball = true)
    (hfirst : first = decide (t0.ball.pos_x < w0.power.x + ((Int.tdiv w0.power.width 2 : ℤ) : ℚ)))
    (hnn : ∀ u ∈ ts, 0 ≤ u.time) (hlt : elapsed ts < 10) :
    (((Power.run ts (Power.update t0.env t0.time t0.ball w0)).affected first).racket_height
        = 2 * (w0.affected first).racket_height ∧
      (Power.run ts (Power.update t0.env t0.time t0.ball w0)).affected (!first)
        = w0.affected (!first) ∧
      (Power.run ts (Power.update t0.env t0.time t0.ball w0)).power.effect_is_active = true ∧
      (Power.run ts (Power.update t0.env t0.time t0.ball w0)).power.is_active = false) ∧
    (∀ t : PowerTick, 10 ≤ elapsed ts + t.time →
      ((Power.run (ts ++ [t]) (Power.update t0.env t0.time t0.ball w0)).affected
          first).racket_height = (w0.affected first).racket_height ∧
      (Power.run (ts ++ [t]) (Power.update t0.env t0.time t0.ball w0)).affected (!first)
        = w0.affected (!first) ∧
      (Power.run (ts ++ [t]) (Power.update t0.env t0.time t0.ball w0)).power.is_active = true ∧
      (Power.run (ts ++ [t]) (Power.update t0.env t0.time t0.ball w0)).power.effect_is_active
        = false ∧
      (Power.run (ts ++ [t]) (Power.update t0.env t0.time t0.ball w0)).power.y = 1) := by
  have h1 := power_update_collect t0.env t0.time t0.ball w0 hact hcol
  rw [← hfirst] at h1
  have h2 := power_run_boosted ts _ first _ _ 0 h1 hnn (by linarith)
  rw [zero_add] at h2
  constructor
  · obtain ⟨he, ha, -, -, hH, ho⟩ := h2
    exact ⟨by rw [hH]; ring, ho, he, ha⟩
  · intro t hge
    rw [power_run_append]
    obtain ⟨e1, e2, e3, e4, e5⟩ := power_update_boosted_ge t.env t.time t.ball _ first _ _ _ h2 hge
    exact ⟨by rw [e1]; ring, e2, e3, e4, e5⟩

/-! ## The control inverter -/

theorem inverse_run_append (ts : List PowerTick) (t : PowerTick) (w : InverseWorld) :
    InversiblePower.run (ts ++ [t]) w =
      InversiblePower.update t.env t.time t.ball (InversiblePower.run ts w) := by
  unfold InversiblePower.run
  rw [List.foldl_append]
  rfl

/-- Collecting the control inverter: the paddle opposite to the ball's side of
the midpoint gets inverted controls, the other paddle is untouched and both
timers start at 0. -/
theorem inverse_update_collect (env : Libc) (time : ℚ) (ball : BallBase)
    (w : InverseWorld) (ha : w.power.is_active = true)
    (hc : Power.collision { w.power.toPower with y := w.power.y + w.power.speed * time }
            ball = true) :
    InversiblePower.Inverted
      (if ball.pos_x < w.power.x + ((Int.tdiv w.power.width 2 : ℤ) : ℚ)
        then w.racket1 else { w.racket1 with inverse_power_active := true })
      (if ball.pos_x < w.power.x + ((Int.tdiv w.power.width 2 : ℤ) : ℚ)
        then { w.racket2 with inverse_power_active := true } else w.racket2)
      0 (InversiblePower.update env time ball w) := by
  unfold InversiblePower.update
  rw [if_pos ha]
  unfold InversiblePower.update_active
  dsimp only
  rw [if_pos hc]
  unfold InversiblePower.Inverted
  by_cases hm : ball.pos_x < w.power.x + ((Int.tdiv w.power.width 2 : ℤ) : ℚ)
  · simp only [hm, if_true]
    split_ifs <;> exact ⟨rfl, rfl, rfl, rfl, rfl, rfl⟩
  · simp only [hm, if_false]
    split_ifs <;> exact ⟨rfl, rfl, rfl, rfl, rfl, rfl⟩

theorem inverse_update_effect_eq (env : Libc) (time : ℚ) (ball : BallBase)
    (w : InverseWorld) (he : w.power.effect_is_active = true) (ha : w.power.is_active = false) :
    InversiblePower.update env time ball w = InversiblePower.update_effect env time w := by
  unfold InversiblePower.update
  rw [if_neg (by simp [ha]), if_pos he]

theorem inverse_update_inverted_lt (env : Libc) (time : ℚ) (ball : BallBase)
    (w : InverseWorld) (R1 R2 : Paddle) (d : ℚ) (h : InversiblePower.Inverted R1 R2 d w)
    (hlt : d + time < 3) :
    InversiblePower.Inverted R1 R2 (d + time) (InversiblePower.update env time ball w) := by
  obtain ⟨he, ha, hd, hr, h1, h2⟩ := h
  rw [inverse_update_effect_eq env time ball w he ha]
  have e3 : ¬ (3 ≤ w.power.duration_effect + time) := by rw [hd]; linarith
  have e9 : ¬ (9 ≤ w.power.repeat_timer + time) := by rw [hr]; linarith
  unfold InversiblePower.update_effect
  simp only [ge_iff_le, e3, e9, if_false]
  exact ⟨he, ha, by rw [← hd], by rw [← hr], h1, h2⟩

theorem inverse_update_inverted_mid (env : Libc) (time : ℚ) (ball : BallBase)
    (w : InverseWorld) (R1 R2 : Paddle) (d : ℚ) (h : InversiblePower.Inverted R1 R2 d w)
    (hge : 3 ≤ d + time) (hlt : d + time < 9) :
    InversiblePower.Reverted R1 R2 (d + time) (InversiblePower.update env time ball w) := by
  obtain ⟨he, ha, hd, hr, h1, h2⟩ := h
  rw [inverse_update_effect_eq env time ball w he ha]
  have e3 : 3 ≤ w.power.duration_effect + time := by rw [hd]; exact hge
  have e9 : ¬ (9 ≤ w.power.repeat_timer + time) := by rw [hr]; linarith
  unfold InversiblePower.update_effect
  simp only [ge_iff_le, e3, e9, if_true, if_false]
  exact ⟨he, ha, by rw [← hr], by rw [← h1], by rw [← h2]⟩

theorem inverse_update_reverted_lt (env : Libc) (time : ℚ) (ball : BallBase)
    (w : InverseWorld) (R1 R2 : Paddle) (r : ℚ) (h : InversiblePower.Reverted R1 R2 r w)
    (hlt : r + time < 9) :
    InversiblePower.Reverted R1 R2 (r + time) (InversiblePower.update env time ball w) := by
  obtain ⟨he, ha, hr, h1, h2⟩ := h
  rw [inverse_update_effect_eq env time ball w he ha]
  have e9 : ¬ (9 ≤ w.power.repeat_timer + time) := by rw [hr]; linarith
  unfold InversiblePower.update_effect
  by_cases e3 : 3 ≤ w.power.duration_effect + time
  · simp only [ge_iff_le, e3, e9, if_true, if_false]
    exact ⟨he, ha, by rw [← hr], by rw [h1], by rw [h2]⟩
  · simp only [ge_iff_le, e3, e9, if_false]
    exact ⟨he, ha, by rw [← hr], h1, h2⟩

/-- Respawn of the control inverter: when the respawn timer reaches 9 s the
power-up is active again at the top and both inversion flags are cleared. -/
theorem inverse_update_respawn (env : Libc) (time : ℚ) (ball : BallBase)
    (w : InverseWorld) (R1 R2 : Paddle) (r : ℚ)
    (h : InversiblePower.Inverted R1 R2 r w ∨ InversiblePower.Reverted R1 R2 r w)
    (hge : 9 ≤ r + time) :
    (InversiblePower.update env time ball w).power.is_active = true ∧
    (InversiblePower.update env time ball w).power.effect_is_active = false ∧
    (InversiblePower.update env time ball w).power.y = 0 ∧
    (InversiblePower.update env time ball w).racket1 = { R1 with inverse_power_active := false } ∧
    (InversiblePower.update env time ball w).racket2 = { R2 with inverse_power_active := false } := by
  rcases h with ⟨he, ha, hd, hr, h1, h2⟩ | ⟨he, ha, hr, h1, h2⟩
  · rw [inverse_update_effect_eq env time ball w he ha]
    have e3 : 3 ≤ w.power.duration_effect + time := by rw [hd]; linarith
    have e9 : 9 ≤ w.power.repeat_timer + time := by rw [hr]; exact hge
    unfold InversiblePower.update_effect
    simp only [ge_iff_le, e3, e9, if_true]
    exact ⟨rfl, rfl, rfl, by rw [← h1], by rw [← h2]⟩
  · rw [inverse_update_effect_eq env time ball w he ha]
    have e9 : 9 ≤ w.power.repeat_timer + time := by rw [hr]; exact hge
    unfold InversiblePower.update_effect
    by_cases e3 : 3 ≤ w.power.duration_effect + time
    · simp only [ge_iff_le, e3, e9, if_true]
      exact ⟨rfl, rfl, rfl, by rw [h1], by rw [h2]⟩
    · simp only [ge_iff_le, e3, e9, if_true, if_false]
      exact ⟨rfl, rfl, rfl, h1, h2⟩

theorem inverse_run_reverted (ts : List PowerTick) (w : InverseWorld)
    (R1 R2 : Paddle) (r : ℚ) (h : InversiblePower.Reverted R1 R2 r w)
    (hnn : ∀ u ∈ ts, 0 ≤ u.time) (hlt : r + elapsed ts < 9) :
    InversiblePower.Reverted R1 R2 (r + elapsed ts) (InversiblePower.run ts w) := by
  induction ts generalizing w r with
  | nil =>
    rw [elapsed_nil, add_zero]
    exact h
  | cons t ts ih =>
    rw [elapsed_cons] at hlt ⊢
    have h1 := hnn t (List.mem_cons_self _ _)
    have h2 : ∀ u ∈ ts, 0 ≤ u.time := fun u hu => hnn u (List.mem_cons_of_mem _ hu)
    have h3 := elapsed_nonneg ts h2
    have step := inverse_update_reverted_lt t.env t.time t.ball w R1 R2 r h (by linarith)
    have := ih (InversiblePower.update t.env t.time t.ball w) (r + t.time) step h2 (by linarith)
    rw [← add_assoc]
    exact this

theorem inverse_run_inverted (ts : List PowerTick) (w : InverseWorld)
    (R1 R2 : Paddle) (d : ℚ) (h : InversiblePower.Inverted R1 R2 d w) (hd : d < 3)
    (hnn : ∀ u ∈ ts, 0 ≤ u.time) (hlt : d + elapsed ts < 9) :
    (d + elapsed ts < 3 →
      InversiblePower.Inverted R1 R2 (d + elapsed ts) (InversiblePower.run ts w)) ∧
    (3 ≤ d + elapsed ts →
      InversiblePower.Reverted R1 R2 (d + elapsed ts) (InversiblePower.run ts w)) := by
  induction ts generalizing w d with
  | nil =>
    rw [elapsed_nil, add_zero]
    exact ⟨fun _ => h, fun h3 => absurd hd (not_lt.mpr h3)⟩
  | cons t ts ih =>
    rw [elapsed_cons] at hlt ⊢
    have h1 := hnn t (List.mem_cons_self _ _)
    have h2 : ∀ u ∈ ts, 0 ≤ u.time := fun u hu => hnn u (List.mem_cons_of_mem _ hu)
    have h3 := elapsed_nonneg ts h2
    rw [← add_assoc] at hlt ⊢
    by_cases hs : d + t.time < 3
    · exact ih (InversiblePower.update t.env t.time t.ball w) (d + t.time)
        (inverse_update_inverted_lt t.env t.time t.ball w R1 R2 d h hs) hs h2 hlt
    · have hs3 : 3 ≤ d + t.time := not_lt.mp hs
      have step := inverse_update_inverted_mid t.env t.time t.ball w R1 R2 d h hs3
        (by linarith)
      have := inverse_run_reverted ts _ R1 R2 (d + t.time) step h2 hlt
      exact ⟨fun hc => absurd hc (by linarith), fun _ => this⟩

/-! ## The visibility toggle -/

theorem invisible_run_append (ts : List PowerTick) (t : PowerTick) (w : InvisibleWorld) :
    InvisiblePower.run (ts ++ [t]) w =
      InvisiblePower.update t.env t.time
        { InvisiblePower.run ts w with
          ball := { t.ball with color := (InvisiblePower.run ts w).ball.color } } := by
  unfold InvisiblePower.run
  rw [List.foldl_append]
  rfl

theorem invisible_run_cons (t : PowerTick) (ts : List PowerTick) (w : InvisibleWorld) :
    InvisiblePower.run (t :: ts) w =
      InvisiblePower.run ts
        (InvisiblePower.update t.env t.time
          { w with ball := { t.ball with color := w.ball.color } }) := rfl

/-- Collecting the visibility toggle: the ball turns black and both timers
start at 0. -/
theorem invisible_update_collect (env : Libc) (time : ℚ) (w : InvisibleWorld)
    (ha : w.power.is_active = true)
    (hc : Power.collision { w.power.toPower with y := w.power.y + w.power.speed * time }
            w.ball = true) :
    InvisiblePower.Hidden 0 (InvisiblePower.update env time w) := by
  have hi : (InvisiblePower.update_init w).power.toPower = w.power.toPower ∧
      (InvisiblePower.update_init w).power.initialisation = false ∧
      (InvisiblePower.update_init w).ball.boundaries = w.ball.boundaries := by
    unfold InvisiblePower.update_init
    by_cases h : w.power.initialisation = true
    · rw [if_pos h]
      exact ⟨rfl, rfl, rfl⟩
    · rw [if_neg h]
      exact ⟨rfl, by simpa using h, rfl⟩
  obtain ⟨i1, i2, i3⟩ := hi
  unfold InvisiblePower.update
  dsimp only
  rw [if_pos (by rw [i1]; exact ha)]
  have hc2 : Power.collision
      { (InvisiblePower.update_init w).power.toPower with
        y := (InvisiblePower.update_init w).power.y +
          (InvisiblePower.update_init w).power.speed * time }
      (InvisiblePower.update_init w).ball = true := by
    rw [i1]
    unfold Power.collision at hc ⊢
    rw [i3]
    exact hc
  unfold InvisiblePower.update_active
  dsimp only
  rw [if_pos hc2]
  unfold InvisiblePower.Hidden
  split_ifs <;> exact ⟨rfl, rfl, i2, rfl, rfl, rfl⟩

theorem invisible_update_effect_eq (env : Libc) (time : ℚ) (w : InvisibleWorld)
    (he : w.power.effect_is_active = true) (ha : w.power.is_active = false)
    (hi : w.power.initialisation = false) :
    InvisiblePower.update env time w = InvisiblePower.update_effect env time w := by
  have h0 : InvisiblePower.update_init w = w := by
    unfold InvisiblePower.update_init
    rw [if_neg (by simp [hi])]
  unfold InvisiblePower.update
  dsimp only
  rw [h0, if_neg (by simp [ha]), if_pos he]

theorem invisible_update_hidden_lt (env : Libc) (time : ℚ) (w : InvisibleWorld) (d : ℚ)
    (h : InvisiblePower.Hidden d w) (hlt : d + time < 3) :
    InvisiblePower.Hidden (d + time) (InvisiblePower.update env time w) := by
  obtain ⟨he, ha, hi, hd, hr, hc⟩ := h
  rw [invisible_update_effect_eq env time w he ha hi]
  have e3 : ¬ (3 ≤ w.power.duration_effect + time) := by rw [hd]; linarith
  have e13 : ¬ (13 ≤ w.power.repeat_timer + time) := by rw [hr]; linarith
  unfold InvisiblePower.update_effect
  simp only [ge_iff_le, e3, e13, if_false]
  exact ⟨he, ha, hi, by rw [← hd], by rw [← hr], hc⟩

theorem invisible_update_hidden_mid (env : Libc) (time : ℚ) (w : InvisibleWorld) (d : ℚ)
    (h : InvisiblePower.Hidden d w) (hge : 3 ≤ d + time) (hlt : d + time < 13) :
    InvisiblePower.Shown (d + time) (InvisiblePower.update env time w) := by
  obtain ⟨he, ha, hi, hd, hr, hc⟩ := h
  rw [invisible_update_effect_eq env time w he ha hi]
  have e3 : 3 ≤ w.power.duration_effect + time := by rw [hd]; exact hge
  have e13 : ¬ (13 ≤ w.power.repeat_timer + time) := by rw [hr]; linarith
  unfold InvisiblePower.update_effect
  simp only [ge_iff_le, e3, e13, if_true, if_false]
  exact ⟨he, ha, hi, by rw [← hr], rfl⟩

theorem invisible_update_shown_lt (env : Libc) (time : ℚ) (w : InvisibleWorld) (r : ℚ)
    (h : InvisiblePower.Shown r w) (hlt : r + time < 13) :
    InvisiblePower.Shown (r + time) (InvisiblePower.update env time w) := by
  obtain ⟨he, ha, hi, hr, hc⟩ := h
  rw [invisible_update_effect_eq env time w he ha hi]
  have e13 : ¬ (13 ≤ w.power.repeat_timer + time) := by rw [hr]; linarith
  unfold InvisiblePower.update_effect
  by_cases e3 : 3 ≤ w.power.duration_effect + time
  · simp only [ge_iff_le, e3, e13, if_true, if_false]
    exact ⟨he, ha, hi, by rw [← hr], rfl⟩
  · simp only [ge_iff_le, e3, e13, if_false]
    exact ⟨he, ha, hi, by rw [← hr], hc⟩

/-- Respawn of the visibility toggle: when the respawn timer reaches 13 s the
power-up is active again at the top and the ball is white. -/
theorem invisible_update_respawn (env : Libc) (time : ℚ) (w : InvisibleWorld) (r : ℚ)
    (h : InvisiblePower.Hidden r w ∨ InvisiblePower.Shown r w) (hge : 13 ≤ r + time) :
    (InvisiblePower.update env time w).power.is_active = true ∧
    (InvisiblePower.update env time w).power.effect_is_active = false ∧
    (InvisiblePower.update env time w).power.y = 0 ∧
    (InvisiblePower.update env time w).ball.color = white := by
  rcases h with ⟨he, ha, hi, hd, hr, hc⟩ | ⟨he, ha, hi, hr, hc⟩
  · rw [invisible_update_effect_eq env time w he ha hi]
    have e3 : 3 ≤ w.power.duration_effect + time := by rw [hd]; linarith
    have e13 : 13 ≤ w.power.repeat_timer + time := by rw [hr]; exact hge
    unfold InvisiblePower.update_effect
    simp only [ge_iff_le, e3, e13, if_true]
    refine ⟨?_, ?_, ?_, ?_⟩ <;> first | rfl | trivial
  · rw [invisible_update_effect_eq env time w he ha hi]
    have e13 : 13 ≤ w.power.repeat_timer + time := by rw [hr]; exact hge
    unfold InvisiblePower.update_effect
    by_cases e3 : 3 ≤ w.power.duration_effect + time
    · simp only [ge_iff_le, e3, e13, if_true]
      refine ⟨?_, ?_, ?_, ?_⟩ <;> first | rfl | trivial
    · simp only [ge_iff_le, e3, e13, if_true, if_false]
      exact ⟨rfl, rfl, rfl, hc⟩

theorem invisible_hidden_ball (d : ℚ) (w : InvisibleWorld) (b : BallBase)
    (h : InvisiblePower.Hidden d w) :
    InvisiblePower.Hidden d { w with ball := { b with color := w.ball.color } } := h

theorem invisible_shown_ball (r : ℚ) (w : InvisibleWorld) (b : BallBase)
    (h : InvisiblePower.Shown r w) :
    InvisiblePower.Shown r { w with ball := { b with color := w.ball.color } } := h

theorem invisible_run_shown (ts : List PowerTick) (w : InvisibleWorld) (r : ℚ)
    (h : InvisiblePower.Shown r w) (hnn : ∀ u ∈ ts, 0 ≤ u.time) (hlt : r + elapsed ts < 13) :
    InvisiblePower.Shown (r + elapsed ts) (InvisiblePower.run ts w) := by
  induction ts generalizing w r with
  | nil =>
    rw [elapsed_nil, add_zero]
    exact h
  | cons t ts ih =>
    rw [elapsed_cons] at hlt ⊢
    have h1 := hnn t (List.mem_cons_self _ _)
    have h2 : ∀ u ∈ ts, 0 ≤ u.time := fun u hu => hnn u (List.mem_cons_of_mem _ hu)
    have h3 := elapsed_nonneg ts h2
    have step := invisible_update_shown_lt t.env t.time _ r
      (invisible_shown_ball r w t.ball h) (by linarith)
    have := ih _ (r + t.time) step h2 (by linarith)
    rw [← add_assoc, invisible_run_cons]
    exact this

theorem invisible_run_hidden (ts : List PowerTick) (w : InvisibleWorld) (d : ℚ)
    (h : InvisiblePower.Hidden d w) (hd : d < 3)
    (hnn : ∀ u ∈ ts, 0 ≤ u.time) (hlt : d + elapsed ts < 13) :
    (d + elapsed ts < 3 → InvisiblePower.Hidden (d + elapsed ts) (InvisiblePower.run ts w)) ∧
    (3 ≤ d + elapsed ts → InvisiblePower.Shown (d + elapsed ts) (InvisiblePower.run ts w)) := by
  induction ts generalizing w d with
  | nil =>
    rw [elapsed_nil, add_zero]
    exact ⟨fun _ => h, fun h3 => absurd hd (not_lt.mpr h3)⟩
  | cons t ts ih =>
    rw [elapsed_cons] at hlt ⊢
    have h1 := hnn t (List.mem_cons_self _ _)
    have h2 : ∀ u ∈ ts, 0 ≤ u.time := fun u hu => hnn u (List.mem_cons_of_mem _ hu)
    have h3 := elapsed_nonneg ts h2
    rw [← add_assoc] at hlt ⊢
    rw [invisible_run_cons]
    by_cases hs : d + t.time < 3
    · exact ih _ (d + t.time)
        (invisible_update_hidden_lt t.env t.time _ d
          (invisible_hidden_ball d w t.ball h) hs) hs h2 hlt
    · have hs3 : 3 ≤ d + t.time := not_lt.mp hs
      have step := invisible_update_hidden_mid t.env t.time _ d
        (invisible_hidden_ball d w t.ball h) hs3 (by linarith)
      have := invisible_run_shown ts _ (d + t.time) step h2 hlt
      exact ⟨fun hc => absurd hc (by linarith), fun _ => this⟩

/-! ## Claims on the timed effects -/

theorem sample_nonneg : ∀ u ∈ [sampleTick 1, sampleTick 1], (0 : ℚ) ≤ u.time := by
  intro u hu
  simp only [List.mem_cons, List.mem_singleton, List.not_mem_nil, or_false, or_self] at hu
  rw [hu]
  norm_num [sampleTick]

theorem sample_half : Int.tdiv 40 2 = 20 := by decide

theorem sample_elapsed : elapsed [sampleTick 1, sampleTick 1] = 2 := by
  norm_num [elapsed, sampleTick]

theorem sample_collision :
    Power.collision { samplePower with y := samplePower.y + samplePower.speed * (1 / 20) }
      sampleBall = true := by
  norm_num [Power.collision, samplePower, sampleBall, BallBase.boundaries, SDL_HasIntersection,
    SDL_RectEmpty, toInt]

/-- Instance of C8: the sample booster is collected on the left of its midpoint;
after 2 s the left paddle has height 200, and the tick that brings the time to
10 s restores height 100 and reactivates the booster. -/
theorem C8_witness :
    ((Power.run [sampleTick 1, sampleTick 1]
        (Power.update sampleLibc (1 / 20) sampleBall samplePowerWorld)).racket1.racket_height
      = 2 * 100 ∧
     (Power.run [sampleTick 1, sampleTick 1]
        (Power.update sampleLibc (1 / 20) sampleBall samplePowerWorld)).racket2 = racketRight) ∧
    ((Power.run ([sampleTick 1, sampleTick 1] ++ [sampleTick 8])
        (Power.update sampleLibc (1 / 20) sampleBall samplePowerWorld)).racket1.racket_height
      = 100 ∧
     (Power.run ([sampleTick 1, sampleTick 1] ++ [sampleTick 8])
        (Power.update sampleLibc (1 / 20) sampleBall samplePowerWorld)).power.is_active
      = true) := by
  have h := C8_size_booster_round_trip samplePowerWorld (sampleTick (1 / 20)) true
    [sampleTick 1, sampleTick 1] rfl sample_collision
    (by norm_num [sampleTick, samplePowerWorld, samplePower, sampleBall, sample_half])
    sample_nonneg (by rw [sample_elapsed]; norm_num)
  have h2 := h.2 (sampleTick 8) (by rw [sample_elapsed]; norm_num [sampleTick])
  exact ⟨⟨h.1.1, h.1.2.1⟩, ⟨h2.1, h2.2.2.1⟩⟩

/-- Claim C9: control inverter and visibility toggle.  After the tick `t0` that
collects the power-up, along later ticks `ts` with non-negative elapsed times:
while the accumulated time is below 3 s the payload is in force (inversion flag
of the selected paddle set, resp. ball black); once it is at least 3 s and until
respawn the payload is reverted (both inversion flags false, resp. ball white)
and the power-up is still inactive; at the first tick at which the accumulated
time reaches 9 s (inverter) resp. 13 s (toggle) the power-up is active again,
with the payload reverted. -/
theorem C9_timed_effects (ts : List PowerTick) (hnn : ∀ u ∈ ts, 0 ≤ u.time) :
    (∀ (w0 : InverseWorld) (t0 : PowerTick),
      w0.power.is_active = true →
      Power.collision { w0.power.toPower with y := w0.power.y + w0.power.speed * t0.time }
        t0.ball = true →
      (elapsed ts < 3 →
        (t0.ball.pos_x < w0.power.x + ((Int.tdiv w0.power.width 2 : ℤ) : ℚ) →
          (InversiblePower.run (t0 :: ts) w0).racket2.inverse_power_active = true) ∧
        (¬ t0.ball.pos_x < w0.power.x + ((Int.tdiv w0.power.width 2 : ℤ) : ℚ) →
          (InversiblePower.run (t0 :: ts) w0).racket1.inverse_power_active = true) ∧
        (InversiblePower.run (t0 :: ts) w0).power.effect_is_active = true ∧
        (InversiblePower.run (t0 :: ts) w0).power.is_active = false) ∧
      (3 ≤ elapsed ts → elapsed ts < 9 →
        (InversiblePower.run (t0 :: ts) w0).racket1.inverse_power_active = false ∧
        (InversiblePower.run (t0 :: ts) w0).racket2.inverse_power_active = false ∧
        (InversiblePower.run (t0 :: ts) w0).power.effect_is_active = true ∧
        (InversiblePower.run (t0 :: ts) w0).power.is_active = false) ∧
      (elapsed ts < 9 → ∀ t : PowerTick, 9 ≤ elapsed ts + t.time →
        (InversiblePower.run (t0 :: (ts ++ [t])) w0).power.is_active = true ∧
        (InversiblePower.run (t0 :: (ts ++ [t])) w0).power.effect_is_active = false ∧
        (InversiblePower.run (t0 :: (ts ++ [t])) w0).racket1.inverse_power_active = false ∧
        (InversiblePower.run (t0 :: (ts ++ [t])) w0).racket2.inverse_power_active = false)) ∧
    (∀ (w0 : InvisibleWorld) (t0 : PowerTick),
      w0.power.is_active = true →
      Power.collision { w0.power.toPower with y := w0.power.y + w0.power.speed * t0.time }
        t0.ball = true →
      (elapsed ts < 3 →
        (InvisiblePower.run (t0 :: ts) w0).ball.color = black ∧
        (InvisiblePower.run (t0 :: ts) w0).power.effect_is_active = true ∧
        (InvisiblePower.run (t0 :: ts) w0).power.is_active = false) ∧
      (3 ≤ elapsed ts → elapsed ts < 13 →
        (InvisiblePower.run (t0 :: ts) w0).ball.color = white ∧
        (InvisiblePower.run (t0 :: ts) w0).power.effect_is_active = true ∧
        (InvisiblePower.run (t0 :: ts) w0).power.is_active = false) ∧
      (elapsed ts < 13 → ∀ t : PowerTick, 13 ≤ elapsed ts + t.time →
        (InvisiblePower.run (t0 :: (ts ++ [t])) w0).power.is_active = true ∧
        (InvisiblePower.run (t0 :: (ts ++ [t])) w0).power.effect_is_active = false ∧
        (InvisiblePower.run (t0 :: (ts ++ [t])) w0).ball.color = white)) := by
  constructor
  · intro w0 t0 hact hcol
    have h1 := inverse_update_collect t0.env t0.time t0.ball w0 hact hcol
    obtain ⟨R1, hR1⟩ : ∃ R1 : Paddle, R1 =
        (if t0.ball.pos_x < w0.power.x + ((Int.tdiv w0.power.width 2 : ℤ) : ℚ)
          then w0.racket1 else { w0.racket1 with inverse_power_active := true }) := ⟨_, rfl⟩
    obtain ⟨R2, hR2⟩ : ∃ R2 : Paddle, R2 =
        (if t0.ball.pos_x < w0.power.x + ((Int.tdiv w0.power.width 2 : ℤ) : ℚ)
          then { w0.racket2 with inverse_power_active := true } else w0.racket2) := ⟨_, rfl⟩
    rw [← hR1, ← hR2] at h1
    have hrun : ∀ l, InversiblePower.run (t0 :: l) w0 =
        InversiblePower.run l (InversiblePower.update t0.env t0.time t0.ball w0) := fun _ => rfl
    have key : elapsed ts < 9 →
        (elapsed ts < 3 → InversiblePower.Inverted R1 R2 (elapsed ts)
          (InversiblePower.run (t0 :: ts) w0)) ∧
        (3 ≤ elapsed ts → InversiblePower.Reverted R1 R2 (elapsed ts)
          (InversiblePower.run (t0 :: ts) w0)) := by
      intro h9
      have := inverse_run_inverted ts _ R1 R2 0 h1 (by norm_num) hnn (by linarith)
      rw [zero_add] at this
      rw [hrun]
      exact this
    refine ⟨?_, ?_, ?_⟩
    · intro h3
      obtain ⟨he, ha, -, -, e1, e2⟩ := (key (by linarith)).1 h3
      refine ⟨?_, ?_, he, ha⟩
      · intro hm
        rw [e2, hR2, if_pos hm]
      · intro hm
        rw [e1, hR1, if_neg hm]
    · intro h3 h9
      obtain ⟨he, ha, -, e1, e2⟩ := (key h9).2 h3
      exact ⟨by rw [e1], by rw [e2], he, ha⟩
    · intro h9 t hge
      rw [← List.cons_append, inverse_run_append]
      have hs : InversiblePower.Inverted R1 R2 (elapsed ts) (InversiblePower.run (t0 :: ts) w0) ∨
          InversiblePower.Reverted R1 R2 (elapsed ts) (InversiblePower.run (t0 :: ts) w0) := by
        by_cases h3 : elapsed ts < 3
        · exact Or.inl ((key h9).1 h3)
        · exact Or.inr ((key h9).2 (not_lt.mp h3))
      obtain ⟨r1, r2, -, r4, r5⟩ :=
        inverse_update_respawn t.env t.time t.ball _ R1 R2 _ hs hge
      exact ⟨r1, r2, by rw [r4], by rw [r5]⟩
  · intro w0 t0 hact hcol
    have h1 := invisible_update_collect t0.env t0.time
      { w0 with ball := { t0.ball with color := w0.ball.color } } hact hcol
    have key : elapsed ts < 13 →
        (elapsed ts < 3 → InvisiblePower.Hidden (elapsed ts)
          (InvisiblePower.run (t0 :: ts) w0)) ∧
        (3 ≤ elapsed ts → InvisiblePower.Shown (elapsed ts)
          (InvisiblePower.run (t0 :: ts) w0)) := by
      intro h13
      have := invisible_run_hidden ts _ 0 h1 (by norm_num) hnn (by linarith)
      rw [zero_add] at this
      rw [invisible_run_cons]
      exact this
    refine ⟨?_, ?_, ?_⟩
    · intro h3
      obtain ⟨he, ha, -, -, -, hc⟩ := (key (by linarith)).1 h3
      exact ⟨hc, he, ha⟩
    · intro h3 h13
      obtain ⟨he, ha, -, -, hc⟩ := (key h13).2 h3
      exact ⟨hc, he, ha⟩
    · intro h13 t hge
      rw [← List.cons_append, invisible_run_append]
      have hs : InvisiblePower.Hidden (elapsed ts) (InvisiblePower.run (t0 :: ts) w0) ∨
          InvisiblePower.Shown (elapsed ts) (InvisiblePower.run (t0 :: ts) w0) := by
        by_cases h3 : elapsed ts < 3
        · exact Or.inl ((key h13).1 h3)
        · exact Or.inr ((key h13).2 (not_lt.mp h3))
      have hs2 : InvisiblePower.Hidden (elapsed ts)
            { InvisiblePower.run (t0 :: ts) w0 with
              ball := { t.ball with color := (InvisiblePower.run (t0 :: ts) w0).ball.color } } ∨
          InvisiblePower.Shown (elapsed ts)
            { InvisiblePower.run (t0 :: ts) w0 with
              ball := { t.ball with color := (InvisiblePower.run (t0 :: ts) w0).ball.color } } := by
        rcases hs with h | h
        · exact Or.inl (invisible_hidden_ball _ _ _ h)
        · exact Or.inr (invisible_shown_ball _ _ _ h)
      obtain ⟨r1, r2, -, r4⟩ := invisible_update_respawn t.env t.time _ _ hs2 hge
      exact ⟨r1, r2, r4⟩

/-- Instance of C9: 2 s after collection the right paddle is still inverted and
the ball still black; the tick that brings the time to 13 s finds the ball
white. -/
theorem C9_witness :
    (InversiblePower.run (sampleTick (1 / 20) :: [sampleTick 1, sampleTick 1])
        sampleInverseWorld).racket2.inverse_power_active = true ∧
    (InvisiblePower.run (sampleTick (1 / 20) :: [sampleTick 1, sampleTick 1])
        sampleInvisibleWorld).ball.color = black ∧
    (InvisiblePower.run (sampleTick (1 / 20) :: ([sampleTick 1, sampleTick 1] ++ [sampleTick 11]))
        sampleInvisibleWorld).ball.color = white := by
  have h := C9_timed_effects [sampleTick 1, sampleTick 1] sample_nonneg
  have hi := h.1 sampleInverseWorld (sampleTick (1 / 20)) rfl sample_collision
  have hv := h.2 sampleInvisibleWorld (sampleTick (1 / 20)) rfl sample_collision
  refine ⟨?_, ?_, ?_⟩
  · exact (hi.1 (by rw [sample_elapsed]; norm_num)).1
      (by norm_num [sampleTick, sampleInverseWorld, samplePower, sampleBall, sample_half])
  · exact (hv.1 (by rw [sample_elapsed]; norm_num)).1
  · exact (hv.2.2 (by rw [sample_elapsed]; norm_num) (sampleTick 11)
      (by rw [sample_elapsed]; norm_num [sampleTick])).2.2

/-- Claim C10 as amended: when the ball's bounding box overlaps an active power-up,
the paddle that is affected is chosen by the single test `ball x < x + width / 2`,
`width / 2` being the integer division of the source (the horizontal midpoint for
an even width, half a pixel left of it for an odd one).  Size booster: racket1
doubles in height if the test holds, racket2 otherwise.  Control inverter:
racket2 gets the inversion flag if the test holds, racket1 otherwise.  In each
case the other paddle is unchanged, and so are all other fields of the affected
paddle. -/
theorem C10_affected_paddle (env : Libc) (time : ℚ) (ball : BallBase) :
    (∀ w : PowerWorld,
      w.power.is_active = true →
      Power.collision { w.power with y := w.power.y + w.power.speed * time } ball = true →
      (ball.pos_x < w.power.x + ((Int.tdiv w.power.width 2 : ℤ) : ℚ) →
        (Power.update env time ball w).racket1 =
          { w.racket1 with racket_height := w.racket1.racket_height * 2 } ∧
        (Power.update env time ball w).racket2 = w.racket2) ∧
      (¬ ball.pos_x < w.power.x + ((Int.tdiv w.power.width 2 : ℤ) : ℚ) →
        (Power.update env time ball w).racket2 =
          { w.racket2 with racket_height := w.racket2.racket_height * 2 } ∧
        (Power.update env time ball w).racket1 = w.racket1)) ∧
    (∀ w : InverseWorld,
      w.power.is_active = true →
      Power.collision { w.power.toPower with y := w.power.y + w.power.speed * time }
        ball = true →
      (ball.pos_x < w.power.x + ((Int.tdiv w.power.width 2 : ℤ) : ℚ) →
        (InversiblePower.update env time ball w).racket2 =
          { w.racket2 with inverse_power_active := true } ∧
        (InversiblePower.update env time ball w).racket1 = w.racket1) ∧
      (¬ ball.pos_x < w.power.x + ((Int.tdiv w.power.width 2 : ℤ) : ℚ) →
        (InversiblePower.update env time ball w).racket1 =
          { w.racket1 with inverse_power_active := true } ∧
        (InversiblePower.update env time ball w).racket2 = w.racket2)) := by
  constructor
  · intro w ha hc
    unfold Power.update
    rw [if_pos ha]
    unfold Power.update_active
    dsimp only
    rw [if_pos hc]
    constructor
    · intro hm
      simp only [hm, decide_True, PowerWorld.onAffected, if_true]
      constructor <;> first | rfl | trivial
    · intro hm
      simp only [hm, decide_False, PowerWorld.onAffected, if_false, Bool.false_eq_true]
      constructor <;> first | rfl | trivial
  · intro w ha hc
    obtain ⟨-, -, -, -, e1, e2⟩ := inverse_update_collect env time ball w ha hc
    constructor
    · intro hm
      rw [e1, e2, if_pos hm, if_pos hm]
      exact ⟨rfl, rfl⟩
    · intro hm
      rw [e1, e2, if_neg hm, if_neg hm]
      exact ⟨rfl, rfl⟩

/-- Instance of C10: with the ball left of the midpoint the size booster doubles
the left paddle and the control inverter flags the right paddle. -/
theorem C10_witness :
    ((Power.update sampleLibc (1 / 20) sampleBall samplePowerWorld).racket1 =
        { racketLeft with racket_height := racketLeft.racket_height * 2 } ∧
      (Power.update sampleLibc (1 / 20) sampleBall samplePowerWorld).racket2 = racketRight) ∧
    ((InversiblePower.update sampleLibc (1 / 20) sampleBall sampleInverseWorld).racket2 =
        { racketRight with inverse_power_active := true } ∧
      (InversiblePower.update sampleLibc (1 / 20) sampleBall sampleInverseWorld).racket1
        = racketLeft) := by
  have h := C10_affected_paddle sampleLibc (1 / 20) sampleBall
  exact ⟨(h.1 samplePowerWorld rfl sample_collision).1
      (by norm_num [samplePowerWorld, samplePower, sampleBall, sample_half]),
    (h.2 sampleInverseWorld rfl sample_collision).1
      (by norm_num [sampleInverseWorld, samplePower, sampleBall, sample_half])⟩

/-! ## The power-up midpoint for odd widths -/

theorem sampleOdd_collision :
    Power.collision { samplePowerOdd with y := samplePowerOdd.y + samplePowerOdd.speed * (1 / 20) }
      sampleBallMid = true := by
  norm_num [Power.collision, samplePowerOdd, samplePower, sampleBallMid, BallBase.boundaries,
    SDL_HasIntersection, SDL_RectEmpty, toInt]

theorem sampleOdd_half : Int.tdiv 31 2 = 15 := by decide

/-- Claim C10, refuted as stated: the ball at x = 115.2 overlaps the active size
booster of width 31 at x = 100 and is left of its horizontal midpoint 115.5, yet
`Power::update` doubles the right paddle (racket2) and leaves the left paddle as
it is, because the source compares with x + 31 / 2 = 115; the control inverter of
the same geometry flags the left paddle (racket1). -/
theorem C10_counterexample :
    sampleBallMid.pos_x < samplePowerOdd.x + (samplePowerOdd.width : ℚ) / 2 ∧
    Power.collision { samplePowerOdd with y := samplePowerOdd.y + samplePowerOdd.speed * (1 / 20) }
      sampleBallMid = true ∧
    (Power.update sampleLibc (1 / 20) sampleBallMid
      ⟨samplePowerOdd, racketLeft, racketRight⟩).racket1 = racketLeft ∧
    (Power.update sampleLibc (1 / 20) sampleBallMid
      ⟨samplePowerOdd, racketLeft, racketRight⟩).racket2
      = { racketRight with racket_height := racketRight.racket_height * 2 } ∧
    (InversiblePower.update sampleLibc (1 / 20) sampleBallMid
      ⟨{ toPower := samplePowerOdd, inverse_paddle := false, repeat_timer := 0 },
        racketLeft, racketRight⟩).racket1 = { racketLeft with inverse_power_active := true } ∧
    (InversiblePower.update sampleLibc (1 / 20) sampleBallMid
      ⟨{ toPower := samplePowerOdd, inverse_paddle := false, repeat_timer := 0 },
        racketLeft, racketRight⟩).racket2 = racketRight := by
  have hside : ¬ sampleBallMid.pos_x
      < samplePowerOdd.x + ((Int.tdiv samplePowerOdd.width 2 : ℤ) : ℚ) := by
    have : samplePowerOdd.width = 31 := rfl
    rw [this, sampleOdd_half]
    norm_num [sampleBallMid, samplePowerOdd, samplePower]
  refine ⟨by norm_num [sampleBallMid, samplePowerOdd, samplePower], sampleOdd_collision,
    ?_, ?_, ?_, ?_⟩
  · unfold Power.update
    rw [if_pos (show samplePowerOdd.is_active = true from rfl)]
    unfold Power.update_active
    dsimp only
    rw [if_pos sampleOdd_collision]
    simp only [hside, decide_False, PowerWorld.onAffected, if_false, Bool.false_eq_true]
  · unfold Power.update
    rw [if_pos (show samplePowerOdd.is_active = true from rfl)]
    unfold Power.update_active
    dsimp only
    rw [if_pos sampleOdd_collision]
    simp only [hside, decide_False, PowerWorld.onAffected, if_false, Bool.false_eq_true]
  · obtain ⟨-, -, -, -, e1, e2⟩ := inverse_update_collect sampleLibc (1 / 20) sampleBallMid
      ⟨{ toPower := samplePowerOdd, inverse_paddle := false, repeat_timer := 0 },
        racketLeft, racketRight⟩ rfl sampleOdd_collision
    rw [e1, if_neg hside]
  · obtain ⟨-, -, -, -, e1, e2⟩ := inverse_update_collect sampleLibc (1 / 20) sampleBallMid
      ⟨{ toPower := samplePowerOdd, inverse_paddle := false, repeat_timer := 0 },
        racketLeft, racketRight⟩ rfl sampleOdd_collision
    rw [e2, if_neg hside]

/-! ## Inverted controls and the AI controller -/

theorem update_eq_adjust_update_keys (state : Keys) (dt : ℚ) (p : Paddle) :
    Paddle.update state dt p = (Paddle.update_keys state dt p).adjust_boundaries := rfl

theorem update_keys_pos_y (state : Keys) (dt : ℚ) (p : Paddle) :
    (Paddle.update_keys state dt p).pos_y =
      p.pos_y
        + (if Paddle.up_key state p then
            -1 * (if p.inverse_power_active then -1 else 1) * p.racket_speed * dt else 0)
        + (if Paddle.down_key state p then
            1 * (if p.inverse_power_active then -1 else 1) * p.racket_speed * dt else 0) := by
  unfold Paddle.update_keys Paddle.up_key Paddle.down_key Paddle.move_paddle
  cases hi : p.inverse_power_active <;> cases hl : p.is_left <;>
    cases hw : state.w <;> cases hs : state.s <;>
    cases hu : state.up <;> cases hd : state.down <;> simp

/-- Claim C11: for every paddle, key state and elapsed time, the displacement
`Paddle::update` applies before clamping with the inversion flag set is the
negative of the displacement with the flag cleared.  With only the up key
pressed (W for the left paddle, Up for the right) y decreases by speed * dt when
the flag is cleared and increases by speed * dt when it is set; with only the
down key pressed it is the other way round; with both keys or neither key
pressed the displacement is 0 in both cases. -/
theorem C11_inverted_displacement (state : Keys) (dt : ℚ) (p : Paddle) :
    Paddle.displacement state dt true p = - Paddle.displacement state dt false p ∧
    (Paddle.up_key state p = true → Paddle.down_key state p = false →
      Paddle.displacement state dt false p = -(p.racket_speed * dt) ∧
      Paddle.displacement state dt true p = p.racket_speed * dt) ∧
    (Paddle.up_key state p = false → Paddle.down_key state p = true →
      Paddle.displacement state dt false p = p.racket_speed * dt ∧
      Paddle.displacement state dt true p = -(p.racket_speed * dt)) ∧
    (Paddle.up_key state p = Paddle.down_key state p →
      Paddle.displacement state dt false p = 0 ∧
      Paddle.displacement state dt true p = 0) := by
  have key : ∀ inv : Bool, Paddle.displacement state dt inv p =
      (if Paddle.up_key state p then
          -1 * (if inv then -1 else 1) * p.racket_speed * dt else 0)
      + (if Paddle.down_key state p then
          1 * (if inv then -1 else 1) * p.racket_speed * dt else 0) := by
    intro inv
    unfold Paddle.displacement
    rw [update_keys_pos_y]
    have hu : Paddle.up_key state { p with inverse_power_active := inv } = Paddle.up_key state p :=
      rfl
    have hd : Paddle.down_key state { p with inverse_power_active := inv }
        = Paddle.down_key state p := rfl
    rw [hu, hd]
    ring
  rw [key true, key false]
  refine ⟨?_, ?_, ?_, ?_⟩
  · cases Paddle.up_key state p <;> cases Paddle.down_key state p <;> simp
  · intro hu hd
    rw [hu, hd]
    simp
  · intro hu hd
    rw [hu, hd]
    simp
  · intro h
    rw [h]
    cases Paddle.down_key state p <;> simp

/-- Instance of C11 following `test_paddle_inverse_power`: the left paddle with W
pressed for 0.1 s moves by -30 with normal controls and by +30 with inverted
controls. -/
theorem C11_witness :
    Paddle.displacement ⟨true, false, false, false⟩ (1 / 10) false racketLeft = -30 ∧
    Paddle.displacement ⟨true, false, false, false⟩ (1 / 10) true racketLeft = 30 := by
  have h := (C11_inverted_displacement ⟨true, false, false, false⟩ (1 / 10) racketLeft).2.1
    rfl rfl
  rw [h.1, h.2]
  norm_num [racketLeft, Paddle.new]

theorem updateAI_racket_eq (difficulty : ℤ) (ball : BallBase) (dt : ℚ) (p : Paddle) :
    (AI.updateAI (some ball) dt ⟨some p, difficulty⟩).racket =
      some (Paddle.adjust_boundaries { p with pos_y :=
        if ball.pos_y < p.pos_y - 10 then
          p.pos_y - p.racket_speed *
            (if difficulty = AI_MODE_EASY then (6 / 10 : ℚ)
              else if difficulty = AI_MODE_NORMAL then 1
              else if difficulty = AI_MODE_HARD then 14 / 10 else 1) * dt
        else if ball.pos_y > p.pos_y + 10 then
          p.pos_y + p.racket_speed *
            (if difficulty = AI_MODE_EASY then (6 / 10 : ℚ)
              else if difficulty = AI_MODE_NORMAL then 1
              else if difficulty = AI_MODE_HARD then 14 / 10 else 1) * dt
        else p.pos_y }) ∧
    (AI.updateAI (some ball) dt ⟨some p, difficulty⟩).ai_difficulty = difficulty := by
  unfold AI.updateAI Paddle.adjust_boundaries
  dsimp only
  generalize (if difficulty = AI_MODE_EASY then (6 / 10 : ℚ)
      else if difficulty = AI_MODE_NORMAL then 1
      else if difficulty = AI_MODE_HARD then 14 / 10 else 1) = reactionFactor
  by_cases h1 : ball.pos_y < p.pos_y - 10
  · simp only [h1, if_true, and_self]
  · by_cases h2 : ball.pos_y > p.pos_y + 10
    · simp only [h1, h2, if_true, if_false, and_self]
    · simp only [h1, h2, if_false, and_self]

theorem reactionFactor_pos (difficulty : ℤ) :
    (0 : ℚ) < (if difficulty = AI_MODE_EASY then (6 / 10 : ℚ)
      else if difficulty = AI_MODE_NORMAL then 1
      else if difficulty = AI_MODE_HARD then 14 / 10 else 1) := by
  split_ifs <;> norm_num

/-- Claim C12, refuted as stated: the AI paddle at its topmost position (y = 50,
height 100) with the ball at y = 20, more than the offset above it, is not moved
by `AI::updateAI`: the new y is 50 again, not strictly smaller. -/
theorem C12_counterexample :
    sampleBallHigh.pos_y < racketRightTop.pos_y - 10 ∧
    (AI.updateAI (some sampleBallHigh) (1 / 20) ⟨some racketRightTop, AI_MODE_NORMAL⟩).racket.map
      Paddle.pos_y = some racketRightTop.pos_y := by
  constructor
  · norm_num [sampleBallHigh, racketRightTop, racketRight, Paddle.new]
  · rw [(updateAI_racket_eq AI_MODE_NORMAL sampleBallHigh (1 / 20) racketRightTop).1]
    norm_num [Paddle.adjust_boundaries, sampleBallHigh, racketRightTop, racketRight, Paddle.new,
      AI_MODE_NORMAL, AI_MODE_EASY]

/-- Claim C12 as amended: for a paddle with positive speed, every ball, every
difficulty value and dt > 0, one `AI::updateAI` call strictly decreases paddle y
when the ball is more than 10 above the paddle and the paddle is below its upper
limit (y > height/2), and strictly increases it when the ball is more than 10
below and the paddle is above its lower limit (y < 600 - height/2).  With the
paddle exactly at the limit on the ball's side (height at most 600) its y is
unchanged. -/
theorem C12_ai_moves_toward_ball (difficulty : ℤ) (ball : BallBase) (dt : ℚ) (p : Paddle)
    (hdt : 0 < dt) (hs : 0 < p.racket_speed) :
    ∃ q : Paddle, (AI.updateAI (some ball) dt ⟨some p, difficulty⟩).racket = some q ∧
      (ball.pos_y < p.pos_y - 10 → p.racket_height / 2 < p.pos_y → q.pos_y < p.pos_y) ∧
      (ball.pos_y > p.pos_y + 10 → p.pos_y < 600 - p.racket_height / 2 → p.pos_y < q.pos_y) ∧
      (ball.pos_y < p.pos_y - 10 → p.racket_height ≤ 600 → p.pos_y = p.racket_height / 2 →
        q.pos_y = p.pos_y) ∧
      (ball.pos_y > p.pos_y + 10 → p.racket_height ≤ 600 →
        p.pos_y = 600 - p.racket_height / 2 → q.pos_y = p.pos_y) := by
  refine ⟨_, (updateAI_racket_eq difficulty ball dt p).1, ?_⟩
  have hf := reactionFactor_pos difficulty
  generalize (if difficulty = AI_MODE_EASY then (6 / 10 : ℚ)
      else if difficulty = AI_MODE_NORMAL then 1
      else if difficulty = AI_MODE_HARD then 14 / 10 else 1) = f at hf ⊢
  have hm : 0 < p.racket_speed * f * dt := mul_pos (mul_pos hs hf) hdt
  unfold Paddle.adjust_boundaries
  dsimp only
  refine ⟨?_, ?_, ?_, ?_⟩
  · intro hb hy
    rw [if_pos hb]
    split_ifs <;> dsimp only <;> linarith
  · intro hb hy
    have hnb : ¬ ball.pos_y < p.pos_y - 10 := by linarith
    rw [if_neg hnb, if_pos hb]
    split_ifs <;> dsimp only <;> linarith
  · intro hb h6 hy
    rw [if_pos hb]
    split_ifs <;> dsimp only <;> linarith
  · intro hb h6 hy
    have hnb : ¬ ball.pos_y < p.pos_y - 10 := by linarith
    rw [if_neg hnb, if_pos hb]
    split_ifs <;> dsimp only <;> linarith

/-- Instance of the amended C12: the AI paddle at (770, 300) with the ball at
y = 20 moves up by 300 * 1.0 * 0.05 = 15. -/
theorem C12_witness :
    (AI.updateAI (some sampleBallHigh) (1 / 20) ⟨some racketRight, AI_MODE_NORMAL⟩).racket.map
      Paddle.pos_y = some 285 ∧
    (285 : ℚ) < racketRight.pos_y := by
  obtain ⟨q, hq, h1, -⟩ := C12_ai_moves_toward_ball AI_MODE_NORMAL sampleBallHigh (1 / 20)
    racketRight (by norm_num) (by norm_num [racketRight, Paddle.new])
  have hlt := h1 (by norm_num [sampleBallHigh, racketRight, Paddle.new, WINDOW_HEIGHT_half])
    (by norm_num [racketRight, Paddle.new, WINDOW_HEIGHT_half])
  have hv : q.pos_y = 285 := by
    have e := (updateAI_racket_eq AI_MODE_NORMAL sampleBallHigh (1 / 20) racketRight).1
    rw [hq] at e
    have e2 := congrArg (Option.map Paddle.pos_y) e
    simp only [Option.map_some'] at e2
    have e3 := Option.some.inj e2
    rw [e3]
    norm_num [Paddle.adjust_boundaries, sampleBallHigh, racketRight, Paddle.new,
      AI_MODE_NORMAL, AI_MODE_EASY, WINDOW_HEIGHT_half]
  rw [hq]
  exact ⟨by rw [Option.map_some', hv], by rw [← hv]; exact hlt⟩

/-- Claim C13: for every difficulty value and elapsed time, `AI::updateAI` changes
nothing of the paddle but its y (height, x, width, speed, side, inversion flag and
multiplier are kept, and so is the difficulty); and when the paddle's y lies in
[height/2, 600 - height/2] and the ball is within 10 of the paddle's y, the
paddle is left exactly as it was.  The ball is an input of the call only: the
embedded function does not return it, as the source never writes to it. -/
theorem C13_ai_dead_zone (difficulty : ℤ) (ball : BallBase) (dt : ℚ) (p : Paddle) :
    (∃ q : Paddle, (AI.updateAI (some ball) dt ⟨some p, difficulty⟩).racket = some q ∧
      q = { p with pos_y := q.pos_y }) ∧
    (AI.updateAI (some ball) dt ⟨some p, difficulty⟩).ai_difficulty = difficulty ∧
    (p.racket_height / 2 ≤ p.pos_y → p.pos_y ≤ 600 - p.racket_height / 2 →
      |ball.pos_y - p.pos_y| ≤ 10 →
      (AI.updateAI (some ball) dt ⟨some p, difficulty⟩).racket = some p) := by
  obtain ⟨e1, e2⟩ := updateAI_racket_eq difficulty ball dt p
  refine ⟨⟨_, e1, ?_⟩, e2, ?_⟩
  · unfold Paddle.adjust_boundaries
    split_ifs <;> rfl
  · intro h1 h2 hd
    rw [e1]
    obtain ⟨d1, d2⟩ := abs_le.mp hd
    have n1 : ¬ ball.pos_y < p.pos_y - 10 := by linarith
    have n2 : ¬ ball.pos_y > p.pos_y + 10 := by linarith
    rw [if_neg n1, if_neg n2]
    unfold Paddle.adjust_boundaries
    dsimp only
    rw [if_neg (by linarith), if_neg (by linarith)]

/-- Instance of C13: the AI paddle at (770, 300) with the ball at y = 305 is left
as it was. -/
theorem C13_witness :
    (AI.updateAI (some ⟨400, 305, 250, 0, 24, white, -1⟩) (1 / 20)
      ⟨some racketRight, AI_MODE_HARD⟩).racket.map Paddle.pos_y = some 300 := by
  have h := (C13_ai_dead_zone AI_MODE_HARD ⟨400, 305, 250, 0, 24, white, -1⟩ (1 / 20)
    racketRight).2.2
    (by norm_num [racketRight, Paddle.new, WINDOW_HEIGHT_half])
    (by norm_num [racketRight, Paddle.new, WINDOW_HEIGHT_half])
    (by norm_num [racketRight, Paddle.new, WINDOW_HEIGHT_half, abs_le])
  rw [h]
  norm_num [racketRight, Paddle.new, WINDOW_HEIGHT_half]

/-! ## Rounds and the end of a match -/

theorem update_background_color_frame (g : Game) :
    g.update_background_color.player1 = g.player1 ∧
    g.update_background_color.player2 = g.player2 ∧
    g.update_background_color.racket1 = g.racket1 ∧
    g.update_background_color.racket2 = g.racket2 ∧
    g.update_background_color.mBall = g.mBall ∧
    g.update_background_color.mGameState = g.mGameState ∧
    g.update_background_color.notice_id = g.notice_id ∧
    g.update_background_color.game_over_winner = g.game_over_winner ∧
    g.update_background_color.winner = g.winner := by
  unfold Game.update_background_color
  dsimp only
  split_ifs <;> exact ⟨rfl, rfl, rfl, rfl, rfl, rfl, rfl, rfl, rfl⟩


theorem ball_update_users (env : Libc) (dt : ℚ) (r1 r2 : Paddle) (p1 p2 : User) (b : BallBase) :
    (BallBase.update env dt r1 r2 p1 p2 b).player1.name = p1.name ∧
    (BallBase.update env dt r1 r2 p1 p2 b).player1.round = p1.round ∧
    (BallBase.update env dt r1 r2 p1 p2 b).player2.name = p2.name ∧
    (BallBase.update env dt r1 r2 p1 p2 b).player2.round = p2.round ∧
    p1.score ≤ (BallBase.update env dt r1 r2 p1 p2 b).player1.score ∧
    (BallBase.update env dt r1 r2 p1 p2 b).player1.score ≤ p1.score + 1 ∧
    p2.score ≤ (BallBase.update env dt r1 r2 p1 p2 b).player2.score ∧
    (BallBase.update env dt r1 r2 p1 p2 b).player2.score ≤ p2.score + 1 := by
  unfold BallBase.update
  rw [(update_paddles_frame r1 r2 _).1, (update_paddles_frame r1 r2 _).2.1]
  obtain ⟨h1, h2, -⟩ := update_wall_move_facts dt p1 p2 b
  unfold BallBase.update_before_paddles BallBase.update_score
  dsimp only
  split_ifs <;> refine ⟨?_, ?_, ?_, ?_, ?_, ?_, ?_, ?_⟩ <;>
    first
    | (simp only [h1, h2, User.increment_score]; done)
    | (simp only [h1, h2, User.increment_score]; omega)

theorem letter_update_users (font : Char → Option (ℤ × ℤ)) (time : ℚ) (screen_height : ℤ)
    (bx bY r : ℚ) (w : LetterWorld) :
    (Letter.update_letter font time screen_height bx bY r w).player1.name = w.player1.name ∧
    (Letter.update_letter font time screen_height bx bY r w).player1.round = w.player1.round ∧
    (Letter.update_letter font time screen_height bx bY r w).player2.name = w.player2.name ∧
    (Letter.update_letter font time screen_height bx bY r w).player2.round = w.player2.round ∧
    w.player1.score ≤ (Letter.update_letter font time screen_height bx bY r w).player1.score ∧
    (Letter.update_letter font time screen_height bx bY r w).player1.score
      ≤ w.player1.score + 1 ∧
    w.player2.score ≤ (Letter.update_letter font time screen_height bx bY r w).player2.score ∧
    (Letter.update_letter font time screen_height bx bY r w).player2.score
      ≤ w.player2.score + 1 := by
  unfold Letter.update_letter
  dsimp only
  split_ifs <;> refine ⟨?_, ?_, ?_, ?_, ?_, ?_, ?_, ?_⟩ <;>
    first
    | rfl
    | (simp only [User.increment_score]; done)
    | (simp only [User.increment_score]; omega)

theorem default_ball_color_frame (g : Game) :
    (Game.default_ball_color g).player1 = g.player1 ∧
    (Game.default_ball_color g).player2 = g.player2 ∧
    (Game.default_ball_color g).mGameState = g.mGameState ∧
    (Game.default_ball_color g).notice_id = g.notice_id ∧
    (Game.default_ball_color g).winner = g.winner ∧
    (Game.default_ball_color g).game_over_winner = g.game_over_winner := by
  unfold Game.default_ball_color
  split_ifs <;> exact ⟨rfl, rfl, rfl, rfl, rfl, rfl⟩

theorem update_entities_frame (inp : TickInput) (g : Game) :
    (Game.update_entities inp g).mGameState = g.mGameState ∧
    (Game.update_entities inp g).notice_id = g.notice_id ∧
    (Game.update_entities inp g).winner = g.winner ∧
    (Game.update_entities inp g).game_over_winner = g.game_over_winner ∧
    (Game.update_entities inp g).player1.name = g.player1.name ∧
    (Game.update_entities inp g).player1.round = g.player1.round ∧
    (Game.update_entities inp g).player2.name = g.player2.name ∧
    (Game.update_entities inp g).player2.round = g.player2.round ∧
    g.player1.score ≤ (Game.update_entities inp g).player1.score ∧
    (Game.update_entities inp g).player1.score ≤ g.player1.score + 1 ∧
    g.player2.score ≤ (Game.update_entities inp g).player2.score ∧
    (Game.update_entities inp g).player2.score ≤ g.player2.score + 1 := by
  unfold Game.update_entities
  dsimp only
  split_ifs with h
  · cases hm : g.mAI with
    | none =>
      dsimp only
      exact ⟨rfl, rfl, rfl, rfl, ball_update_users _ _ _ _ _ _ _⟩
    | some ai =>
      dsimp only
      exact ⟨rfl, rfl, rfl, rfl, ball_update_users _ _ _ _ _ _ _⟩
  · exact ⟨rfl, rfl, rfl, rfl, ball_update_users _ _ _ _ _ _ _⟩

theorem storytime_updates_frame (inp : TickInput) (g : Game) :
    (Game.storytime_updates inp g).mGameState = g.mGameState ∧
    (Game.storytime_updates inp g).notice_id = g.notice_id ∧
    (Game.storytime_updates inp g).winner = g.winner ∧
    (Game.storytime_updates inp g).game_over_winner = g.game_over_winner ∧
    (Game.storytime_updates inp g).player1.name = g.player1.name ∧
    (Game.storytime_updates inp g).player1.round = g.player1.round ∧
    (Game.storytime_updates inp g).player2.name = g.player2.name ∧
    (Game.storytime_updates inp g).player2.round = g.player2.round ∧
    g.player1.score ≤ (Game.storytime_updates inp g).player1.score ∧
    (Game.storytime_updates inp g).player1.score ≤ g.player1.score + 1 ∧
    g.player2.score ≤ (Game.storytime_updates inp g).player2.score ∧
    (Game.storytime_updates inp g).player2.score ≤ g.player2.score + 1 := by
  unfold Game.storytime_updates
  exact ⟨rfl, rfl, rfl, rfl, letter_update_users _ _ _ _ _ _ _⟩

theorem fun_updates_frame (inp : TickInput) (g : Game) :
    (Game.fun_updates inp g).mGameState = g.mGameState ∧
    (Game.fun_updates inp g).notice_id = g.notice_id ∧
    (Game.fun_updates inp g).winner = g.winner ∧
    (Game.fun_updates inp g).game_over_winner = g.game_over_winner ∧
    (Game.fun_updates inp g).player1 = g.player1 ∧
    (Game.fun_updates inp g).player2 = g.player2 := by
  unfold Game.fun_updates
  exact ⟨rfl, rfl, rfl, rfl, rfl, rfl⟩

/-- The state in which the round logic starts has the mode, the playing state, the
names and the round counts of the state before the tick, and each score has risen
by at most 2. -/
theorem before_round_logic_frame (inp : TickInput) (g : Game) :
    (Game.before_round_logic inp g).mGameState = g.mGameState ∧
    (Game.before_round_logic inp g).notice_id = g.notice_id ∧
    (Game.before_round_logic inp g).winner = g.winner ∧
    (Game.before_round_logic inp g).game_over_winner = g.game_over_winner ∧
    (Game.before_round_logic inp g).player1.name = g.player1.name ∧
    (Game.before_round_logic inp g).player1.round = g.player1.round ∧
    (Game.before_round_logic inp g).player2.name = g.player2.name ∧
    (Game.before_round_logic inp g).player2.round = g.player2.round ∧
    g.player1.score ≤ (Game.before_round_logic inp g).player1.score ∧
    (Game.before_round_logic inp g).player1.score ≤ g.player1.score + 2 ∧
    g.player2.score ≤ (Game.before_round_logic inp g).player2.score ∧
    (Game.before_round_logic inp g).player2.score ≤ g.player2.score + 2 := by
  obtain ⟨d1, d2, d3, d4, d5, d6⟩ := default_ball_color_frame g
  obtain ⟨e1, e2, e3, e4, e5, e6, e7, e8, e9, e10, e11, e12⟩ :=
    update_entities_frame inp (Game.default_ball_color g)
  rw [d1] at e5 e6 e9 e10
  rw [d2] at e7 e8 e11 e12
  unfold Game.before_round_logic
  split_ifs
  · obtain ⟨s1, s2, s3, s4, s5, s6, s7, s8, s9, s10, s11, s12⟩ :=
      storytime_updates_frame inp (Game.update_entities inp (Game.default_ball_color g))
    refine ⟨s1.trans (e1.trans d3), s2.trans (e2.trans d4), s3.trans (e3.trans d5),
      s4.trans (e4.trans d6), s5.trans e5, s6.trans e6, s7.trans e7, s8.trans e8,
      ?_, ?_, ?_, ?_⟩ <;> omega
  · obtain ⟨s1, s2, s3, s4, s5, s6⟩ :=
      fun_updates_frame inp (Game.update_entities inp (Game.default_ball_color g))
    rw [s5, s6]
    refine ⟨s1.trans (e1.trans d3), s2.trans (e2.trans d4), s3.trans (e3.trans d5),
      s4.trans (e4.trans d6), e5, e6, e7, e8, ?_, ?_, ?_, ?_⟩ <;> omega

/-- In a playing state of the Storytime or Fun mode, a tick is the round logic
applied to the state in which it starts, up to the background colours. -/
theorem game_eq_round_logic (inp : TickInput) (g : Game) (hplay : g.in_play)
    (hmode : g.notice_id = STORYTIME_MODE ∨ g.notice_id = FUN_MODE) :
    (Game.game inp g).player1
      = (Game.round_logic g.threshold (Game.before_round_logic inp g)).player1 ∧
    (Game.game inp g).player2
      = (Game.round_logic g.threshold (Game.before_round_logic inp g)).player2 ∧
    (Game.game inp g).mGameState
      = (Game.round_logic g.threshold (Game.before_round_logic inp g)).mGameState ∧
    (Game.game inp g).notice_id
      = (Game.round_logic g.threshold (Game.before_round_logic inp g)).notice_id ∧
    (Game.game inp g).winner
      = (Game.round_logic g.threshold (Game.before_round_logic inp g)).winner ∧
    (Game.game inp g).game_over_winner
      = (Game.round_logic g.threshold (Game.before_round_logic inp g)).game_over_winner := by
  have hguard : ¬ (g.mGameState ≠ game_state.Playing ∧ g.mGameState ≠ game_state.AI_playing ∧
      g.mGameState ≠ game_state.Storytime_playing ∧ g.mGameState ≠ game_state.Fun_playing) := by
    rintro ⟨a, b, c, d⟩
    rcases hplay with h | h | h | h
    · exact a h
    · exact b h
    · exact c h
    · exact d h
  have hn : (Game.update_entities inp (Game.default_ball_color g)).notice_id = g.notice_id :=
    (update_entities_frame inp _).2.1.trans (default_ball_color_frame g).2.2.2.1
  unfold Game.game
  rw [if_neg hguard]
  unfold Game.mode_logic Game.before_round_logic Game.threshold
  rw [hn]
  rcases hmode with h | h
  · rw [h, if_neg (by decide), if_neg (by decide), if_pos rfl, if_pos rfl, if_pos rfl]
    obtain ⟨b1, b2, -, -, -, b6, b7, b8, b9⟩ := update_background_color_frame
      (Game.round_logic 8 (Game.storytime_updates inp
        (Game.update_entities inp (Game.default_ball_color g))))
    exact ⟨b1, b2, b6, b7, b9, b8⟩
  · rw [h, if_neg (by decide), if_neg (by decide), if_neg (by decide), if_pos rfl,
      if_neg (by decide), if_neg (by decide)]
    exact ⟨rfl, rfl, rfl, rfl, rfl, rfl⟩

theorem round_logic_then (T : ℤ) (h : Game)
    (hc : h.player1.score ≥ T ∨ h.player2.score ≥ T) :
    (Game.round_logic T h).player1.round
      = (if h.player1.score > h.player2.score then h.player1.round + 1 else h.player1.round) ∧
    (Game.round_logic T h).player2.round
      = (if h.player1.score > h.player2.score then h.player2.round else h.player2.round + 1) ∧
    (Game.round_logic T h).player1.score = 0 ∧
    (Game.round_logic T h).player2.score = 0 ∧
    (Game.round_logic T h).player1.name = h.player1.name ∧
    (Game.round_logic T h).player2.name = h.player2.name ∧
    (Game.round_logic T h).mGameState = h.mGameState ∧
    (Game.round_logic T h).notice_id = h.notice_id := by
  unfold Game.round_logic
  rw [if_pos hc]
  dsimp only
  split_ifs <;> exact ⟨rfl, rfl, rfl, rfl, rfl, rfl, rfl, rfl⟩

theorem round_logic_over (T : ℤ) (h : Game)
    (hc : ¬ (h.player1.score ≥ T ∨ h.player2.score ≥ T))
    (h3 : h.player1.round + h.player2.round = 3) :
    (Game.round_logic T h).player1 = h.player1 ∧
    (Game.round_logic T h).player2 = h.player2 ∧
    (Game.round_logic T h).mGameState = game_state.GameOver ∧
    (Game.round_logic T h).notice_id = h.notice_id ∧
    (Game.round_logic T h).winner
      = (if h.player1.round > h.player2.round then h.player1.name else h.player2.name) ∧
    (Game.round_logic T h).game_over_winner
      = (if h.player1.round > h.player2.round then h.player1.name else h.player2.name) := by
  unfold Game.round_logic
  rw [if_neg hc, if_pos h3]
  exact ⟨rfl, rfl, rfl, rfl, rfl, rfl⟩

theorem round_logic_idle (T : ℤ) (h : Game)
    (hc : ¬ (h.player1.score ≥ T ∨ h.player2.score ≥ T))
    (h3 : h.player1.round + h.player2.round ≠ 3) :
    Game.round_logic T h = h := by
  unfold Game.round_logic
  rw [if_neg hc, if_neg h3]

theorem threshold_ge (g : Game) : 5 ≤ g.threshold := by
  unfold Game.threshold
  split_ifs <;> decide

theorem ball_update_right_exit (env : Libc) (dt : ℚ) (r1 r2 : Paddle) (p1 p2 : User)
    (b : BallBase) (hx : 800 ≤ b.pos_x + b.vel_x * dt) :
    (BallBase.update env dt r1 r2 p1 p2 b).player1 = p1.increment_score ∧
    (BallBase.update env dt r1 r2 p1 p2 b).player2 = p2 := by
  unfold BallBase.update
  rw [(update_paddles_frame r1 r2 _).1, (update_paddles_frame r1 r2 _).2.1,
    update_before_paddles_right env dt p1 p2 b hx]
  exact ⟨rfl, rfl⟩

theorem update_entities_players (inp : TickInput) (g : Game) :
    ∃ r1 r2 : Paddle,
      (Game.update_entities inp g).player1 = (BallBase.update inp.env_ball (Game.travel_time inp)
        r1 r2 g.player1 g.player2 g.mBall).player1 ∧
      (Game.update_entities inp g).player2 = (BallBase.update inp.env_ball (Game.travel_time inp)
        r1 r2 g.player1 g.player2 g.mBall).player2 := by
  unfold Game.update_entities
  dsimp only
  split_ifs with h
  · cases hm : g.mAI with
    | none => exact ⟨_, _, rfl, rfl⟩
    | some ai => exact ⟨_, _, rfl, rfl⟩
  · exact ⟨_, _, rfl, rfl⟩

theorem sampleStory_before_round_logic :
    8 ≤ (Game.before_round_logic sampleTickInput (sampleStory 7 2 0 0)).player1.score ∧
    (Game.before_round_logic sampleTickInput (sampleStory 7 2 0 0)).player2.score
      < (Game.before_round_logic sampleTickInput (sampleStory 7 2 0 0)).player1.score := by
  have hb : Game.before_round_logic sampleTickInput (sampleStory 7 2 0 0)
      = Game.storytime_updates sampleTickInput (Game.update_entities sampleTickInput
          (Game.default_ball_color (sampleStory 7 2 0 0))) := by
    unfold Game.before_round_logic
    rw [if_pos (show (sampleStory 7 2 0 0).notice_id = STORYTIME_MODE from rfl)]
  have hd : Game.default_ball_color (sampleStory 7 2 0 0) = sampleStory 7 2 0 0 := by
    unfold Game.default_ball_color
    rw [if_pos (show (sampleStory 7 2 0 0).mGameState = game_state.AI_playing ∨
      (sampleStory 7 2 0 0).mGameState = game_state.Storytime_playing ∨
      (sampleStory 7 2 0 0).mGameState = game_state.Playing from Or.inr (Or.inl rfl))]
    rfl
  obtain ⟨r1, r2, e1, e2⟩ := update_entities_players sampleTickInput (sampleStory 7 2 0 0)
  have hx : 800 ≤ (sampleStory 7 2 0 0).mBall.pos_x
      + (sampleStory 7 2 0 0).mBall.vel_x * Game.travel_time sampleTickInput := by
    norm_num [sampleStory, Game.travel_time, sampleTickInput]
  obtain ⟨x1, x2⟩ := ball_update_right_exit sampleTickInput.env_ball
    (Game.travel_time sampleTickInput) r1 r2 (sampleStory 7 2 0 0).player1
    (sampleStory 7 2 0 0).player2 (sampleStory 7 2 0 0).mBall hx
  rw [x1] at e1
  rw [x2] at e2
  obtain ⟨-, -, -, -, -, -, -, -, s9, -, -, s12⟩ := storytime_updates_frame sampleTickInput
    (Game.update_entities sampleTickInput (sampleStory 7 2 0 0))
  rw [hb, hd]
  rw [e1] at s9
  rw [e2] at s12
  have a1 : (sampleStory 7 2 0 0).player1.increment_score.score = 8 := rfl
  have a2 : (sampleStory 7 2 0 0).player2.score = 2 := rfl
  rw [a1] at s9
  rw [a2] at s12
  constructor <;> omega

/-- Claim C14: in a tick of the Storytime mode (threshold T = 8) or of the Fun mode
(T = 5) run in a playing state, the state in which the round logic starts (after
the ball and the letter or power-up updates) has the round counts of the state
before the tick; if there one player's score is at least T and the opponent's is
lower, the tick raises that player's round count by exactly 1, leaves the
opponent's round count unchanged and sets both scores to 0; if neither score is at
least T, the tick leaves both round counts unchanged and the scores as the
updates left them; in every case each round count rises by 0 or 1 and their sum by
at most 1. -/
theorem C14_round_accounting (inp : TickInput) (g : Game) (hplay : g.in_play)
    (hmode : g.notice_id = STORYTIME_MODE ∨ g.notice_id = FUN_MODE) :
    ((g.notice_id = STORYTIME_MODE → g.threshold = 8) ∧
     (g.notice_id = FUN_MODE → g.threshold = 5)) ∧
    ((Game.before_round_logic inp g).player1.round = g.player1.round ∧
     (Game.before_round_logic inp g).player2.round = g.player2.round) ∧
    (g.threshold ≤ (Game.before_round_logic inp g).player1.score ∧
      (Game.before_round_logic inp g).player2.score
        < (Game.before_round_logic inp g).player1.score →
      (Game.game inp g).player1.round = g.player1.round + 1 ∧
      (Game.game inp g).player2.round = g.player2.round ∧
      (Game.game inp g).player1.score = 0 ∧ (Game.game inp g).player2.score = 0) ∧
    (g.threshold ≤ (Game.before_round_logic inp g).player2.score ∧
      (Game.before_round_logic inp g).player1.score
        < (Game.before_round_logic inp g).player2.score →
      (Game.game inp g).player2.round = g.player2.round + 1 ∧
      (Game.game inp g).player1.round = g.player1.round ∧
      (Game.game inp g).player1.score = 0 ∧ (Game.game inp g).player2.score = 0) ∧
    ((Game.before_round_logic inp g).player1.score < g.threshold ∧
      (Game.before_round_logic inp g).player2.score < g.threshold →
      (Game.game inp g).player1.round = g.player1.round ∧
      (Game.game inp g).player2.round = g.player2.round ∧
      (Game.game inp g).player1.score = (Game.before_round_logic inp g).player1.score ∧
      (Game.game inp g).player2.score = (Game.before_round_logic inp g).player2.score) ∧
    (g.player1.round ≤ (Game.game inp g).player1.round ∧
     (Game.game inp g).player1.round ≤ g.player1.round + 1 ∧
     g.player2.round ≤ (Game.game inp g).player2.round ∧
     (Game.game inp g).player2.round ≤ g.player2.round + 1 ∧
     (Game.game inp g).player1.round + (Game.game inp g).player2.round
       ≤ g.player1.round + g.player2.round + 1) := by
  obtain ⟨g1, g2, -, -, -, -⟩ := game_eq_round_logic inp g hplay hmode
  obtain ⟨-, -, -, -, -, f6, -, f8, -, -, -, -⟩ := before_round_logic_frame inp g
  rw [g1, g2]
  refine ⟨⟨fun h => by unfold Game.threshold; rw [if_pos h],
    fun h => by unfold Game.threshold; rw [h, if_neg (by decide)]⟩, ⟨f6, f8⟩, ?_, ?_, ?_, ?_⟩
  · rintro ⟨a, b⟩
    obtain ⟨r1, r2, r3, r4, -⟩ :=
      round_logic_then g.threshold (Game.before_round_logic inp g) (Or.inl a)
    rw [r1, r2, if_pos b, if_pos b, f6, f8]
    exact ⟨rfl, rfl, r3, r4⟩
  · rintro ⟨a, b⟩
    obtain ⟨r1, r2, r3, r4, -⟩ :=
      round_logic_then g.threshold (Game.before_round_logic inp g) (Or.inr a)
    rw [r1, r2, if_neg (by omega), if_neg (by omega), f6, f8]
    exact ⟨rfl, rfl, r3, r4⟩
  · rintro ⟨a, b⟩
    have hc : ¬ ((Game.before_round_logic inp g).player1.score ≥ g.threshold ∨
        (Game.before_round_logic inp g).player2.score ≥ g.threshold) := by
      rintro (h | h) <;> omega
    by_cases h3 : (Game.before_round_logic inp g).player1.round
        + (Game.before_round_logic inp g).player2.round = 3
    · obtain ⟨o1, o2, -⟩ := round_logic_over _ _ hc h3
      rw [o1, o2]
      exact ⟨f6, f8, rfl, rfl⟩
    · rw [round_logic_idle _ _ hc h3]
      exact ⟨f6, f8, rfl, rfl⟩
  · by_cases hc : (Game.before_round_logic inp g).player1.score ≥ g.threshold ∨
        (Game.before_round_logic inp g).player2.score ≥ g.threshold
    · obtain ⟨r1, r2, -⟩ := round_logic_then g.threshold _ hc
      rw [r1, r2, f6, f8]
      split_ifs <;> refine ⟨?_, ?_, ?_, ?_, ?_⟩ <;> omega
    · by_cases h3 : (Game.before_round_logic inp g).player1.round
          + (Game.before_round_logic inp g).player2.round = 3
      · obtain ⟨o1, o2, -⟩ := round_logic_over _ _ hc h3
        rw [o1, o2, f6, f8]
        refine ⟨?_, ?_, ?_, ?_, ?_⟩ <;> omega
      · rw [round_logic_idle _ _ hc h3, f6, f8]
        refine ⟨?_, ?_, ?_, ?_, ?_⟩ <;> omega

/-- Witness for C14: the sample Storytime game with scores 7 and 2 and no round
won, whose ball leaves through the right edge in the tick: player 1 reaches 8,
wins the round, and both scores are 0 after the tick. -/
theorem C14_witness :
    (sampleStory 7 2 0 0).in_play ∧ (sampleStory 7 2 0 0).notice_id = STORYTIME_MODE ∧
    (Game.game sampleTickInput (sampleStory 7 2 0 0)).player1.round = 1 ∧
    (Game.game sampleTickInput (sampleStory 7 2 0 0)).player2.round = 0 ∧
    (Game.game sampleTickInput (sampleStory 7 2 0 0)).player1.score = 0 ∧
    (Game.game sampleTickInput (sampleStory 7 2 0 0)).player2.score = 0 :=
  ⟨Or.inr (Or.inr (Or.inl rfl)), rfl,
    (C14_round_accounting sampleTickInput (sampleStory 7 2 0 0) (Or.inr (Or.inr (Or.inl rfl)))
      (Or.inl rfl)).2.2.1 sampleStory_before_round_logic⟩

theorem in_play_not_over (g : Game) (h : g.in_play) : g.mGameState ≠ game_state.GameOver := by
  intro e
  unfold Game.in_play at h
  rw [e] at h
  rcases h with h | h | h | h <;> exact absurd h (by decide)

theorem game_of_over (inp : TickInput) (g : Game) (h : g.mGameState = game_state.GameOver) :
    Game.game inp g = g := by
  unfold Game.game
  rw [if_pos]
  rw [h]
  exact ⟨by decide, by decide, by decide, by decide⟩

theorem match_start_invariant (g : Game) (h : g.match_start) : g.match_invariant := by
  obtain ⟨hm, hp, r1, r2, s1, s2⟩ := h
  refine ⟨hm, by omega, by omega, by omega, Or.inl ⟨hp, fun _ => ⟨s1, s2⟩⟩⟩

/-- In a reachable state in play whose round counts add up to 3, neither score
reaches the threshold within the next tick. -/
theorem no_round_at_three (inp : TickInput) (g : Game)
    (hs : g.player1.score = 0 ∧ g.player2.score = 0) :
    ¬ ((Game.before_round_logic inp g).player1.score ≥ g.threshold ∨
       (Game.before_round_logic inp g).player2.score ≥ g.threshold) := by
  obtain ⟨-, -, -, -, -, -, -, -, -, f10, -, f12⟩ := before_round_logic_frame inp g
  have ht := threshold_ge g
  rintro (h | h) <;> omega

/-- One tick keeps the invariant of a match. -/
theorem game_match_invariant (inp : TickInput) (g : Game) (h : g.match_invariant) :
    (Game.game inp g).match_invariant := by
  obtain ⟨hm, n1, n2, le3, hcase⟩ := h
  rcases hcase with ⟨hp, hz⟩ | hover
  · obtain ⟨g1, g2, g3, g4, g5, g6⟩ := game_eq_round_logic inp g hp hm
    obtain ⟨f1, f2, f3, f4, f5, f6, f7, f8, f9, f10, f11, f12⟩ := before_round_logic_frame inp g
    unfold Game.match_invariant Game.in_play
    rw [g1, g2, g3, g4, g5, g6]
    by_cases hc : (Game.before_round_logic inp g).player1.score ≥ g.threshold ∨
        (Game.before_round_logic inp g).player2.score ≥ g.threshold
    · have hne : g.player1.round + g.player2.round ≠ 3 := by
        intro e
        exact no_round_at_three inp g (hz e) hc
      obtain ⟨r1, r2, r3, r4, r5, r6, r7, r8⟩ := round_logic_then g.threshold _ hc
      rw [r1, r2, r3, r4, r7, r8, f1, f2, f6, f8]
      refine ⟨hm, ?_, ?_, ?_, Or.inl ⟨hp, fun _ => ⟨rfl, rfl⟩⟩⟩ <;> split_ifs <;> omega
    · by_cases h3 : (Game.before_round_logic inp g).player1.round
          + (Game.before_round_logic inp g).player2.round = 3
      · obtain ⟨o1, o2, o3, o4, o5, o6⟩ := round_logic_over _ _ hc h3
        rw [o1, o2, o3, o4, o5, o6, f2, f6, f8]
        rw [f6, f8] at h3
        exact ⟨hm, n1, n2, le3, Or.inr ⟨rfl, h3, rfl, rfl⟩⟩
      · rw [round_logic_idle _ _ hc h3, f1, f2, f6, f8]
        rw [f6, f8] at h3
        exact ⟨hm, n1, n2, le3, Or.inl ⟨hp, fun e => absurd e h3⟩⟩
  · rw [game_of_over inp g hover.1]
    exact ⟨hm, n1, n2, le3, Or.inr hover⟩

theorem run_match_invariant (inps : List TickInput) (g : Game) (h : g.match_invariant) :
    (Game.run inps g).match_invariant := by
  induction inps generalizing g with
  | nil => exact h
  | cons inp rest ih => exact ih (Game.game inp g) (game_match_invariant inp g h)

/-- From a state satisfying the invariant, a tick ends in `GameOver` exactly when
the round counts before it add up to 3. -/
theorem game_over_iff (inp : TickInput) (g : Game) (h : g.match_invariant) :
    (Game.game inp g).mGameState = game_state.GameOver ↔
      g.player1.round + g.player2.round = 3 := by
  obtain ⟨hm, n1, n2, le3, hcase⟩ := h
  rcases hcase with ⟨hp, hz⟩ | hover
  · obtain ⟨-, -, g3, -⟩ := game_eq_round_logic inp g hp hm
    obtain ⟨f1, -, -, -, -, f6, -, f8, -⟩ := before_round_logic_frame inp g
    rw [g3]
    by_cases hc : (Game.before_round_logic inp g).player1.score ≥ g.threshold ∨
        (Game.before_round_logic inp g).player2.score ≥ g.threshold
    · have hne : g.player1.round + g.player2.round ≠ 3 := by
        intro e
        exact no_round_at_three inp g (hz e) hc
      obtain ⟨-, -, -, -, -, -, r7, -⟩ := round_logic_then g.threshold _ hc
      rw [r7, f1]
      exact ⟨fun e => absurd e (in_play_not_over g hp), fun e => absurd e hne⟩
    · by_cases h3 : (Game.before_round_logic inp g).player1.round
          + (Game.before_round_logic inp g).player2.round = 3
      · obtain ⟨-, -, o3, -⟩ := round_logic_over _ _ hc h3
        rw [o3]
        rw [f6, f8] at h3
        exact ⟨fun _ => h3, fun _ => rfl⟩
      · rw [round_logic_idle _ _ hc h3, f1]
        rw [f6, f8] at h3
        exact ⟨fun e => absurd e (in_play_not_over g hp), fun e => absurd e h3⟩
  · rw [game_of_over inp g hover.1]
    exact ⟨fun _ => hover.2.1, fun _ => hover.1⟩

/-! ## The direction and speed after a reset -/

theorem speed_sq_eq (env : Libc) :
    (300 * env.cos (BallBase.direction_angle env)) ^ 2 +
      (300 * env.sin (BallBase.direction_angle env)) ^ 2
      = 300 ^ 2 * (env.cos (BallBase.direction_angle env) ^ 2 +
          env.sin (BallBase.direction_angle env) ^ 2) := by
  ring

theorem direction_angle_sample :
    BallBase.direction_angle sampleLibc = 23561925 / 10000000 := by
  norm_num [BallBase.direction_angle, sampleLibc]

/-- Claim C17 at the failing draw (first draw a multiple of 90, second draw even,
as with `sampleLibc`): the angle handed to `std::cos` and `std::sin` is
0.75 * 3.14159 = 2.3561925 rad, which lies strictly between pi/4 and 3 pi/4, so
for the exact cosine and sine |cos| < |sin|: the velocity has |vx| < |vy| and the
direction is more than 45 degrees away from the horizontal axis. -/
theorem C17_extreme_draw_exceeds_45_degrees :
    BallBase.direction_angle sampleLibc = 23561925 / 10000000 ∧
    |300 * Real.cos ((BallBase.direction_angle sampleLibc : ℚ) : ℝ)| <
      |300 * Real.sin ((BallBase.direction_angle sampleLibc : ℚ) : ℝ)| := by
  refine ⟨direction_angle_sample, ?_⟩
  rw [direction_angle_sample]
  have hpi1 := Real.pi_gt_d6
  have hpi2 := Real.pi_lt_d2
  have hx : (((23561925 / 10000000 : ℚ)) : ℝ) = 23561925 / 10000000 := by norm_num
  rw [hx]
  have hc : Real.cos (2 * (23561925 / 10000000 : ℝ)) < 0 := by
    apply Real.cos_neg_of_pi_div_two_lt_of_lt
    · linarith
    · linarith
  rw [Real.cos_two_mul] at hc
  have hs := Real.sin_sq_add_cos_sq (23561925 / 10000000 : ℝ)
  rw [abs_mul, abs_mul]
  have h300 : (0 : ℝ) < |300| := by norm_num
  apply mul_lt_mul_of_pos_left _ h300
  rw [← sq_lt_sq]
  nlinarith

/-! ## The save codec -/

theorem codec_byte_involutive (b : Byte) : codec_byte (codec_byte b) = b := by
  have hk : KEY.val = 131 := rfl
  have hb : b.val < 2 ^ 8 := b.isLt
  have h1 : b.val ^^^ 131 < 256 := Nat.xor_lt_two_pow hb (by norm_num)
  have h2 : (b.val ^^^ 131) ^^^ 131 = b.val := by
    rw [Nat.xor_assoc, Nat.xor_self, Nat.xor_zero]
  apply Fin.ext
  unfold codec_byte
  simp only [hk]
  rw [Nat.mod_eq_of_lt h1, h2]
  exact Nat.mod_eq_of_lt b.isLt

theorem codec_int_involutive (v : Fin 4 → Byte) : codec_int (codec_int v) = v := by
  funext i
  exact codec_byte_involutive (v i)

theorem codec_float_involutive (v : Fin 4 → Byte) : codec_float (codec_float v) = v := by
  funext i
  exact codec_byte_involutive (v i)

theorem codec_string_involutive (s : Fin 20 → Byte) :
    codec_string (codec_string s 20) 20 = s := by
  funext i
  unfold codec_string
  rw [if_pos i.isLt, if_pos i.isLt]
  exact codec_byte_involutive (s i)

theorem load_save_eq (state : SaveState) (file : SaveFile) (garbage : SaveState) :
    Saving.load_game (Saving.save_game true state file).2 garbage = (true, state) := by
  unfold Saving.save_game Saving.load_game
  simp only [Bool.not_true, Bool.false_eq_true, if_false, codec_int_involutive,
    codec_float_involutive, codec_string_involutive]

/-- Claim C18: `codec_byte` is an involution on bytes, and `Saving::load_game`
applied to the file written by a successful `Saving::save_game` succeeds and
returns a `SaveState` equal to the saved one in every field (every byte of the
two scores, two paddle positions, ball position and velocity, ball type and the
two 20-byte name slots), for every `SaveState`. -/
theorem C18_codec_round_trip :
    (∀ b : Byte, codec_byte (codec_byte b) = b) ∧
    (∀ (state : SaveState) (file : SaveFile) (garbage : SaveState),
      (Saving.save_game true state file).1 = true ∧
      Saving.load_game (Saving.save_game true state file).2 garbage = (true, state)) :=
  ⟨codec_byte_involutive, fun state file garbage => ⟨rfl, load_save_eq state file garbage⟩⟩

/-! ## Saving and continuing a game -/

theorem takeWhile_append_zeros (t : List Byte) (k : ℕ) (ht : ∀ b ∈ t, b ≠ 0) :
    (t ++ List.replicate k (0 : Byte)).takeWhile (fun b => b ≠ 0) = t := by
  induction t with
  | nil =>
    cases k with
    | zero => rfl
    | succ k => simp [List.replicate_succ, List.takeWhile]
  | cons a t ih =>
    have ha : a ≠ 0 := ht a (List.mem_cons_self _ _)
    have := ih (fun b hb => ht b (List.mem_cons_of_mem _ hb))
    rw [List.cons_append, List.takeWhile_cons_of_pos (by simpa using ha), this]

theorem slot_as_list (garbage : Fin 20 → Byte) (src : List Byte) :
    List.ofFn (terminate19 (strncpy garbage src 19)) =
      (src.takeWhile (fun b => b ≠ 0)).take 19 ++
        List.replicate (20 - ((src.takeWhile (fun b => b ≠ 0)).take 19).length) (0 : Byte) := by
  have hlen : ((src.takeWhile (fun b => b ≠ 0)).take 19).length ≤ 19 := by
    rw [List.length_take]
    exact Nat.min_le_left _ _
  apply List.ext_getElem
  · rw [List.length_ofFn, List.length_append, List.length_replicate]
    omega
  · intro i h1 h2
    rw [List.getElem_ofFn]
    unfold terminate19 strncpy
    simp only
    by_cases h19 : i = 19
    · rw [if_pos h19, List.getElem_append_right (by omega), List.getElem_replicate]
    · rw [if_neg h19]
      rw [List.length_ofFn] at h1
      have hi : i < 19 := by omega
      rw [if_pos hi]
      by_cases hs : i < (src.takeWhile (fun b => b ≠ 0)).length
      · have ht : i < ((src.takeWhile (fun b => b ≠ 0)).take 19).length := by
          rw [List.length_take]
          omega
        rw [List.getElem_append_left ht, List.getElem_take, List.getD_eq_getElem _ _ hs]
      · have ht : ¬ i < ((src.takeWhile (fun b => b ≠ 0)).take 19).length := by
          rw [List.length_take]
          omega
        rw [List.getElem_append_right (by omega), List.getElem_replicate,
          List.getD_eq_default _ _ (by omega)]

theorem slot_read (garbage : Fin 20 → Byte) (name : String) :
    string_of_chars (terminate19 (strncpy garbage (c_str name) 19)) = truncated_name name := by
  unfold string_of_chars truncated_name
  rw [slot_as_list, takeWhile_append_zeros]
  intro b hb
  have hb2 := List.mem_of_mem_take hb
  have := List.mem_takeWhile_imp hb2
  simpa using this

theorem byteChar_charByte (c : Char) (h : c.toNat < 256) : byteChar (charByte c) = c := by
  unfold byteChar charByte
  simp only [Nat.mod_eq_of_lt h]
  exact Char.ofNat_toNat c

theorem truncated_name_of_fits (name : String) (h : fits_name_slot name) :
    truncated_name name = name := by
  obtain ⟨hl, hc⟩ := h
  unfold truncated_name c_str
  have h1 : (name.data.map charByte).takeWhile (fun b => b ≠ 0) = name.data.map charByte := by
    rw [List.takeWhile_eq_self_iff]
    intro b hb
    obtain ⟨c, hcm, rfl⟩ := List.mem_map.mp hb
    obtain ⟨c0, c256⟩ := hc c hcm
    have : charByte c ≠ 0 := by
      intro h0
      have hv := congrArg Fin.val h0
      unfold charByte at hv
      simp only [Nat.mod_eq_of_lt c256] at hv
      exact c0 hv
    simpa using this
  rw [h1, List.take_of_length_le (by rw [List.length_map]; exact hl), List.map_map]
  have h2 : name.data.map (byteChar ∘ charByte) = name.data := by
    conv_rhs => rw [← List.map_id name.data]
    apply List.map_congr_left
    intro c hcm
    exact byteChar_charByte c (hc c hcm).2
  rw [h2]

theorem apply_saved_state_fields (om : ObjectModel) (env : Libc) (color0 : SDL_Color)
    (s : SaveState) (g : Game) :
    (Game.apply_saved_state om env color0 s g).player1.score = om.bytes_int s.score1 ∧
    (Game.apply_saved_state om env color0 s g).player2.score = om.bytes_int s.score2 ∧
    (Game.apply_saved_state om env color0 s g).racket1.pos_y = om.bytes_float s.paddle1_y ∧
    (Game.apply_saved_state om env color0 s g).racket2.pos_y = om.bytes_float s.paddle2_y ∧
    (Game.apply_saved_state om env color0 s g).mBall.pos_x = om.bytes_float s.ball_x ∧
    (Game.apply_saved_state om env color0 s g).mBall.pos_y = om.bytes_float s.ball_y ∧
    (Game.apply_saved_state om env color0 s g).mBall.vel_x = om.bytes_float s.ball_vel_x ∧
    (Game.apply_saved_state om env color0 s g).mBall.vel_y = om.bytes_float s.ball_vel_y ∧
    (Game.apply_saved_state om env color0 s g).player1.name = string_of_chars s.player1_name ∧
    (Game.apply_saved_state om env color0 s g).player2.name = string_of_chars s.player2_name := by
  unfold Game.apply_saved_state
  dsimp only
  refine ⟨?_, ?_, ?_, ?_, ?_, ?_, ?_, ?_, ?_, ?_⟩
  · rw [(update_background_color_frame _).1]; rfl
  · rw [(update_background_color_frame _).2.1]; rfl
  · rw [(update_background_color_frame _).2.2.1]; rfl
  · rw [(update_background_color_frame _).2.2.2.1]; rfl
  · rw [(update_background_color_frame _).2.2.2.2.1]
  · rw [(update_background_color_frame _).2.2.2.2.1]
  · rw [(update_background_color_frame _).2.2.2.2.1]
  · rw [(update_background_color_frame _).2.2.2.2.1]
  · rw [(update_background_color_frame _).1]; rfl
  · rw [(update_background_color_frame _).2.1]; rfl

theorem pause_save_file (om : ObjectModel) (garbage : SaveState) (g : Game)
    (hmode : g.notice_id = TWO_PLAYERS_MODE) :
    (Game.pause_save om true garbage g).save_file =
      (Saving.save_game true (Game.fill_save_state om garbage g) g.save_file).2 := by
  unfold Game.pause_save
  rw [if_pos hmode]
  rfl

/-- Saving from the pause menu and continuing from the saved file: the scores,
paddle positions and ball kinematics come back as read from their object
representation, and each name comes back truncated by its 20-byte slot. -/
theorem save_continue_fields (om : ObjectModel) (env : Libc) (color0 : SDL_Color)
    (garbage1 garbage2 : SaveState) (g later : Game)
    (hmode : g.notice_id = TWO_PLAYERS_MODE)
    (hfile : later.save_file = (Game.pause_save om true garbage1 g).save_file) :
    (Game.continue_game om env color0 garbage2 later).player1.score
      = om.bytes_int (om.int_bytes g.player1.score) ∧
    (Game.continue_game om env color0 garbage2 later).player2.score
      = om.bytes_int (om.int_bytes g.player2.score) ∧
    (Game.continue_game om env color0 garbage2 later).racket1.pos_y
      = om.bytes_float (om.float_bytes g.racket1.pos_y) ∧
    (Game.continue_game om env color0 garbage2 later).racket2.pos_y
      = om.bytes_float (om.float_bytes g.racket2.pos_y) ∧
    (Game.continue_game om env color0 garbage2 later).mBall.pos_x
      = om.bytes_float (om.float_bytes g.mBall.pos_x) ∧
    (Game.continue_game om env color0 garbage2 later).mBall.pos_y
      = om.bytes_float (om.float_bytes g.mBall.pos_y) ∧
    (Game.continue_game om env color0 garbage2 later).mBall.vel_x
      = om.bytes_float (om.float_bytes g.mBall.vel_x) ∧
    (Game.continue_game om env color0 garbage2 later).mBall.vel_y
      = om.bytes_float (om.float_bytes g.mBall.vel_y) ∧
    (Game.continue_game om env color0 garbage2 later).player1.name
      = truncated_name g.player1.name ∧
    (Game.continue_game om env color0 garbage2 later).player2.name
      = truncated_name g.player2.name := by
  have hload : Saving.load_game later.save_file garbage2 =
      (true, Game.fill_save_state om garbage1 g) := by
    rw [hfile, pause_save_file om garbage1 g hmode, load_save_eq]
  unfold Game.continue_game
  simp only [hload, if_true]
  obtain ⟨a1, a2, a3, a4, a5, a6, a7, a8, a9, a10⟩ :=
    apply_saved_state_fields om env color0 (Game.fill_save_state om garbage1 g) later
  rw [a1, a2, a3, a4, a5, a6, a7, a8, a9, a10]
  refine ⟨rfl, rfl, rfl, rfl, rfl, rfl, rfl, rfl, ?_, ?_⟩
  · exact slot_read _ _
  · exact slot_read _ _

/-- Claim C19, refuted as stated: a player name of 20 characters does not survive
the pause-menu save followed by the continue-game path; the name that comes back
has lost its last character. -/
theorem C19_counterexample :
    (Game.continue_game sampleObjectModel sampleLibc white zeroSaveState
      (Game.pause_save sampleObjectModel true zeroSaveState
        (sampleGame "ABCDEFGHIJKLMNOPQRST" "Bob"))).player1.name = "ABCDEFGHIJKLMNOPQRS" ∧
    (sampleGame "ABCDEFGHIJKLMNOPQRST" "Bob").player1.name = "ABCDEFGHIJKLMNOPQRST" := by
  refine ⟨?_, rfl⟩
  rw [(save_continue_fields sampleObjectModel sampleLibc white zeroSaveState zeroSaveState
    (sampleGame "ABCDEFGHIJKLMNOPQRST" "Bob") _ rfl rfl).2.2.2.2.2.2.2.2.1]
  decide

/-- Claim C19 as amended: for every live two-player game whose saved numbers are
read back from their own object representation, saving from the pause menu and
then continuing from the saved file (in any later state of the program)
reproduces both scores, both paddle positions and the ball position and
velocity; each player name comes back truncated to its characters before the
first NUL, at most 19 of them, so a name of at most 19 non-NUL single-byte
characters is reproduced identically. -/
theorem C19_save_then_continue (om : ObjectModel) (env : Libc) (color0 : SDL_Color)
    (garbage1 garbage2 : SaveState) (g later : Game)
    (hmode : g.notice_id = TWO_PLAYERS_MODE) (hom : om.faithful_on g)
    (hfile : later.save_file = (Game.pause_save om true garbage1 g).save_file) :
    (Game.continue_game om env color0 garbage2 later).player1.score = g.player1.score ∧
    (Game.continue_game om env color0 garbage2 later).player2.score = g.player2.score ∧
    (Game.continue_game om env color0 garbage2 later).racket1.pos_y = g.racket1.pos_y ∧
    (Game.continue_game om env color0 garbage2 later).racket2.pos_y = g.racket2.pos_y ∧
    (Game.continue_game om env color0 garbage2 later).mBall.pos_x = g.mBall.pos_x ∧
    (Game.continue_game om env color0 garbage2 later).mBall.pos_y = g.mBall.pos_y ∧
    (Game.continue_game om env color0 garbage2 later).mBall.vel_x = g.mBall.vel_x ∧
    (Game.continue_game om env color0 garbage2 later).mBall.vel_y = g.mBall.vel_y ∧
    (Game.continue_game om env color0 garbage2 later).player1.name
      = truncated_name g.player1.name ∧
    (Game.continue_game om env color0 garbage2 later).player2.name
      = truncated_name g.player2.name ∧
    (fits_name_slot g.player1.name →
      (Game.continue_game om env color0 garbage2 later).player1.name = g.player1.name) ∧
    (fits_name_slot g.player2.name →
      (Game.continue_game om env color0 garbage2 later).player2.name = g.player2.name) := by
  obtain ⟨a1, a2, a3, a4, a5, a6, a7, a8, a9, a10⟩ :=
    save_continue_fields om env color0 garbage1 garbage2 g later hmode hfile
  obtain ⟨f1, f2, -, f4, f5, f6, f7, f8, f9⟩ := hom
  refine ⟨a1.trans f1, a2.trans f2, a3.trans f4, a4.trans f5, a5.trans f6, a6.trans f7,
    a7.trans f8, a8.trans f9, a9, a10, ?_, ?_⟩
  · intro h
    rw [a9, truncated_name_of_fits _ h]
  · intro h
    rw [a10, truncated_name_of_fits _ h]

theorem sampleObjectModel_int (z : ℤ) (h0 : 0 ≤ z) (h1 : z < 4294967296) :
    sampleObjectModel.bytes_int (sampleObjectModel.int_bytes z) = z := by
  have hz : z % 4294967296 = z := Int.emod_eq_of_lt h0 h1
  obtain ⟨n, rfl⟩ := Int.eq_ofNat_of_zero_le h0
  have hn : n < 4294967296 := by exact_mod_cast h1
  simp only [sampleObjectModel, hz, Int.toNat_ofNat]
  have key : n / 256 ^ 0 % 256 + 256 * (n / 256 ^ 1 % 256) + 65536 * (n / 256 ^ 2 % 256)
      + 16777216 * (n / 256 ^ 3 % 256) = n := by
    norm_num
    omega
  exact congrArg Nat.cast key

theorem sampleObjectModel_float (z : ℤ) (h0 : 0 ≤ z) (h1 : z < 4294967296) :
    sampleObjectModel.bytes_float (sampleObjectModel.float_bytes (z : ℚ)) = (z : ℚ) := by
  have hz : z % 4294967296 = z := Int.emod_eq_of_lt h0 h1
  obtain ⟨n, rfl⟩ := Int.eq_ofNat_of_zero_le h0
  have hn : n < 4294967296 := by exact_mod_cast h1
  simp only [sampleObjectModel, Rat.num_intCast, hz, Int.toNat_ofNat]
  have key : n / 256 ^ 0 % 256 + 256 * (n / 256 ^ 1 % 256) + 65536 * (n / 256 ^ 2 % 256)
      + 16777216 * (n / 256 ^ 3 % 256) = n := by
    norm_num
    omega
  exact congrArg Nat.cast key

theorem sampleGame_faithful (name1 name2 : String) :
    sampleObjectModel.faithful_on (sampleGame name1 name2) := by
  refine ⟨sampleObjectModel_int 3 (by decide) (by decide),
    sampleObjectModel_int 2 (by decide) (by decide),
    sampleObjectModel_int 1 (by decide) (by decide), ?_, ?_, ?_, ?_, ?_, ?_⟩
  · have h := sampleObjectModel_float 300 (by decide) (by decide)
    have e : (sampleGame name1 name2).racket1.pos_y = ((300 : ℤ) : ℚ) := by
      simp [sampleGame, racketLeft, Paddle.new, WINDOW_HEIGHT_half]
    rw [e]; exact h
  · have h := sampleObjectModel_float 250 (by decide) (by decide)
    have e : (sampleGame name1 name2).racket2.pos_y = ((250 : ℤ) : ℚ) := by
      simp [sampleGame]
    rw [e]; exact h
  · have h := sampleObjectModel_float 200 (by decide) (by decide)
    have e : (sampleGame name1 name2).mBall.pos_x = ((200 : ℤ) : ℚ) := by
      simp [sampleGame]
    rw [e]; exact h
  · have h := sampleObjectModel_float 100 (by decide) (by decide)
    have e : (sampleGame name1 name2).mBall.pos_y = ((100 : ℤ) : ℚ) := by
      simp [sampleGame]
    rw [e]; exact h
  · have h := sampleObjectModel_float 250 (by decide) (by decide)
    have e : (sampleGame name1 name2).mBall.vel_x = ((250 : ℤ) : ℚ) := by
      simp [sampleGame]
    rw [e]; exact h
  · have h := sampleObjectModel_float 120 (by decide) (by decide)
    have e : (sampleGame name1 name2).mBall.vel_y = ((120 : ℤ) : ℚ) := by
      simp [sampleGame]
    rw [e]; exact h

theorem sample_names_fit : fits_name_slot "Alice" ∧ fits_name_slot "Bob" := by
  constructor <;> exact ⟨by decide, by decide⟩

/-- Witness for C19: the sample two-player game (scores 3 and 2, paddles at 300
and 250, ball at (200, 100) with velocity (250, 120), players Alice and Bob) is
in two-player mode and read back faithfully, and saving then continuing
reproduces all of it. -/
theorem C19_witness :
    (sampleGame "Alice" "Bob").notice_id = TWO_PLAYERS_MODE ∧
    sampleObjectModel.faithful_on (sampleGame "Alice" "Bob") ∧
    (Game.continue_game sampleObjectModel sampleLibc white zeroSaveState
      (Game.pause_save sampleObjectModel true zeroSaveState
        (sampleGame "Alice" "Bob"))).player1 = ⟨"Alice", 3, 0⟩ ∧
    (Game.continue_game sampleObjectModel sampleLibc white zeroSaveState
      (Game.pause_save sampleObjectModel true zeroSaveState
        (sampleGame "Alice" "Bob"))).player2.name = "Bob" ∧
    (Game.continue_game sampleObjectModel sampleLibc white zeroSaveState
      (Game.pause_save sampleObjectModel true zeroSaveState
        (sampleGame "Alice" "Bob"))).mBall.pos_x = 200 := by
  obtain ⟨a1, -, -, -, a5, -, -, -, -, -, n1, n2⟩ :=
    C19_save_then_continue sampleObjectModel sampleLibc white zeroSaveState zeroSaveState
      (sampleGame "Alice" "Bob")
      (Game.pause_save sampleObjectModel true zeroSaveState (sampleGame "Alice" "Bob"))
      rfl (sampleGame_faithful _ _) rfl
  refine ⟨rfl, sampleGame_faithful _ _, ?_, n2 sample_names_fit.2, a5⟩
  have hn := n1 sample_names_fit.1
  have hr : (Game.continue_game sampleObjectModel sampleLibc white zeroSaveState
      (Game.pause_save sampleObjectModel true zeroSaveState
        (sampleGame "Alice" "Bob"))).player1.round = 0 := rfl
  cases hp : (Game.continue_game sampleObjectModel sampleLibc white zeroSaveState
      (Game.pause_save sampleObjectModel true zeroSaveState
        (sampleGame "Alice" "Bob"))).player1 with
  | mk nm sc rd =>
    rw [hp] at hn a1 hr
    simp only at hn a1 hr
    rw [hn, a1, hr]
    rfl

/-! ## Letter collision -/

theorem clamp_eq_code (b lo hi : ℚ) (h : lo ≤ hi) :
    (if b < lo then lo else if b > hi then hi else b) = max lo (min b hi) := by
  by_cases h1 : b < lo
  · rw [if_pos h1, min_eq_left (by linarith), max_eq_left (by linarith)]
  · by_cases h2 : b > hi
    · rw [if_neg h1, if_pos h2, min_eq_right (by linarith), max_eq_right h]
    · rw [if_neg h1, if_neg h2, min_eq_left (by linarith), max_eq_right (by linarith)]

theorem clamp_closest (b lo hi p : ℚ) (h : lo ≤ hi) (hp1 : lo ≤ p) (hp2 : p ≤ hi) :
    (b - max lo (min b hi)) ^ 2 ≤ (b - p) ^ 2 := by
  rw [← clamp_eq_code b lo hi h]
  by_cases h1 : b < lo
  · rw [if_pos h1]
    nlinarith
  · by_cases h2 : b > hi
    · rw [if_neg h1, if_pos h2]
      nlinarith
    · rw [if_neg h1, if_neg h2]
      nlinarith [sq_nonneg (b - p)]

theorem clamp_mem (b lo hi : ℚ) (h : lo ≤ hi) :
    lo ≤ max lo (min b hi) ∧ max lo (min b hi) ≤ hi :=
  ⟨le_max_left _ _, max_le h (min_le_right _ _)⟩

theorem collision_check_iff (l : Letter) (hw : 0 ≤ l.width) (hh : 0 ≤ l.height)
    (bx bY r : ℚ) :
    l.collision_check bx bY r = true ↔ l.closest_point_sq_dist bx bY < r ^ 2 := by
  have hw2 : l.x ≤ l.x + 3 * (l.width : ℚ) := by
    have : (0 : ℚ) ≤ (l.width : ℚ) := by exact_mod_cast hw
    linarith
  have hh2 : l.y ≤ l.y + 3 * (l.height : ℚ) := by
    have : (0 : ℚ) ≤ (l.height : ℚ) := by exact_mod_cast hh
    linarith
  have ew : ((l.width * 3 : ℤ) : ℚ) = 3 * (l.width : ℚ) := by push_cast; ring
  have eh : ((l.height * 3 : ℤ) : ℚ) = 3 * (l.height : ℚ) := by push_cast; ring
  unfold Letter.collision_check Letter.closest_point_sq_dist
  dsimp only
  rw [ew, eh, clamp_eq_code bx _ _ hw2, clamp_eq_code bY _ _ hh2, decide_eq_true_eq]
  constructor <;> intro h <;> nlinarith [h]

/-- Claim C20: for a letter with non-negative glyph width and height,
`Letter::collision_check(bx, by, r)` is true exactly when the squared distance
from (bx, by) to the closest point of the rectangle
[x, x + 3*width] x [y, y + 3*height] is below r^2.  That squared distance is the
one of the specification (coordinates clamped into the rectangle): the clamped
point lies in the rectangle and no point of the rectangle is closer.  Hence a
centre on or inside the rectangle collides for every r > 0, a centre farther
than r >= 0 from the rectangle does not collide, and r = 0 never collides. -/
theorem C20_letter_collision (l : Letter) (hw : 0 ≤ l.width) (hh : 0 ≤ l.height)
    (bx bY r : ℚ) :
    (l.collision_check bx bY r = true ↔ l.closest_point_sq_dist bx bY < r ^ 2) ∧
    (l.x ≤ max l.x (min bx (l.x + 3 * (l.width : ℚ))) ∧
      max l.x (min bx (l.x + 3 * (l.width : ℚ))) ≤ l.x + 3 * (l.width : ℚ) ∧
      l.y ≤ max l.y (min bY (l.y + 3 * (l.height : ℚ))) ∧
      max l.y (min bY (l.y + 3 * (l.height : ℚ))) ≤ l.y + 3 * (l.height : ℚ)) ∧
    (∀ px pY : ℚ, l.x ≤ px → px ≤ l.x + 3 * (l.width : ℚ) →
      l.y ≤ pY → pY ≤ l.y + 3 * (l.height : ℚ) →
      l.closest_point_sq_dist bx bY ≤ (bx - px) ^ 2 + (bY - pY) ^ 2) ∧
    (l.x ≤ bx → bx ≤ l.x + 3 * (l.width : ℚ) → l.y ≤ bY → bY ≤ l.y + 3 * (l.height : ℚ) →
      0 < r → l.collision_check bx bY r = true) ∧
    (0 ≤ r → r ^ 2 < l.closest_point_sq_dist bx bY → l.collision_check bx bY r = false) ∧
    l.collision_check bx bY 0 = false := by
  have hw2 : l.x ≤ l.x + 3 * (l.width : ℚ) := by
    have : (0 : ℚ) ≤ (l.width : ℚ) := by exact_mod_cast hw
    linarith
  have hh2 : l.y ≤ l.y + 3 * (l.height : ℚ) := by
    have : (0 : ℚ) ≤ (l.height : ℚ) := by exact_mod_cast hh
    linarith
  have hnn : 0 ≤ l.closest_point_sq_dist bx bY := by
    unfold Letter.closest_point_sq_dist
    positivity
  refine ⟨collision_check_iff l hw hh bx bY r, ?_, ?_, ?_, ?_, ?_⟩
  · exact ⟨(clamp_mem bx _ _ hw2).1, (clamp_mem bx _ _ hw2).2, (clamp_mem bY _ _ hh2).1,
      (clamp_mem bY _ _ hh2).2⟩
  · intro px pY h1 h2 h3 h4
    unfold Letter.closest_point_sq_dist
    exact add_le_add (clamp_closest bx _ _ px hw2 h1 h2) (clamp_closest bY _ _ pY hh2 h3 h4)
  · intro h1 h2 h3 h4 hr
    rw [collision_check_iff l hw hh]
    unfold Letter.closest_point_sq_dist
    rw [min_eq_left h2, max_eq_right h1, min_eq_left h4, max_eq_right h3]
    simp only [sub_self, ne_eq, OfNat.ofNat_ne_zero, not_false_eq_true, zero_pow, add_zero]
    positivity
  · intro _ hfar
    rw [← Bool.not_eq_true, collision_check_iff l hw hh]
    linarith
  · rw [← Bool.not_eq_true, collision_check_iff l hw hh]
    norm_num
    exact hnn

theorem sampleLetter_fields :
    sampleLetter.x = 300 ∧ sampleLetter.y = 200 ∧ sampleLetter.width = 20 ∧
    sampleLetter.height = 40 ∧ sampleLetter.letter = 'P' ∧ sampleLetter.speed = 150 := by
  refine ⟨rfl, rfl, rfl, rfl, rfl, rfl⟩

/-- Instance of C20 from `test_letter_collision` (letter at (300, 200), glyph of
20 by 40 pixels, radius 10): the centre (300, 200) on the corner collides and
the centre (500, 400) does not. -/
theorem C20_witness :
    sampleLetter.collision_check 300 200 10 = true ∧
    sampleLetter.collision_check 500 400 10 = false := by
  obtain ⟨fx, fy, fw, fh, -, -⟩ := sampleLetter_fields
  have hw : 0 ≤ sampleLetter.width := by rw [fw]; norm_num
  have hh : 0 ≤ sampleLetter.height := by rw [fh]; norm_num
  constructor
  · exact (C20_letter_collision sampleLetter hw hh 300 200 10).2.2.2.1
      (by rw [fx]) (by rw [fx, fw]; norm_num) (by rw [fy]) (by rw [fy, fh]; norm_num)
      (by norm_num)
  · refine (C20_letter_collision sampleLetter hw hh 500 400 10).2.2.2.2.1 (by norm_num) ?_
    unfold Letter.closest_point_sq_dist
    rw [fx, fy, fw, fh]
    norm_num


/-! ## Letters: hits, progression and movement -/

theorem next_letter_progress (font : Char → Option (ℤ × ℤ)) (l : Letter) :
    (l.next_letter font).progress =
      if l.current_letter_index < l.word.length then
        (l.words, l.lettersAtBottom, l.word, l.current_word_index, l.current_letter_index + 1,
          l.word.getD l.current_letter_index default)
      else l.progress := by
  unfold Letter.next_letter
  split_ifs with h
  · dsimp only
    cases font (l.word.getD l.current_letter_index default) with
    | none => rfl
    | some wh => rfl
  · rfl

theorem next_word_progress (font : Char → Option (ℤ × ℤ)) (l : Letter) :
    (l.next_word font).progress =
      if 0 < (l.words.getD ((l.current_word_index + 1) % l.words.length) []).length then
        (l.words, l.lettersAtBottom, l.words.getD ((l.current_word_index + 1) % l.words.length) [],
          (l.current_word_index + 1) % l.words.length, 1,
          (l.words.getD ((l.current_word_index + 1) % l.words.length) []).getD 0 default)
      else
        (l.words, l.lettersAtBottom, l.words.getD ((l.current_word_index + 1) % l.words.length) [],
          (l.current_word_index + 1) % l.words.length, 0, l.letter) := by
  unfold Letter.next_word
  dsimp only
  rw [next_letter_progress]
  rfl

theorem update_move_progress (time : ℚ) (screen_height : ℤ) (l : Letter) :
    (l.update_move time screen_height).progress = l.progress := by
  unfold Letter.update_move
  dsimp only
  split_ifs <;> rfl

theorem update_letter_of_miss (font : Char → Option (ℤ × ℤ)) (t : LetterTick) (w : LetterWorld)
    (h : Letter.hit t w.letter = false) :
    Letter.update_letter font t.time t.screen_height t.ball_pos_x t.ball_pos_y t.ball_radius w =
      { w with letter := w.letter.update_move t.time t.screen_height } := by
  unfold Letter.hit Letter.update_move at h
  unfold Letter.update_letter Letter.update_move
  dsimp only at h ⊢
  rw [if_neg (by rw [h]; exact Bool.false_ne_true)]

theorem update_letter_staged (font : Char → Option (ℤ × ℤ)) (t : LetterTick) (w : LetterWorld) :
    Letter.update_letter font t.time t.screen_height t.ball_pos_x t.ball_pos_y t.ball_radius w =
      if Letter.hit t w.letter then
        { letter := (w.letter.update_move t.time t.screen_height).update_collect font
          player1 :=
            if t.ball_pos_x < w.letter.x + ((Int.tdiv w.letter.width 2 : ℤ) : ℚ)
            then w.player1.increment_score else w.player1
          player2 :=
            if t.ball_pos_x < w.letter.x + ((Int.tdiv w.letter.width 2 : ℤ) : ℚ)
            then w.player2 else w.player2.increment_score }
      else { w with letter := w.letter.update_move t.time t.screen_height } := by
  have hx : (w.letter.update_move t.time t.screen_height).x = w.letter.x := by
    unfold Letter.update_move
    dsimp only
    split_ifs <;> rfl
  have hw : (w.letter.update_move t.time t.screen_height).width = w.letter.width := by
    unfold Letter.update_move
    dsimp only
    split_ifs <;> rfl
  rw [← hx, ← hw]
  rfl

theorem next_letter_frame (font : Char → Option (ℤ × ℤ)) (l : Letter) :
    (l.next_letter font).x = l.x ∧ (l.next_letter font).y = l.y ∧
    (l.next_letter font).speed = l.speed := by
  unfold Letter.next_letter
  split_ifs with h
  · dsimp only
    cases font (l.word.getD l.current_letter_index default) with
    | none => exact ⟨rfl, rfl, rfl⟩
    | some wh => exact ⟨rfl, rfl, rfl⟩
  · exact ⟨rfl, rfl, rfl⟩

theorem next_word_frame (font : Char → Option (ℤ × ℤ)) (l : Letter) :
    (l.next_word font).x = l.x ∧ (l.next_word font).y = l.y ∧
    (l.next_word font).speed = l.speed := by
  unfold Letter.next_word
  dsimp only
  obtain ⟨h1, h2, h3⟩ := next_letter_frame font
    { l with current_word_index := (l.current_word_index + 1) % l.words.length,
             word := l.words.getD ((l.current_word_index + 1) % l.words.length) [],
             current_letter_index := 0 }
  exact ⟨h1, h2, h3⟩

theorem update_collect_facts (font : Char → Option (ℤ × ℤ)) (l : Letter) :
    (l.update_collect font).progress =
      (if l.current_letter_index ≥ l.word.length then
        (Letter.next_word font { l with lettersAtBottom := [] }).progress
      else
        (Letter.next_letter font { l with
          lettersAtBottom := l.lettersAtBottom ++ [l.letter] }).progress) ∧
    (l.update_collect font).x = l.x ∧ (l.update_collect font).y = 0 ∧
    (l.update_collect font).speed = |l.speed| := by
  unfold Letter.update_collect
  dsimp only
  split_ifs with h
  · obtain ⟨h1, h2, h3⟩ := next_word_frame font
      { l with lettersAtBottom := ([] : List Char) }
    refine ⟨rfl, h1, rfl, ?_⟩
    rw [h3]
  · obtain ⟨h1, h2, h3⟩ := next_letter_frame font
      { l with lettersAtBottom := l.lettersAtBottom ++ [l.letter] }
    refine ⟨rfl, h1, rfl, ?_⟩
    rw [h3]

theorem update_collect_progress (font : Char → Option (ℤ × ℤ)) (l : Letter) :
    (l.update_collect font).progress = Letter.progress_step l.progress := by
  rw [(update_collect_facts font l).1]
  unfold Letter.progress_step
  by_cases h : l.current_letter_index ≥ l.word.length
  · rw [if_pos h, if_pos (show l.progress.2.2.2.2.1 ≥ l.progress.2.2.1.length from h),
      next_word_progress]
    rfl
  · rw [if_neg h, if_neg (show ¬ l.progress.2.2.2.2.1 ≥ l.progress.2.2.1.length from h),
      next_letter_progress]
    have h2 : l.current_letter_index < l.word.length := Nat.lt_of_not_ge h
    rw [if_pos (show ({ l with lettersAtBottom := l.lettersAtBottom ++ [l.letter] } :
      Letter).current_letter_index < ({ l with lettersAtBottom :=
        l.lettersAtBottom ++ [l.letter] } : Letter).word.length from h2)]
    rfl

theorem progress_step_after (m : ℕ) (hm : m < 20) :
    Letter.progress_step (Letter.progress_after m) = Letter.progress_after ((m + 1) % 20) := by
  interval_cases m <;> decide

theorem new_progress (font : Char → Option (ℤ × ℤ)) (x y v : ℚ) (c0 : Char) :
    (Letter.new font 0 x y v c0).progress = Letter.progress_after 0 := by
  unfold Letter.new
  dsimp only
  rw [next_letter_progress]
  rfl

theorem update_letter_progress (font : Char → Option (ℤ × ℤ)) (t : LetterTick) (w : LetterWorld)
    (m : ℕ) (hm : m < 20) (h : w.letter.progress = Letter.progress_after m) :
    (Letter.update_letter font t.time t.screen_height t.ball_pos_x t.ball_pos_y t.ball_radius
      w).letter.progress =
      Letter.progress_after ((m + (if Letter.hit t w.letter then 1 else 0)) % 20) := by
  rw [update_letter_staged]
  by_cases hh : Letter.hit t w.letter = true
  · rw [if_pos hh, if_pos hh]
    show ((w.letter.update_move t.time t.screen_height).update_collect font).progress = _
    rw [update_collect_progress, update_move_progress, h, progress_step_after m hm]
  · rw [if_neg hh, if_neg hh]
    show (w.letter.update_move t.time t.screen_height).progress = _
    rw [update_move_progress, h, Nat.add_zero, Nat.mod_eq_of_lt hm]

theorem run_progress (font : Char → Option (ℤ × ℤ)) (ticks : List LetterTick) (w : LetterWorld)
    (m : ℕ) (hm : m < 20) (h : w.letter.progress = Letter.progress_after m) :
    (Letter.run font ticks w).letter.progress =
      Letter.progress_after ((m + Letter.hit_count font ticks w) % 20) := by
  induction ticks generalizing w m with
  | nil =>
    show w.letter.progress = _
    rw [h]
    show _ = Letter.progress_after ((m + 0) % 20)
    rw [Nat.add_zero, Nat.mod_eq_of_lt hm]
  | cons t rest ih =>
    have hstep := update_letter_progress font t w m hm h
    have hlt : (m + (if Letter.hit t w.letter then 1 else 0)) % 20 < 20 :=
      Nat.mod_lt _ (by decide)
    have := ih (Letter.update_letter font t.time t.screen_height t.ball_pos_x t.ball_pos_y
      t.ball_radius w) _ hlt hstep
    show (Letter.run font rest (Letter.update_letter font t.time t.screen_height t.ball_pos_x
      t.ball_pos_y t.ball_radius w)).letter.progress = _
    rw [this]
    show _ = Letter.progress_after ((m + ((if Letter.hit t w.letter then 1 else 0) +
      Letter.hit_count font rest (Letter.update_letter font t.time t.screen_height
        t.ball_pos_x t.ball_pos_y t.ball_radius w))) % 20)
    congr 1
    omega

theorem progress_after_facts (m : ℕ) (hm : m < 20) :
    Letter.all_letters.get? m = some (Letter.progress_after m).2.2.2.2.2 ∧
    (Letter.progress_after m).2.1 = Letter.trail_after m ∧
    (Letter.progress_after m).2.1 =
      (Letter.progress_after m).2.2.1.take (m - Letter.word_start m) ∧
    (Letter.progress_after m).2.2.1 ∈ Letter.initial_words ∧
    (m = 0 ∨ m = 8 ∨ m = 16 → (Letter.progress_after m).2.1 = []) := by
  interval_cases m <;> decide

/-- Claim C22: for a letter built with index 0 and every sequence of
`Letter::update_letter` calls, k being the number of calls in which the ball hit
the letter: the displayed letter is character number k mod 20 of "Polytech",
"Sorbonne", "2025" written in a row (so the words are presented letter by letter,
in order and cyclically); the collected trail is the part of the current word
before the displayed letter, in order; and the trail is empty when the displayed
letter is the first of a word, that is at the start and right after the last
letter of a word was hit. -/
theorem C22_letter_sequence (font : Char → Option (ℤ × ℤ)) (x y v : ℚ) (c0 : Char)
    (p1 p2 : User) (ticks : List LetterTick) :
    Letter.all_letters = Letter.initial_words.flatten ∧
    Letter.all_letters.get? (Letter.hit_count font ticks ⟨Letter.new font 0 x y v c0, p1, p2⟩ % 20)
      = some (Letter.run font ticks ⟨Letter.new font 0 x y v c0, p1, p2⟩).letter.letter ∧
    (Letter.run font ticks ⟨Letter.new font 0 x y v c0, p1, p2⟩).letter.lettersAtBottom
      = Letter.trail_after (Letter.hit_count font ticks ⟨Letter.new font 0 x y v c0, p1, p2⟩) ∧
    (Letter.run font ticks ⟨Letter.new font 0 x y v c0, p1, p2⟩).letter.word
      ∈ Letter.initial_words ∧
    (Letter.run font ticks ⟨Letter.new font 0 x y v c0, p1, p2⟩).letter.lettersAtBottom
      = (Letter.run font ticks ⟨Letter.new font 0 x y v c0, p1, p2⟩).letter.word.take
          (Letter.hit_count font ticks ⟨Letter.new font 0 x y v c0, p1, p2⟩ % 20
            - Letter.word_start
                (Letter.hit_count font ticks ⟨Letter.new font 0 x y v c0, p1, p2⟩ % 20)) ∧
    (Letter.hit_count font ticks ⟨Letter.new font 0 x y v c0, p1, p2⟩ % 20 = 0 ∨
      Letter.hit_count font ticks ⟨Letter.new font 0 x y v c0, p1, p2⟩ % 20 = 8 ∨
      Letter.hit_count font ticks ⟨Letter.new font 0 x y v c0, p1, p2⟩ % 20 = 16 →
      (Letter.run font ticks ⟨Letter.new font 0 x y v c0, p1, p2⟩).letter.lettersAtBottom = []) := by
  have hrun := run_progress font ticks ⟨Letter.new font 0 x y v c0, p1, p2⟩ 0 (by decide)
    (new_progress font x y v c0)
  rw [Nat.zero_add] at hrun
  have hlt : Letter.hit_count font ticks ⟨Letter.new font 0 x y v c0, p1, p2⟩ % 20 < 20 :=
    Nat.mod_lt _ (by decide)
  obtain ⟨f1, f2, f3, f4, f5⟩ := progress_after_facts _ hlt
  rw [← hrun] at f1 f2 f3 f4 f5
  have ht : Letter.trail_after
      (Letter.hit_count font ticks ⟨Letter.new font 0 x y v c0, p1, p2⟩ % 20)
      = Letter.trail_after (Letter.hit_count font ticks ⟨Letter.new font 0 x y v c0, p1, p2⟩) := by
    unfold Letter.trail_after
    rw [Nat.mod_mod]
  rw [ht] at f2
  exact ⟨by decide, f1, f2, f4, f3, f5⟩

theorem test_scoring_no_hit (font : Char → Option (ℤ × ℤ)) (c0 : Char) (bx : ℚ) :
    Letter.hit ⟨1 / 10, 600, bx, 200, 10⟩ (Letter.new font 0 300 200 150 c0) = false := by
  have hy : (Letter.new font 0 300 200 150 c0).y = 200 ∧
      (Letter.new font 0 300 200 150 c0).speed = 150 := by
    unfold Letter.new
    dsimp only
    obtain ⟨-, h2, h3⟩ := next_letter_frame font
      { words := Letter.initial_words, lettersAtBottom := [], word :=
          Letter.initial_words.getD 0 [], current_word_index := 0, current_letter_index := 0,
        letter := c0, x := 300, y := 200, speed := 150, width := 0, height := 0 }
    exact ⟨h2, h3⟩
  have hm : ((Letter.new font 0 300 200 150 c0).update_move (1 / 10) 600).y = 215 := by
    unfold Letter.update_move
    dsimp only
    split_ifs <;> simp only [hy.1, hy.2] <;> norm_num
  unfold Letter.hit Letter.collision_check
  dsimp only
  rw [hm]
  rw [decide_eq_false_iff_not]
  intro h
  rw [if_pos (show (200 : ℚ) < 215 by norm_num)] at h
  have key : ∀ A : ℚ, ¬ (A * A + (200 - 215) * (200 - 215) < 10 * 10) := by
    intro A hA
    nlinarith [mul_self_nonneg A]
  exact key _ h

theorem update_move_facts (time : ℚ) (screen_height : ℤ) (l : Letter) :
    (l.update_move time screen_height).y = l.y + l.speed * time ∧
    |(l.update_move time screen_height).speed| = |l.speed| ∧
    (l.update_move time screen_height).x = l.x ∧
    (l.update_move time screen_height).width = l.width ∧
    (l.update_move time screen_height).height = l.height ∧
    (l.update_move time screen_height).speed =
      (if l.y + l.speed * time + (l.height : ℚ) ≥ (screen_height : ℚ) ∨ l.y + l.speed * time ≤ 0
        then -l.speed else l.speed) := by
  unfold Letter.update_move
  dsimp only
  split_ifs
  · exact ⟨rfl, abs_neg _, rfl, rfl, rfl, rfl⟩
  · exact ⟨rfl, rfl, rfl, rfl, rfl, rfl⟩

theorem progress_step_trail (p : List (List Char) × List Char × List Char × ℕ × ℕ × Char) :
    (p.2.2.2.2.1 < p.2.2.1.length → (Letter.progress_step p).2.1 = p.2.1 ++ [p.2.2.2.2.2]) ∧
    (p.2.2.1.length ≤ p.2.2.2.2.1 → (Letter.progress_step p).2.1 = []) := by
  unfold Letter.progress_step
  constructor
  · intro h
    rw [if_neg (Nat.not_le.mpr h)]
  · intro h
    rw [if_pos h]
    split_ifs <;> rfl

/-- What a call of `Letter::update_letter` does to the players, the collected
letters and the motion of the letter, by whether the ball hits the letter. -/
theorem update_letter_effect (font : Char → Option (ℤ × ℤ)) (t : LetterTick) (w : LetterWorld) :
    (Letter.hit t w.letter = true →
      ((t.ball_pos_x < w.letter.x + ((Int.tdiv w.letter.width 2 : ℤ) : ℚ) →
          (Letter.update_letter font t.time t.screen_height t.ball_pos_x t.ball_pos_y
            t.ball_radius w).player1 = w.player1.increment_score ∧
          (Letter.update_letter font t.time t.screen_height t.ball_pos_x t.ball_pos_y
            t.ball_radius w).player2 = w.player2) ∧
       (¬ t.ball_pos_x < w.letter.x + ((Int.tdiv w.letter.width 2 : ℤ) : ℚ) →
          (Letter.update_letter font t.time t.screen_height t.ball_pos_x t.ball_pos_y
            t.ball_radius w).player1 = w.player1 ∧
          (Letter.update_letter font t.time t.screen_height t.ball_pos_x t.ball_pos_y
            t.ball_radius w).player2 = w.player2.increment_score)) ∧
      (w.letter.current_letter_index < w.letter.word.length →
        (Letter.update_letter font t.time t.screen_height t.ball_pos_x t.ball_pos_y
          t.ball_radius w).letter.lettersAtBottom
          = w.letter.lettersAtBottom ++ [w.letter.letter]) ∧
      (w.letter.word.length ≤ w.letter.current_letter_index →
        (Letter.update_letter font t.time t.screen_height t.ball_pos_x t.ball_pos_y
          t.ball_radius w).letter.lettersAtBottom = []) ∧
      (Letter.update_letter font t.time t.screen_height t.ball_pos_x t.ball_pos_y
        t.ball_radius w).letter.y = 0 ∧
      (Letter.update_letter font t.time t.screen_height t.ball_pos_x t.ball_pos_y
        t.ball_radius w).letter.speed = |w.letter.speed|) ∧
    (Letter.hit t w.letter = false →
      (Letter.update_letter font t.time t.screen_height t.ball_pos_x t.ball_pos_y
        t.ball_radius w).player1 = w.player1 ∧
      (Letter.update_letter font t.time t.screen_height t.ball_pos_x t.ball_pos_y
        t.ball_radius w).player2 = w.player2 ∧
      (Letter.update_letter font t.time t.screen_height t.ball_pos_x t.ball_pos_y
        t.ball_radius w).letter.lettersAtBottom = w.letter.lettersAtBottom) := by
  rw [update_letter_staged]
  constructor
  · intro hh
    rw [if_pos hh]
    dsimp only
    have hp := update_collect_progress font (w.letter.update_move t.time t.screen_height)
    rw [update_move_progress] at hp
    have htr : ((w.letter.update_move t.time t.screen_height).update_collect font).lettersAtBottom
        = (Letter.progress_step w.letter.progress).2.1 := by
      rw [← hp]
      rfl
    obtain ⟨-, c2, c3, c4⟩ := update_collect_facts font
      (w.letter.update_move t.time t.screen_height)
    obtain ⟨-, m2, -⟩ := update_move_facts t.time t.screen_height w.letter
    refine ⟨⟨fun h => by rw [if_pos h, if_pos h]; exact ⟨rfl, rfl⟩,
      fun h => by rw [if_neg h, if_neg h]; exact ⟨rfl, rfl⟩⟩, ?_, ?_, c3, ?_⟩
    · intro h
      rw [htr]
      exact (progress_step_trail w.letter.progress).1 h
    · intro h
      rw [htr]
      exact (progress_step_trail w.letter.progress).2 h
    · rw [c4, m2]
  · intro hh
    rw [if_neg (by rw [hh]; exact Bool.false_ne_true)]
    refine ⟨rfl, rfl, ?_⟩
    have := update_move_progress t.time t.screen_height w.letter
    exact congrArg (fun p => p.2.1) this

/-- Claim C21, refuted as stated: the letter showing the last letter 'h' of
"Polytech", with "Polytec" collected, is hit by the ball; after the call the
collected trail is empty: it has not gained the hit letter. -/
theorem C21_counterexample :
    Letter.hit ⟨1 / 10, 600, 310, 250, 10⟩ sampleLetterLast = true ∧
    sampleLetterLast.letter = 'h' ∧ sampleLetterLast.lettersAtBottom = "Polytec".data ∧
    (Letter.update_letter sampleFont (1 / 10) 600 310 250 10
      ⟨sampleLetterLast, User.new "Alice", User.new "Bob"⟩).letter.lettersAtBottom = [] := by
  have hh : Letter.hit ⟨1 / 10, 600, 310, 250, 10⟩ sampleLetterLast = true := by
    norm_num [Letter.hit, Letter.update_move, Letter.collision_check, sampleLetterLast]
  refine ⟨hh, rfl, rfl, ?_⟩
  exact ((update_letter_effect sampleFont ⟨1 / 10, 600, 310, 250, 10⟩
    ⟨sampleLetterLast, User.new "Alice", User.new "Bob"⟩).1 hh).2.2.1 (by decide)

/-- Claim C21 as amended: in `Letter::update_letter`, when the ball hits the moved
letter, exactly one player's score increases by exactly 1 and the other player is
unchanged: player 1's when the ball centre is left of x + width / 2 (integer
division), player 2's otherwise; the collected trail gains the hit letter when
the hit letter is not the last one of its word and is emptied when it is; the
letter restarts at y = 0 with speed |speed|, that is not moving upward.  When
there is no hit, neither player nor the trail changes. -/
theorem C21_letter_hit_scoring (font : Char → Option (ℤ × ℤ)) (t : LetterTick)
    (w : LetterWorld) :
    (Letter.hit t w.letter = true →
      ((t.ball_pos_x < w.letter.x + ((Int.tdiv w.letter.width 2 : ℤ) : ℚ) →
          (Letter.update_letter font t.time t.screen_height t.ball_pos_x t.ball_pos_y
            t.ball_radius w).player1 = { w.player1 with score := w.player1.score + 1 } ∧
          (Letter.update_letter font t.time t.screen_height t.ball_pos_x t.ball_pos_y
            t.ball_radius w).player2 = w.player2) ∧
       (¬ t.ball_pos_x < w.letter.x + ((Int.tdiv w.letter.width 2 : ℤ) : ℚ) →
          (Letter.update_letter font t.time t.screen_height t.ball_pos_x t.ball_pos_y
            t.ball_radius w).player1 = w.player1 ∧
          (Letter.update_letter font t.time t.screen_height t.ball_pos_x t.ball_pos_y
            t.ball_radius w).player2 = { w.player2 with score := w.player2.score + 1 })) ∧
      (w.letter.current_letter_index < w.letter.word.length →
        (Letter.update_letter font t.time t.screen_height t.ball_pos_x t.ball_pos_y
          t.ball_radius w).letter.lettersAtBottom
          = w.letter.lettersAtBottom ++ [w.letter.letter]) ∧
      (w.letter.word.length ≤ w.letter.current_letter_index →
        (Letter.update_letter font t.time t.screen_height t.ball_pos_x t.ball_pos_y
          t.ball_radius w).letter.lettersAtBottom = []) ∧
      (Letter.update_letter font t.time t.screen_height t.ball_pos_x t.ball_pos_y
        t.ball_radius w).letter.y = 0 ∧
      (Letter.update_letter font t.time t.screen_height t.ball_pos_x t.ball_pos_y
        t.ball_radius w).letter.speed = |w.letter.speed| ∧
      0 ≤ (Letter.update_letter font t.time t.screen_height t.ball_pos_x t.ball_pos_y
        t.ball_radius w).letter.speed) ∧
    (Letter.hit t w.letter = false →
      (Letter.update_letter font t.time t.screen_height t.ball_pos_x t.ball_pos_y
        t.ball_radius w).player1 = w.player1 ∧
      (Letter.update_letter font t.time t.screen_height t.ball_pos_x t.ball_pos_y
        t.ball_radius w).player2 = w.player2 ∧
      (Letter.update_letter font t.time t.screen_height t.ball_pos_x t.ball_pos_y
        t.ball_radius w).letter.lettersAtBottom = w.letter.lettersAtBottom) := by
  obtain ⟨h1, h2⟩ := update_letter_effect font t w
  refine ⟨fun hh => ?_, h2⟩
  obtain ⟨⟨a, b⟩, c, d, e, f⟩ := h1 hh
  refine ⟨⟨fun h => a h, fun h => b h⟩, c, d, e, f, ?_⟩
  rw [f]
  exact abs_nonneg _

/-- Witness for C21 with the letter of `test_letter_collision_scoring` (at
(300, 200), speed 150, glyph 20 by 40, showing 'P') and dt = 0.1, radius 10: the
ball at (305, 220) hits and gives player 1 a point, the ball at (310, 220) hits
and gives player 2 a point, each time with 'P' collected; the ball at (290, 200)
of the test does not hit the moved letter and changes nothing. -/
theorem C21_witness :
    ((Letter.update_letter sampleFont (1 / 10) 600 305 220 10
        ⟨sampleLetter, User.new "Alice", User.new "Bob"⟩).player1 = ⟨"Alice", 1, 0⟩ ∧
     (Letter.update_letter sampleFont (1 / 10) 600 305 220 10
        ⟨sampleLetter, User.new "Alice", User.new "Bob"⟩).player2 = ⟨"Bob", 0, 0⟩ ∧
     (Letter.update_letter sampleFont (1 / 10) 600 305 220 10
        ⟨sampleLetter, User.new "Alice", User.new "Bob"⟩).letter.lettersAtBottom = ['P']) ∧
    ((Letter.update_letter sampleFont (1 / 10) 600 310 220 10
        ⟨sampleLetter, User.new "Alice", User.new "Bob"⟩).player1 = ⟨"Alice", 0, 0⟩ ∧
     (Letter.update_letter sampleFont (1 / 10) 600 310 220 10
        ⟨sampleLetter, User.new "Alice", User.new "Bob"⟩).player2 = ⟨"Bob", 1, 0⟩) ∧
    ((Letter.update_letter sampleFont (1 / 10) 600 290 200 10
        ⟨sampleLetter, User.new "Alice", User.new "Bob"⟩).player1 = ⟨"Alice", 0, 0⟩ ∧
     (Letter.update_letter sampleFont (1 / 10) 600 290 200 10
        ⟨sampleLetter, User.new "Alice", User.new "Bob"⟩).player2 = ⟨"Bob", 0, 0⟩) := by
  obtain ⟨fx, fy, fw, fh, fl, fs⟩ := sampleLetter_fields
  have hm := update_move_facts (1 / 10) 600 sampleLetter
  have hit1 : Letter.hit ⟨1 / 10, 600, 305, 220, 10⟩ sampleLetter = true := by
    unfold Letter.hit Letter.collision_check
    dsimp only
    rw [hm.1, hm.2.2.1, hm.2.2.2.1, hm.2.2.2.2.1, fx, fy, fw, fh, fs]
    norm_num
  have hit2 : Letter.hit ⟨1 / 10, 600, 310, 220, 10⟩ sampleLetter = true := by
    unfold Letter.hit Letter.collision_check
    dsimp only
    rw [hm.1, hm.2.2.1, hm.2.2.2.1, hm.2.2.2.2.1, fx, fy, fw, fh, fs]
    norm_num
  have hit3 : Letter.hit ⟨1 / 10, 600, 290, 200, 10⟩ sampleLetter = false :=
    test_scoring_no_hit _ 'P' 290
  have hmid : ((Int.tdiv sampleLetter.width 2 : ℤ) : ℚ) = 10 := by
    rw [fw]
    have : Int.tdiv 20 2 = 10 := by decide
    rw [this]
    norm_num
  obtain ⟨⟨a1, -⟩, a2, -⟩ := (C21_letter_hit_scoring sampleFont ⟨1 / 10, 600, 305, 220, 10⟩
    ⟨sampleLetter, User.new "Alice", User.new "Bob"⟩).1 hit1
  obtain ⟨⟨-, b1⟩, -⟩ := (C21_letter_hit_scoring sampleFont ⟨1 / 10, 600, 310, 220, 10⟩
    ⟨sampleLetter, User.new "Alice", User.new "Bob"⟩).1 hit2
  obtain ⟨c1, c2, -⟩ := (C21_letter_hit_scoring sampleFont ⟨1 / 10, 600, 290, 200, 10⟩
    ⟨sampleLetter, User.new "Alice", User.new "Bob"⟩).2 hit3
  have lt1 : (305 : ℚ) < sampleLetter.x + ((Int.tdiv sampleLetter.width 2 : ℤ) : ℚ) := by
    rw [hmid, fx]; norm_num
  have lt2 : ¬ (310 : ℚ) < sampleLetter.x + ((Int.tdiv sampleLetter.width 2 : ℤ) : ℚ) := by
    rw [hmid, fx]; norm_num
  refine ⟨⟨?_, (a1 lt1).2, ?_⟩, ⟨(b1 lt2).1, ?_⟩, ⟨c1, c2⟩⟩
  · rw [(a1 lt1).1]
    rfl
  · rw [a2 (by decide)]
    rfl
  · rw [(b1 lt2).2]
    rfl

theorem hit_radius_zero (t : LetterTick) (l : Letter) (h : t.ball_radius = 0) :
    Letter.hit t l = false := by
  unfold Letter.hit Letter.collision_check
  dsimp only
  rw [decide_eq_false_iff_not, h]
  intro hc
  have key : ∀ A B : ℚ, ¬ (A * A + B * B < 0 * 0) := by
    intro A B hAB
    nlinarith [mul_self_nonneg A, mul_self_nonneg B]
  exact key _ _ hc

theorem run_radius_zero (font : Char → Option (ℤ × ℤ)) (ticks : List LetterTick)
    (w : LetterWorld) (h : ∀ t ∈ ticks, t.ball_radius = 0) :
    (Letter.run font ticks w).letter =
      ticks.foldl (fun l t => l.update_move t.time t.screen_height) w.letter ∧
    Letter.hit_count font ticks w = 0 := by
  induction ticks generalizing w with
  | nil => exact ⟨rfl, rfl⟩
  | cons t rest ih =>
    have ht : Letter.hit t w.letter = false := hit_radius_zero t w.letter (h t (by simp))
    have hstep := update_letter_of_miss font t w ht
    have hrest := ih (Letter.update_letter font t.time t.screen_height t.ball_pos_x t.ball_pos_y
      t.ball_radius w) (fun u hu => h u (by simp [hu]))
    constructor
    · show (Letter.run font rest (Letter.update_letter font t.time t.screen_height t.ball_pos_x
        t.ball_pos_y t.ball_radius w)).letter = _
      rw [hrest.1, hstep]
      rfl
    · show (if Letter.hit t w.letter then 1 else 0) + Letter.hit_count font rest
        (Letter.update_letter font t.time t.screen_height t.ball_pos_x t.ball_pos_y
          t.ball_radius w) = 0
      rw [hrest.2, ht]
      rfl

theorem update_move_low (l : Letter) (hh : l.height = 40) (hy : l.y = 595)
    (hs : l.speed = 150) :
    (l.update_move (1 / 10) 600).height = 40 ∧ (l.update_move (1 / 10) 600).y = 610 ∧
    (l.update_move (1 / 10) 600).speed = -150 := by
  obtain ⟨m1, -, -, -, m5, m6⟩ := update_move_facts (1 / 10) 600 l
  rw [m1, m5, m6, hh, hy, hs]
  norm_num

theorem update_move_high (l : Letter) (hh : l.height = 40) (hy : l.y = 610)
    (hs : l.speed = -150) :
    (l.update_move (1 / 10) 600).height = 40 ∧ (l.update_move (1 / 10) 600).y = 595 ∧
    (l.update_move (1 / 10) 600).speed = 150 := by
  obtain ⟨m1, -, -, -, m5, m6⟩ := update_move_facts (1 / 10) 600 l
  rw [m1, m5, m6, hh, hy, hs]
  norm_num

/-- Claim C27 at the failing input, the one of `test_letter_movement`: a letter
starting at y = 595 (within the 600-high screen) with speed 150 and a glyph 40
high, updated with dt = 0.1 and no ball hit: after the first call its y is 610,
below the bottom of the screen; its speed is then reversed at every call, so y
alternates between 610 and 595, and after the five calls of the test it is 610
again, above `WINDOW_HEIGHT` = 600. -/
theorem C27_letter_leaves_screen :
    (0 ≤ sampleLetterLow.y ∧ sampleLetterLow.y ≤ 600) ∧
    Letter.hit_count sampleFont (List.replicate 5 sampleLetterTick)
      ⟨sampleLetterLow, User.new "Alice", User.new "Bob"⟩ = 0 ∧
    (Letter.run sampleFont (List.replicate 1 sampleLetterTick)
      ⟨sampleLetterLow, User.new "Alice", User.new "Bob"⟩).letter.y = 610 ∧
    (Letter.run sampleFont (List.replicate 2 sampleLetterTick)
      ⟨sampleLetterLow, User.new "Alice", User.new "Bob"⟩).letter.y = 595 ∧
    (Letter.run sampleFont (List.replicate 3 sampleLetterTick)
      ⟨sampleLetterLow, User.new "Alice", User.new "Bob"⟩).letter.y = 610 ∧
    (Letter.run sampleFont (List.replicate 5 sampleLetterTick)
      ⟨sampleLetterLow, User.new "Alice", User.new "Bob"⟩).letter.y = 610 ∧
    (600 : ℚ) < 610 := by
  have hz : ∀ n : ℕ, ∀ t ∈ List.replicate n sampleLetterTick, t.ball_radius = 0 := by
    intro n t ht
    rw [List.eq_of_mem_replicate ht]
    rfl
  have f0 : sampleLetterLow.height = 40 ∧ sampleLetterLow.y = 595 ∧
      sampleLetterLow.speed = 150 := ⟨rfl, rfl, rfl⟩
  have f1 := update_move_low _ f0.1 f0.2.1 f0.2.2
  have f2 := update_move_high _ f1.1 f1.2.1 f1.2.2
  have f3 := update_move_low _ f2.1 f2.2.1 f2.2.2
  have f4 := update_move_high _ f3.1 f3.2.1 f3.2.2
  have f5 := update_move_low _ f4.1 f4.2.1 f4.2.2
  refine ⟨⟨by rw [f0.2.1]; norm_num, by rw [f0.2.1]; norm_num⟩,
    (run_radius_zero sampleFont _ _ (hz 5)).2, ?_, ?_, ?_, ?_, by norm_num⟩
  · rw [(run_radius_zero sampleFont _ _ (hz 1)).1]
    exact f1.2.1
  · rw [(run_radius_zero sampleFont _ _ (hz 2)).1]
    exact f2.2.1
  · rw [(run_radius_zero sampleFont _ _ (hz 3)).1]
    exact f3.2.1
  · rw [(run_radius_zero sampleFont _ _ (hz 5)).1]
    exact f5.2.1

/-! ## The AI controller: step size and overshoot -/

theorem reactionFactor_bounds (difficulty : ℤ) :
    0 < AI.reactionFactor difficulty ∧ AI.reactionFactor difficulty ≤ 14 / 10 ∧
    (difficulty ≠ AI_MODE_HARD → AI.reactionFactor difficulty ≤ 1) ∧
    (difficulty = AI_MODE_EASY → AI.reactionFactor difficulty = 6 / 10) ∧
    (difficulty = AI_MODE_NORMAL → AI.reactionFactor difficulty = 1) ∧
    (difficulty = AI_MODE_HARD → AI.reactionFactor difficulty = 14 / 10) := by
  unfold AI.reactionFactor AI_MODE_EASY AI_MODE_NORMAL AI_MODE_HARD
  refine ⟨?_, ?_, ?_, ?_, ?_, ?_⟩
  · split_ifs <;> norm_num
  · split_ifs <;> norm_num
  · intro h
    split_ifs <;> norm_num
  · intro h
    rw [if_pos h]
  · intro h
    rw [h]
    norm_num
  · intro h
    rw [h]
    norm_num

/-- The paddle after `AI::updateAI` when it starts inside its bounds: it has
moved toward the ball by some s with 0 <= s <= speed * factor * dt, or not at all. -/
theorem updateAI_step (difficulty : ℤ) (ball : BallBase) (dt : ℚ) (p : Paddle)
    (hdt : 0 ≤ dt) (hs : 0 ≤ p.racket_speed)
    (hlo : p.racket_height / 2 ≤ p.pos_y) (hhi : p.pos_y ≤ 600 - p.racket_height / 2) :
    ∃ q : Paddle, (AI.updateAI (some ball) dt ⟨some p, difficulty⟩).racket = some q ∧
      ∃ s : ℚ, 0 ≤ s ∧ s ≤ p.racket_speed * AI.reactionFactor difficulty * dt ∧
        ((ball.pos_y < p.pos_y - 10 ∧ q.pos_y = p.pos_y - s) ∨
         (ball.pos_y > p.pos_y + 10 ∧ q.pos_y = p.pos_y + s) ∨
         q.pos_y = p.pos_y ∧ s = 0) := by
  refine ⟨_, (updateAI_racket_eq difficulty ball dt p).1, ?_⟩
  have hf := (reactionFactor_bounds difficulty).1
  have hfe : (if difficulty = AI_MODE_EASY then (6 / 10 : ℚ)
      else if difficulty = AI_MODE_NORMAL then 1
      else if difficulty = AI_MODE_HARD then 14 / 10 else 1) = AI.reactionFactor difficulty := rfl
  rw [hfe]
  generalize AI.reactionFactor difficulty = f at hf ⊢
  have hm : 0 ≤ p.racket_speed * f * dt := mul_nonneg (mul_nonneg hs (le_of_lt hf)) hdt
  unfold Paddle.adjust_boundaries
  dsimp only
  by_cases h1 : ball.pos_y < p.pos_y - 10
  · rw [if_pos h1]
    split_ifs with c1 c2
    · exact ⟨p.pos_y - p.racket_height / 2, by linarith, by linarith,
        Or.inl ⟨h1, by dsimp only; ring⟩⟩
    · exact ⟨p.pos_y - (600 - p.racket_height / 2), by linarith, by linarith,
        Or.inl ⟨h1, by dsimp only; ring⟩⟩
    · exact ⟨p.racket_speed * f * dt, hm, le_refl _, Or.inl ⟨h1, rfl⟩⟩
  · rw [if_neg h1]
    by_cases h2 : ball.pos_y > p.pos_y + 10
    · rw [if_pos h2]
      split_ifs with c1 c2
      · exact ⟨p.racket_height / 2 - p.pos_y, by linarith, by linarith,
          Or.inr (Or.inl ⟨h2, by dsimp only; ring⟩)⟩
      · exact ⟨600 - p.racket_height / 2 - p.pos_y, by linarith, by linarith,
          Or.inr (Or.inl ⟨h2, by dsimp only; ring⟩)⟩
      · exact ⟨p.racket_speed * f * dt, hm, le_refl _, Or.inr (Or.inl ⟨h2, rfl⟩)⟩
    · rw [if_neg h2]
      split_ifs with c1 c2
      · exact absurd c1 (not_lt.mpr hlo)
      · exact absurd c2 (not_lt.mpr hhi)
      · exact ⟨0, le_refl _, hm, Or.inr (Or.inr ⟨rfl, rfl⟩)⟩

/-- Claim C29, refuted as stated: on hard difficulty with dt = 0.05 the AI paddle
at y = 300 with the ball at y = 310.2 moves by 300 * 1.4 * 0.05 = 21 to y = 321,
and its distance to the ball grows from 10.2 to 10.8. -/
theorem C29_counterexample :
    (AI.updateAI (some sampleBallNear) (1 / 20) ⟨some racketRight, AI_MODE_HARD⟩).racket.map
      Paddle.pos_y = some 321 ∧
    racketRight.pos_y = 300 ∧ sampleBallNear.pos_y = 1551 / 5 ∧
    |racketRight.pos_y - sampleBallNear.pos_y| < |(321 : ℚ) - sampleBallNear.pos_y| := by
  have hy : racketRight.pos_y = 300 := by
    norm_num [racketRight, Paddle.new, WINDOW_HEIGHT_half]
  refine ⟨?_, hy, rfl, ?_⟩
  · rw [(updateAI_racket_eq AI_MODE_HARD sampleBallNear (1 / 20) racketRight).1]
    norm_num [Paddle.adjust_boundaries, sampleBallNear, racketRight, Paddle.new,
      AI_MODE_NORMAL, AI_MODE_EASY, AI_MODE_HARD, WINDOW_HEIGHT_half]
  · rw [hy]
    norm_num [sampleBallNear, abs_lt, abs_of_neg, abs_of_pos]

/-- Claim C29 as amended: for every difficulty value (factor 0.6, 1.0, 1.4, and
1.0 for any other value), every dt >= 0 and every paddle inside its bounds with
non-negative speed, one `AI::updateAI` call moves the paddle by at most
speed * factor * dt (300 * factor * dt for the speed 300 of the game paddles);
the vertical distance to the ball does not increase whenever
speed * factor * dt <= 20, which holds for speed 300 and dt <= 0.05 on every
difficulty but hard, and on hard for dt <= 1/21. -/
theorem C29_ai_bounded_step (difficulty : ℤ) (ball : BallBase) (dt : ℚ) (p : Paddle)
    (hdt : 0 ≤ dt) (hs : 0 ≤ p.racket_speed)
    (hlo : p.racket_height / 2 ≤ p.pos_y) (hhi : p.pos_y ≤ 600 - p.racket_height / 2) :
    ∃ q : Paddle, (AI.updateAI (some ball) dt ⟨some p, difficulty⟩).racket = some q ∧
      |q.pos_y - p.pos_y| ≤ p.racket_speed * AI.reactionFactor difficulty * dt ∧
      (p.racket_speed = 300 → |q.pos_y - p.pos_y| ≤ 300 * AI.reactionFactor difficulty * dt) ∧
      (p.racket_speed * AI.reactionFactor difficulty * dt ≤ 20 →
        |q.pos_y - ball.pos_y| ≤ |p.pos_y - ball.pos_y|) ∧
      (p.racket_speed = 300 → dt ≤ 1 / 20 → difficulty ≠ AI_MODE_HARD →
        |q.pos_y - ball.pos_y| ≤ |p.pos_y - ball.pos_y|) ∧
      (p.racket_speed = 300 → dt ≤ 1 / 21 →
        |q.pos_y - ball.pos_y| ≤ |p.pos_y - ball.pos_y|) := by
  obtain ⟨q, hq, s, s0, s1, hcase⟩ := updateAI_step difficulty ball dt p hdt hs hlo hhi
  obtain ⟨f0, f1, f2, -⟩ := reactionFactor_bounds difficulty
  have hstep : |q.pos_y - p.pos_y| ≤ p.racket_speed * AI.reactionFactor difficulty * dt := by
    rcases hcase with ⟨-, e⟩ | ⟨-, e⟩ | ⟨e, -⟩
    · rw [e, abs_le]; constructor <;> linarith
    · rw [e, abs_le]; constructor <;> linarith
    · rw [e, sub_self, abs_zero]; linarith
  have hdist : p.racket_speed * AI.reactionFactor difficulty * dt ≤ 20 →
      |q.pos_y - ball.pos_y| ≤ |p.pos_y - ball.pos_y| := by
    intro h20
    rcases hcase with ⟨hb, e⟩ | ⟨hb, e⟩ | ⟨e, -⟩
    · rw [e, abs_of_pos (show 0 < p.pos_y - ball.pos_y by linarith), abs_le]
      constructor <;> linarith
    · rw [e, abs_of_neg (show p.pos_y - ball.pos_y < 0 by linarith), abs_le]
      constructor <;> linarith
    · rw [e]
  refine ⟨q, hq, hstep, ?_, hdist, ?_, ?_⟩
  · intro h3
    rw [h3] at hstep
    exact hstep
  · intro h3 hd hne
    apply hdist
    rw [h3]
    have := f2 hne
    nlinarith
  · intro h3 hd
    apply hdist
    rw [h3]
    nlinarith

/-- Witness for C29: the AI paddle at y = 300 on normal difficulty with the ball
at y = 310.2 and dt = 0.05 moves by 15 to y = 315, and its distance to the ball
falls from 10.2 to 4.8. -/
theorem C29_witness :
    (AI.updateAI (some sampleBallNear) (1 / 20) ⟨some racketRight, AI_MODE_NORMAL⟩).racket.map
      Paddle.pos_y = some 315 ∧
    |(315 : ℚ) - sampleBallNear.pos_y| ≤ |racketRight.pos_y - sampleBallNear.pos_y| := by
  have hy : racketRight.pos_y = 300 := by
    norm_num [racketRight, Paddle.new, WINDOW_HEIGHT_half]
  obtain ⟨q, hq, -, -, -, hd, -⟩ := C29_ai_bounded_step AI_MODE_NORMAL sampleBallNear (1 / 20)
    racketRight (by norm_num) (by norm_num [racketRight, Paddle.new])
    (by norm_num [racketRight, Paddle.new, WINDOW_HEIGHT_half])
    (by norm_num [racketRight, Paddle.new, WINDOW_HEIGHT_half])
  have hv : q.pos_y = 315 := by
    have e := (updateAI_racket_eq AI_MODE_NORMAL sampleBallNear (1 / 20) racketRight).1
    rw [hq] at e
    have e3 := Option.some.inj (congrArg (Option.map Paddle.pos_y) e)
    rw [e3]
    norm_num [Paddle.adjust_boundaries, sampleBallNear, racketRight, Paddle.new,
      AI_MODE_NORMAL, AI_MODE_EASY, WINDOW_HEIGHT_half]
  have hd2 := hd (by norm_num [racketRight, Paddle.new]) (by norm_num) (by decide)
  rw [hv] at hd2
  rw [hq]
  exact ⟨by rw [Option.map_some', hv], hd2⟩

/-! ## Paddle bounces: direction and tunnelling -/

theorem toInt_le_of_le (q : ℚ) (n : ℤ) (h : q ≤ (n : ℚ)) : toInt q ≤ n := by
  unfold toInt
  split_ifs
  · exact Int.floor_le_iff.mpr (by linarith)
  · exact Int.ceil_le.mpr h

theorem le_toInt_of_le (q : ℚ) (n : ℤ) (hn : 0 ≤ n) (h : (n : ℚ) ≤ q) : n ≤ toInt q := by
  unfold toInt
  have h0 : (0 : ℚ) ≤ q := le_trans (by exact_mod_cast hn) h
  rw [if_pos h0]
  exact Int.le_floor.mpr h

theorem le_of_le_toInt (q : ℚ) (n : ℤ) (hn : 0 < n) (h : n ≤ toInt q) : (n : ℚ) ≤ q := by
  unfold toInt at h
  split_ifs at h with h0
  · exact Int.le_floor.mp h
  · exfalso
    have : ⌈q⌉ ≤ 0 := Int.ceil_le.mpr (by push_cast; linarith)
    omega

theorem lt_add_one_of_toInt_le (q : ℚ) (n : ℤ) (h : toInt q ≤ n) : q < (n : ℚ) + 1 := by
  unfold toInt at h
  split_ifs at h with h0
  · have := Int.lt_floor_add_one q
    have : ((⌊q⌋ : ℤ) : ℚ) ≤ (n : ℚ) := by exact_mod_cast h
    linarith
  · have h1 := Int.le_ceil q
    have : ((⌈q⌉ : ℤ) : ℚ) ≤ (n : ℚ) := by exact_mod_cast h
    linarith

/-- The ball after a registered paddle hit: horizontal velocity times -1.1 and
the centre half a ball to the right of the left paddle (x = 37 + size / 2) or
half a ball to the left of the right paddle (x = 762 - size / 2). -/
theorem update_after_hit (env : Libc) (dt : ℚ) (paddle1 paddle2 : Paddle) (u1 u2 : User)
    (b : BallBase) (hp : gamePaddles paddle1 paddle2) (hs : gameBallSize b) :
    (SDL_HasIntersection (BallBase.update_before_paddles env dt u1 u2 b).ball.boundaries
        paddle1.rectangle = true →
      (BallBase.update env dt paddle1 paddle2 u1 u2 b).ball.vel_x = b.vel_x * (-11 / 10) ∧
      (BallBase.update env dt paddle1 paddle2 u1 u2 b).ball.pos_x = 37 + b.ball_size / 2 ∧
      (BallBase.update env dt paddle1 paddle2 u1 u2 b).ball.ball_size = b.ball_size) ∧
    (SDL_HasIntersection (BallBase.update_before_paddles env dt u1 u2 b).ball.boundaries
        paddle2.rectangle = true →
      (BallBase.update env dt paddle1 paddle2 u1 u2 b).ball.vel_x = b.vel_x * (-11 / 10) ∧
      (BallBase.update env dt paddle1 paddle2 u1 u2 b).ball.pos_x = 762 - b.ball_size / 2 ∧
      (BallBase.update env dt paddle1 paddle2 u1 u2 b).ball.ball_size = b.ball_size) := by
  obtain ⟨r1, r2, r3, r4⟩ := gamePaddles_rectangle paddle1 paddle2 hp
  obtain ⟨-, -, -, wv, ws, -⟩ := update_wall_move_facts dt u1 u2 b
  constructor
  · intro hit
    obtain ⟨i0, i1⟩ := update_hit_inside env dt paddle1 paddle2 u1 u2 b hp hs (Or.inl hit)
    have hpre := update_before_paddles_ball_of_inside env dt u1 u2 b i0 i1
    have hball : (BallBase.update env dt paddle1 paddle2 u1 u2 b).ball =
        { (BallBase.update_before_paddles env dt u1 u2 b).ball with
          pos_x := (paddle1.rectangle.x : ℚ) + (paddle1.rectangle.w : ℚ) +
            (BallBase.update_before_paddles env dt u1 u2 b).ball.ball_size / 2
          vel_x := (BallBase.update_before_paddles env dt u1 u2 b).ball.vel_x * (-11 / 10) } := by
      unfold BallBase.update BallBase.update_paddles
      simp only [hit, if_true]
    rw [hball]
    dsimp only
    rw [hpre, ws, wv, r1, r2]
    refine ⟨rfl, ?_, rfl⟩
    push_cast
    ring
  · intro hit
    obtain ⟨i0, i1⟩ := update_hit_inside env dt paddle1 paddle2 u1 u2 b hp hs (Or.inr hit)
    have hpre := update_before_paddles_ball_of_inside env dt u1 u2 b i0 i1
    have hsz : (BallBase.update_before_paddles env dt u1 u2 b).ball.ball_size = b.ball_size := by
      rw [hpre]; exact ws
    have hw : (BallBase.update_before_paddles env dt u1 u2 b).ball.boundaries.w ≤ 24 := by
      unfold BallBase.boundaries
      dsimp only
      rw [hsz]
      rcases gameBallSize_toInt b hs with h | h <;> omega
    have hno1 : SDL_HasIntersection (BallBase.update_before_paddles env dt u1 u2 b).ball.boundaries
        paddle1.rectangle = false := by
      have := SDL_HasIntersection_horizontal _ _ hit
      apply SDL_HasIntersection_eq_false
      left
      omega
    have hball : (BallBase.update env dt paddle1 paddle2 u1 u2 b).ball =
        { (BallBase.update_before_paddles env dt u1 u2 b).ball with
          pos_x := (paddle2.rectangle.x : ℚ) -
            (BallBase.update_before_paddles env dt u1 u2 b).ball.ball_size / 2
          vel_x := (BallBase.update_before_paddles env dt u1 u2 b).ball.vel_x * (-11 / 10) } := by
      unfold BallBase.update BallBase.update_paddles
      simp only [hit, hno1, if_true, Bool.false_eq_true, if_false]
    rw [hball]
    dsimp only
    rw [hpre, ws, wv, r3]
    refine ⟨rfl, ?_, rfl⟩
    push_cast
    ring

/-- A ball whose box is clear of the left paddle on its right and which does not
move to the left is not found on the left paddle by the next step. -/
theorem no_hit_moving_away_left (env : Libc) (dt : ℚ) (paddle1 paddle2 : Paddle) (u1 u2 : User)
    (b : BallBase) (hp : gamePaddles paddle1 paddle2) (hs : gameBallSize b) (hdt : 0 ≤ dt)
    (hx : 37 + b.ball_size / 2 ≤ b.pos_x) (hv : 0 ≤ b.vel_x) :
    SDL_HasIntersection (BallBase.update_before_paddles env dt u1 u2 b).ball.boundaries
      paddle1.rectangle = false := by
  obtain ⟨r1, r2, r3, r4⟩ := gamePaddles_rectangle paddle1 paddle2 hp
  obtain ⟨-, -, wx, -, ws, -⟩ := update_wall_move_facts dt u1 u2 b
  have hmove : 0 ≤ b.vel_x * dt := mul_nonneg hv hdt
  have hsz : 0 < b.ball_size := by rcases hs with h | h <;> rw [h] <;> norm_num
  by_cases h8 : b.pos_x + b.vel_x * dt < 800
  · have hpre := update_before_paddles_ball_of_inside env dt u1 u2 b (by linarith) h8
    apply SDL_HasIntersection_eq_false
    left
    rw [hpre, r1, r2]
    unfold BallBase.boundaries
    dsimp only
    rw [wx, ws]
    exact le_toInt_of_le _ 37 (by norm_num) (by push_cast; linarith)
  · exact (update_scored_no_paddle env dt paddle1 paddle2 u1 u2 b hp hs
      (Or.inr (not_lt.mp h8))).2.2.1

/-- A ball whose box is clear of the right paddle on its left and which does not
move to the right is not found on the right paddle by the next step. -/
theorem no_hit_moving_away_right (env : Libc) (dt : ℚ) (paddle1 paddle2 : Paddle)
    (u1 u2 : User) (b : BallBase) (hp : gamePaddles paddle1 paddle2) (hs : gameBallSize b)
    (hdt : 0 ≤ dt) (hx : b.pos_x ≤ 762 - b.ball_size / 2) (hv : b.vel_x ≤ 0) :
    SDL_HasIntersection (BallBase.update_before_paddles env dt u1 u2 b).ball.boundaries
      paddle2.rectangle = false := by
  obtain ⟨r1, r2, r3, r4⟩ := gamePaddles_rectangle paddle1 paddle2 hp
  obtain ⟨-, -, wx, -, ws, -⟩ := update_wall_move_facts dt u1 u2 b
  have hmove : b.vel_x * dt ≤ 0 := mul_nonpos_of_nonpos_of_nonneg hv hdt
  by_cases h0 : 0 < b.pos_x + b.vel_x * dt
  · have hpre := update_before_paddles_ball_of_inside env dt u1 u2 b h0 (by
      rcases hs with h | h <;> rw [h] at hx <;> linarith)
    apply SDL_HasIntersection_eq_false
    right
    rw [hpre, r3]
    unfold BallBase.boundaries
    dsimp only
    rw [wx, ws]
    rcases hs with h | h
    · rw [h] at hx ⊢
      have := toInt_le_of_le (b.pos_x + b.vel_x * dt - 20 / 2) 742 (by push_cast; linarith)
      have h20 : toInt (20 : ℚ) = 20 := by norm_num [toInt]
      rw [h20]
      omega
    · rw [h] at hx ⊢
      have := toInt_le_of_le (b.pos_x + b.vel_x * dt - 24 / 2) 738 (by push_cast; linarith)
      have h24 : toInt (24 : ℚ) = 24 := by norm_num [toInt]
      rw [h24]
      omega
  · exact (update_scored_no_paddle env dt paddle1 paddle2 u1 u2 b hp hs
      (Or.inl (not_lt.mp h0))).2.2.2

theorem sample_game_paddles : gamePaddles racketLeft racketRight := by
  norm_num [gamePaddles, racketLeft, racketRight, Paddle.new]

/-- Claim C28, refuted as stated: a ball moving to the right (vx = 100) whose box
still overlaps the left paddle after the move is bounced with vx = -110, toward
the paddle; placed at x = 49, it overlaps the left paddle again after the move of
the next tick, which bounces it a second time. -/
theorem C28_counterexample :
    SDL_HasIntersection (BallBase.update_before_paddles sampleLibc (1 / 20) (User.new "a")
      (User.new "b") sampleBallInward).ball.boundaries racketLeft.rectangle = true ∧
    (BallBase.update sampleLibc (1 / 20) racketLeft racketRight (User.new "a") (User.new "b")
      sampleBallInward).ball.vel_x = -110 ∧
    (BallBase.update sampleLibc (1 / 20) racketLeft racketRight (User.new "a") (User.new "b")
      sampleBallInward).ball.pos_x = 49 ∧
    SDL_HasIntersection (BallBase.update_before_paddles sampleLibc (1 / 20) (User.new "a")
      (User.new "b") (BallBase.update sampleLibc (1 / 20) racketLeft racketRight (User.new "a")
        (User.new "b") sampleBallInward).ball).ball.boundaries racketLeft.rectangle = true := by
  have hit : SDL_HasIntersection (BallBase.update_before_paddles sampleLibc (1 / 20)
      (User.new "a") (User.new "b") sampleBallInward).ball.boundaries racketLeft.rectangle
      = true := by
    norm_num [BallBase.update_before_paddles, BallBase.update_score, BallBase.update_wall,
      BallBase.update_move, BallBase.boundaries, Paddle.rectangle, racketLeft, Paddle.new,
      SDL_HasIntersection, SDL_RectEmpty, toInt, WINDOW_HEIGHT_half, sampleBallInward]
  have hball : (BallBase.update sampleLibc (1 / 20) racketLeft racketRight (User.new "a")
      (User.new "b") sampleBallInward).ball = ⟨49, 300, -110, 0, 24, white, -1⟩ := by
    unfold BallBase.update BallBase.update_paddles
    simp only [hit, if_true]
    norm_num [BallBase.update_before_paddles, BallBase.update_score, BallBase.update_wall,
      BallBase.update_move, Paddle.rectangle, racketLeft, Paddle.new, toInt, sampleBallInward]
  refine ⟨hit, ?_, ?_, ?_⟩
  · rw [hball]
  · rw [hball]
  · rw [hball]
    norm_num [BallBase.update_before_paddles, BallBase.update_score, BallBase.update_wall,
      BallBase.update_move, BallBase.boundaries, Paddle.rectangle, racketLeft, Paddle.new,
      SDL_HasIntersection, SDL_RectEmpty, toInt, WINDOW_HEIGHT_half]

/-- Claim C28 as amended: for the game paddles and ball sizes, a
`BallBase::update` that resolves a collision with the left paddle multiplies vx
by -1.1; if the ball was moving to the left before (vx < 0), it moves away from
the paddle afterwards (vx > 0) and the step of the next tick (any dt >= 0, any
heights and positions of the paddles) does not find it on the left paddle again.
Likewise for the right paddle with vx > 0 before and vx < 0 after. -/
theorem C28_bounce_moves_away (env : Libc) (dt : ℚ) (paddle1 paddle2 : Paddle) (u1 u2 : User)
    (b : BallBase) (hp : gamePaddles paddle1 paddle2) (hs : gameBallSize b) :
    (SDL_HasIntersection (BallBase.update_before_paddles env dt u1 u2 b).ball.boundaries
        paddle1.rectangle = true →
      (BallBase.update env dt paddle1 paddle2 u1 u2 b).ball.vel_x = b.vel_x * (-11 / 10) ∧
      (b.vel_x < 0 →
        0 < (BallBase.update env dt paddle1 paddle2 u1 u2 b).ball.vel_x ∧
        ∀ (env2 : Libc) (dt2 : ℚ) (q1 q2 : Paddle) (v1 v2 : User), 0 ≤ dt2 →
          gamePaddles q1 q2 →
          SDL_HasIntersection (BallBase.update_before_paddles env2 dt2 v1 v2
            (BallBase.update env dt paddle1 paddle2 u1 u2 b).ball).ball.boundaries
            q1.rectangle = false)) ∧
    (SDL_HasIntersection (BallBase.update_before_paddles env dt u1 u2 b).ball.boundaries
        paddle2.rectangle = true →
      (BallBase.update env dt paddle1 paddle2 u1 u2 b).ball.vel_x = b.vel_x * (-11 / 10) ∧
      (0 < b.vel_x →
        (BallBase.update env dt paddle1 paddle2 u1 u2 b).ball.vel_x < 0 ∧
        ∀ (env2 : Libc) (dt2 : ℚ) (q1 q2 : Paddle) (v1 v2 : User), 0 ≤ dt2 →
          gamePaddles q1 q2 →
          SDL_HasIntersection (BallBase.update_before_paddles env2 dt2 v1 v2
            (BallBase.update env dt paddle1 paddle2 u1 u2 b).ball).ball.boundaries
            q2.rectangle = false)) := by
  obtain ⟨h1, h2⟩ := update_after_hit env dt paddle1 paddle2 u1 u2 b hp hs
  constructor
  · intro hit
    obtain ⟨a1, a2, a3⟩ := h1 hit
    refine ⟨a1, fun hv => ?_⟩
    have hpos : 0 < (BallBase.update env dt paddle1 paddle2 u1 u2 b).ball.vel_x := by
      rw [a1]; linarith
    refine ⟨hpos, fun env2 dt2 q1 q2 v1 v2 hdt2 hq => ?_⟩
    apply no_hit_moving_away_left env2 dt2 q1 q2 v1 v2 _ hq
    · unfold gameBallSize
      rw [a3]
      exact hs
    · exact hdt2
    · rw [a2, a3]
    · exact le_of_lt hpos
  · intro hit
    obtain ⟨a1, a2, a3⟩ := h2 hit
    refine ⟨a1, fun hv => ?_⟩
    have hneg : (BallBase.update env dt paddle1 paddle2 u1 u2 b).ball.vel_x < 0 := by
      rw [a1]; linarith
    refine ⟨hneg, fun env2 dt2 q1 q2 v1 v2 hdt2 hq => ?_⟩
    apply no_hit_moving_away_right env2 dt2 q1 q2 v1 v2 _ hq
    · unfold gameBallSize
      rw [a3]
      exact hs
    · exact hdt2
    · rw [a2, a3]
    · exact le_of_lt hneg

/-- Witness for C28: a ball at (50, 300) moving left at 100 hits the left paddle;
it leaves with vx = 110 > 0 and the next tick does not find it on that paddle. -/
theorem C28_witness :
    gamePaddles racketLeft racketRight ∧
    gameBallSize ⟨50, 300, -100, 0, 24, white, -1⟩ ∧
    (BallBase.update sampleLibc (1 / 20) racketLeft racketRight (User.new "a") (User.new "b")
      ⟨50, 300, -100, 0, 24, white, -1⟩).ball.vel_x = 110 ∧
    SDL_HasIntersection (BallBase.update_before_paddles sampleLibc (1 / 20) (User.new "a")
      (User.new "b") (BallBase.update sampleLibc (1 / 20) racketLeft racketRight (User.new "a")
        (User.new "b") ⟨50, 300, -100, 0, 24, white, -1⟩).ball).ball.boundaries
      racketLeft.rectangle = false := by
  have h := (C28_bounce_moves_away sampleLibc (1 / 20) racketLeft racketRight (User.new "a")
    (User.new "b") ⟨50, 300, -100, 0, 24, white, -1⟩ sample_game_paddles (Or.inr rfl)).1
    (by norm_num [BallBase.update_before_paddles, BallBase.update_score, BallBase.update_wall,
      BallBase.update_move, BallBase.boundaries, Paddle.rectangle, racketLeft, Paddle.new,
      SDL_HasIntersection, SDL_RectEmpty, toInt, WINDOW_HEIGHT_half])
  refine ⟨sample_game_paddles, Or.inr rfl, ?_, ?_⟩
  · rw [h.1]; norm_num
  · exact (h.2 (by norm_num)).2 sampleLibc (1 / 20) racketLeft racketRight (User.new "a")
      (User.new "b") (by norm_num) sample_game_paddles

/-- Claim C26, refuted as stated: with dt = 0.05, the ball of size 24 at (50, 300)
with vx = -800 has its box entirely to the right of the left paddle before the
step and entirely to its left after the move, at a height where the two boxes
overlap vertically; the step registers no paddle collision: the ball ends at
x = 10 with vx = -800 and no sound is played. -/
theorem C26_counterexample :
    racketLeft.rectangle.x + racketLeft.rectangle.w ≤ sampleBallFast.boundaries.x ∧
    (BallBase.update_before_paddles sampleLibc (1 / 20) (User.new "a") (User.new "b")
        sampleBallFast).ball.boundaries.x +
      (BallBase.update_before_paddles sampleLibc (1 / 20) (User.new "a") (User.new "b")
        sampleBallFast).ball.boundaries.w ≤ racketLeft.rectangle.x ∧
    (racketLeft.rectangle.y <
      (BallBase.update_before_paddles sampleLibc (1 / 20) (User.new "a") (User.new "b")
        sampleBallFast).ball.boundaries.y +
      (BallBase.update_before_paddles sampleLibc (1 / 20) (User.new "a") (User.new "b")
        sampleBallFast).ball.boundaries.h ∧
     (BallBase.update_before_paddles sampleLibc (1 / 20) (User.new "a") (User.new "b")
        sampleBallFast).ball.boundaries.y < racketLeft.rectangle.y + racketLeft.rectangle.h) ∧
    (BallBase.update sampleLibc (1 / 20) racketLeft racketRight (User.new "a") (User.new "b")
      sampleBallFast).ball.pos_x = 10 ∧
    (BallBase.update sampleLibc (1 / 20) racketLeft racketRight (User.new "a") (User.new "b")
      sampleBallFast).ball.vel_x = -800 ∧
    (BallBase.update sampleLibc (1 / 20) racketLeft racketRight (User.new "a") (User.new "b")
      sampleBallFast).sounds = [] := by
  have hpre : BallBase.update_before_paddles sampleLibc (1 / 20) (User.new "a") (User.new "b")
      sampleBallFast = ⟨⟨10, 300, -800, 0, 24, white, -1⟩, User.new "a", User.new "b", []⟩ := by
    norm_num [BallBase.update_before_paddles, BallBase.update_score, BallBase.update_wall,
      BallBase.update_move, sampleBallFast]
  have hbox : (⟨10, 300, -800, 0, 24, white, -1⟩ : BallBase).boundaries = ⟨-2, 288, 24, 24⟩ := by
    norm_num [BallBase.boundaries, toInt, Int.ceil_neg]
  have hrect : racketLeft.rectangle = ⟨22, 250, 15, 100⟩ := by
    norm_num [Paddle.rectangle, racketLeft, Paddle.new, toInt, WINDOW_HEIGHT_half]
  have hno1 : SDL_HasIntersection (⟨-2, 288, 24, 24⟩ : SDL_Rect) racketLeft.rectangle = false := by
    apply SDL_HasIntersection_eq_false
    right
    rw [hrect]
    decide
  have hno2 : SDL_HasIntersection (⟨-2, 288, 24, 24⟩ : SDL_Rect) racketRight.rectangle
      = false := by
    apply SDL_HasIntersection_eq_false
    right
    rw [(gamePaddles_rectangle racketLeft racketRight sample_game_paddles).2.2.1]
    decide
  have hup : BallBase.update sampleLibc (1 / 20) racketLeft racketRight (User.new "a")
      (User.new "b") sampleBallFast =
      ⟨⟨10, 300, -800, 0, 24, white, -1⟩, User.new "a", User.new "b", []⟩ := by
    unfold BallBase.update
    rw [hpre]
    apply update_paddles_of_none
    · rw [hbox]; exact hno1
    · rw [hbox]; exact hno2
  rw [hpre, hup, hbox, hrect]
  refine ⟨?_, by decide, ⟨by decide, by decide⟩, rfl, rfl, rfl⟩
  norm_num [sampleBallFast, BallBase.boundaries, toInt]

/-- Claim C26 as amended: for the game paddles and ball sizes and every step with
dt >= 0 whose horizontal displacement satisfies |vx| * dt <= 14 + size (in
particular dt <= 0.05 and |vx| <= 680), the ball's box cannot be entirely on one
side of a paddle's rectangle before the step and entirely on the other side
after the move: a ball that gets across the front edge of a paddle is found
overlapping its column by the step.  For larger displacements the box can jump
across the paddle, and then no collision is registered. -/
theorem C26_no_jump_across (dt : ℚ) (paddle1 paddle2 : Paddle) (u1 u2 : User) (b : BallBase)
    (hp : gamePaddles paddle1 paddle2) (hs : gameBallSize b) (hdt : 0 ≤ dt)
    (hv : |b.vel_x| * dt ≤ 14 + b.ball_size) :
    ¬ (paddle1.rectangle.x + paddle1.rectangle.w ≤ b.boundaries.x ∧
        (BallBase.update_wall (BallBase.update_move dt ⟨b, u1, u2, []⟩)).ball.boundaries.x +
          (BallBase.update_wall (BallBase.update_move dt ⟨b, u1, u2, []⟩)).ball.boundaries.w
          ≤ paddle1.rectangle.x) ∧
    ¬ (b.boundaries.x + b.boundaries.w ≤ paddle1.rectangle.x ∧
        paddle1.rectangle.x + paddle1.rectangle.w
          ≤ (BallBase.update_wall (BallBase.update_move dt ⟨b, u1, u2, []⟩)).ball.boundaries.x) ∧
    ¬ (paddle2.rectangle.x + paddle2.rectangle.w ≤ b.boundaries.x ∧
        (BallBase.update_wall (BallBase.update_move dt ⟨b, u1, u2, []⟩)).ball.boundaries.x +
          (BallBase.update_wall (BallBase.update_move dt ⟨b, u1, u2, []⟩)).ball.boundaries.w
          ≤ paddle2.rectangle.x) ∧
    ¬ (b.boundaries.x + b.boundaries.w ≤ paddle2.rectangle.x ∧
        paddle2.rectangle.x + paddle2.rectangle.w
          ≤ (BallBase.update_wall (BallBase.update_move dt ⟨b, u1, u2, []⟩)).ball.boundaries.x) := by
  obtain ⟨r1, r2, r3, r4⟩ := gamePaddles_rectangle paddle1 paddle2 hp
  obtain ⟨-, -, wx, -, ws, -⟩ := update_wall_move_facts dt u1 u2 b
  have hd1 : b.vel_x * dt ≤ |b.vel_x| * dt := mul_le_mul_of_nonneg_right (le_abs_self _) hdt
  have hd2 : -(b.vel_x * dt) ≤ |b.vel_x| * dt := by
    have := mul_le_mul_of_nonneg_right (neg_le_abs b.vel_x) hdt
    linarith
  have hw : ∀ s : ℚ, s = 20 ∨ s = 24 → ((toInt s : ℤ) : ℚ) = s := by
    rintro s (h | h) <;> rw [h] <;> norm_num [toInt]
  have hw0 := hw b.ball_size hs
  rw [r1, r2, r3, r4]
  unfold BallBase.boundaries
  simp only [wx, ws]
  refine ⟨?_, ?_, ?_, ?_⟩
  · rintro ⟨h0, h1⟩
    have a := le_of_le_toInt _ 37 (by norm_num) h0
    have c := lt_add_one_of_toInt_le (b.pos_x + b.vel_x * dt - b.ball_size / 2)
      (22 - toInt b.ball_size) (by omega)
    push_cast at a c
    rw [hw0] at c
    linarith
  · rintro ⟨h0, h1⟩
    have a := le_of_le_toInt _ 37 (by norm_num) h1
    have c := lt_add_one_of_toInt_le (b.pos_x - b.ball_size / 2)
      (22 - toInt b.ball_size) (by omega)
    push_cast at a c
    rw [hw0] at c
    linarith
  · rintro ⟨h0, h1⟩
    have a := le_of_le_toInt _ 777 (by norm_num) h0
    have c := lt_add_one_of_toInt_le (b.pos_x + b.vel_x * dt - b.ball_size / 2)
      (762 - toInt b.ball_size) (by omega)
    push_cast at a c
    rw [hw0] at c
    linarith
  · rintro ⟨h0, h1⟩
    have a := le_of_le_toInt _ 777 (by norm_num) h1
    have c := lt_add_one_of_toInt_le (b.pos_x - b.ball_size / 2)
      (762 - toInt b.ball_size) (by omega)
    push_cast at a c
    rw [hw0] at c
    linarith

/-- Witness for C26: for the sample ball of size 24 at (110, 300) with vx = 250 and
dt = 0.05 (displacement 12.5 <= 38) it is not the case that the box is entirely
to the right of the left paddle before the step and entirely to its left after
the move. -/
theorem C26_witness :
    |sampleBall.vel_x| * (1 / 20) ≤ 14 + sampleBall.ball_size ∧
    ¬ (racketLeft.rectangle.x + racketLeft.rectangle.w ≤ sampleBall.boundaries.x ∧
        (BallBase.update_wall (BallBase.update_move (1 / 20)
          ⟨sampleBall, User.new "a", User.new "b", []⟩)).ball.boundaries.x +
        (BallBase.update_wall (BallBase.update_move (1 / 20)
          ⟨sampleBall, User.new "a", User.new "b", []⟩)).ball.boundaries.w
          ≤ racketLeft.rectangle.x) :=
  ⟨by norm_num [sampleBall, abs_of_pos],
    (C26_no_jump_across (1 / 20) racketLeft racketRight (User.new "a") (User.new "b") sampleBall
      sample_game_paddles (Or.inr rfl) (by norm_num)
      (by norm_num [sampleBall, abs_of_pos])).1⟩

/-! ## One tick of the game: exits, ties and the size booster -/

theorem paddle_update_geometry (state : Keys) (dt : ℚ) (p : Paddle) :
    (Paddle.update state dt p).pos_x = p.pos_x ∧
    (Paddle.update state dt p).racket_width = p.racket_width ∧
    (Paddle.update state dt p).racket_height = p.racket_height := by
  obtain ⟨y, hy⟩ := update_height state dt p
  rw [hy]
  unfold Paddle.adjust_boundaries
  split_ifs <;> exact ⟨rfl, rfl, rfl⟩

theorem update_entities_of_not_ai (inp : TickInput) (g : Game)
    (h : g.mGameState ≠ game_state.AI_playing) :
    Game.update_entities inp g =
      { g with
        racket1 := g.racket1.update inp.state (Game.travel_time inp)
        racket2 := g.racket2.update inp.state (Game.travel_time inp)
        mBall := (BallBase.update inp.env_ball (Game.travel_time inp)
          (g.racket1.update inp.state (Game.travel_time inp))
          (g.racket2.update inp.state (Game.travel_time inp)) g.player1 g.player2 g.mBall).ball
        player1 := (BallBase.update inp.env_ball (Game.travel_time inp)
          (g.racket1.update inp.state (Game.travel_time inp))
          (g.racket2.update inp.state (Game.travel_time inp)) g.player1 g.player2 g.mBall).player1
        player2 := (BallBase.update inp.env_ball (Game.travel_time inp)
          (g.racket1.update inp.state (Game.travel_time inp))
          (g.racket2.update inp.state (Game.travel_time inp)) g.player1 g.player2 g.mBall).player2
        events := g.events ++ (BallBase.update inp.env_ball (Game.travel_time inp)
          (g.racket1.update inp.state (Game.travel_time inp))
          (g.racket2.update inp.state (Game.travel_time inp)) g.player1 g.player2
          g.mBall).sounds.map GameEvent.chunk } := by
  unfold Game.update_entities
  dsimp only
  rw [if_neg h]

/-- The ball and the players after a `BallBase::update` in which the ball leaves
through the left or the right edge, for the game paddles and ball sizes. -/
theorem ball_update_exit (env : Libc) (dt : ℚ) (r1 r2 : Paddle) (p1 p2 : User) (b : BallBase)
    (hp : gamePaddles r1 r2) (hs : gameBallSize b) :
    (800 ≤ b.pos_x + b.vel_x * dt →
      (BallBase.update env dt r1 r2 p1 p2 b).player1 = p1.increment_score ∧
      (BallBase.update env dt r1 r2 p1 p2 b).player2 = p2 ∧
      (BallBase.update env dt r1 r2 p1 p2 b).ball.pos_x = 400 ∧
      (BallBase.update env dt r1 r2 p1 p2 b).ball.pos_y = 300) ∧
    (b.pos_x + b.vel_x * dt ≤ 0 →
      (BallBase.update env dt r1 r2 p1 p2 b).player1 = p1 ∧
      (BallBase.update env dt r1 r2 p1 p2 b).player2 = p2.increment_score ∧
      (BallBase.update env dt r1 r2 p1 p2 b).ball.pos_x = 400 ∧
      (BallBase.update env dt r1 r2 p1 p2 b).ball.pos_y = 300) := by
  constructor
  · intro hx
    obtain ⟨c1, c2, n1, n2⟩ := update_scored_no_paddle env dt r1 r2 p1 p2 b hp hs (Or.inr hx)
    have hu : BallBase.update env dt r1 r2 p1 p2 b
        = BallBase.update_before_paddles env dt p1 p2 b := by
      unfold BallBase.update
      exact update_paddles_of_none r1 r2 _ n1 n2
    rw [hu]
    refine ⟨?_, ?_, c1, c2⟩
    · rw [update_before_paddles_right env dt p1 p2 b hx]
    · rw [update_before_paddles_right env dt p1 p2 b hx]
  · intro hx
    obtain ⟨c1, c2, n1, n2⟩ := update_scored_no_paddle env dt r1 r2 p1 p2 b hp hs (Or.inl hx)
    have hu : BallBase.update env dt r1 r2 p1 p2 b
        = BallBase.update_before_paddles env dt p1 p2 b := by
      unfold BallBase.update
      exact update_paddles_of_none r1 r2 _ n1 n2
    rw [hu]
    refine ⟨?_, ?_, c1, c2⟩
    · rw [update_before_paddles_left env dt p1 p2 b hx]
    · rw [update_before_paddles_left env dt p1 p2 b hx]

theorem in_play_guard (g : Game) (hplay : g.in_play) :
    ¬ (g.mGameState ≠ game_state.Playing ∧ g.mGameState ≠ game_state.AI_playing ∧
      g.mGameState ≠ game_state.Storytime_playing ∧ g.mGameState ≠ game_state.Fun_playing) := by
  rintro ⟨a, b, c, d⟩
  rcases hplay with h | h | h | h
  · exact a h
  · exact b h
  · exact c h
  · exact d h

theorem entities_notice_id (inp : TickInput) (g : Game) :
    (Game.update_entities inp (Game.default_ball_color g)).notice_id = g.notice_id :=
  (update_entities_frame inp _).2.1.trans (default_ball_color_frame g).2.2.2.1

theorem game_two_players_eq (inp : TickInput) (g : Game) (hplay : g.in_play)
    (hmode : g.notice_id = TWO_PLAYERS_MODE) :
    Game.game inp g = (Game.two_players_logic
      (Game.update_entities inp (Game.default_ball_color g))).update_background_color := by
  unfold Game.game
  rw [if_neg (in_play_guard g hplay)]
  unfold Game.mode_logic
  rw [entities_notice_id, hmode, if_pos rfl]

theorem game_story_eq (inp : TickInput) (g : Game) (hplay : g.in_play)
    (hmode : g.notice_id = STORYTIME_MODE) :
    Game.game inp g = (Game.round_logic 8 (Game.storytime_updates inp
      (Game.update_entities inp (Game.default_ball_color g)))).update_background_color := by
  unfold Game.game
  rw [if_neg (in_play_guard g hplay)]
  unfold Game.mode_logic
  rw [entities_notice_id, hmode, if_neg (by decide), if_neg (by decide), if_pos rfl]

theorem game_fun_eq (inp : TickInput) (g : Game) (hplay : g.in_play)
    (hmode : g.notice_id = FUN_MODE) :
    Game.game inp g = Game.round_logic 5 (Game.fun_updates inp
      (Game.update_entities inp (Game.default_ball_color g))) := by
  unfold Game.game
  rw [if_neg (in_play_guard g hplay)]
  unfold Game.mode_logic
  rw [entities_notice_id, hmode, if_neg (by decide), if_neg (by decide), if_neg (by decide),
    if_pos rfl]

theorem two_players_logic_frame (g : Game) :
    (Game.two_players_logic g).player1 = g.player1 ∧
    (Game.two_players_logic g).player2 = g.player2 ∧
    (Game.two_players_logic g).mBall = g.mBall ∧
    (Game.two_players_logic g).racket1 = g.racket1 ∧
    (Game.two_players_logic g).racket2 = g.racket2 := by
  unfold Game.two_players_logic
  dsimp only
  split_ifs <;> exact ⟨rfl, rfl, rfl, rfl, rfl⟩

theorem round_logic_rackets (T : ℤ) (g : Game) :
    (Game.round_logic T g).racket1 = g.racket1 ∧ (Game.round_logic T g).racket2 = g.racket2 ∧
    (Game.round_logic T g).mBall = g.mBall := by
  unfold Game.round_logic
  dsimp only
  split_ifs <;> exact ⟨rfl, rfl, rfl⟩

/-- The players and the ball after the paddle and ball updates of a tick outside
the AI mode in which the ball leaves through the left or the right edge. -/
theorem update_entities_exit (inp : TickInput) (g : Game)
    (hnai : g.mGameState ≠ game_state.AI_playing)
    (hp : gamePaddles g.racket1 g.racket2) (hs : gameBallSize g.mBall) :
    (800 ≤ g.mBall.pos_x + g.mBall.vel_x * Game.travel_time inp →
      (Game.update_entities inp (Game.default_ball_color g)).player1
        = g.player1.increment_score ∧
      (Game.update_entities inp (Game.default_ball_color g)).player2 = g.player2 ∧
      (Game.update_entities inp (Game.default_ball_color g)).mBall.pos_x = 400 ∧
      (Game.update_entities inp (Game.default_ball_color g)).mBall.pos_y = 300) ∧
    (g.mBall.pos_x + g.mBall.vel_x * Game.travel_time inp ≤ 0 →
      (Game.update_entities inp (Game.default_ball_color g)).player1 = g.player1 ∧
      (Game.update_entities inp (Game.default_ball_color g)).player2
        = g.player2.increment_score ∧
      (Game.update_entities inp (Game.default_ball_color g)).mBall.pos_x = 400 ∧
      (Game.update_entities inp (Game.default_ball_color g)).mBall.pos_y = 300) := by
  have hd : (Game.default_ball_color g).mGameState = g.mGameState ∧
      (Game.default_ball_color g).racket1 = g.racket1 ∧
      (Game.default_ball_color g).racket2 = g.racket2 ∧
      (Game.default_ball_color g).player1 = g.player1 ∧
      (Game.default_ball_color g).player2 = g.player2 ∧
      (Game.default_ball_color g).mBall.pos_x = g.mBall.pos_x ∧
      (Game.default_ball_color g).mBall.vel_x = g.mBall.vel_x ∧
      (Game.default_ball_color g).mBall.ball_size = g.mBall.ball_size := by
    unfold Game.default_ball_color
    split_ifs <;> exact ⟨rfl, rfl, rfl, rfl, rfl, rfl, rfl, rfl⟩
  obtain ⟨d1, d2, d3, d4, d5, d6, d7, d8⟩ := hd
  rw [update_entities_of_not_ai inp _ (by rw [d1]; exact hnai)]
  dsimp only
  rw [d2, d3, d4, d5]
  have hp2 : gamePaddles (g.racket1.update inp.state (Game.travel_time inp))
      (g.racket2.update inp.state (Game.travel_time inp)) := by
    obtain ⟨a1, a2, -⟩ := paddle_update_geometry inp.state (Game.travel_time inp) g.racket1
    obtain ⟨b1, b2, -⟩ := paddle_update_geometry inp.state (Game.travel_time inp) g.racket2
    unfold gamePaddles
    rw [a1, a2, b1, b2]
    exact hp
  have hs2 : gameBallSize (Game.default_ball_color g).mBall := by
    unfold gameBallSize
    rw [d8]
    exact hs
  obtain ⟨e1, e2⟩ := ball_update_exit inp.env_ball (Game.travel_time inp) _ _ g.player1
    g.player2 (Game.default_ball_color g).mBall hp2 hs2
  rw [d6, d7] at e1 e2
  exact ⟨e1, e2⟩

/-- A tick of the two-player mode in which the ball leaves through the right or
the left edge, for the game paddles and ball sizes. -/
theorem playing_exit (inp : TickInput) (g : Game) (hstate : g.mGameState = game_state.Playing)
    (hmode : g.notice_id = TWO_PLAYERS_MODE)
    (hp : gamePaddles g.racket1 g.racket2) (hs : gameBallSize g.mBall) :
    (800 ≤ g.mBall.pos_x + g.mBall.vel_x * Game.travel_time inp →
      (Game.game inp g).player1 = g.player1.increment_score ∧
      (Game.game inp g).player2 = g.player2 ∧
      (Game.game inp g).mBall.pos_x = 400 ∧ (Game.game inp g).mBall.pos_y = 300) ∧
    (g.mBall.pos_x + g.mBall.vel_x * Game.travel_time inp ≤ 0 →
      (Game.game inp g).player1 = g.player1 ∧
      (Game.game inp g).player2 = g.player2.increment_score ∧
      (Game.game inp g).mBall.pos_x = 400 ∧ (Game.game inp g).mBall.pos_y = 300) := by
  have hplay : g.in_play := Or.inl hstate
  rw [game_two_players_eq inp g hplay hmode]
  obtain ⟨b1, b2, -, -, b5, -⟩ := update_background_color_frame
    (Game.two_players_logic (Game.update_entities inp (Game.default_ball_color g)))
  obtain ⟨t1, t2, t3, -, -⟩ := two_players_logic_frame
    (Game.update_entities inp (Game.default_ball_color g))
  rw [b1, b2, b5, t1, t2, t3]
  exact update_entities_exit inp g (by rw [hstate]; decide) hp hs

theorem samplePlaying_exit :
    800 ≤ samplePlaying.mBall.pos_x + samplePlaying.mBall.vel_x * Game.travel_time sampleTickInput := by
  norm_num [samplePlaying, Game.travel_time, sampleTickInput]

/-- Claim C23, refuted as stated: in the sample two-player game at 0-0 the ball
leaves through the right edge (moved x = 801.4 >= 800) and it is player 1 whose
score becomes 1; player 2's score stays 0. -/
theorem C23_counterexample :
    samplePlaying.mGameState = game_state.Playing ∧
    samplePlaying.player1.score = 0 ∧ samplePlaying.player2.score = 0 ∧
    800 ≤ samplePlaying.mBall.pos_x
      + samplePlaying.mBall.vel_x * Game.travel_time sampleTickInput ∧
    (Game.game sampleTickInput samplePlaying).player1.score = 1 ∧
    (Game.game sampleTickInput samplePlaying).player2.score = 0 := by
  obtain ⟨h1, h2, -, -⟩ := (playing_exit sampleTickInput samplePlaying rfl rfl
    sample_game_paddles (Or.inr rfl)).1 samplePlaying_exit
  refine ⟨rfl, rfl, rfl, samplePlaying_exit, ?_, ?_⟩
  · rw [h1]; rfl
  · rw [h2]; rfl

/-- Claim C23 as amended: in the two-player mode (state `Playing`) with scores
(0,0), the game paddles and a ball of size 20 or 24, when the ball leaves the
arena through the right edge (moved x >= 800) in a tick, player 1's score
becomes 1, player 2's stays 0 and the ball position resets to (400, 300); it is
through the left edge (moved x <= 0) that player 2's score becomes 1. -/
theorem C23_right_exit_scores_player_one (inp : TickInput) (g : Game)
    (hstate : g.mGameState = game_state.Playing) (hmode : g.notice_id = TWO_PLAYERS_MODE)
    (hp : gamePaddles g.racket1 g.racket2) (hs : gameBallSize g.mBall)
    (h1 : g.player1.score = 0) (h2 : g.player2.score = 0) :
    (800 ≤ g.mBall.pos_x + g.mBall.vel_x * Game.travel_time inp →
      (Game.game inp g).player1.score = 1 ∧ (Game.game inp g).player2.score = 0 ∧
      (Game.game inp g).mBall.pos_x = 400 ∧ (Game.game inp g).mBall.pos_y = 300) ∧
    (g.mBall.pos_x + g.mBall.vel_x * Game.travel_time inp ≤ 0 →
      (Game.game inp g).player1.score = 0 ∧ (Game.game inp g).player2.score = 1 ∧
      (Game.game inp g).mBall.pos_x = 400 ∧ (Game.game inp g).mBall.pos_y = 300) := by
  obtain ⟨hr, hl⟩ := playing_exit inp g hstate hmode hp hs
  constructor
  · intro hx
    obtain ⟨a1, a2, a3, a4⟩ := hr hx
    rw [a1, a2]
    refine ⟨?_, h2, a3, a4⟩
    show g.player1.score + 1 = 1
    rw [h1]
    rfl
  · intro hx
    obtain ⟨a1, a2, a3, a4⟩ := hl hx
    rw [a1, a2]
    refine ⟨h1, ?_, a3, a4⟩
    show g.player2.score + 1 = 1
    rw [h2]
    rfl

/-- Witness for C23: the sample two-player game at 0-0 whose ball leaves through
the right edge ends the tick at 1-0 with the ball at (400, 300). -/
theorem C23_witness :
    (Game.game sampleTickInput samplePlaying).player1.score = 1 ∧
    (Game.game sampleTickInput samplePlaying).player2.score = 0 ∧
    (Game.game sampleTickInput samplePlaying).mBall.pos_x = 400 ∧
    (Game.game sampleTickInput samplePlaying).mBall.pos_y = 300 :=
  (C23_right_exit_scores_player_one sampleTickInput samplePlaying rfl rfl sample_game_paddles
    (Or.inr rfl) rfl rfl).1 samplePlaying_exit

theorem entities_mletter (inp : TickInput) (g : Game)
    (hnai : g.mGameState ≠ game_state.AI_playing) :
    (Game.update_entities inp (Game.default_ball_color g)).mletter = g.mletter ∧
    (Game.update_entities inp (Game.default_ball_color g)).mpower = g.mpower ∧
    (Game.update_entities inp (Game.default_ball_color g)).racket1
      = g.racket1.update inp.state (Game.travel_time inp) ∧
    (Game.update_entities inp (Game.default_ball_color g)).racket2
      = g.racket2.update inp.state (Game.travel_time inp) := by
  have hd : (Game.default_ball_color g).mGameState = g.mGameState ∧
      (Game.default_ball_color g).mletter = g.mletter ∧
      (Game.default_ball_color g).mpower = g.mpower ∧
      (Game.default_ball_color g).racket1 = g.racket1 ∧
      (Game.default_ball_color g).racket2 = g.racket2 := by
    unfold Game.default_ball_color
    split_ifs <;> exact ⟨rfl, rfl, rfl, rfl, rfl⟩
  obtain ⟨d1, d2, d3, d4, d5⟩ := hd
  rw [update_entities_of_not_ai inp _ (by rw [d1]; exact hnai)]
  dsimp only
  rw [d4, d5]
  exact ⟨d2, d3, rfl, rfl⟩

theorem sampleStoryTie_before :
    (Game.before_round_logic sampleTickInput sampleStoryTie).player1.score = 8 ∧
    (Game.before_round_logic sampleTickInput sampleStoryTie).player2.score = 8 ∧
    (Game.before_round_logic sampleTickInput sampleStoryTie).player1.round = 0 ∧
    (Game.before_round_logic sampleTickInput sampleStoryTie).player2.round = 0 := by
  have hnai : sampleStoryTie.mGameState ≠ game_state.AI_playing := by
    show game_state.Storytime_playing ≠ game_state.AI_playing
    decide
  have hx : sampleStoryTie.mBall.pos_x
      + sampleStoryTie.mBall.vel_x * Game.travel_time sampleTickInput ≤ 0 := by
    norm_num [sampleStoryTie, Game.travel_time, sampleTickInput]
  obtain ⟨e1, e2, e3, e4⟩ := (update_entities_exit sampleTickInput sampleStoryTie hnai
    sample_game_paddles (Or.inr rfl)).2 hx
  obtain ⟨l1, -⟩ := entities_mletter sampleTickInput sampleStoryTie hnai
  have htt : Game.travel_time sampleTickInput = 2 / 125 := by
    norm_num [Game.travel_time, sampleTickInput]
  have hb : Game.before_round_logic sampleTickInput sampleStoryTie
      = Game.storytime_updates sampleTickInput (Game.update_entities sampleTickInput
          (Game.default_ball_color sampleStoryTie)) := by
    unfold Game.before_round_logic
    rw [if_pos (show sampleStoryTie.notice_id = STORYTIME_MODE from rfl)]
  have hf : sampleStoryTie.mletter.x = 400 ∧ sampleStoryTie.mletter.y = 250 ∧
      sampleStoryTie.mletter.width = 20 ∧ sampleStoryTie.mletter.height = 40 ∧
      sampleStoryTie.mletter.speed = 30 := ⟨rfl, rfl, rfl, rfl, rfl⟩
  obtain ⟨fx, fy, fw, fh, fs⟩ := hf
  have hm := update_move_facts (2 / 125) WINDOW_HEIGHT sampleStoryTie.mletter
  have hit : Letter.hit ⟨2 / 125, WINDOW_HEIGHT, 400, 300, 15⟩ sampleStoryTie.mletter = true := by
    unfold Letter.hit Letter.collision_check
    dsimp only
    rw [hm.1, hm.2.2.1, hm.2.2.2.1, hm.2.2.2.2.1, fx, fy, fw, fh, fs]
    norm_num
  have hmid : (400 : ℚ) < sampleStoryTie.mletter.x
      + ((Int.tdiv sampleStoryTie.mletter.width 2 : ℤ) : ℚ) := by
    rw [fx, fw]
    have : Int.tdiv 20 2 = 10 := by decide
    rw [this]
    norm_num
  obtain ⟨⟨a, -⟩, -⟩ := (update_letter_effect sampleTickInput.font
    ⟨2 / 125, WINDOW_HEIGHT, 400, 300, 15⟩
    ⟨sampleStoryTie.mletter, sampleStoryTie.player1,
      sampleStoryTie.player2.increment_score⟩).1 hit
  obtain ⟨a1, a2⟩ := a hmid
  rw [hb]
  unfold Game.storytime_updates
  dsimp only
  rw [e1, e2, e3, e4, l1, htt, a1, a2]
  exact ⟨rfl, rfl, rfl, rfl⟩

/-- Claim C30 at the failing input: a Storytime game at 7-7 in which the ball
leaves through the left edge (player 2 reaches 8) and, reset to the centre
(400, 300), touches the letter of the game on its left half (player 1 reaches 8
in the same tick).  When the round logic runs the scores are equal, 8-8, and the
round is credited to player 2. -/
theorem C30_tie_credits_player_two :
    sampleStoryTie.player1.score = 7 ∧ sampleStoryTie.player2.score = 7 ∧
    (Game.before_round_logic sampleTickInput sampleStoryTie).player1.score = 8 ∧
    (Game.before_round_logic sampleTickInput sampleStoryTie).player2.score = 8 ∧
    sampleStoryTie.player1.round = 0 ∧ sampleStoryTie.player2.round = 0 ∧
    (Game.game sampleTickInput sampleStoryTie).player1.round = 0 ∧
    (Game.game sampleTickInput sampleStoryTie).player2.round = 1 := by
  obtain ⟨s1, s2, r1, r2⟩ := sampleStoryTie_before
  have hplay : sampleStoryTie.in_play := Or.inr (Or.inr (Or.inl rfl))
  obtain ⟨g1, g2, -⟩ := game_eq_round_logic sampleTickInput sampleStoryTie hplay (Or.inl rfl)
  have hT : sampleStoryTie.threshold = 8 := rfl
  obtain ⟨t1, t2, -⟩ := round_logic_then 8
    (Game.before_round_logic sampleTickInput sampleStoryTie) (Or.inl (by rw [s1]))
  rw [hT] at g1 g2
  rw [g1, g2, t1, t2, s1, s2, r1, r2]
  exact ⟨rfl, rfl, rfl, rfl, rfl, rfl, by decide, by decide⟩

/-- Claim C24 at the failing input: the left paddle at its topmost position
(y = 50, height 100) satisfies height/2 <= y <= 600 - height/2; the ball collects
the size booster on its left half, `Power::update` doubles the height to 200 and
leaves y at 50, so that y < height/2 = 100 after the call. -/
theorem C24_booster_breaks_paddle_bounds :
    (samplePowerWorldTop.racket1.racket_height / 2 ≤ samplePowerWorldTop.racket1.pos_y ∧
      samplePowerWorldTop.racket1.pos_y ≤ 600 - samplePowerWorldTop.racket1.racket_height / 2) ∧
    (Power.update sampleLibc (1 / 20) sampleBall samplePowerWorldTop).racket1.racket_height
      = 200 ∧
    (Power.update sampleLibc (1 / 20) sampleBall samplePowerWorldTop).racket1.pos_y = 50 ∧
    (Power.update sampleLibc (1 / 20) sampleBall samplePowerWorldTop).racket1.pos_y <
      (Power.update sampleLibc (1 / 20) sampleBall samplePowerWorldTop).racket1.racket_height
        / 2 := by
  have hu : (Power.update sampleLibc (1 / 20) sampleBall samplePowerWorldTop).racket1
      = { racketLeftTop with racket_height := 200 } := by
    unfold Power.update
    rw [if_pos (show samplePowerWorldTop.power.is_active = true from rfl)]
    unfold Power.update_active
    dsimp only
    rw [if_pos (show Power.collision { samplePowerWorldTop.power with
      y := samplePowerWorldTop.power.y + samplePowerWorldTop.power.speed * (1 / 20) }
      sampleBall = true from sample_collision)]
    have hside : decide (sampleBall.pos_x < samplePowerWorldTop.power.x
        + ((Int.tdiv samplePowerWorldTop.power.width 2 : ℤ) : ℚ)) = true := by
      rw [decide_eq_true_eq]
      norm_num [samplePowerWorldTop, samplePower, sampleBall, sample_half]
    simp only [hside, PowerWorld.onAffected, if_true]
    norm_num [samplePowerWorldTop, racketLeftTop, racketLeft, Paddle.new]
  rw [hu]
  norm_num [samplePowerWorldTop, racketLeftTop, racketLeft, Paddle.new]

theorem inverse_update_heights (env : Libc) (time : ℚ) (ball : BallBase) (w : InverseWorld) :
    (InversiblePower.update env time ball w).racket1.racket_height = w.racket1.racket_height ∧
    (InversiblePower.update env time ball w).racket2.racket_height
      = w.racket2.racket_height := by
  unfold InversiblePower.update InversiblePower.update_active InversiblePower.update_effect
  dsimp only
  split_ifs <;> exact ⟨rfl, rfl⟩

/-- A tick of the Fun mode in which the size booster, in its effect state for
player 1, reaches its 10 seconds: the height of the left paddle is halved. -/
theorem fun_tick_expiry (inp : TickInput) (g : Game)
    (hstate : g.mGameState = game_state.Fun_playing) (hmode : g.notice_id = FUN_MODE)
    (he : g.mpower.effect_is_active = true) (ha : g.mpower.is_active = false)
    (hp : g.mpower.play = true)
    (hd : 10 ≤ g.mpower.duration_effect + Game.travel_time inp) :
    (Game.game inp g).racket1.racket_height = g.racket1.racket_height / 2 := by
  have hplay : g.in_play := Or.inr (Or.inr (Or.inr hstate))
  have hnai : g.mGameState ≠ game_state.AI_playing := by rw [hstate]; decide
  obtain ⟨-, e2, e3, e4⟩ := entities_mletter inp g hnai
  rw [game_fun_eq inp g hplay hmode, (round_logic_rackets 5 _).1]
  unfold Game.fun_updates
  dsimp only
  rw [(inverse_update_heights _ _ _ _).1, e2, e3, e4]
  have hb : Power.Boosted true (g.racket1.update inp.state (Game.travel_time inp)).racket_height
      (g.racket2.update inp.state (Game.travel_time inp)) g.mpower.duration_effect
      ⟨g.mpower, g.racket1.update inp.state (Game.travel_time inp),
        g.racket2.update inp.state (Game.travel_time inp)⟩ :=
    ⟨he, ha, hp, rfl, rfl, rfl⟩
  have h := (power_update_boosted_ge inp.env_power (Game.travel_time inp)
    (InvisiblePower.update inp.env_invisible (Game.travel_time inp)
      ⟨(Game.update_entities inp (Game.default_ball_color g)).minvisible,
        (Game.update_entities inp (Game.default_ball_color g)).mBall⟩).ball
    _ true _ _ _ hb hd).1
  rw [(paddle_update_geometry inp.state (Game.travel_time inp) g.racket1).2.2] at h
  exact h

theorem update_background_color_rest (g : Game) :
    g.update_background_color.mpower = g.mpower ∧
    g.update_background_color.mletter = g.mletter ∧
    g.update_background_color.minverse = g.minverse ∧
    g.update_background_color.minvisible = g.minvisible := by
  unfold Game.update_background_color
  dsimp only
  split_ifs <;> exact ⟨rfl, rfl, rfl, rfl⟩

theorem exit_mode_fun (g : Game) (hstate : g.mGameState = game_state.Paused)
    (hmode : g.notice_id = FUN_MODE) :
    (Game.exit_mode g).mGameState = game_state.Choose_Mode ∧
    (Game.exit_mode g).racket1.racket_height = 100 ∧
    (Game.exit_mode g).racket2.racket_height = 100 ∧
    (Game.exit_mode g).racket1.inverse_power_active = false ∧
    (Game.exit_mode g).racket2.inverse_power_active = false ∧
    (Game.exit_mode g).mpower = g.mpower := by
  unfold Game.exit_mode
  rw [if_pos hstate]
  dsimp only
  rw [if_neg (by rw [hmode]; decide)]
  exact ⟨rfl, rfl, rfl, rfl, rfl, rfl⟩

theorem choose_mode_fun (g : Game) (hstate : g.mGameState = game_state.Choose_Mode) :
    (Game.choose_mode FUN_MODE g).mGameState = game_state.Notice_Menu ∧
    (Game.choose_mode FUN_MODE g).notice_id = FUN_MODE ∧
    (Game.choose_mode FUN_MODE g).racket1 = g.racket1 ∧
    (Game.choose_mode FUN_MODE g).racket2 = g.racket2 ∧
    (Game.choose_mode FUN_MODE g).mpower = g.mpower := by
  unfold Game.choose_mode
  rw [if_pos hstate]
  dsimp only
  rw [if_neg (by decide), if_neg (by decide), if_neg (by decide), if_pos rfl]
  exact ⟨rfl, rfl, rfl, rfl, rfl⟩

theorem notice_next_fun (name1 name2 : String) (g : Game)
    (hstate : g.mGameState = game_state.Notice_Menu) (hmode : g.notice_id = FUN_MODE) :
    (Game.notice_next name1 name2 g).mGameState = game_state.Middle_menu ∧
    (Game.notice_next name1 name2 g).notice_id = FUN_MODE ∧
    (Game.notice_next name1 name2 g).racket1 = g.racket1 ∧
    (Game.notice_next name1 name2 g).racket2 = g.racket2 ∧
    (Game.notice_next name1 name2 g).mpower = g.mpower := by
  unfold Game.notice_next
  rw [if_pos ⟨hstate, by rw [hmode]; decide⟩]
  dsimp only
  rw [hmode, if_neg (by decide), if_neg (by decide), if_neg (by decide), if_pos rfl]
  exact ⟨rfl, rfl, rfl, rfl, rfl⟩

theorem start_game_fun (env : Libc) (color0 : SDL_Color) (g : Game)
    (hstate : g.mGameState = game_state.Middle_menu) (hmode : g.notice_id = FUN_MODE) :
    (Game.start_game env color0 g).mGameState = game_state.Fun_playing ∧
    (Game.start_game env color0 g).notice_id = FUN_MODE ∧
    (Game.start_game env color0 g).racket1.racket_height = g.racket1.racket_height ∧
    (Game.start_game env color0 g).racket2.racket_height = g.racket2.racket_height ∧
    (Game.start_game env color0 g).mpower = g.mpower := by
  have hn : ∀ x : Game, x.update_background_color.notice_id = x.notice_id :=
    fun x => (update_background_color_frame x).2.2.2.2.2.2.1
  have hr1 : ∀ x : Game, x.update_background_color.racket1 = x.racket1 :=
    fun x => (update_background_color_frame x).2.2.1
  have hr2 : ∀ x : Game, x.update_background_color.racket2 = x.racket2 :=
    fun x => (update_background_color_frame x).2.2.2.1
  have hpw : ∀ x : Game, x.update_background_color.mpower = x.mpower :=
    fun x => (update_background_color_rest x).1
  unfold Game.start_game Game.ball_creation
  rw [if_pos hstate, if_neg (by rw [hmode]; decide), if_pos (Or.inr hmode)]
  dsimp only
  simp only [hn]
  rw [hmode, if_neg (by decide), if_pos rfl]
  dsimp only
  simp only [hn, hr1, hr2, hpw]
  refine ⟨?_, ?_, ?_, ?_, ?_⟩ <;> trivial

/-- What leaving a Fun game through the pause menu and starting a Fun game again
does to the paddles and to the size booster: both heights are 100 and the
booster is as it was when the game was left. -/
theorem leave_and_restart_fun (env : Libc) (color0 : SDL_Color) (name1 name2 : String)
    (g : Game) (hstate : g.mGameState = game_state.Fun_playing)
    (hmode : g.notice_id = FUN_MODE) :
    (Game.leave_and_restart env color0 FUN_MODE name1 name2 g).mGameState
      = game_state.Fun_playing ∧
    (Game.leave_and_restart env color0 FUN_MODE name1 name2 g).notice_id = FUN_MODE ∧
    (Game.leave_and_restart env color0 FUN_MODE name1 name2 g).racket1.racket_height = 100 ∧
    (Game.leave_and_restart env color0 FUN_MODE name1 name2 g).racket2.racket_height = 100 ∧
    (Game.leave_and_restart env color0 FUN_MODE name1 name2 g).mpower = g.mpower := by
  have h1 : (Game.pause_button g) = { g with mGameState := game_state.Paused } := by
    unfold Game.pause_button
    rw [if_pos (Or.inr (Or.inr (Or.inr hstate)))]
  obtain ⟨a1, a2, a3, -, -, a6⟩ := exit_mode_fun (Game.pause_button g) (by rw [h1])
    (by rw [h1]; exact hmode)
  obtain ⟨b1, b2, b3, b4, b5⟩ := choose_mode_fun (Game.exit_mode (Game.pause_button g)) a1
  obtain ⟨c1, c2, c3, c4, c5⟩ := notice_next_fun name1 name2
    (Game.choose_mode FUN_MODE (Game.exit_mode (Game.pause_button g))) b1 b2
  obtain ⟨d1, d2, d3, d4, d5⟩ := start_game_fun env color0
    (Game.notice_next name1 name2
      (Game.choose_mode FUN_MODE (Game.exit_mode (Game.pause_button g)))) c1 c2
  unfold Game.leave_and_restart
  refine ⟨d1, d2, ?_, ?_, ?_⟩
  · rw [d3, c3, b3, a2]
  · rw [d4, c4, b4, a3]
  · rw [d5, c5, b5, a6, h1]

/-- Claim C25 at the failing input: a Fun game in which player 1 collected the size
booster 9.99 s ago (left paddle of height 200) is left through the pause menu,
which sets both heights to 100, and a Fun game is started again; the booster is
still in its effect state, and the tick in which its timer reaches 10 s halves
the left paddle to 50, below the baseline 100. -/
theorem C25_exit_then_expiry_halves_baseline :
    sampleFunBoosted.racket1.racket_height = 200 ∧
    sampleFunBoosted.mpower.effect_is_active = true ∧
    (Game.leave_and_restart sampleLibc white FUN_MODE "Alice" "Bob" sampleFunBoosted).mGameState
      = game_state.Fun_playing ∧
    (Game.leave_and_restart sampleLibc white FUN_MODE "Alice" "Bob"
      sampleFunBoosted).racket1.racket_height = 100 ∧
    (Game.leave_and_restart sampleLibc white FUN_MODE "Alice" "Bob"
      sampleFunBoosted).racket2.racket_height = 100 ∧
    (Game.game sampleTickInput (Game.leave_and_restart sampleLibc white FUN_MODE "Alice" "Bob"
      sampleFunBoosted)).racket1.racket_height = 50 ∧
    (Game.game sampleTickInput (Game.leave_and_restart sampleLibc white FUN_MODE "Alice" "Bob"
      sampleFunBoosted)).racket1.racket_height < 100 := by
  obtain ⟨l1, l2, l3, l4, l5⟩ := leave_and_restart_fun sampleLibc white "Alice" "Bob"
    sampleFunBoosted rfl rfl
  have hexp := fun_tick_expiry sampleTickInput
    (Game.leave_and_restart sampleLibc white FUN_MODE "Alice" "Bob" sampleFunBoosted) l1 l2
    (by rw [l5]; rfl) (by rw [l5]; rfl) (by rw [l5]; rfl)
    (by rw [l5]; norm_num [sampleFunBoosted, Game.travel_time, sampleTickInput])
  rw [l3] at hexp
  have h50 : (Game.game sampleTickInput (Game.leave_and_restart sampleLibc white FUN_MODE
      "Alice" "Bob" sampleFunBoosted)).racket1.racket_height = 50 := by
    rw [hexp]; norm_num
  refine ⟨rfl, rfl, l1, l3, l4, h50, ?_⟩
  rw [h50]
  norm_num

/-! ## A whole Storytime match -/

theorem resting_ball_update (env : Libc) (dt : ℚ) (paddle1 paddle2 : Paddle)
    (hp : gamePaddles paddle1 paddle2) (u1 u2 : User) :
    BallBase.update env dt paddle1 paddle2 u1 u2 restBall = ⟨restBall, u1, u2, []⟩ := by
  have hw : BallBase.update_before_paddles env dt u1 u2 restBall = ⟨restBall, u1, u2, []⟩ := by
    rw [update_before_paddles_ball_of_inside env dt u1 u2 restBall
      (by norm_num [restBall]) (by norm_num [restBall])]
    norm_num [BallBase.update_wall, BallBase.update_move, restBall]
  unfold BallBase.update
  rw [hw]
  obtain ⟨x1, w1, x2, w2⟩ := gamePaddles_rectangle paddle1 paddle2 hp
  apply update_paddles_of_none
  · apply SDL_HasIntersection_eq_false
    left
    show paddle1.rectangle.x + paddle1.rectangle.w ≤ restBall.boundaries.x
    rw [x1, w1]
    norm_num [BallBase.boundaries, restBall, toInt]
  · apply SDL_HasIntersection_eq_false
    right
    show restBall.boundaries.x + restBall.boundaries.w ≤ paddle2.rectangle.x
    rw [x2]
    norm_num [BallBase.boundaries, restBall, toInt]

theorem resting_letter_hit (l : Letter) (hx : l.x = 400) (hy : l.y = 0) (hs : l.speed = 30)
    (hw : l.width = 20) (hh : l.height = 40) :
    Letter.hit ⟨2 / 125, WINDOW_HEIGHT, 430, 60, 15⟩ l = true ∧
    ¬ ((430 : ℚ) < l.x + ((Int.tdiv l.width 2 : ℤ) : ℚ)) ∧
    (l.update_move (2 / 125) WINDOW_HEIGHT).x = 400 ∧
    (l.update_move (2 / 125) WINDOW_HEIGHT).speed = 30 ∧
    (l.update_move (2 / 125) WINDOW_HEIGHT).width = 20 ∧
    (l.update_move (2 / 125) WINDOW_HEIGHT).height = 40 := by
  obtain ⟨words, lab, word, cwi, cli, letter, x, y, speed, width, height⟩ := l
  simp only at hx hy hs hw hh
  subst hx hy hs hw hh
  have h2 : Int.tdiv 20 2 = 10 := by decide
  refine ⟨?_, ?_, ?_, ?_, ?_, ?_⟩
  · norm_num [Letter.hit, Letter.update_move, Letter.collision_check, WINDOW_HEIGHT]
  · rw [h2]
    norm_num
  · norm_num [Letter.update_move, WINDOW_HEIGHT]
  · norm_num [Letter.update_move, WINDOW_HEIGHT]
  · norm_num [Letter.update_move, WINDOW_HEIGHT]
  · norm_num [Letter.update_move, WINDOW_HEIGHT]

theorem resting_letter_collect (l : Letter) (hw : l.width = 20) (hh : l.height = 40) :
    (l.update_collect (fun _ => some (20, 40))).width = 20 ∧
    (l.update_collect (fun _ => some (20, 40))).height = 40 := by
  unfold Letter.update_collect Letter.next_word Letter.next_letter
  dsimp only
  split_ifs <;> first | exact ⟨rfl, rfl⟩ | exact ⟨hw, hh⟩

theorem round_logic_second (T : ℤ) (h : Game)
    (hc : h.player1.score ≥ T ∨ h.player2.score ≥ T)
    (hn : ¬ h.player1.score > h.player2.score) :
    Game.round_logic T h =
      { h with
        player1 := h.player1.reset_score
        player2 := (h.player2.set_round (h.player2.round + 1)).reset_score
        events := h.events ++ [GameEvent.new_round] } := by
  unfold Game.round_logic
  rw [if_pos hc]
  dsimp only
  rw [if_neg hn]

theorem round_logic_mletter (T : ℤ) (g : Game) : (Game.round_logic T g).mletter = g.mletter := by
  unfold Game.round_logic
  dsimp only
  split_ifs <;> rfl

theorem sample_travel_time : Game.travel_time sampleTickInput = 2 / 125 := by
  norm_num [Game.travel_time, sampleTickInput]

/-- The state of a tick of the resting match when the round logic starts: the
letter has been collected on the side of player 2, and nothing else has changed. -/
theorem resting_before_round_logic (g : Game) (hr : g.resting)
    (hs : g.mGameState = game_state.Storytime_playing) :
    (Game.storytime_updates sampleTickInput
      (Game.update_entities sampleTickInput (Game.default_ball_color g))).resting ∧
    (Game.storytime_updates sampleTickInput
      (Game.update_entities sampleTickInput (Game.default_ball_color g))).mGameState
      = game_state.Storytime_playing ∧
    (Game.storytime_updates sampleTickInput
      (Game.update_entities sampleTickInput (Game.default_ball_color g))).player2
      = g.player2.increment_score := by
  obtain ⟨hn, hp, hb, lx, ly, lsp, lw, lh, hp1, hp2⟩ := hr
  have hnai : g.mGameState ≠ game_state.AI_playing := by rw [hs]; decide
  have hd : Game.default_ball_color g = g := by
    unfold Game.default_ball_color
    rw [if_pos (Or.inr (Or.inl hs)), hb]
    have : g = { g with mBall := g.mBall } := rfl
    rw [hb] at this
    exact this.symm
  obtain ⟨e1, -, e3, e4⟩ := entities_mletter sampleTickInput g hnai
  obtain ⟨f1, f2, -⟩ := update_entities_frame sampleTickInput (Game.default_ball_color g)
  obtain ⟨-, -, d3, d4, -⟩ := default_ball_color_frame g
  obtain ⟨a1, a2, a3⟩ := paddle_update_geometry sampleTickInput.state
    (Game.travel_time sampleTickInput) g.racket1
  obtain ⟨b1, b2, b3⟩ := paddle_update_geometry sampleTickInput.state
    (Game.travel_time sampleTickInput) g.racket2
  have hp' : gamePaddles (g.racket1.update sampleTickInput.state (Game.travel_time sampleTickInput))
      (g.racket2.update sampleTickInput.state (Game.travel_time sampleTickInput)) := by
    obtain ⟨p1, p2, p3, p4⟩ := hp
    exact ⟨a1.trans p1, a2.trans p2, b1.trans p3, b2.trans p4⟩
  have hball := resting_ball_update sampleTickInput.env_ball (Game.travel_time sampleTickInput)
    _ _ hp' g.player1 g.player2
  have he := update_entities_of_not_ai sampleTickInput g hnai
  rw [hb, hball] at he
  have m1 : (Game.update_entities sampleTickInput (Game.default_ball_color g)).mBall
      = restBall := by rw [hd, he]
  have m2 : (Game.update_entities sampleTickInput (Game.default_ball_color g)).player1
      = g.player1 := by rw [hd, he]
  have m3 : (Game.update_entities sampleTickInput (Game.default_ball_color g)).player2
      = g.player2 := by rw [hd, he]
  obtain ⟨t1, t2, t3, t4, t5, t6⟩ := resting_letter_hit g.mletter lx ly lsp lw lh
  have hw : Letter.update_letter sampleTickInput.font (2 / 125) WINDOW_HEIGHT 430 60 15
      ⟨g.mletter, g.player1, g.player2⟩
      = ⟨(g.mletter.update_move (2 / 125) WINDOW_HEIGHT).update_collect sampleTickInput.font,
          g.player1, g.player2.increment_score⟩ := by
    have h := update_letter_staged sampleTickInput.font ⟨2 / 125, WINDOW_HEIGHT, 430, 60, 15⟩
      ⟨g.mletter, g.player1, g.player2⟩
    rw [if_pos t1] at h
    simp only [if_neg t2] at h
    exact h
  have hst : Game.storytime_updates sampleTickInput
      (Game.update_entities sampleTickInput (Game.default_ball_color g))
      = { Game.update_entities sampleTickInput (Game.default_ball_color g) with
          mletter := (g.mletter.update_move (2 / 125) WINDOW_HEIGHT).update_collect
            sampleTickInput.font
          player1 := g.player1
          player2 := g.player2.increment_score } := by
    unfold Game.storytime_updates
    dsimp only
    rw [m1, m2, m3, e1, sample_travel_time]
    have p1 : restBall.pos_x = 430 := rfl
    have p2 : restBall.pos_y = 60 := rfl
    rw [p1, p2, hw]
  obtain ⟨c1, c2, c3, c4⟩ := update_collect_facts sampleTickInput.font
    (g.mletter.update_move (2 / 125) WINDOW_HEIGHT)
  obtain ⟨c5, c6⟩ := resting_letter_collect (g.mletter.update_move (2 / 125) WINDOW_HEIGHT) t5 t6
  rw [hst]
  refine ⟨⟨?_, ?_, m1, ?_, c3, ?_, c5, c6, hp1, hp2⟩, ?_, rfl⟩
  · exact (f2.trans d4).trans hn
  · show gamePaddles (Game.update_entities sampleTickInput (Game.default_ball_color g)).racket1
      (Game.update_entities sampleTickInput (Game.default_ball_color g)).racket2
    rw [e3, e4]
    exact hp'
  · exact c2.trans t3
  · rw [c4, t4]
    norm_num
  · exact (f1.trans d3).trans hs

theorem update_background_color_resting (g : Game) (h : g.resting) :
    g.update_background_color.resting := by
  obtain ⟨f1, f2, f3, f4, f5, -, f7, -, -⟩ := update_background_color_frame g
  obtain ⟨-, r2, -, -⟩ := update_background_color_rest g
  unfold Game.resting
  rw [f1, f2, f3, f4, f5, f7, r2]
  exact h

/-- One tick of the resting match: player 2 gets the point of the letter; at 8
points the round goes to player 2 and the scores restart at 0; with 3 rounds
played the game is over and player 2 is the winner. -/
theorem resting_game (g : Game) (hr : g.resting)
    (hs : g.mGameState = game_state.Storytime_playing) :
    (g.player2.score + 1 < 8 → g.player2.round ≠ 3 →
      (Game.game sampleTickInput g).resting ∧
      (Game.game sampleTickInput g).mGameState = game_state.Storytime_playing ∧
      (Game.game sampleTickInput g).player2
        = ⟨"Bob", g.player2.score + 1, g.player2.round⟩) ∧
    (8 ≤ g.player2.score + 1 →
      (Game.game sampleTickInput g).resting ∧
      (Game.game sampleTickInput g).mGameState = game_state.Storytime_playing ∧
      (Game.game sampleTickInput g).player2 = ⟨"Bob", 0, g.player2.round + 1⟩) ∧
    (g.player2.score + 1 < 8 → g.player2.round = 3 →
      (Game.game sampleTickInput g).mGameState = game_state.GameOver ∧
      (Game.game sampleTickInput g).game_over_winner = "Bob" ∧
      (Game.game sampleTickInput g).winner = "Bob" ∧
      (Game.game sampleTickInput g).player1 = ⟨"Alice", 0, 0⟩ ∧
      (Game.game sampleTickInput g).player2 = ⟨"Bob", g.player2.score + 1, 3⟩) := by
  have hplay : g.in_play := Or.inr (Or.inr (Or.inl hs))
  have gp1 := hr.2.2.2.2.2.2.2.2.1
  have gp2 := hr.2.2.2.2.2.2.2.2.2
  obtain ⟨sr, sst, spl2⟩ := resting_before_round_logic g hr hs
  have sp1 := sr.2.2.2.2.2.2.2.2.1
  rw [game_story_eq sampleTickInput g hplay hr.1]
  obtain ⟨f1, f2, -, -, -, f6, -, f8, f9⟩ := update_background_color_frame
    (Game.round_logic 8 (Game.storytime_updates sampleTickInput
      (Game.update_entities sampleTickInput (Game.default_ball_color g))))
  generalize Game.storytime_updates sampleTickInput
      (Game.update_entities sampleTickInput (Game.default_ball_color g)) = s at *
  have s1 : s.player1.score = 0 := by rw [sp1]
  have r1 : s.player1.round = 0 := by rw [sp1]
  have s2 : s.player2.score = g.player2.score + 1 := by rw [spl2]; rfl
  have r2 : s.player2.round = g.player2.round := by rw [spl2]; rfl
  have n2 : s.player2.name = "Bob" := by rw [spl2]; exact gp2
  have e2 : s.player2 = ⟨"Bob", g.player2.score + 1, g.player2.round⟩ := by
    rw [← n2, ← s2, ← r2]
  refine ⟨?_, ?_, ?_⟩
  · intro hlt hne
    have hc : ¬ (s.player1.score ≥ 8 ∨ s.player2.score ≥ 8) := by
      rw [s1, s2]
      omega
    have h3 : s.player1.round + s.player2.round ≠ 3 := by
      rw [r1, r2]
      omega
    have hi := round_logic_idle 8 s hc h3
    rw [hi] at f2 f6 ⊢
    exact ⟨update_background_color_resting s sr, f6.trans sst, f2.trans e2⟩
  · intro hge
    have hc : s.player1.score ≥ 8 ∨ s.player2.score ≥ 8 := by
      right
      rw [s2]
      omega
    have hn : ¬ s.player1.score > s.player2.score := by
      rw [s1, s2]
      omega
    have hi := round_logic_second 8 s hc hn
    rw [hi] at f2 f6 ⊢
    refine ⟨update_background_color_resting _ ?_, f6.trans sst, f2.trans ?_⟩
    · obtain ⟨a1, a2, a3, a4, a5, a6, a7, a8, a9, a10⟩ := sr
      refine ⟨a1, a2, a3, a4, a5, a6, a7, a8, ?_, a10⟩
      show s.player1.reset_score = _
      rw [a9]
      rfl
    · show (s.player2.set_round (s.player2.round + 1)).reset_score = _
      rw [e2]
      rfl
  · intro hlt h3
    have hc : ¬ (s.player1.score ≥ 8 ∨ s.player2.score ≥ 8) := by
      rw [s1, s2]
      omega
    have h3s : s.player1.round + s.player2.round = 3 := by
      rw [r1, r2]
      omega
    obtain ⟨o1, o2, o3, -, o5, o6⟩ := round_logic_over 8 s hc h3s
    have hgt : ¬ s.player1.round > s.player2.round := by
      rw [r1, r2]
      omega
    rw [if_neg hgt] at o5 o6
    refine ⟨f6.trans o3, (f8.trans o6).trans n2, (f9.trans o5).trans n2,
      (f1.trans o1).trans sp1, (f2.trans o2).trans ?_⟩
    rw [e2, h3]

theorem run_replicate_succ (n : ℕ) (inp : TickInput) (g : Game) :
    Game.run (List.replicate (n + 1) inp) g = Game.game inp (Game.run (List.replicate n inp) g) := by
  unfold Game.run
  rw [List.replicate_succ', List.foldl_append]
  rfl

theorem sample_match_resting : sampleMatch.resting :=
  ⟨rfl, sample_game_paddles, rfl, rfl, rfl, rfl, rfl, rfl, rfl, rfl⟩

/-- The resting match after `n` ticks, up to 24: player 2 has `n % 8` points and
`n / 8` rounds, and the game is still in play. -/
theorem sample_match_run (n : ℕ) (hn : n ≤ 24) :
    (Game.run (List.replicate n sampleTickInput) sampleMatch).resting ∧
    (Game.run (List.replicate n sampleTickInput) sampleMatch).mGameState
      = game_state.Storytime_playing ∧
    (Game.run (List.replicate n sampleTickInput) sampleMatch).player2
      = ⟨"Bob", ((n % 8 : ℕ) : ℤ), ((n / 8 : ℕ) : ℤ)⟩ := by
  induction n with
  | zero => exact ⟨sample_match_resting, rfl, rfl⟩
  | succ n ih =>
    obtain ⟨hr, hs, hp⟩ := ih (by omega)
    rw [run_replicate_succ]
    obtain ⟨hA, hB, -⟩ := resting_game _ hr hs
    have hsc : (Game.run (List.replicate n sampleTickInput) sampleMatch).player2.score
        = ((n % 8 : ℕ) : ℤ) := by rw [hp]
    have hrd : (Game.run (List.replicate n sampleTickInput) sampleMatch).player2.round
        = ((n / 8 : ℕ) : ℤ) := by rw [hp]
    by_cases h7 : n % 8 = 7
    · obtain ⟨a, b, c⟩ := hB (by rw [hsc]; omega)
      refine ⟨a, b, ?_⟩
      rw [c, hrd]
      have h1 : (n + 1) % 8 = 0 := by omega
      have h2 : (n + 1) / 8 = n / 8 + 1 := by omega
      rw [h1, h2]
      push_cast
      rfl
    · obtain ⟨a, b, c⟩ := hA (by rw [hsc]; omega) (by rw [hrd]; omega)
      refine ⟨a, b, ?_⟩
      rw [c, hsc, hrd]
      have h1 : (n + 1) % 8 = n % 8 + 1 := by omega
      have h2 : (n + 1) / 8 = n / 8 := by omega
      rw [h1, h2]
      push_cast
      rfl

/-- The resting match after 24 ticks is in play with the rounds at 0 and 3, and the
25th tick ends it: `GameOver`, with player 2 declared the winner. -/
theorem sample_match_over :
    (Game.run (List.replicate 24 sampleTickInput) sampleMatch).in_play ∧
    (Game.run (List.replicate 24 sampleTickInput) sampleMatch).player1.round = 0 ∧
    (Game.run (List.replicate 24 sampleTickInput) sampleMatch).player2.round = 3 ∧
    (Game.run (List.replicate 25 sampleTickInput) sampleMatch).mGameState
      = game_state.GameOver ∧
    (Game.run (List.replicate 25 sampleTickInput) sampleMatch).game_over_winner = "Bob" ∧
    (Game.run (List.replicate 25 sampleTickInput) sampleMatch).winner = "Bob" ∧
    (Game.run (List.replicate 25 sampleTickInput) sampleMatch).player1 = ⟨"Alice", 0, 0⟩ ∧
    (Game.run (List.replicate 25 sampleTickInput) sampleMatch).player2 = ⟨"Bob", 1, 3⟩ := by
  obtain ⟨hr, hs, hp⟩ := sample_match_run 24 (le_refl _)
  have hsc : (Game.run (List.replicate 24 sampleTickInput) sampleMatch).player2.score = 0 := by
    rw [hp]
    rfl
  have hrd : (Game.run (List.replicate 24 sampleTickInput) sampleMatch).player2.round = 3 := by
    rw [hp]
    rfl
  obtain ⟨-, -, hC⟩ := resting_game _ hr hs
  obtain ⟨c1, c2, c3, c4, c5⟩ := hC (by rw [hsc]; decide) hrd
  rw [run_replicate_succ 24]
  refine ⟨Or.inr (Or.inr (Or.inl hs)), ?_, hrd, c1, c2, c3, c4, ?_⟩
  · rw [hr.2.2.2.2.2.2.2.2.1]
  · rw [c5, hsc]
    rfl

/-- Claim C15: in every state reached by ticks of `Game::game` from a start of a
Storytime or Fun match (a playing state, round counts (0,0), scores (0,0)), both
round counts are non-negative and their sum is at most 3; the state is either a
playing state or `GameOver`, and it is `GameOver` only if the sum is 3; the next
tick ends in `GameOver` exactly when the sum is 3 (so `GameOver` is entered at the
first tick after the sum reached 3, and never from a sum below 3); and in
`GameOver` the declared winner is the name of the player with the larger round
count, who holds at least 2 rounds.  The reached states satisfy the invariant of a
match, and in every state `g` that satisfies it, reached or not: a tick keeps the
invariant and ends in `GameOver` exactly when the sum is 3; a tick of a game in
play with sum 3 does enter `GameOver`, keeps the round counts and declares the
player with the larger count, who holds at least 2 rounds; a tick of a game in
play in which a score reaches the threshold of the mode (8 or 5) gives exactly one
round, to player 1 if the score of player 1 is the larger and to player 2
otherwise, puts both scores back to 0 and stays in play; and a tick in which no
score reaches the threshold leaves both round counts as they are. -/
theorem C15_match_end (inps : List TickInput) (g0 : Game) (hstart : g0.match_start)
    (g : Game) (hinv : g.match_invariant) (inp : TickInput) :
    (0 ≤ (Game.run inps g0).player1.round ∧ 0 ≤ (Game.run inps g0).player2.round ∧
      (Game.run inps g0).player1.round + (Game.run inps g0).player2.round ≤ 3) ∧
    ((Game.run inps g0).in_play ∨ (Game.run inps g0).mGameState = game_state.GameOver) ∧
    ((Game.run inps g0).mGameState = game_state.GameOver →
      (Game.run inps g0).player1.round + (Game.run inps g0).player2.round = 3) ∧
    (∀ inp : TickInput,
      (Game.game inp (Game.run inps g0)).mGameState = game_state.GameOver ↔
        (Game.run inps g0).player1.round + (Game.run inps g0).player2.round = 3) ∧
    ((Game.run inps g0).mGameState = game_state.GameOver →
      ((Game.run inps g0).player1.round > (Game.run inps g0).player2.round →
        (Game.run inps g0).game_over_winner = (Game.run inps g0).player1.name ∧
        (Game.run inps g0).winner = (Game.run inps g0).player1.name ∧
        2 ≤ (Game.run inps g0).player1.round) ∧
      (¬ (Game.run inps g0).player1.round > (Game.run inps g0).player2.round →
        (Game.run inps g0).player2.round > (Game.run inps g0).player1.round ∧
        (Game.run inps g0).game_over_winner = (Game.run inps g0).player2.name ∧
        (Game.run inps g0).winner = (Game.run inps g0).player2.name ∧
        2 ≤ (Game.run inps g0).player2.round)) ∧
    (Game.run inps g0).match_invariant ∧
    (Game.game inp g).match_invariant ∧
    ((Game.game inp g).mGameState = game_state.GameOver ↔
      g.player1.round + g.player2.round = 3) ∧
    (g.in_play → g.player1.round + g.player2.round = 3 →
      (Game.game inp g).mGameState = game_state.GameOver ∧
      (Game.game inp g).player1.round = g.player1.round ∧
      (Game.game inp g).player2.round = g.player2.round ∧
      (g.player1.round > g.player2.round →
        (Game.game inp g).game_over_winner = g.player1.name ∧
        (Game.game inp g).winner = g.player1.name ∧ 2 ≤ g.player1.round) ∧
      (¬ g.player1.round > g.player2.round →
        g.player2.round > g.player1.round ∧
        (Game.game inp g).game_over_winner = g.player2.name ∧
        (Game.game inp g).winner = g.player2.name ∧ 2 ≤ g.player2.round)) ∧
    (g.in_play →
      ((Game.before_round_logic inp g).player1.score ≥ g.threshold ∨
        (Game.before_round_logic inp g).player2.score ≥ g.threshold) →
      (Game.game inp g).player1.round
        = (if (Game.before_round_logic inp g).player1.score
              > (Game.before_round_logic inp g).player2.score
            then g.player1.round + 1 else g.player1.round) ∧
      (Game.game inp g).player2.round
        = (if (Game.before_round_logic inp g).player1.score
              > (Game.before_round_logic inp g).player2.score
            then g.player2.round else g.player2.round + 1) ∧
      (Game.game inp g).player1.round + (Game.game inp g).player2.round
        = g.player1.round + g.player2.round + 1 ∧
      (Game.game inp g).player1.score = 0 ∧ (Game.game inp g).player2.score = 0 ∧
      (Game.game inp g).mGameState = g.mGameState) ∧
    (¬ ((Game.before_round_logic inp g).player1.score ≥ g.threshold ∨
        (Game.before_round_logic inp g).player2.score ≥ g.threshold) →
      (Game.game inp g).player1.round = g.player1.round ∧
      (Game.game inp g).player2.round = g.player2.round) := by
  have hinv0 := run_match_invariant inps g0 (match_start_invariant g0 hstart)
  have hiff := fun inp => game_over_iff inp (Game.run inps g0) hinv0
  have hkeep := game_match_invariant inp g hinv
  have hiffg := game_over_iff inp g hinv
  obtain ⟨f1, f2, f3, f4, f5, f6, f7, f8, f9, f10, f11, f12⟩ := before_round_logic_frame inp g
  refine ⟨?_, ?_, ?_, hiff, ?_, hinv0, hkeep, hiffg, ?_, ?_, ?_⟩
  · obtain ⟨-, n1, n2, le3, -⟩ := hinv0
    exact ⟨n1, n2, le3⟩
  · obtain ⟨-, -, -, -, hcase⟩ := hinv0
    rcases hcase with ⟨hp, -⟩ | ⟨ho, -⟩
    · exact Or.inl hp
    · exact Or.inr ho
  · intro e
    obtain ⟨-, -, -, -, hcase⟩ := hinv0
    rcases hcase with ⟨hp, -⟩ | ⟨-, h3, -⟩
    · exact absurd e (in_play_not_over _ hp)
    · exact h3
  · intro e
    obtain ⟨-, n1, n2, le3, hcase⟩ := hinv0
    rcases hcase with ⟨hp, -⟩ | ⟨-, h3, w1, w2⟩
    · exact absurd e (in_play_not_over _ hp)
    · constructor
      · intro hgt
        rw [if_pos hgt] at w1 w2
        exact ⟨w1, w2, by omega⟩
      · intro hgt
        rw [if_neg hgt] at w1 w2
        exact ⟨by omega, w1, w2, by omega⟩
  · intro hp e3
    obtain ⟨hm, n1, n2, le3, hcase⟩ := hinv
    obtain ⟨g1, g2, g3, g4, g5, g6⟩ := game_eq_round_logic inp g hp hm
    have hz : g.player1.score = 0 ∧ g.player2.score = 0 := by
      rcases hcase with ⟨-, hz⟩ | ⟨ho, -⟩
      · exact hz e3
      · exact absurd ho (in_play_not_over _ hp)
    have hc := no_round_at_three inp g hz
    have h3 : (Game.before_round_logic inp g).player1.round
        + (Game.before_round_logic inp g).player2.round = 3 := by rw [f6, f8]; exact e3
    obtain ⟨o1, o2, o3, -, o5, o6⟩ := round_logic_over g.threshold _ hc h3
    rw [f6, f8, f5, f7] at o5 o6
    refine ⟨g3.trans o3, ?_, ?_, ?_, ?_⟩
    · rw [g1, o1, f6]
    · rw [g2, o2, f8]
    · intro hgt
      rw [if_pos hgt] at o5 o6
      exact ⟨g6.trans o6, g5.trans o5, by omega⟩
    · intro hgt
      rw [if_neg hgt] at o5 o6
      exact ⟨by omega, g6.trans o6, g5.trans o5, by omega⟩
  · intro hp hc
    obtain ⟨hm, -⟩ := hinv
    obtain ⟨g1, g2, g3, -⟩ := game_eq_round_logic inp g hp hm
    obtain ⟨t1, t2, t3, t4, -, -, t7, -⟩ := round_logic_then g.threshold _ hc
    rw [f6] at t1
    rw [f8] at t2
    have e1 := (congrArg User.round g1).trans t1
    have e2 := (congrArg User.round g2).trans t2
    refine ⟨e1, e2, ?_, ?_, ?_, ?_⟩
    · rw [e1, e2]
      split_ifs <;> omega
    · rw [g1]; exact t3
    · rw [g2]; exact t4
    · exact (g3.trans t7).trans f1
  · intro hc
    obtain ⟨hm, -, -, -, hcase⟩ := hinv
    rcases hcase with ⟨hp, -⟩ | ⟨ho, -⟩
    · obtain ⟨g1, g2, -⟩ := game_eq_round_logic inp g hp hm
      by_cases h3 : (Game.before_round_logic inp g).player1.round
          + (Game.before_round_logic inp g).player2.round = 3
      · obtain ⟨o1, o2, -⟩ := round_logic_over g.threshold _ hc h3
        exact ⟨by rw [g1, o1, f6], by rw [g2, o2, f8]⟩
      · rw [round_logic_idle g.threshold _ hc h3] at g1 g2
        exact ⟨by rw [g1, f6], by rw [g2, f8]⟩
    · rw [game_of_over inp g ho]
      exact ⟨rfl, rfl⟩

/-- Instance of C15 on a whole match: the sample Storytime match starts at 0-0 with
the ball at rest on the right half of the column of the letter, so every tick gives
player 2 a point.  After 24 ticks the state satisfies the invariant, the game is in
play and the round counts are 0 and 3; the 25th tick enters `GameOver` and declares
"Bob", who holds 3 rounds. -/
theorem C15_witness :
    sampleMatch.match_start ∧
    (Game.run (List.replicate 24 sampleTickInput) sampleMatch).match_invariant ∧
    (Game.run (List.replicate 24 sampleTickInput) sampleMatch).in_play ∧
    (Game.run (List.replicate 24 sampleTickInput) sampleMatch).player1.round = 0 ∧
    (Game.run (List.replicate 24 sampleTickInput) sampleMatch).player2.round = 3 ∧
    (Game.game sampleTickInput
      (Game.run (List.replicate 24 sampleTickInput) sampleMatch)).mGameState
      = game_state.GameOver ∧
    (Game.run (List.replicate 25 sampleTickInput) sampleMatch).mGameState
      = game_state.GameOver ∧
    (Game.run (List.replicate 25 sampleTickInput) sampleMatch).player1.round
      + (Game.run (List.replicate 25 sampleTickInput) sampleMatch).player2.round = 3 ∧
    (Game.run (List.replicate 25 sampleTickInput) sampleMatch).player2.round
      > (Game.run (List.replicate 25 sampleTickInput) sampleMatch).player1.round ∧
    (Game.run (List.replicate 25 sampleTickInput) sampleMatch).game_over_winner
      = (Game.run (List.replicate 25 sampleTickInput) sampleMatch).player2.name ∧
    (Game.run (List.replicate 25 sampleTickInput) sampleMatch).game_over_winner = "Bob" ∧
    2 ≤ (Game.run (List.replicate 25 sampleTickInput) sampleMatch).player2.round := by
  have hstart : sampleMatch.match_start :=
    ⟨Or.inl rfl, Or.inr (Or.inr (Or.inl rfl)), rfl, rfl, rfl, rfl⟩
  have hinv := run_match_invariant (List.replicate 24 sampleTickInput) sampleMatch
    (match_start_invariant sampleMatch hstart)
  obtain ⟨hp, r1, r2, ho, w1, -, p1, p2⟩ := sample_match_over
  obtain ⟨-, -, c3, -, c5, -, -, c8, c9, -⟩ :=
    C15_match_end (List.replicate 25 sampleTickInput) sampleMatch hstart
      (Game.run (List.replicate 24 sampleTickInput) sampleMatch) hinv sampleTickInput
  have hgt : ¬ (Game.run (List.replicate 25 sampleTickInput) sampleMatch).player1.round
      > (Game.run (List.replicate 25 sampleTickInput) sampleMatch).player2.round := by
    rw [p1, p2]
    decide
  obtain ⟨d1, d2, -, d4⟩ := (c5 ho).2 hgt
  exact ⟨hstart, hinv, hp, r1, r2, (c9 hp (by rw [r1, r2]; rfl)).1, ho, c3 ho, d1, d2, w1, d4⟩

end NewPong
